import Mathlib

/-!
# EAPOL supplicant state machines (`eapol_sm.c`)

A shallow embedding of the supplicant PAE, Key Receive and Backend state
machines, the EAPOL-Key processor, the step orchestrator, the port timers
and the frame demultiplexer, followed by theorems about them.

Conventions of the embedding.

* The supplicant instance `struct eapol_sm` is the record `eapol_sm`; every
  C function taking `struct eapol_sm *sm` becomes a function returning the
  updated record.
* Bytes are natural numbers, buffers are lists of bytes.  A heap pointer that
  may be `NULL` is an `Option`.
* The header `eapol_sm.h` (field types, enumerations, frame constants) is not
  part of the source file.  Timers, periods and `startCount` are integers,
  statistics counters are natural numbers, and the frame constants are the
  IEEE 802.1X wire values.
* Everything the file calls but does not define (the EAP engine, HMAC-MD5,
  RC4, the host callbacks in `struct eapol_ctx`) is a field of `Env`.
  Calls made to the host are appended to the `calls` log of the instance.
* The event loop registration of `eapol_sm_step_timeout` is the boolean
  `step_timeout`.
-/

namespace EapolSm

/-! ## Enumerations -/

inductive PortStatus where
  | Unauthorized
  | Authorized
  deriving DecidableEq, Repr

inductive PortControl where
  | Auto
  | ForceUnauthorized
  | ForceAuthorized
  deriving DecidableEq, Repr

inductive SUPP_PAE where
  | UNKNOWN
  | DISCONNECTED
  | LOGOFF
  | CONNECTING
  | AUTHENTICATING
  | AUTHENTICATED
  | HELD
  | RESTART
  | S_FORCE_AUTH
  | S_FORCE_UNAUTH
  deriving DecidableEq, Repr

inductive KEY_RX where
  | UNKNOWN
  | NO_KEY_RECEIVE
  | KEY_RECEIVE
  deriving DecidableEq, Repr

inductive SUPP_BE where
  | UNKNOWN
  | INITIALIZE
  | IDLE
  | REQUEST
  | RECEIVE
  | RESPONSE
  | FAIL
  | TIMEOUT
  | SUCCESS
  deriving DecidableEq, Repr

inductive eapol_cb_status where
  | EAPOL_CB_IN_PROGRESS
  | EAPOL_CB_SUCCESS
  | EAPOL_CB_FAILURE
  deriving DecidableEq, Repr

inductive eap_decision where
  | DECISION_FAIL
  | DECISION_COND_SUCC
  | DECISION_UNCOND_SUCC
  deriving DecidableEq, Repr

inductive eap_state where
  | EAP_INITIALIZE
  | EAP_DISABLED
  | EAP_IDLE
  | EAP_RECEIVED
  | EAP_METHOD
  | EAP_SEND_RESPONSE
  | EAP_DISCARD
  | EAP_SUCCESS
  | EAP_FAILURE
  deriving DecidableEq, Repr

/-! ## Frame constants and layout -/

def IEEE802_1X_TYPE_EAP_PACKET : Nat := 0
def IEEE802_1X_TYPE_EAPOL_START : Nat := 1
def IEEE802_1X_TYPE_EAPOL_LOGOFF : Nat := 2
def IEEE802_1X_TYPE_EAPOL_KEY : Nat := 3

def EAPOL_KEY_TYPE_RC4 : Nat := 1
def EAPOL_KEY_TYPE_RSN : Nat := 2
def EAPOL_KEY_TYPE_WPA : Nat := 254

def IEEE8021X_REPLAY_COUNTER_LEN : Nat := 8
def IEEE8021X_KEY_SIGN_LEN : Nat := 16
def IEEE8021X_KEY_IV_LEN : Nat := 16
def IEEE8021X_KEY_INDEX_FLAG : Nat := 128
def IEEE8021X_KEY_INDEX_MASK : Nat := 127
def IEEE8021X_ENCR_KEY_LEN : Nat := 32
def IEEE8021X_SIGN_KEY_LEN : Nat := 32

def EAPOL_REQUIRE_KEY_UNICAST : Nat := 1
def EAPOL_REQUIRE_KEY_BROADCAST : Nat := 2

def ETH_ALEN : Nat := 6

/-- The size of `struct ieee802_1x_hdr`: version, type, 16-bit length. -/
def sizeof_hdr : Nat := 4

/-- The size of `struct ieee802_1x_eapol_key`: type (1), key_length (2),
replay_counter (8), key_iv (16), key_index (1), key_signature (16). -/
def sizeof_key : Nat := 44

/-- Field `hdr->version`. -/
def hdr_version (buf : List Nat) : Nat := buf.getD 0 0

/-- Field `hdr->type`. -/
def hdr_type (buf : List Nat) : Nat := buf.getD 1 0

/-- The value `ntohs(hdr->length)`: the big-endian 16-bit field at offset 2. -/
def hdr_length (buf : List Nat) : Nat := buf.getD 2 0 * 256 + buf.getD 3 0

/-- Field `key->type`, the first byte after the header. -/
def key_type (buf : List Nat) : Nat := buf.getD 4 0

/-- The value `ntohs(key->key_length)`. -/
def key_key_length (buf : List Nat) : Nat := buf.getD 5 0 * 256 + buf.getD 6 0

/-- Field `key->replay_counter`, 8 bytes at offset 7 of the frame. -/
def key_replay_counter (buf : List Nat) : List Nat := (buf.drop 7).take 8

/-- Field `key->key_iv`, 16 bytes at offset 15 of the frame. -/
def key_key_iv (buf : List Nat) : List Nat := (buf.drop 15).take 16

/-- Field `key->key_index`, the byte at offset 31 of the frame. -/
def key_key_index (buf : List Nat) : Nat := buf.getD 31 0

/-- Field `key->key_signature`, 16 bytes at offset 32 of the frame. -/
def key_key_signature (buf : List Nat) : List Nat := (buf.drop 32).take 16

/-- The bytes at `key + 1`: what follows the fixed key body. -/
def key_data (buf : List Nat) : List Nat := buf.drop 48

/-- Overwrite the 16 bytes of `key->key_signature` (a `memcpy` or `memset`
onto the field). -/
def set_key_signature (buf : List Nat) (sig : List Nat) : List Nat :=
  buf.take 32 ++ sig ++ buf.drop 48

/-- The C library `memcmp` on the first `n` bytes: zero when equal, otherwise
the difference of the first pair of bytes that differ. -/
def memcmp : List Nat → List Nat → Nat → Int
  | a :: as, b :: bs, n + 1 => if a = b then memcmp as bs n else (a : Int) - (b : Int)
  | _, _, _ => 0

/-- The 16 bytes of a digest written out as a buffer. -/
def digest_bytes (d : Fin 16 → Nat) : List Nat :=
  [d 0, d 1, d 2, d 3, d 4, d 5, d 6, d 7, d 8, d 9, d 10, d 11, d 12, d 13, d 14, d 15]

/-! ## The supplicant instance -/

/-- The part of `struct eap_sm` that `eapol_sm.c` touches; `method` stands for
the private data of the engine. -/
structure eap_sm where
  eapKeyAvailable : Bool
  eapKeyData : Option (List Nat)
  eapRespData : Option (List Nat)
  decision : eap_decision
  EAP_state : eap_state
  method : Nat
  deriving DecidableEq, Repr

/-- Structure `struct eapol_config`. -/
structure eapol_config where
  accept_802_1x_keys : Bool
  required_keys : Nat
  deriving DecidableEq, Repr

/-- A call made to the host through `struct eapol_ctx`. -/
inductive host_call where
  | eapol_send (type : Nat) (buf : List Nat)
  | set_wep_key (unicast : Nat) (keyidx : Nat) (key : List Nat)
  | eapol_done_cb
  | cb (success : Bool)
  deriving DecidableEq, Repr

/-- Structure `struct eapol_sm`. -/
structure eapol_sm where
  -- Timers
  authWhile : Int
  heldWhile : Int
  startWhen : Int
  idleWhile : Int
  -- Global variables
  eapFail : Bool
  eapolEap : Bool
  eapSuccess : Bool
  initialize_ : Bool
  keyDone : Bool
  keyRun : Bool
  portControl : PortControl
  portEnabled : Bool
  suppPortStatus : PortStatus
  portValid : Bool
  suppAbort : Bool
  suppFail : Bool
  suppStart : Bool
  suppSuccess : Bool
  suppTimeout : Bool
  -- Supplicant PAE state machine
  SUPP_PAE_state : SUPP_PAE
  userLogoff : Bool
  logoffSent : Bool
  startCount : Int
  eapRestart : Bool
  sPortMode : PortControl
  heldPeriod : Int
  startPeriod : Int
  maxStart : Int
  -- Key Receive state machine
  KEY_RX_state : KEY_RX
  rxKey : Bool
  -- Supplicant Backend state machine
  SUPP_BE_state : SUPP_BE
  eapNoResp : Bool
  eapReq : Bool
  eapResp : Bool
  authPeriod : Int
  -- Statistics
  dot1xSuppEapolFramesRx : Nat
  dot1xSuppEapolFramesTx : Nat
  dot1xSuppEapolStartFramesTx : Nat
  dot1xSuppEapolLogoffFramesTx : Nat
  dot1xSuppEapolRespFramesTx : Nat
  dot1xSuppEapolReqIdFramesRx : Nat
  dot1xSuppEapolReqFramesRx : Nat
  dot1xSuppInvalidEapolFramesRx : Nat
  dot1xSuppEapLengthErrorFramesRx : Nat
  dot1xSuppLastEapolFrameVersion : Nat
  dot1xSuppLastEapolFrameSource : List Nat
  -- Miscellaneous variables
  changed : Bool
  eap : eap_sm
  initial_req : Bool
  last_rx_key : Option (List Nat)
  last_rx_key_len : Nat
  eapReqData : Option (List Nat)
  eapReqDataLen : Nat
  altAccept : Bool
  altReject : Bool
  replay_counter_valid : Bool
  last_replay_counter : List Nat
  conf : eapol_config
  cb_status : eapol_cb_status
  cached_pmk : Bool
  unicast_key_received : Bool
  broadcast_key_received : Bool
  -- Outside the C structure: the pending zero-delay step and the host calls
  step_timeout : Bool
  calls : List host_call
  deriving DecidableEq, Repr

/-- What one `eap_sm_step` leaves behind: its return value, the engine's own
state, and the shared variables the engine writes through its back pointer. -/
structure eap_result where
  changed : Bool
  eap : eap_sm
  eapSuccess : Bool
  eapFail : Bool
  eapRestart : Bool
  eapReq : Bool
  eapResp : Bool
  eapNoResp : Bool
  idleWhile : Int

/-- Modelled from the spec: the external collaborators of the core, none of
which is defined in `eapol_sm.c`.  The EAP engine is an opaque step-able
object (`eap_sm_init`, `eap_sm_step`, `eap_sm_abort`,
`eap_sm_notify_ctrl_attached`); HMAC-MD5 and RC4 are dependencies; the
callbacks `set_wep_key`, `eapol_done_cb` and `cb` of `struct eapol_ctx` may be
absent (`NULL`); `stack` is the content of the uninitialised local
`keydata` of `eapol_sm_processKey`. -/
structure Env where
  eap_sm_init : Option eap_sm
  eap_sm_step : eapol_sm → eap_result
  eap_sm_abort : eap_sm → eap_sm
  eap_sm_notify_ctrl_attached : eap_sm → eap_sm
  hmac_md5 : List Nat → List Nat → Fin 16 → Nat
  rc4 : List Nat → List Nat → List Nat
  set_wep_key : Option (Nat → Nat → List Nat → Int)
  eapol_done_cb : Bool
  cb : Bool
  stack : List Nat

/-! ## Transmit helpers -/

def eapol_sm_txLogoff (sm : eapol_sm) : eapol_sm :=
  { sm with
    calls := sm.calls ++ [host_call.eapol_send IEEE802_1X_TYPE_EAPOL_LOGOFF []]
    dot1xSuppEapolLogoffFramesTx := sm.dot1xSuppEapolLogoffFramesTx + 1
    dot1xSuppEapolFramesTx := sm.dot1xSuppEapolFramesTx + 1 }

def eapol_sm_txStart (sm : eapol_sm) : eapol_sm :=
  { sm with
    calls := sm.calls ++ [host_call.eapol_send IEEE802_1X_TYPE_EAPOL_START []]
    dot1xSuppEapolStartFramesTx := sm.dot1xSuppEapolStartFramesTx + 1
    dot1xSuppEapolFramesTx := sm.dot1xSuppEapolFramesTx + 1 }

def eapol_sm_getSuppRsp (sm : eapol_sm) : eapol_sm := sm

def eapol_sm_txSuppRsp (sm : eapol_sm) : eapol_sm :=
  match sm.eap.eapRespData with
  | none => sm
  | some resp =>
    let sm := { sm with
      calls := sm.calls ++ [host_call.eapol_send IEEE802_1X_TYPE_EAP_PACKET resp]
      eap := { sm.eap with eapRespData := none } }
    let sm :=
      if sm.initial_req then
        { sm with dot1xSuppEapolReqIdFramesRx := sm.dot1xSuppEapolReqIdFramesRx + 1 }
      else
        { sm with dot1xSuppEapolReqFramesRx := sm.dot1xSuppEapolReqFramesRx + 1 }
    { sm with
      dot1xSuppEapolRespFramesTx := sm.dot1xSuppEapolRespFramesTx + 1
      dot1xSuppEapolFramesTx := sm.dot1xSuppEapolFramesTx + 1 }

def eapol_sm_abortSupp (env : Env) (sm : eapol_sm) : eapol_sm :=
  { sm with
    last_rx_key := none
    eapReqData := none
    eap := env.eap_sm_abort sm.eap }

/-! ## The EAPOL-Key processor -/

/-- How `eapol_sm_processKey` left: one constructor per `return` of the C
function, `installed` for the path that reaches the install stage. -/
inductive key_verdict where
  | no_frame
  | not_accepted
  | too_short
  | no_master_key
  | no_leap_key
  | not_enough_key
  | replay
  | bad_signature
  | too_long
  | bad_length
  | installed
  deriving DecidableEq, Repr

/-- Function `eapol_sm_get_key`: the return value and the destination buffer
`key` after the call. -/
def eapol_sm_get_key (sm : eapol_sm) (key : List Nat) (len : Nat) : Int × List Nat :=
  if sm.eap.eapKeyAvailable = false then (-1, key)
  else
    match sm.eap.eapKeyData with
    | none => (-1, key)
    | some d =>
      if len > d.length then ((d.length : Int), key)
      else (0, d.take len ++ key.drop len)

/-- Key derivation of `eapol_sm_processKey` (the two `eapol_sm_get_key`
calls): the 64 bytes of `keydata` (`encr_key` then `sign_key`),
`sign_key_len` and `encr_key_len`, or the verdict of the `return` taken. -/
def processKey_keydata (env : Env) (sm : eapol_sm) :
    Except key_verdict (List Nat × Nat × Nat) :=
  let r := eapol_sm_get_key sm env.stack 64
  if r.1 < 0 then Except.error key_verdict.no_master_key
  else if r.1 = 16 then
    let r2 := eapol_sm_get_key sm r.2 16
    if r2.1 ≠ 0 then Except.error key_verdict.no_leap_key
    else
      let keydata := r2.2.take 32 ++ r2.2.take 16 ++ r2.2.drop 48
      Except.ok (keydata, 16, 16)
  else if r.1 ≠ 0 then Except.error key_verdict.not_enough_key
  else Except.ok (r.2, IEEE8021X_SIGN_KEY_LEN, IEEE8021X_ENCR_KEY_LEN)

/-- The value that `hmac_md5` writes into `key->key_signature` once the field
has been zeroed: HMAC-MD5 under `sign_key` of the first
`sizeof(*hdr) + ntohs(hdr->length)` bytes of the frame. -/
def recomputed_signature (env : Env) (sign_key : List Nat) (buf : List Nat) : List Nat :=
  let zeroed := set_key_signature buf (List.replicate IEEE8021X_KEY_SIGN_LEN 0)
  digest_bytes (env.hmac_md5 sign_key (zeroed.take (sizeof_hdr + hdr_length buf)))

/-- Signature check of `eapol_sm_processKey`: save the signature, zero the
field, recompute into the field, compare, and restore the field on mismatch.
Returns whether the signature matched and the frame buffer afterwards. -/
def verify_key_signature (env : Env) (sign_key : List Nat) (buf : List Nat) :
    Bool × List Nat :=
  let orig_key_sign := key_key_signature buf
  let zeroed := set_key_signature buf (List.replicate IEEE8021X_KEY_SIGN_LEN 0)
  let signed := set_key_signature zeroed (recomputed_signature env sign_key buf)
  if memcmp orig_key_sign (key_key_signature signed) IEEE8021X_KEY_SIGN_LEN ≠ 0 then
    (false, set_key_signature signed orig_key_sign)
  else (true, signed)

/-- The value `key_len = ntohs(hdr->length) - sizeof(*key)` as a C `int`. -/
def processKey_key_len (buf : List Nat) : Int := (hdr_length buf : Int) - (sizeof_key : Int)

/-- Payload handling of `eapol_sm_processKey` after the length bound: the
bytes of `datakey` handed to the driver, or `none` for the last `return`. -/
def processKey_datakey (env : Env) (keydata : List Nat) (encr_key_len : Nat)
    (buf : List Nat) : Option (List Nat) :=
  let key_len := processKey_key_len buf
  if key_len = (key_key_length buf : Int) then
    let ekey := key_key_iv buf ++ (keydata.take 32).take encr_key_len
    some (env.rc4 ekey ((key_data buf).take key_len.toNat))
  else if key_len = 0 then
    some ((keydata.take 32).take (key_key_length buf))
  else none

/-- The `else` branch after a successful (or absent) `set_wep_key`: mark the
key kind as received and validate the port once all required keys are there. -/
def processKey_received (env : Env) (sm : eapol_sm) (unicast : Nat) : eapol_sm :=
  let sm :=
    if unicast ≠ 0 then { sm with unicast_key_received := true }
    else { sm with broadcast_key_received := true }
  if (sm.unicast_key_received = true ∨
        Nat.land sm.conf.required_keys EAPOL_REQUIRE_KEY_UNICAST = 0) ∧
      (sm.broadcast_key_received = true ∨
        Nat.land sm.conf.required_keys EAPOL_REQUIRE_KEY_BROADCAST = 0) then
    let sm := { sm with portValid := true }
    if env.eapol_done_cb then { sm with calls := sm.calls ++ [host_call.eapol_done_cb] }
    else sm
  else sm

/-- The install stage of `eapol_sm_processKey`: store the replay counter and
hand the key to the driver. -/
def processKey_install (env : Env) (sm : eapol_sm) (buf : List Nat)
    (datakey : List Nat) : eapol_sm :=
  let sm := { sm with
    replay_counter_valid := true
    last_replay_counter := key_replay_counter buf }
  let unicast := Nat.land (key_key_index buf) IEEE8021X_KEY_INDEX_FLAG
  let keyidx := Nat.land (key_key_index buf) IEEE8021X_KEY_INDEX_MASK
  match env.set_wep_key with
  | some f =>
    let sm := { sm with calls := sm.calls ++ [host_call.set_wep_key unicast keyidx datakey] }
    if f unicast keyidx datakey < 0 then sm
    else processKey_received env sm unicast
  | none => processKey_received env sm unicast

/-- Function `eapol_sm_processKey`, together with the `return` it took. -/
def eapol_sm_processKey_aux (env : Env) (sm : eapol_sm) : key_verdict × eapol_sm :=
  match sm.last_rx_key with
  | none => (key_verdict.no_frame, sm)
  | some buf =>
    if sm.conf.accept_802_1x_keys = false then (key_verdict.not_accepted, sm)
    else if sizeof_hdr + hdr_length buf > sm.last_rx_key_len then (key_verdict.too_short, sm)
    else
      match processKey_keydata env sm with
      | Except.error v => (v, sm)
      | Except.ok (keydata, sign_key_len, encr_key_len) =>
        if sm.replay_counter_valid = true ∧
            memcmp sm.last_replay_counter (key_replay_counter buf)
              IEEE8021X_REPLAY_COUNTER_LEN ≥ 0 then
          (key_verdict.replay, sm)
        else
          let v := verify_key_signature env ((keydata.drop 32).take sign_key_len) buf
          let sm := { sm with last_rx_key := some v.2 }
          if v.1 = false then (key_verdict.bad_signature, sm)
          else if processKey_key_len v.2 > 32 ∨ key_key_length v.2 > 32 then
            (key_verdict.too_long, sm)
          else
            match processKey_datakey env keydata encr_key_len v.2 with
            | none => (key_verdict.bad_length, sm)
            | some datakey => (key_verdict.installed, processKey_install env sm v.2 datakey)

def eapol_sm_processKey (env : Env) (sm : eapol_sm) : eapol_sm :=
  (eapol_sm_processKey_aux env sm).2

/-! ## Supplicant PAE state machine -/

/-- Macro `SM_ENTRY` for the machine `SUPP_PAE`. -/
def SM_ENTRY_SUPP_PAE (sm : eapol_sm) (global : Bool) (state : SUPP_PAE) : eapol_sm :=
  let sm := if global = false ∨ sm.SUPP_PAE_state ≠ state then { sm with changed := true } else sm
  { sm with SUPP_PAE_state := state }

def sm_SUPP_PAE_LOGOFF_Enter (sm : eapol_sm) (global : Bool) : eapol_sm :=
  let sm := SM_ENTRY_SUPP_PAE sm global SUPP_PAE.LOGOFF
  let sm := eapol_sm_txLogoff sm
  { sm with logoffSent := true, suppPortStatus := PortStatus.Unauthorized }

def sm_SUPP_PAE_DISCONNECTED_Enter (sm : eapol_sm) (global : Bool) : eapol_sm :=
  let sm := SM_ENTRY_SUPP_PAE sm global SUPP_PAE.DISCONNECTED
  { sm with
    sPortMode := PortControl.Auto
    startCount := 0
    logoffSent := false
    suppPortStatus := PortStatus.Unauthorized
    suppAbort := true
    unicast_key_received := false
    broadcast_key_received := false }

def sm_SUPP_PAE_CONNECTING_Enter (sm : eapol_sm) (global : Bool) : eapol_sm :=
  let sm := SM_ENTRY_SUPP_PAE sm global SUPP_PAE.CONNECTING
  let sm := { sm with
    startWhen := sm.startPeriod
    startCount := sm.startCount + 1
    eapolEap := false }
  eapol_sm_txStart sm

def sm_SUPP_PAE_AUTHENTICATING_Enter (sm : eapol_sm) (global : Bool) : eapol_sm :=
  let sm := SM_ENTRY_SUPP_PAE sm global SUPP_PAE.AUTHENTICATING
  { sm with
    startCount := 0
    suppSuccess := false
    suppFail := false
    suppTimeout := false
    keyRun := false
    keyDone := false
    suppStart := true }

def sm_SUPP_PAE_HELD_Enter (sm : eapol_sm) (global : Bool) : eapol_sm :=
  let sm := SM_ENTRY_SUPP_PAE sm global SUPP_PAE.HELD
  { sm with
    heldWhile := sm.heldPeriod
    suppPortStatus := PortStatus.Unauthorized
    cb_status := eapol_cb_status.EAPOL_CB_FAILURE }

def sm_SUPP_PAE_AUTHENTICATED_Enter (sm : eapol_sm) (global : Bool) : eapol_sm :=
  let sm := SM_ENTRY_SUPP_PAE sm global SUPP_PAE.AUTHENTICATED
  { sm with
    suppPortStatus := PortStatus.Authorized
    cb_status := eapol_cb_status.EAPOL_CB_SUCCESS }

def sm_SUPP_PAE_RESTART_Enter (sm : eapol_sm) (global : Bool) : eapol_sm :=
  let sm := SM_ENTRY_SUPP_PAE sm global SUPP_PAE.RESTART
  { sm with eapRestart := true }

def sm_SUPP_PAE_S_FORCE_AUTH_Enter (sm : eapol_sm) (global : Bool) : eapol_sm :=
  let sm := SM_ENTRY_SUPP_PAE sm global SUPP_PAE.S_FORCE_AUTH
  { sm with
    suppPortStatus := PortStatus.Authorized
    sPortMode := PortControl.ForceAuthorized }

def sm_SUPP_PAE_S_FORCE_UNAUTH_Enter (sm : eapol_sm) (global : Bool) : eapol_sm :=
  let sm := SM_ENTRY_SUPP_PAE sm global SUPP_PAE.S_FORCE_UNAUTH
  let sm := { sm with
    suppPortStatus := PortStatus.Unauthorized
    sPortMode := PortControl.ForceUnauthorized }
  eapol_sm_txLogoff sm

/-- The plaintext special rule at the head of `case SUPP_PAE_AUTHENTICATING`. -/
def SUPP_PAE_plaintext (env : Env) (sm : eapol_sm) : eapol_sm :=
  if sm.eapSuccess = true ∧ sm.portValid = false ∧ sm.conf.accept_802_1x_keys = true ∧
      sm.conf.required_keys = 0 then
    let sm := { sm with portValid := true }
    if env.eapol_done_cb then { sm with calls := sm.calls ++ [host_call.eapol_done_cb] }
    else sm
  else sm

/-- The `switch (sm->SUPP_PAE_state)` of `SM_STEP(SUPP_PAE)`. -/
def sm_SUPP_PAE_Step_local (env : Env) (sm : eapol_sm) : eapol_sm :=
  match sm.SUPP_PAE_state with
  | SUPP_PAE.UNKNOWN => sm
  | SUPP_PAE.LOGOFF =>
    if sm.userLogoff = false then sm_SUPP_PAE_DISCONNECTED_Enter sm false else sm
  | SUPP_PAE.DISCONNECTED => sm_SUPP_PAE_CONNECTING_Enter sm false
  | SUPP_PAE.CONNECTING =>
    if sm.startWhen = 0 ∧ sm.startCount < sm.maxStart then
      sm_SUPP_PAE_CONNECTING_Enter sm false
    else if sm.startWhen = 0 ∧ sm.startCount ≥ sm.maxStart ∧ sm.portValid = true then
      sm_SUPP_PAE_AUTHENTICATED_Enter sm false
    else if sm.eapSuccess = true ∨ sm.eapFail = true then
      sm_SUPP_PAE_AUTHENTICATING_Enter sm false
    else if sm.eapolEap = true then
      sm_SUPP_PAE_RESTART_Enter sm false
    else if sm.startWhen = 0 ∧ sm.startCount ≥ sm.maxStart ∧ sm.portValid = false then
      sm_SUPP_PAE_HELD_Enter sm false
    else sm
  | SUPP_PAE.AUTHENTICATING =>
    let sm := SUPP_PAE_plaintext env sm
    if sm.eapSuccess = true ∧ sm.portValid = true then
      sm_SUPP_PAE_AUTHENTICATED_Enter sm false
    else if sm.eapFail = true ∨ (sm.keyDone = true ∧ sm.portValid = false) then
      sm_SUPP_PAE_HELD_Enter sm false
    else if sm.suppTimeout = true then
      sm_SUPP_PAE_CONNECTING_Enter sm false
    else sm
  | SUPP_PAE.HELD =>
    if sm.heldWhile = 0 then sm_SUPP_PAE_CONNECTING_Enter sm false
    else if sm.eapolEap = true then sm_SUPP_PAE_RESTART_Enter sm false
    else sm
  | SUPP_PAE.AUTHENTICATED =>
    if sm.eapolEap = true ∧ sm.portValid = true then sm_SUPP_PAE_RESTART_Enter sm false
    else if sm.portValid = false then sm_SUPP_PAE_DISCONNECTED_Enter sm false
    else sm
  | SUPP_PAE.RESTART =>
    if sm.eapRestart = false then sm_SUPP_PAE_AUTHENTICATING_Enter sm false else sm
  | SUPP_PAE.S_FORCE_AUTH => sm
  | SUPP_PAE.S_FORCE_UNAUTH => sm

/-- Function `SM_STEP(SUPP_PAE)`. -/
def sm_SUPP_PAE_Step (env : Env) (sm : eapol_sm) : eapol_sm :=
  if (sm.userLogoff = true ∧ sm.logoffSent = false) ∧
      ¬ (sm.initialize_ = true ∨ sm.portEnabled = false) then
    sm_SUPP_PAE_LOGOFF_Enter sm true
  else if (sm.portControl = PortControl.Auto ∧ sm.sPortMode ≠ sm.portControl) ∨
      sm.initialize_ = true ∨ sm.portEnabled = false then
    sm_SUPP_PAE_DISCONNECTED_Enter sm true
  else if sm.portControl = PortControl.ForceAuthorized ∧ sm.sPortMode ≠ sm.portControl ∧
      ¬ (sm.initialize_ = true ∨ sm.portEnabled = false) then
    sm_SUPP_PAE_S_FORCE_AUTH_Enter sm true
  else if sm.portControl = PortControl.ForceUnauthorized ∧ sm.sPortMode ≠ sm.portControl ∧
      ¬ (sm.initialize_ = true ∨ sm.portEnabled = false) then
    sm_SUPP_PAE_S_FORCE_UNAUTH_Enter sm true
  else sm_SUPP_PAE_Step_local env sm

/-! ## Key Receive state machine -/

/-- Macro `SM_ENTRY` for the machine `KEY_RX`. -/
def SM_ENTRY_KEY_RX (sm : eapol_sm) (global : Bool) (state : KEY_RX) : eapol_sm :=
  let sm := if global = false ∨ sm.KEY_RX_state ≠ state then { sm with changed := true } else sm
  { sm with KEY_RX_state := state }

def sm_KEY_RX_NO_KEY_RECEIVE_Enter (sm : eapol_sm) (global : Bool) : eapol_sm :=
  SM_ENTRY_KEY_RX sm global KEY_RX.NO_KEY_RECEIVE

def sm_KEY_RX_KEY_RECEIVE_Enter (env : Env) (sm : eapol_sm) (global : Bool) : eapol_sm :=
  let sm := SM_ENTRY_KEY_RX sm global KEY_RX.KEY_RECEIVE
  let sm := eapol_sm_processKey env sm
  { sm with rxKey := false }

/-- The `switch (sm->KEY_RX_state)` of `SM_STEP(KEY_RX)`. -/
def sm_KEY_RX_Step_local (env : Env) (sm : eapol_sm) : eapol_sm :=
  match sm.KEY_RX_state with
  | KEY_RX.UNKNOWN => sm
  | KEY_RX.NO_KEY_RECEIVE =>
    if sm.rxKey = true then sm_KEY_RX_KEY_RECEIVE_Enter env sm false else sm
  | KEY_RX.KEY_RECEIVE =>
    if sm.rxKey = true then sm_KEY_RX_KEY_RECEIVE_Enter env sm false else sm

/-- Function `SM_STEP(KEY_RX)`: the global test is a plain `if` without `else`,
so the `switch` runs after it in every case. -/
def sm_KEY_RX_Step (env : Env) (sm : eapol_sm) : eapol_sm :=
  let sm :=
    if sm.initialize_ = true ∨ sm.portEnabled = false then
      sm_KEY_RX_NO_KEY_RECEIVE_Enter sm true
    else sm
  sm_KEY_RX_Step_local env sm

/-! ## Supplicant Backend state machine -/

/-- Macro `SM_ENTRY` for the machine `SUPP_BE`. -/
def SM_ENTRY_SUPP_BE (sm : eapol_sm) (global : Bool) (state : SUPP_BE) : eapol_sm :=
  let sm := if global = false ∨ sm.SUPP_BE_state ≠ state then { sm with changed := true } else sm
  { sm with SUPP_BE_state := state }

def sm_SUPP_BE_REQUEST_Enter (sm : eapol_sm) (global : Bool) : eapol_sm :=
  let sm := SM_ENTRY_SUPP_BE sm global SUPP_BE.REQUEST
  let sm := { sm with authWhile := 0, eapReq := true }
  eapol_sm_getSuppRsp sm

def sm_SUPP_BE_RESPONSE_Enter (sm : eapol_sm) (global : Bool) : eapol_sm :=
  let sm := SM_ENTRY_SUPP_BE sm global SUPP_BE.RESPONSE
  let sm := eapol_sm_txSuppRsp sm
  { sm with eapResp := false }

def sm_SUPP_BE_SUCCESS_Enter (sm : eapol_sm) (global : Bool) : eapol_sm :=
  let sm := SM_ENTRY_SUPP_BE sm global SUPP_BE.SUCCESS
  let sm := { sm with keyRun := true, suppSuccess := true }
  if sm.eap.eapKeyAvailable = true then { sm with replay_counter_valid := false } else sm

def sm_SUPP_BE_FAIL_Enter (sm : eapol_sm) (global : Bool) : eapol_sm :=
  let sm := SM_ENTRY_SUPP_BE sm global SUPP_BE.FAIL
  { sm with suppFail := true }

def sm_SUPP_BE_TIMEOUT_Enter (sm : eapol_sm) (global : Bool) : eapol_sm :=
  let sm := SM_ENTRY_SUPP_BE sm global SUPP_BE.TIMEOUT
  { sm with suppTimeout := true }

def sm_SUPP_BE_IDLE_Enter (sm : eapol_sm) (global : Bool) : eapol_sm :=
  let sm := SM_ENTRY_SUPP_BE sm global SUPP_BE.IDLE
  { sm with suppStart := false, initial_req := true }

def sm_SUPP_BE_INITIALIZE_Enter (env : Env) (sm : eapol_sm) (global : Bool) : eapol_sm :=
  let sm := SM_ENTRY_SUPP_BE sm global SUPP_BE.INITIALIZE
  let sm := eapol_sm_abortSupp env sm
  { sm with suppAbort := false }

def sm_SUPP_BE_RECEIVE_Enter (sm : eapol_sm) (global : Bool) : eapol_sm :=
  let sm := SM_ENTRY_SUPP_BE sm global SUPP_BE.RECEIVE
  { sm with
    authWhile := sm.authPeriod
    eapolEap := false
    eapNoResp := false
    initial_req := false }

/-- The `switch (sm->SUPP_BE_state)` of `SM_STEP(SUPP_BE)`. -/
def sm_SUPP_BE_Step_local (sm : eapol_sm) : eapol_sm :=
  match sm.SUPP_BE_state with
  | SUPP_BE.UNKNOWN => sm
  | SUPP_BE.REQUEST =>
    if sm.eapResp = true then sm_SUPP_BE_RESPONSE_Enter sm false
    else if sm.eapNoResp = true then sm_SUPP_BE_RECEIVE_Enter sm false
    else sm
  | SUPP_BE.RESPONSE => sm_SUPP_BE_RECEIVE_Enter sm false
  | SUPP_BE.SUCCESS => sm_SUPP_BE_IDLE_Enter sm false
  | SUPP_BE.FAIL => sm_SUPP_BE_IDLE_Enter sm false
  | SUPP_BE.TIMEOUT => sm_SUPP_BE_IDLE_Enter sm false
  | SUPP_BE.IDLE =>
    if sm.eapFail = true ∧ sm.suppStart = true then sm_SUPP_BE_FAIL_Enter sm false
    else if sm.eapolEap = true ∧ sm.suppStart = true then sm_SUPP_BE_REQUEST_Enter sm false
    else if sm.eapSuccess = true ∧ sm.suppStart = true then sm_SUPP_BE_SUCCESS_Enter sm false
    else sm
  | SUPP_BE.INITIALIZE => sm_SUPP_BE_IDLE_Enter sm false
  | SUPP_BE.RECEIVE =>
    if sm.eapolEap = true then sm_SUPP_BE_REQUEST_Enter sm false
    else if sm.eapFail = true then sm_SUPP_BE_FAIL_Enter sm false
    else if sm.authWhile = 0 then sm_SUPP_BE_TIMEOUT_Enter sm false
    else if sm.eapSuccess = true then sm_SUPP_BE_SUCCESS_Enter sm false
    else sm

/-- Function `SM_STEP(SUPP_BE)`. -/
def sm_SUPP_BE_Step (env : Env) (sm : eapol_sm) : eapol_sm :=
  if sm.initialize_ = true ∨ sm.suppAbort = true then
    sm_SUPP_BE_INITIALIZE_Enter env sm true
  else sm_SUPP_BE_Step_local sm

/-! ## The step orchestrator, the port timers and initialisation -/

/-- The call `eap_sm_step(sm->eap)` inside `eapol_sm_step`: the engine's
writes land in the instance, and a non-zero return sets `changed`. -/
def eap_sm_step_run (env : Env) (sm : eapol_sm) : eapol_sm :=
  let r := env.eap_sm_step sm
  let sm := { sm with
    eap := r.eap
    eapSuccess := r.eapSuccess
    eapFail := r.eapFail
    eapRestart := r.eapRestart
    eapReq := r.eapReq
    eapResp := r.eapResp
    eapNoResp := r.eapNoResp
    idleWhile := r.idleWhile }
  if r.changed = true then { sm with changed := true } else sm

/-- The three state machines and the EAP engine, run once in the order of
`eapol_sm_step`, starting with `changed` cleared. -/
def eapol_sm_step_machines (env : Env) (sm : eapol_sm) : eapol_sm :=
  let sm := { sm with changed := false }
  let sm := sm_SUPP_PAE_Step env sm
  let sm := sm_KEY_RX_Step env sm
  let sm := sm_SUPP_BE_Step env sm
  eap_sm_step_run env sm

/-- Function `eapol_sm_step`. -/
def eapol_sm_step (env : Env) (sm : eapol_sm) : eapol_sm :=
  let sm := eapol_sm_step_machines env sm
  let sm := if sm.changed = true then { sm with step_timeout := true } else sm
  if env.cb = true ∧ sm.cb_status ≠ eapol_cb_status.EAPOL_CB_IN_PROGRESS then
    let success := decide (sm.cb_status = eapol_cb_status.EAPOL_CB_SUCCESS)
    { sm with
      cb_status := eapol_cb_status.EAPOL_CB_IN_PROGRESS
      calls := sm.calls ++ [host_call.cb success] }
  else sm

/-- Function `eapol_sm_step_timeout`: the event loop has removed the zero-delay
registration and runs the step. -/
def eapol_sm_step_timeout (env : Env) (sm : eapol_sm) : eapol_sm :=
  eapol_sm_step env { sm with step_timeout := false }

/-- Function `eapol_port_timers_tick`. -/
def eapol_port_timers_tick (env : Env) (sm : eapol_sm) : eapol_sm :=
  let sm := if sm.authWhile > 0 then { sm with authWhile := sm.authWhile - 1 } else sm
  let sm := if sm.heldWhile > 0 then { sm with heldWhile := sm.heldWhile - 1 } else sm
  let sm := if sm.startWhen > 0 then { sm with startWhen := sm.startWhen - 1 } else sm
  let sm := if sm.idleWhile > 0 then { sm with idleWhile := sm.idleWhile - 1 } else sm
  eapol_sm_step env sm

/-- The instance right after `memset(sm, 0, sizeof(*sm))`, with the engine
attached. -/
def eapol_sm_zero (eap : eap_sm) : eapol_sm :=
  { authWhile := 0, heldWhile := 0, startWhen := 0, idleWhile := 0
    eapFail := false, eapolEap := false, eapSuccess := false, initialize_ := false
    keyDone := false, keyRun := false, portControl := PortControl.Auto
    portEnabled := false, suppPortStatus := PortStatus.Unauthorized, portValid := false
    suppAbort := false, suppFail := false, suppStart := false, suppSuccess := false
    suppTimeout := false
    SUPP_PAE_state := SUPP_PAE.UNKNOWN, userLogoff := false, logoffSent := false
    startCount := 0, eapRestart := false, sPortMode := PortControl.Auto
    heldPeriod := 0, startPeriod := 0, maxStart := 0
    KEY_RX_state := KEY_RX.UNKNOWN, rxKey := false
    SUPP_BE_state := SUPP_BE.UNKNOWN, eapNoResp := false, eapReq := false, eapResp := false
    authPeriod := 0
    dot1xSuppEapolFramesRx := 0, dot1xSuppEapolFramesTx := 0
    dot1xSuppEapolStartFramesTx := 0, dot1xSuppEapolLogoffFramesTx := 0
    dot1xSuppEapolRespFramesTx := 0, dot1xSuppEapolReqIdFramesRx := 0
    dot1xSuppEapolReqFramesRx := 0, dot1xSuppInvalidEapolFramesRx := 0
    dot1xSuppEapLengthErrorFramesRx := 0, dot1xSuppLastEapolFrameVersion := 0
    dot1xSuppLastEapolFrameSource := List.replicate ETH_ALEN 0
    changed := false, eap := eap, initial_req := false
    last_rx_key := none, last_rx_key_len := 0, eapReqData := none, eapReqDataLen := 0
    altAccept := false, altReject := false
    replay_counter_valid := false
    last_replay_counter := List.replicate IEEE8021X_REPLAY_COUNTER_LEN 0
    conf := { accept_802_1x_keys := false, required_keys := 0 }
    cb_status := eapol_cb_status.EAPOL_CB_IN_PROGRESS
    cached_pmk := false, unicast_key_received := false, broadcast_key_received := false
    step_timeout := false, calls := [] }

/-- Function `eapol_sm_init`; `none` when `eap_sm_init` fails. -/
def eapol_sm_init (env : Env) : Option eapol_sm :=
  match env.eap_sm_init with
  | none => none
  | some eap =>
    let sm := eapol_sm_zero eap
    let sm := { sm with portControl := PortControl.Auto }
    let sm := { sm with heldPeriod := 60, startPeriod := 30, maxStart := 3 }
    let sm := { sm with authPeriod := 30 }
    let sm := { sm with initialize_ := true }
    let sm := eapol_sm_step env sm
    let sm := { sm with initialize_ := false }
    some (eapol_sm_step env sm)

/-- Function `eapol_sm_configure`. -/
def eapol_sm_configure (sm : eapol_sm) (heldPeriod authPeriod startPeriod maxStart : Int) :
    eapol_sm :=
  let sm := if heldPeriod ≥ 0 then { sm with heldPeriod := heldPeriod } else sm
  let sm := if authPeriod ≥ 0 then { sm with authPeriod := authPeriod } else sm
  let sm := if startPeriod ≥ 0 then { sm with startPeriod := startPeriod } else sm
  if maxStart ≥ 0 then { sm with maxStart := maxStart } else sm

/-! ## Frame reception and external notifications -/

def eapol_sm_abort_cached (sm : eapol_sm) : eapol_sm :=
  { sm with
    cached_pmk := false
    SUPP_PAE_state := SUPP_PAE.CONNECTING
    suppPortStatus := PortStatus.Unauthorized
    eapRestart := true }

/-- Function `eapol_sm_rx_eapol`; `alloc` tells whether the `malloc` of the
frame copy succeeds. -/
def eapol_sm_rx_eapol (env : Env) (sm : eapol_sm) (src : List Nat) (buf : List Nat)
    (alloc : Bool) : eapol_sm :=
  let len := buf.length
  let sm := { sm with dot1xSuppEapolFramesRx := sm.dot1xSuppEapolFramesRx + 1 }
  if len < sizeof_hdr then
    { sm with dot1xSuppInvalidEapolFramesRx := sm.dot1xSuppInvalidEapolFramesRx + 1 }
  else
    let sm := { sm with
      dot1xSuppLastEapolFrameVersion := hdr_version buf
      dot1xSuppLastEapolFrameSource := src.take ETH_ALEN }
    let plen := hdr_length buf
    if plen > len - sizeof_hdr then
      { sm with dot1xSuppEapLengthErrorFramesRx := sm.dot1xSuppEapLengthErrorFramesRx + 1 }
    else
      let data_len := plen + sizeof_hdr
      if hdr_type buf = IEEE802_1X_TYPE_EAP_PACKET then
        let sm := if sm.cached_pmk = true then eapol_sm_abort_cached sm else sm
        let sm := { sm with eapReqDataLen := plen }
        if alloc = true then
          let sm := { sm with eapReqData := some ((buf.drop sizeof_hdr).take plen) }
          let sm := { sm with eapolEap := true }
          eapol_sm_step env sm
        else { sm with eapReqData := none }
      else if hdr_type buf = IEEE802_1X_TYPE_EAPOL_KEY then
        if plen < sizeof_key then sm
        else if key_type buf = EAPOL_KEY_TYPE_WPA ∨ key_type buf = EAPOL_KEY_TYPE_RSN then sm
        else if key_type buf ≠ EAPOL_KEY_TYPE_RC4 then sm
        else if alloc = true then
          let sm := { sm with last_rx_key := some (buf.take data_len) }
          let sm := { sm with last_rx_key_len := data_len, rxKey := true }
          eapol_sm_step env sm
        else { sm with last_rx_key := none }
      else
        { sm with dot1xSuppInvalidEapolFramesRx := sm.dot1xSuppInvalidEapolFramesRx + 1 }

def eapol_sm_notify_portEnabled (env : Env) (sm : eapol_sm) (enabled : Bool) : eapol_sm :=
  eapol_sm_step env { sm with portEnabled := enabled }

def eapol_sm_notify_portValid (env : Env) (sm : eapol_sm) (valid : Bool) : eapol_sm :=
  eapol_sm_step env { sm with portValid := valid }

def eapol_sm_notify_eap_success (env : Env) (sm : eapol_sm) (success : Bool) : eapol_sm :=
  let sm := { sm with eapSuccess := success, altAccept := success }
  let sm :=
    if success = true then
      { sm with eap := { sm.eap with decision := eap_decision.DECISION_COND_SUCC } }
    else sm
  eapol_sm_step env sm

def eapol_sm_notify_eap_fail (env : Env) (sm : eapol_sm) (fail : Bool) : eapol_sm :=
  eapol_sm_step env { sm with eapFail := fail, altReject := fail }

/-- Function `eapol_sm_notify_config`; `conf = none` is the `NULL` argument. -/
def eapol_sm_notify_config (sm : eapol_sm) (conf : Option eapol_config) : eapol_sm :=
  match conf with
  | none => sm
  | some c =>
    { sm with
      conf := { accept_802_1x_keys := c.accept_802_1x_keys, required_keys := c.required_keys } }

def eapol_sm_notify_logoff (env : Env) (sm : eapol_sm) (logoff : Bool) : eapol_sm :=
  eapol_sm_step env { sm with userLogoff := logoff }

def eapol_sm_notify_cached (sm : eapol_sm) : eapol_sm :=
  { sm with
    SUPP_PAE_state := SUPP_PAE.AUTHENTICATED
    suppPortStatus := PortStatus.Authorized
    eap := { sm.eap with
      decision := eap_decision.DECISION_COND_SUCC
      EAP_state := eap_state.EAP_SUCCESS } }

def eapol_sm_notify_pmkid_attempt (sm : eapol_sm) : eapol_sm :=
  { sm with cached_pmk := true }

def eapol_sm_notify_portControl (env : Env) (sm : eapol_sm) (portControl : PortControl) :
    eapol_sm :=
  eapol_sm_step env { sm with portControl := portControl }

def eapol_sm_notify_ctrl_attached (env : Env) (sm : eapol_sm) : eapol_sm :=
  { sm with eap := env.eap_sm_notify_ctrl_attached sm.eap }

def eapol_sm_notify_ctrl_response (env : Env) (sm : eapol_sm) : eapol_sm :=
  if sm.eapReqData.isSome = true ∧ sm.eapReq = false then
    eapol_sm_step env { sm with eapolEap := true }
  else sm

/-! ## Executions -/

/-- The inputs of an instance: the 1 Hz tick, the zero-delay step the event
loop owes, a direct `eapol_sm_step`, a received frame, and the notification
and configuration entry points. -/
inductive Event where
  | tick
  | step
  | step_timeout
  | rx_eapol (src : List Nat) (buf : List Nat) (alloc : Bool)
  | configure (heldPeriod authPeriod startPeriod maxStart : Int)
  | notify_portEnabled (enabled : Bool)
  | notify_portValid (valid : Bool)
  | notify_eap_success (success : Bool)
  | notify_eap_fail (fail : Bool)
  | notify_config (conf : Option eapol_config)
  | notify_logoff (logoff : Bool)
  | notify_cached
  | notify_pmkid_attempt
  | notify_portControl (portControl : PortControl)
  | notify_ctrl_attached
  | notify_ctrl_response

/-- The effect of one input; the zero-delay step only fires when registered. -/
def deliver (env : Env) (sm : eapol_sm) : Event → eapol_sm
  | Event.tick => eapol_port_timers_tick env sm
  | Event.step => eapol_sm_step env sm
  | Event.step_timeout => if sm.step_timeout = true then eapol_sm_step_timeout env sm else sm
  | Event.rx_eapol src buf alloc => eapol_sm_rx_eapol env sm src buf alloc
  | Event.configure h a s m => eapol_sm_configure sm h a s m
  | Event.notify_portEnabled b => eapol_sm_notify_portEnabled env sm b
  | Event.notify_portValid b => eapol_sm_notify_portValid env sm b
  | Event.notify_eap_success b => eapol_sm_notify_eap_success env sm b
  | Event.notify_eap_fail b => eapol_sm_notify_eap_fail env sm b
  | Event.notify_config c => eapol_sm_notify_config sm c
  | Event.notify_logoff b => eapol_sm_notify_logoff env sm b
  | Event.notify_cached => eapol_sm_notify_cached sm
  | Event.notify_pmkid_attempt => eapol_sm_notify_pmkid_attempt sm
  | Event.notify_portControl pc => eapol_sm_notify_portControl env sm pc
  | Event.notify_ctrl_attached => eapol_sm_notify_ctrl_attached env sm
  | Event.notify_ctrl_response => eapol_sm_notify_ctrl_response env sm

/-- The instance after a sequence of inputs. -/
def run (env : Env) (sm : eapol_sm) (evs : List Event) : eapol_sm :=
  evs.foldl (deliver env) sm

/-- The states an instance created by `eapol_sm_init` can be in. -/
def Reachable (env : Env) (sm : eapol_sm) : Prop :=
  ∃ sm0 evs, eapol_sm_init env = some sm0 ∧ run env sm0 evs = sm

/-- Run the zero-delay steps the event loop owes, at most `fuel` of them. -/
def run_scheduled (env : Env) : Nat → eapol_sm → eapol_sm
  | 0, sm => sm
  | fuel + 1, sm =>
    if sm.step_timeout = true then run_scheduled env fuel (eapol_sm_step_timeout env sm)
    else sm

/-- One second of the port timers: the tick, then the steps it scheduled. -/
def tick_quiesce (env : Env) (sm : eapol_sm) : eapol_sm :=
  run_scheduled env 8 (eapol_port_timers_tick env sm)

/-- The instance after `n` seconds without any other input. -/
def ticks (env : Env) : Nat → eapol_sm → eapol_sm
  | 0, sm => sm
  | n + 1, sm => tick_quiesce env (ticks env n sm)

/-! ## Concrete collaborators used in the scenarios -/

/-- An EAP engine state with nothing in it. -/
def eap_blank : eap_sm :=
  { eapKeyAvailable := false, eapKeyData := none, eapRespData := none
    decision := eap_decision.DECISION_FAIL, EAP_state := eap_state.EAP_DISABLED, method := 0 }

/-- An EAP engine step that changes nothing and reports no change. -/
def eap_step_idle (sm : eapol_sm) : eap_result :=
  { changed := false, eap := sm.eap, eapSuccess := sm.eapSuccess, eapFail := sm.eapFail
    eapRestart := sm.eapRestart, eapReq := sm.eapReq, eapResp := sm.eapResp
    eapNoResp := sm.eapNoResp, idleWhile := sm.idleWhile }

/-- An EAP engine step whose only action is to clear `eapRestart`, reporting a
change when it did. -/
def eap_step_restart (sm : eapol_sm) : eap_result :=
  { changed := sm.eapRestart, eap := sm.eap, eapSuccess := sm.eapSuccess, eapFail := sm.eapFail
    eapRestart := false, eapReq := sm.eapReq, eapResp := sm.eapResp
    eapNoResp := sm.eapNoResp, idleWhile := sm.idleWhile }

/-- A host with every callback installed, a driver that accepts every key, an
idle EAP engine, and stand-ins for the two ciphers. -/
def env_idle : Env :=
  { eap_sm_init := some eap_blank
    eap_sm_step := eap_step_idle
    eap_sm_abort := fun e => { e with eapRespData := none, eapKeyData := none }
    eap_sm_notify_ctrl_attached := fun e => e
    hmac_md5 := fun key data i => (key.sum + data.sum + i.val) % 256
    rc4 := fun key data => data.map (fun b => (b + key.sum) % 256)
    set_wep_key := some (fun _ _ _ => 0)
    eapol_done_cb := true
    cb := true
    stack := List.replicate 64 0 }

/-- The host of `env_idle` with the engine that clears `eapRestart`. -/
def env_restart : Env := { env_idle with eap_sm_step := eap_step_restart }

/-! ## Proof devices -/

/-- The variables of an instance that only `SM_STEP(SUPP_PAE)`, the port timers
and the external setters write. -/
structure pae_vars where
  SUPP_PAE_state : SUPP_PAE
  suppPortStatus : PortStatus
  userLogoff : Bool
  logoffSent : Bool
  sPortMode : PortControl
  portControl : PortControl
  portEnabled : Bool
  initialize_ : Bool
  startCount : Int
  startWhen : Int
  heldWhile : Int
  heldPeriod : Int
  startPeriod : Int
  maxStart : Int
  conf : eapol_config
  cached_pmk : Bool
  dot1xSuppEapolStartFramesTx : Nat
  dot1xSuppEapolLogoffFramesTx : Nat

/-- The PAE variables of an instance. -/
def pae_view (sm : eapol_sm) : pae_vars :=
  { SUPP_PAE_state := sm.SUPP_PAE_state, suppPortStatus := sm.suppPortStatus
    userLogoff := sm.userLogoff, logoffSent := sm.logoffSent, sPortMode := sm.sPortMode
    portControl := sm.portControl, portEnabled := sm.portEnabled
    initialize_ := sm.initialize_, startCount := sm.startCount, startWhen := sm.startWhen
    heldWhile := sm.heldWhile, heldPeriod := sm.heldPeriod, startPeriod := sm.startPeriod
    maxStart := sm.maxStart, conf := sm.conf, cached_pmk := sm.cached_pmk
    dot1xSuppEapolStartFramesTx := sm.dot1xSuppEapolStartFramesTx
    dot1xSuppEapolLogoffFramesTx := sm.dot1xSuppEapolLogoffFramesTx }

/-- The relation between port status and PAE state that the state machine
maintains: the two authorised states imply `Authorized`, and `Authorized` is
only found in them or in the three states a re-authentication passes through. -/
def port_ok (v : pae_vars) : Prop :=
  ((v.SUPP_PAE_state = SUPP_PAE.AUTHENTICATED ∨ v.SUPP_PAE_state = SUPP_PAE.S_FORCE_AUTH) →
      v.suppPortStatus = PortStatus.Authorized) ∧
  (v.suppPortStatus = PortStatus.Authorized →
      (v.SUPP_PAE_state = SUPP_PAE.AUTHENTICATED ∨ v.SUPP_PAE_state = SUPP_PAE.S_FORCE_AUTH ∨
       v.SUPP_PAE_state = SUPP_PAE.RESTART ∨ v.SUPP_PAE_state = SUPP_PAE.AUTHENTICATING ∨
       v.SUPP_PAE_state = SUPP_PAE.CONNECTING))

/-- The PAE variables that no state machine writes: they only change through
the external setters. -/
def same_inputs (v w : pae_vars) : Prop :=
  v.userLogoff = w.userLogoff ∧ v.portControl = w.portControl ∧
  v.portEnabled = w.portEnabled ∧ v.initialize_ = w.initialize_ ∧
  v.heldPeriod = w.heldPeriod ∧ v.startPeriod = w.startPeriod ∧ v.maxStart = w.maxStart ∧
  v.conf = w.conf ∧ v.cached_pmk = w.cached_pmk

/-! ## Concrete instances and inputs used in the scenarios -/

/-- The instance `eapol_sm_init` returns for the host `env_idle`. -/
def fresh_idle : eapol_sm := (eapol_sm_init env_idle).getD (eapol_sm_zero eap_blank)

/-- A source MAC address. -/
def src_mac : List Nat := [0, 17, 34, 51, 68, 85]

/-- An EAPOL frame of version 1 and type EAP-Packet carrying the five bytes
of an EAP-Request/Identity. -/
def eap_request_frame : List Nat := [1, 0, 0, 5, 1, 7, 0, 5, 1]

/-- A full authentication followed by the first frame of a re-authentication:
the port is enabled and validated, the EAP layer reports success, the
scheduled step runs, and a further EAP-Packet arrives. -/
def reauth_trace : List Event :=
  [Event.notify_portEnabled true, Event.notify_portValid true, Event.notify_eap_success true,
   Event.step_timeout, Event.rx_eapol src_mac eap_request_frame true]

/-- The port is enabled and forced to authorised, then the user logs off. -/
def forced_logoff_trace : List Event :=
  [Event.notify_portEnabled true, Event.notify_portControl PortControl.ForceAuthorized,
   Event.notify_logoff true]

/-- The state handed to `eapol_sm_step` by `eapol_sm_notify_portControl` when
an enabled port is switched to the mode `m`. -/
def forced_pre (m : PortControl) : eapol_sm :=
  { run env_idle fresh_idle [Event.notify_portEnabled true] with portControl := m }

/-- The state handed to `eapol_sm_step` by `eapol_sm_notify_logoff (true)` on
an enabled port that has been forced to authorised. -/
def forced_logoff_pre : eapol_sm :=
  { run env_idle fresh_idle
      [Event.notify_portEnabled true, Event.notify_portControl PortControl.ForceAuthorized] with
    userLogoff := true }

/-- The instance of `env_idle` once the port is enabled: the PAE is in
CONNECTING with `startWhen = 30` and `startCount = 1`. -/
def connecting_idle : eapol_sm := run env_idle fresh_idle [Event.notify_portEnabled true]

/-- The instance of `env_idle` after a full authentication: the PAE is in
AUTHENTICATED. -/
def authenticated_idle : eapol_sm :=
  run env_idle fresh_idle
    [Event.notify_portEnabled true, Event.notify_portValid true,
     Event.notify_eap_success true, Event.step_timeout]

/-- An EAPOL-Key frame of the RC4 kind: header (version 1, type 3, length 49),
key type 1, key_length 5, a replay counter ending in `rc`, a key IV of sixteen
bytes 9, key_index 0x81 (unicast, slot 1), the signature `sig`, and five bytes
of key data. -/
def key_frame (rc : Nat) (sig : List Nat) : List Nat :=
  [1, 3, 0, 49] ++ [1, 0, 5] ++ [0, 0, 0, 0, 0, 0, 0, rc] ++ List.replicate 16 9 ++ [129] ++
    sig ++ [10, 20, 30, 40, 50]

/-- The signature that the stand-in HMAC of `env_idle` gives `key_frame 5`
under the signing key of `key_sm`. -/
def sig_rc5 : List Nat :=
  [199, 200, 201, 202, 203, 204, 205, 206, 207, 208, 209, 210, 211, 212, 213, 214]

/-- The signature `sig_rc5` with the lowest bit of its first byte flipped. -/
def sig_rc5_flipped : List Nat :=
  [198, 200, 201, 202, 203, 204, 205, 206, 207, 208, 209, 210, 211, 212, 213, 214]

/-- The signature that the stand-in HMAC of `env_idle` gives `key_frame 3`. -/
def sig_rc3 : List Nat :=
  [197, 198, 199, 200, 201, 202, 203, 204, 205, 206, 207, 208, 209, 210, 211, 212]

/-- An instance that accepts IEEE 802.1X keys and requires both kinds, whose
EAP engine offers 64 bytes of keying material, with `frame` stored in
`last_rx_key` and a valid stored replay counter ending in `last`. -/
def key_sm (last : Nat) (frame : List Nat) : eapol_sm :=
  { connecting_idle with
    conf := { accept_802_1x_keys := true, required_keys := 3 }
    eap := { eap_blank with eapKeyAvailable := true, eapKeyData := some (List.replicate 64 7) }
    last_rx_key := some frame
    last_rx_key_len := frame.length
    replay_counter_valid := true
    last_replay_counter := [0, 0, 0, 0, 0, 0, 0, last] }

/-- An EAP engine step that clears `eapRestart` and answers a pending request
(`eapReq`) with an EAP-Response/Identity, reporting a change when it did
either. -/
def eap_step_answer (sm : eapol_sm) : eap_result :=
  { changed := sm.eapRestart || sm.eapReq
    eap := if sm.eapReq = true then { sm.eap with eapRespData := some [2, 7, 0, 5, 1] } else sm.eap
    eapSuccess := sm.eapSuccess, eapFail := sm.eapFail
    eapRestart := false, eapReq := false
    eapResp := sm.eapResp || sm.eapReq
    eapNoResp := sm.eapNoResp, idleWhile := sm.idleWhile }

/-- The host of `env_idle` with the engine that clears `eapRestart` and answers
requests. -/
def env_answer : Env := { env_idle with eap_sm_step := eap_step_answer }

/-- The plaintext scenario's starting point for a host `env`: a fresh instance
configured with `accept_802_1x_keys = true` and `required_keys = 0`, its port
enabled and the scheduled steps run.  The PAE is in CONNECTING with
`startWhen = 30`, and `portValid` is false. -/
def plaintext_start (env : Env) : eapol_sm :=
  run_scheduled env 8
    (run env ((eapol_sm_init env).getD (eapol_sm_zero eap_blank))
      [Event.notify_config (some { accept_802_1x_keys := true, required_keys := 0 }),
       Event.notify_portEnabled true])

/-- The plaintext scenario after the EAP-Packet frame has been delivered. -/
def plaintext_rx (env : Env) : eapol_sm :=
  eapol_sm_rx_eapol env (plaintext_start env) src_mac eap_request_frame true

/-- The plaintext scenario after the frame, the steps it scheduled, and
`eapol_sm_notify_eap_success (true)`. -/
def plaintext_success (env : Env) : eapol_sm :=
  eapol_sm_notify_eap_success env (run_scheduled env 8 (plaintext_rx env)) true

/-- The four transmit counters of an instance. -/
structure tx_vars where
  dot1xSuppEapolFramesTx : Nat
  dot1xSuppEapolStartFramesTx : Nat
  dot1xSuppEapolLogoffFramesTx : Nat
  dot1xSuppEapolRespFramesTx : Nat

/-- The transmit counters of an instance. -/
def tx_view (sm : eapol_sm) : tx_vars :=
  { dot1xSuppEapolFramesTx := sm.dot1xSuppEapolFramesTx
    dot1xSuppEapolStartFramesTx := sm.dot1xSuppEapolStartFramesTx
    dot1xSuppEapolLogoffFramesTx := sm.dot1xSuppEapolLogoffFramesTx
    dot1xSuppEapolRespFramesTx := sm.dot1xSuppEapolRespFramesTx }

/-- The total of transmitted frames is the sum of the Start, Logoff and
Response counters. -/
def tx_ok (v : tx_vars) : Prop :=
  v.dot1xSuppEapolFramesTx =
    v.dot1xSuppEapolStartFramesTx + v.dot1xSuppEapolLogoffFramesTx +
      v.dot1xSuppEapolRespFramesTx

/-- The number of EAPOL frames of type `t` with an empty body (EAPOL-Start,
EAPOL-Logoff) that the instance has handed to `eapol_send`. -/
def sent (t : Nat) (sm : eapol_sm) : Nat :=
  sm.calls.count (host_call.eapol_send t [])

/-- The number a byte string denotes when read big-endian (most significant
byte first). -/
def be_value : List Nat → Nat
  | [] => 0
  | x :: xs => x * 256 ^ xs.length + be_value xs

/-- The start-up scenario in closed form: the instance `t` seconds (`1 ≤ t`)
after the port of `fresh_idle` was enabled, with no other input.  Three
EAPOL-Start periods of 30 s in CONNECTING, 60 s in HELD, and CONNECTING again
at `t = 150`. -/
def startup_state (t : Nat) : eapol_sm :=
  { connecting_idle with
    SUPP_PAE_state := if 90 ≤ t ∧ t < 150 then SUPP_PAE.HELD else SUPP_PAE.CONNECTING
    startWhen :=
      if t < 30 then 30 - (t : Int) else if t < 60 then 60 - (t : Int)
      else if t < 90 then 90 - (t : Int) else if t < 150 then 0 else 180 - (t : Int)
    startCount := if t < 30 then 1 else if t < 60 then 2 else if t < 150 then 3 else 4
    heldWhile := if 90 ≤ t ∧ t < 150 then 150 - (t : Int) else 0
    dot1xSuppEapolStartFramesTx :=
      if t < 30 then 1 else if t < 60 then 2 else if t < 150 then 3 else 4
    dot1xSuppEapolFramesTx :=
      if t < 30 then 1 else if t < 60 then 2 else if t < 150 then 3 else 4
    calls :=
      List.replicate (if t < 30 then 1 else if t < 60 then 2 else 3)
          (host_call.eapol_send IEEE802_1X_TYPE_EAPOL_START []) ++
        (if 90 ≤ t then [host_call.cb false] else []) ++
        (if 150 ≤ t then [host_call.eapol_send IEEE802_1X_TYPE_EAPOL_START []] else [])
    changed := false
    step_timeout := false }


/-- An EAPOL-Key frame (type 3) of 14 bytes whose header declares a body of 10
bytes, shorter than the 44-byte fixed key body. -/
def short_key_frame : List Nat := [1, 3, 0, 10] ++ List.replicate 10 0

/-- An EAPOL-Key frame with a complete 44-byte key body and key type WPA
(254). -/
def wpa_key_frame : List Nat := [1, 3, 0, 44] ++ [254] ++ List.replicate 43 0

/-! ## A ranking function for the convergence of repeated steps -/

/-- The rank of an instance whose port is disabled or that is being
initialised: one for each state machine that is not yet in its reset state,
two for a pending key frame. -/
def rank_reset (sm : eapol_sm) : Nat :=
  (if sm.SUPP_PAE_state = SUPP_PAE.DISCONNECTED then 0 else 1) +
  (if sm.rxKey = true then 2 else 0) +
  (if sm.KEY_RX_state = KEY_RX.NO_KEY_RECEIVE then 0 else 1) +
  (if sm.SUPP_BE_state = SUPP_BE.INITIALIZE then 0 else 1)

/-- The rank of the Key Receive machine with the port enabled: a pending key
frame that the machine will process. -/
def rank_key (sm : eapol_sm) : Nat :=
  if sm.rxKey = true ∧ sm.KEY_RX_state ≠ KEY_RX.UNKNOWN then 1 else 0

/-- The number of immediate EAPOL-Start retransmissions still possible from
the current `startCount` (only a zero `startPeriod` allows more than one). -/
def start_budget (sm : eapol_sm) : Nat :=
  if sm.startPeriod = 0 then (sm.maxStart - sm.startCount).toNat else 1

/-- The value of `start_budget` right after `startCount` has been reset. -/
def start_budget_reset (sm : eapol_sm) : Nat :=
  if sm.startPeriod = 0 then sm.maxStart.toNat else 1

/-- The rank kept in reserve for a Backend timeout that may still happen: the
Backend can only reach TIMEOUT while an EAP frame is pending or a request is
being handled. -/
def rank_timeout (sm : eapol_sm) : Nat :=
  if sm.eapolEap = true ∨ sm.SUPP_BE_state = SUPP_BE.REQUEST ∨
      sm.SUPP_BE_state = SUPP_BE.RESPONSE ∨ sm.SUPP_BE_state = SUPP_BE.RECEIVE then
    2 + max (start_budget sm) (start_budget_reset sm)
  else 0

/-- The rank of the Backend machine with the port enabled: an upper bound of
the transitions it can still take without a new `suppStart` or `suppAbort`. -/
def rank_be (sm : eapol_sm) : Nat :=
  if sm.suppAbort = true then 2
  else
    match sm.SUPP_BE_state with
    | SUPP_BE.UNKNOWN => 0
    | SUPP_BE.INITIALIZE => 1
    | SUPP_BE.FAIL => 1
    | SUPP_BE.TIMEOUT => 1
    | SUPP_BE.SUCCESS => 1
    | SUPP_BE.IDLE => if sm.suppStart = true then 5 else 0
    | SUPP_BE.REQUEST => 4
    | SUPP_BE.RESPONSE => 3
    | SUPP_BE.RECEIVE => if sm.eapolEap = true then 5 else 2

/-- The rank of the Supplicant PAE machine with the port enabled: the pending
global transitions first, then the position of the state in the order
LOGOFF, DISCONNECTED, CONNECTING, AUTHENTICATING, AUTHENTICATED or HELD,
RESTART, where the states that can move back up (HELD with an expired timer,
AUTHENTICATED without `portValid`, RESTART with `eapRestart` cleared,
AUTHENTICATING with `suppTimeout`) rank above their target. -/
def rank_pae (sm : eapol_sm) : Nat :=
  if sm.userLogoff = true ∧ sm.logoffSent = false then
    if sm.sPortMode = sm.portControl then 1
    else if sm.portControl = PortControl.Auto then 3 else 2
  else if sm.sPortMode ≠ sm.portControl then
    if sm.portControl = PortControl.Auto then
      if sm.userLogoff = true then 2 else 5 + start_budget_reset sm
    else 1
  else
    match sm.SUPP_PAE_state with
    | SUPP_PAE.UNKNOWN => 0
    | SUPP_PAE.S_FORCE_AUTH => 0
    | SUPP_PAE.S_FORCE_UNAUTH => 0
    | SUPP_PAE.RESTART => if sm.eapRestart = true then 0 else 3
    | SUPP_PAE.AUTHENTICATED => if sm.portValid = true then 1 else 5 + start_budget_reset sm
    | SUPP_PAE.HELD => if sm.heldWhile = 0 then 4 + start_budget sm else 1
    | SUPP_PAE.AUTHENTICATING => if sm.suppTimeout = true then 4 + start_budget sm else 2
    | SUPP_PAE.CONNECTING => if sm.startWhen = 0 then 3 + start_budget sm else 3
    | SUPP_PAE.DISCONNECTED => 4 + start_budget sm
    | SUPP_PAE.LOGOFF => if sm.userLogoff = true then 0 else 5 + start_budget_reset sm

/-- The rank of an instance whose port is enabled: a PAE transition may
recharge the Backend (by at most 5), so the PAE rank and the timeout reserve
weigh 6. -/
def rank_run (sm : eapol_sm) : Nat :=
  rank_key sm + 6 * (rank_pae sm + rank_timeout sm) + rank_be sm

/-- The ranking function: every `eapol_sm_step` that ends with `changed` set
lowers it, as long as `heldPeriod` is not zero and the EAP engine is idle. -/
def settle_rank (sm : eapol_sm) : Nat :=
  if sm.initialize_ = true ∨ sm.portEnabled = false then rank_reset sm else rank_run sm

/-- The instance of the idle host configured with `heldPeriod = 0` and
`startPeriod = 0` (both accepted by `eapol_sm_configure`; the other two
arguments are negative and leave the defaults), right after its port was
enabled. -/
def livelock_start : eapol_sm :=
  run env_idle fresh_idle [Event.configure 0 (-1) 0 (-1), Event.notify_portEnabled true]

/-- The states of the cycle CONNECTING, HELD, CONNECTING, ... that a zero
`heldPeriod` and a zero `startPeriod` allow once `startCount` has reached
`maxStart`, and of the immediate retransmissions that lead into it. -/
def livelock_inv (s : eapol_sm) : Prop :=
  s.portEnabled = true ∧ s.initialize_ = false ∧ s.userLogoff = false ∧
  s.portControl = PortControl.Auto ∧ s.sPortMode = PortControl.Auto ∧
  s.heldPeriod = 0 ∧ s.startPeriod = 0 ∧
  (s.SUPP_PAE_state = SUPP_PAE.CONNECTING ∨ s.SUPP_PAE_state = SUPP_PAE.HELD) ∧
  s.startWhen = 0 ∧ s.heldWhile = 0 ∧ s.portValid = false ∧ s.eapSuccess = false ∧
  s.eapFail = false ∧ s.eapolEap = false ∧ s.rxKey = false

/-- The plaintext scenario once authenticated and quiescent, after a second
EAP-Packet frame has been delivered: the start of a re-authentication. -/
def reauth_rx (env : Env) : eapol_sm :=
  eapol_sm_rx_eapol env (run_scheduled env 8 (plaintext_success env)) src_mac
    eap_request_frame true

/-- The calls to the driver made by the install stage. -/
def driver_calls (env : Env) (buf dk : List Nat) : List host_call :=
  match env.set_wep_key with
  | some _ => [host_call.set_wep_key (Nat.land (key_key_index buf) IEEE8021X_KEY_INDEX_FLAG)
      (Nat.land (key_key_index buf) IEEE8021X_KEY_INDEX_MASK) dk]
  | none => []

/-- The host of `env_idle` with a driver that refuses every key. -/
def env_refuse : Env := { env_idle with set_wep_key := some (fun _ _ _ => -1) }

/-- The signature that the stand-in HMAC of `env_idle` gives `key_frame 5`
under a signing key of 32 zero bytes, the content of the untouched `keydata`
of `env_idle`. -/
def sig_rc5_stack : List Nat :=
  [231, 232, 233, 234, 235, 236, 237, 238, 239, 240, 241, 242, 243, 244, 245, 246]

/-- The instance `key_sm last frame` whose EAP engine reports keying material
available with a non-NULL `eapKeyData` of length 0. -/
def key_sm_empty (last : Nat) (frame : List Nat) : eapol_sm :=
  { key_sm last frame with
    eap := { eap_blank with eapKeyAvailable := true, eapKeyData := some [] } }

/-- The four `if (x > 0) x--;` statements at the head of
`eapol_port_timers_tick`, before its call of `eapol_sm_step`. -/
def port_timers_decrement (sm : eapol_sm) : eapol_sm :=
  let sm := if sm.authWhile > 0 then { sm with authWhile := sm.authWhile - 1 } else sm
  let sm := if sm.heldWhile > 0 then { sm with heldWhile := sm.heldWhile - 1 } else sm
  let sm := if sm.startWhen > 0 then { sm with startWhen := sm.startWhen - 1 } else sm
  if sm.idleWhile > 0 then { sm with idleWhile := sm.idleWhile - 1 } else sm

/-- The invocations of the completion callback `ctx->cb` recorded so far, oldest
first, each with its `success` argument. -/
def cb_calls (sm : eapol_sm) : List Bool :=
  sm.calls.filterMap (fun c => match c with
    | host_call.cb b => some b
    | _ => none)

/-- The instance `key_sm 3 (key_frame 5 sig_rc5)` with the port disabled and
the stored frame announced by `rxKey`. -/
def key_rx_disabled : eapol_sm :=
  { key_sm 3 (key_frame 5 sig_rc5) with portEnabled := false, rxKey := true }

/-! ## Targets of the transitions of the three machines -/

/-- Macros `SM_ENTER(SUPP_PAE, state)` and `SM_ENTER_GLOBAL(SUPP_PAE, state)`:
the call of the entry function that `state` names, with `global` 0 or 1.
`SUPP_PAE_UNKNOWN` names no entry function and no transition targets it. -/
def SM_ENTER_SUPP_PAE (state : SUPP_PAE) (sm : eapol_sm) (global : Bool) : eapol_sm :=
  match state with
  | SUPP_PAE.UNKNOWN => sm
  | SUPP_PAE.LOGOFF => sm_SUPP_PAE_LOGOFF_Enter sm global
  | SUPP_PAE.DISCONNECTED => sm_SUPP_PAE_DISCONNECTED_Enter sm global
  | SUPP_PAE.CONNECTING => sm_SUPP_PAE_CONNECTING_Enter sm global
  | SUPP_PAE.AUTHENTICATING => sm_SUPP_PAE_AUTHENTICATING_Enter sm global
  | SUPP_PAE.HELD => sm_SUPP_PAE_HELD_Enter sm global
  | SUPP_PAE.AUTHENTICATED => sm_SUPP_PAE_AUTHENTICATED_Enter sm global
  | SUPP_PAE.RESTART => sm_SUPP_PAE_RESTART_Enter sm global
  | SUPP_PAE.S_FORCE_AUTH => sm_SUPP_PAE_S_FORCE_AUTH_Enter sm global
  | SUPP_PAE.S_FORCE_UNAUTH => sm_SUPP_PAE_S_FORCE_UNAUTH_Enter sm global

/-- Macros `SM_ENTER(KEY_RX, state)` and `SM_ENTER_GLOBAL(KEY_RX, state)`. -/
def SM_ENTER_KEY_RX (env : Env) (state : KEY_RX) (sm : eapol_sm) (global : Bool) : eapol_sm :=
  match state with
  | KEY_RX.UNKNOWN => sm
  | KEY_RX.NO_KEY_RECEIVE => sm_KEY_RX_NO_KEY_RECEIVE_Enter sm global
  | KEY_RX.KEY_RECEIVE => sm_KEY_RX_KEY_RECEIVE_Enter env sm global

/-- Macros `SM_ENTER(SUPP_BE, state)` and `SM_ENTER_GLOBAL(SUPP_BE, state)`. -/
def SM_ENTER_SUPP_BE (env : Env) (state : SUPP_BE) (sm : eapol_sm) (global : Bool) : eapol_sm :=
  match state with
  | SUPP_BE.UNKNOWN => sm
  | SUPP_BE.REQUEST => sm_SUPP_BE_REQUEST_Enter sm global
  | SUPP_BE.RESPONSE => sm_SUPP_BE_RESPONSE_Enter sm global
  | SUPP_BE.SUCCESS => sm_SUPP_BE_SUCCESS_Enter sm global
  | SUPP_BE.FAIL => sm_SUPP_BE_FAIL_Enter sm global
  | SUPP_BE.TIMEOUT => sm_SUPP_BE_TIMEOUT_Enter sm global
  | SUPP_BE.IDLE => sm_SUPP_BE_IDLE_Enter sm global
  | SUPP_BE.INITIALIZE => sm_SUPP_BE_INITIALIZE_Enter env sm global
  | SUPP_BE.RECEIVE => sm_SUPP_BE_RECEIVE_Enter sm global

/-- The `if` chain at the head of `SM_STEP(SUPP_PAE)`: the state that the
selected `SM_ENTER_GLOBAL` names, `none` when the chain reaches the `switch`. -/
def SUPP_PAE_global (sm : eapol_sm) : Option SUPP_PAE :=
  if (sm.userLogoff = true ∧ sm.logoffSent = false) ∧
      ¬ (sm.initialize_ = true ∨ sm.portEnabled = false) then
    some SUPP_PAE.LOGOFF
  else if (sm.portControl = PortControl.Auto ∧ sm.sPortMode ≠ sm.portControl) ∨
      sm.initialize_ = true ∨ sm.portEnabled = false then
    some SUPP_PAE.DISCONNECTED
  else if sm.portControl = PortControl.ForceAuthorized ∧ sm.sPortMode ≠ sm.portControl ∧
      ¬ (sm.initialize_ = true ∨ sm.portEnabled = false) then
    some SUPP_PAE.S_FORCE_AUTH
  else if sm.portControl = PortControl.ForceUnauthorized ∧ sm.sPortMode ≠ sm.portControl ∧
      ¬ (sm.initialize_ = true ∨ sm.portEnabled = false) then
    some SUPP_PAE.S_FORCE_UNAUTH
  else none

/-- The instance on which `case SUPP_PAE_AUTHENTICATING` makes its tests: the
plaintext rule has run; the other cases test the instance as it is. -/
def SUPP_PAE_pre (env : Env) (sm : eapol_sm) : eapol_sm :=
  if sm.SUPP_PAE_state = SUPP_PAE.AUTHENTICATING then SUPP_PAE_plaintext env sm else sm

/-- The `switch (sm->SUPP_PAE_state)` of `SM_STEP(SUPP_PAE)`: the state that
the `SM_ENTER` it reaches names, `none` when it reaches none. -/
def SUPP_PAE_local (env : Env) (sm : eapol_sm) : Option SUPP_PAE :=
  match sm.SUPP_PAE_state with
  | SUPP_PAE.UNKNOWN => none
  | SUPP_PAE.LOGOFF => if sm.userLogoff = false then some SUPP_PAE.DISCONNECTED else none
  | SUPP_PAE.DISCONNECTED => some SUPP_PAE.CONNECTING
  | SUPP_PAE.CONNECTING =>
    if sm.startWhen = 0 ∧ sm.startCount < sm.maxStart then some SUPP_PAE.CONNECTING
    else if sm.startWhen = 0 ∧ sm.startCount ≥ sm.maxStart ∧ sm.portValid = true then
      some SUPP_PAE.AUTHENTICATED
    else if sm.eapSuccess = true ∨ sm.eapFail = true then some SUPP_PAE.AUTHENTICATING
    else if sm.eapolEap = true then some SUPP_PAE.RESTART
    else if sm.startWhen = 0 ∧ sm.startCount ≥ sm.maxStart ∧ sm.portValid = false then
      some SUPP_PAE.HELD
    else none
  | SUPP_PAE.AUTHENTICATING =>
    let sm := SUPP_PAE_plaintext env sm
    if sm.eapSuccess = true ∧ sm.portValid = true then some SUPP_PAE.AUTHENTICATED
    else if sm.eapFail = true ∨ (sm.keyDone = true ∧ sm.portValid = false) then
      some SUPP_PAE.HELD
    else if sm.suppTimeout = true then some SUPP_PAE.CONNECTING
    else none
  | SUPP_PAE.HELD =>
    if sm.heldWhile = 0 then some SUPP_PAE.CONNECTING
    else if sm.eapolEap = true then some SUPP_PAE.RESTART
    else none
  | SUPP_PAE.AUTHENTICATED =>
    if sm.eapolEap = true ∧ sm.portValid = true then some SUPP_PAE.RESTART
    else if sm.portValid = false then some SUPP_PAE.DISCONNECTED
    else none
  | SUPP_PAE.RESTART => if sm.eapRestart = false then some SUPP_PAE.AUTHENTICATING else none
  | SUPP_PAE.S_FORCE_AUTH => none
  | SUPP_PAE.S_FORCE_UNAUTH => none

/-- The `switch (sm->KEY_RX_state)` of `SM_STEP(KEY_RX)`: the state that the
`SM_ENTER` it reaches names. -/
def KEY_RX_local (sm : eapol_sm) : Option KEY_RX :=
  match sm.KEY_RX_state with
  | KEY_RX.UNKNOWN => none
  | KEY_RX.NO_KEY_RECEIVE => if sm.rxKey = true then some KEY_RX.KEY_RECEIVE else none
  | KEY_RX.KEY_RECEIVE => if sm.rxKey = true then some KEY_RX.KEY_RECEIVE else none

/-- The `switch (sm->SUPP_BE_state)` of `SM_STEP(SUPP_BE)`: the state that the
`SM_ENTER` it reaches names. -/
def SUPP_BE_local (sm : eapol_sm) : Option SUPP_BE :=
  match sm.SUPP_BE_state with
  | SUPP_BE.UNKNOWN => none
  | SUPP_BE.REQUEST =>
    if sm.eapResp = true then some SUPP_BE.RESPONSE
    else if sm.eapNoResp = true then some SUPP_BE.RECEIVE
    else none
  | SUPP_BE.RESPONSE => some SUPP_BE.RECEIVE
  | SUPP_BE.SUCCESS => some SUPP_BE.IDLE
  | SUPP_BE.FAIL => some SUPP_BE.IDLE
  | SUPP_BE.TIMEOUT => some SUPP_BE.IDLE
  | SUPP_BE.IDLE =>
    if sm.eapFail = true ∧ sm.suppStart = true then some SUPP_BE.FAIL
    else if sm.eapolEap = true ∧ sm.suppStart = true then some SUPP_BE.REQUEST
    else if sm.eapSuccess = true ∧ sm.suppStart = true then some SUPP_BE.SUCCESS
    else none
  | SUPP_BE.INITIALIZE => some SUPP_BE.IDLE
  | SUPP_BE.RECEIVE =>
    if sm.eapolEap = true then some SUPP_BE.REQUEST
    else if sm.eapFail = true then some SUPP_BE.FAIL
    else if sm.authWhile = 0 then some SUPP_BE.TIMEOUT
    else if sm.eapSuccess = true then some SUPP_BE.SUCCESS
    else none

/-- Whether `SM_STEP(SUPP_PAE)` takes nothing but a global override into the
state the machine is in already: the override that applies has the present
state for target, or none applies and the `switch` reaches no `SM_ENTER`. -/
def SUPP_PAE_quiet (env : Env) (sm : eapol_sm) : Bool :=
  match SUPP_PAE_global sm with
  | some t => decide (sm.SUPP_PAE_state = t)
  | none => (SUPP_PAE_local env sm).isNone

/-- Whether `SM_STEP(KEY_RX)` takes nothing but a global override into the
state the machine is in already; the `switch` runs after the global entry. -/
def KEY_RX_quiet (sm : eapol_sm) : Bool :=
  if sm.initialize_ = true ∨ sm.portEnabled = false then
    decide (sm.KEY_RX_state = KEY_RX.NO_KEY_RECEIVE) &&
      (KEY_RX_local (sm_KEY_RX_NO_KEY_RECEIVE_Enter sm true)).isNone
  else (KEY_RX_local sm).isNone

/-- Whether `SM_STEP(SUPP_BE)` takes nothing but a global override into the
state the machine is in already. -/
def SUPP_BE_quiet (sm : eapol_sm) : Bool :=
  if sm.initialize_ = true ∨ sm.suppAbort = true then
    decide (sm.SUPP_BE_state = SUPP_BE.INITIALIZE)
  else (SUPP_BE_local sm).isNone

/-- One `eapol_sm_step` in which only same-state global overrides fire and the
EAP engine reports no change: each machine, run on the instance its
predecessor left, is quiet. -/
def only_same_state_overrides (env : Env) (sm : eapol_sm) : Prop :=
  SUPP_PAE_quiet env { sm with changed := false } = true ∧
  KEY_RX_quiet (sm_SUPP_PAE_Step env { sm with changed := false }) = true ∧
  SUPP_BE_quiet (sm_KEY_RX_Step env (sm_SUPP_PAE_Step env { sm with changed := false })) = true ∧
  (env.eap_sm_step
    (sm_SUPP_BE_Step env
      (sm_KEY_RX_Step env (sm_SUPP_PAE_Step env { sm with changed := false })))).changed = false

instance (env : Env) (sm : eapol_sm) : Decidable (only_same_state_overrides env sm) := by
  unfold only_same_state_overrides
  infer_instance

/-! ## The transition tables of the specification -/

/-- First match wins: the target of the first row of an ordered table whose
condition holds. -/
def spec_first_match {α : Type} (rows : List (Bool × α)) : Option α :=
  (rows.find? (fun r => r.1)).map (fun r => r.2)

/-- The state-local transitions of the Supplicant PAE as the specification
lists them (section 4.1): for each state its rows, condition and target, in
the order written.  In AUTHENTICATING the rows are those after the special
rule. -/
def spec_SUPP_PAE_table (sm : eapol_sm) : SUPP_PAE → List (Bool × SUPP_PAE)
  | SUPP_PAE.UNKNOWN => []
  | SUPP_PAE.LOGOFF => [(!sm.userLogoff, SUPP_PAE.DISCONNECTED)]
  | SUPP_PAE.DISCONNECTED => [(true, SUPP_PAE.CONNECTING)]
  | SUPP_PAE.CONNECTING =>
    [(decide (sm.startWhen = 0) && decide (sm.startCount < sm.maxStart), SUPP_PAE.CONNECTING),
     (decide (sm.startWhen = 0) && decide (sm.startCount ≥ sm.maxStart) && sm.portValid,
        SUPP_PAE.AUTHENTICATED),
     (sm.eapSuccess || sm.eapFail, SUPP_PAE.AUTHENTICATING),
     (sm.eapolEap, SUPP_PAE.RESTART),
     (decide (sm.startWhen = 0) && decide (sm.startCount ≥ sm.maxStart) && !sm.portValid,
        SUPP_PAE.HELD)]
  | SUPP_PAE.AUTHENTICATING =>
    [(sm.eapSuccess && sm.portValid, SUPP_PAE.AUTHENTICATED),
     (sm.eapFail || (sm.keyDone && !sm.portValid), SUPP_PAE.HELD),
     (sm.suppTimeout, SUPP_PAE.CONNECTING)]
  | SUPP_PAE.HELD =>
    [(decide (sm.heldWhile = 0), SUPP_PAE.CONNECTING), (sm.eapolEap, SUPP_PAE.RESTART)]
  | SUPP_PAE.AUTHENTICATED =>
    [(sm.eapolEap && sm.portValid, SUPP_PAE.RESTART), (!sm.portValid, SUPP_PAE.DISCONNECTED)]
  | SUPP_PAE.RESTART => [(!sm.eapRestart, SUPP_PAE.AUTHENTICATING)]
  | SUPP_PAE.S_FORCE_AUTH => []
  | SUPP_PAE.S_FORCE_UNAUTH => []

/-- The PAE step without a global override as the specification describes it:
after the special rule of AUTHENTICATING, enter the target of the first
matching row of the table, and otherwise stay. -/
def spec_SUPP_PAE_local_step (env : Env) (sm : eapol_sm) : eapol_sm :=
  let s := SUPP_PAE_pre env sm
  match spec_first_match (spec_SUPP_PAE_table s s.SUPP_PAE_state) with
  | some t => SM_ENTER_SUPP_PAE t s false
  | none => s

/-- The state-local transitions of the Supplicant Backend as the
specification lists them (section 4.2). -/
def spec_SUPP_BE_table (sm : eapol_sm) : SUPP_BE → List (Bool × SUPP_BE)
  | SUPP_BE.UNKNOWN => []
  | SUPP_BE.REQUEST => [(sm.eapResp, SUPP_BE.RESPONSE), (sm.eapNoResp, SUPP_BE.RECEIVE)]
  | SUPP_BE.RESPONSE => [(true, SUPP_BE.RECEIVE)]
  | SUPP_BE.SUCCESS => [(true, SUPP_BE.IDLE)]
  | SUPP_BE.FAIL => [(true, SUPP_BE.IDLE)]
  | SUPP_BE.TIMEOUT => [(true, SUPP_BE.IDLE)]
  | SUPP_BE.IDLE =>
    [(sm.eapFail && sm.suppStart, SUPP_BE.FAIL),
     (sm.eapolEap && sm.suppStart, SUPP_BE.REQUEST),
     (sm.eapSuccess && sm.suppStart, SUPP_BE.SUCCESS)]
  | SUPP_BE.INITIALIZE => [(true, SUPP_BE.IDLE)]
  | SUPP_BE.RECEIVE =>
    [(sm.eapolEap, SUPP_BE.REQUEST),
     (sm.eapFail, SUPP_BE.FAIL),
     (decide (sm.authWhile = 0), SUPP_BE.TIMEOUT),
     (sm.eapSuccess, SUPP_BE.SUCCESS)]

/-- The Backend step as the specification describes it: the global override
`initialize ∨ suppAbort` enters INITIALIZE; otherwise enter the target of the
first matching row of the table, and otherwise stay. -/
def spec_SUPP_BE_step (env : Env) (sm : eapol_sm) : eapol_sm :=
  if sm.initialize_ = true ∨ sm.suppAbort = true then
    SM_ENTER_SUPP_BE env SUPP_BE.INITIALIZE sm true
  else
    match spec_first_match (spec_SUPP_BE_table sm sm.SUPP_BE_state) with
    | some t => SM_ENTER_SUPP_BE env t sm false
    | none => sm

/-- The instance `connecting_idle` with `startWhen` run down and the three
results `eapSuccess`, `eapFail` and `eapolEap` all set. -/
def connecting_retry : eapol_sm :=
  { connecting_idle with startWhen := 0, eapSuccess := true, eapFail := true, eapolEap := true }

/-! ## The stored EAPOL-Key frame -/

/-- What `eapol_sm_rx_eapol` establishes when it stores a key frame: the
stored frame, if there is one, has `last_rx_key_len` bytes, which is the
header plus the length the header declares, and the declared length covers the
fixed part of the key body. -/
def key_frame_ok (sm : eapol_sm) : Prop :=
  ∀ buf, sm.last_rx_key = some buf →
    sm.last_rx_key_len = sizeof_hdr + hdr_length buf ∧ sizeof_key ≤ hdr_length buf ∧
    buf.length = sm.last_rx_key_len

/-- The instance that `SM_STEP(KEY_RX)` hands to `eapol_sm_processKey`, when it
calls it: the instance after the global entry, if the global test holds, and
after the `SM_ENTRY` of KEY_RECEIVE. -/
def KEY_RX_arg (sm : eapol_sm) : Option eapol_sm :=
  let sm :=
    if sm.initialize_ = true ∨ sm.portEnabled = false then
      sm_KEY_RX_NO_KEY_RECEIVE_Enter sm true
    else sm
  match sm.KEY_RX_state with
  | KEY_RX.UNKNOWN => none
  | KEY_RX.NO_KEY_RECEIVE =>
    if sm.rxKey = true then some (SM_ENTRY_KEY_RX sm false KEY_RX.KEY_RECEIVE) else none
  | KEY_RX.KEY_RECEIVE =>
    if sm.rxKey = true then some (SM_ENTRY_KEY_RX sm false KEY_RX.KEY_RECEIVE) else none

/-- The instance that one `eapol_sm_step` hands to `eapol_sm_processKey`, when
it calls it: the Key Receive step runs on what the PAE step left. -/
def step_key_arg (env : Env) (sm : eapol_sm) : Option eapol_sm :=
  KEY_RX_arg (sm_SUPP_PAE_Step env { sm with changed := false })

/-- The port is enabled, then an RC4 key frame arrives in a buffer that holds
three more bytes than the header declares. -/
def key_rx_trace : List Event :=
  [Event.notify_portEnabled true,
   Event.rx_eapol src_mac (key_frame 5 sig_rc5 ++ [1, 2, 3]) true]
/-! ## Frame lemmas: what the stages after the PAE step leave alone -/

theorem processKey_received_view (env : Env) (sm : eapol_sm) (u : Nat) :
    pae_view (processKey_received env sm u) = pae_view sm := by
  unfold processKey_received
  dsimp only
  split_ifs <;> rfl

theorem processKey_install_view (env : Env) (sm : eapol_sm) (buf dk : List Nat) :
    pae_view (processKey_install env sm buf dk) = pae_view sm := by
  unfold processKey_install
  dsimp only
  split
  · split_ifs
    · rfl
    · rw [processKey_received_view]; rfl
  · rw [processKey_received_view]; rfl

theorem processKey_view (env : Env) (sm : eapol_sm) :
    pae_view (eapol_sm_processKey env sm) = pae_view sm := by
  unfold eapol_sm_processKey eapol_sm_processKey_aux
  dsimp only
  repeat' split
  all_goals first
    | rfl
    | (rw [processKey_install_view]; rfl)

theorem SM_ENTRY_KEY_RX_view (sm : eapol_sm) (g : Bool) (st : KEY_RX) :
    pae_view (SM_ENTRY_KEY_RX sm g st) = pae_view sm := by
  unfold SM_ENTRY_KEY_RX
  dsimp only
  split_ifs <;> rfl

theorem sm_KEY_RX_KEY_RECEIVE_Enter_view (env : Env) (sm : eapol_sm) (g : Bool) :
    pae_view (sm_KEY_RX_KEY_RECEIVE_Enter env sm g) = pae_view sm :=
  calc pae_view (sm_KEY_RX_KEY_RECEIVE_Enter env sm g)
      = pae_view (eapol_sm_processKey env (SM_ENTRY_KEY_RX sm g KEY_RX.KEY_RECEIVE)) := rfl
    _ = pae_view (SM_ENTRY_KEY_RX sm g KEY_RX.KEY_RECEIVE) := processKey_view env _
    _ = pae_view sm := SM_ENTRY_KEY_RX_view sm g _

theorem sm_KEY_RX_Step_local_view (env : Env) (sm : eapol_sm) :
    pae_view (sm_KEY_RX_Step_local env sm) = pae_view sm := by
  unfold sm_KEY_RX_Step_local
  split
  · rfl
  · split_ifs
    · exact sm_KEY_RX_KEY_RECEIVE_Enter_view env sm false
    · rfl
  · split_ifs
    · exact sm_KEY_RX_KEY_RECEIVE_Enter_view env sm false
    · rfl

theorem sm_KEY_RX_Step_view (env : Env) (sm : eapol_sm) :
    pae_view (sm_KEY_RX_Step env sm) = pae_view sm := by
  unfold sm_KEY_RX_Step
  dsimp only
  rw [sm_KEY_RX_Step_local_view]
  split_ifs
  · exact SM_ENTRY_KEY_RX_view sm true _
  · rfl

theorem SM_ENTRY_SUPP_BE_view (sm : eapol_sm) (g : Bool) (st : SUPP_BE) :
    pae_view (SM_ENTRY_SUPP_BE sm g st) = pae_view sm := by
  unfold SM_ENTRY_SUPP_BE
  dsimp only
  split_ifs <;> rfl

theorem eapol_sm_txSuppRsp_view (sm : eapol_sm) :
    pae_view (eapol_sm_txSuppRsp sm) = pae_view sm := by
  unfold eapol_sm_txSuppRsp
  split
  · rfl
  · dsimp only
    split_ifs <;> rfl

theorem sm_SUPP_BE_REQUEST_Enter_view (sm : eapol_sm) (g : Bool) :
    pae_view (sm_SUPP_BE_REQUEST_Enter sm g) = pae_view sm :=
  SM_ENTRY_SUPP_BE_view sm g SUPP_BE.REQUEST

theorem sm_SUPP_BE_RESPONSE_Enter_view (sm : eapol_sm) (g : Bool) :
    pae_view (sm_SUPP_BE_RESPONSE_Enter sm g) = pae_view sm :=
  calc pae_view (sm_SUPP_BE_RESPONSE_Enter sm g)
      = pae_view (eapol_sm_txSuppRsp (SM_ENTRY_SUPP_BE sm g SUPP_BE.RESPONSE)) := rfl
    _ = pae_view (SM_ENTRY_SUPP_BE sm g SUPP_BE.RESPONSE) := eapol_sm_txSuppRsp_view _
    _ = pae_view sm := SM_ENTRY_SUPP_BE_view _ _ _

theorem sm_SUPP_BE_SUCCESS_Enter_view (sm : eapol_sm) (g : Bool) :
    pae_view (sm_SUPP_BE_SUCCESS_Enter sm g) = pae_view sm := by
  unfold sm_SUPP_BE_SUCCESS_Enter
  dsimp only
  split_ifs <;> exact SM_ENTRY_SUPP_BE_view sm g SUPP_BE.SUCCESS

theorem sm_SUPP_BE_FAIL_Enter_view (sm : eapol_sm) (g : Bool) :
    pae_view (sm_SUPP_BE_FAIL_Enter sm g) = pae_view sm :=
  SM_ENTRY_SUPP_BE_view sm g SUPP_BE.FAIL

theorem sm_SUPP_BE_TIMEOUT_Enter_view (sm : eapol_sm) (g : Bool) :
    pae_view (sm_SUPP_BE_TIMEOUT_Enter sm g) = pae_view sm :=
  SM_ENTRY_SUPP_BE_view sm g SUPP_BE.TIMEOUT

theorem sm_SUPP_BE_IDLE_Enter_view (sm : eapol_sm) (g : Bool) :
    pae_view (sm_SUPP_BE_IDLE_Enter sm g) = pae_view sm :=
  SM_ENTRY_SUPP_BE_view sm g SUPP_BE.IDLE

theorem sm_SUPP_BE_INITIALIZE_Enter_view (env : Env) (sm : eapol_sm) (g : Bool) :
    pae_view (sm_SUPP_BE_INITIALIZE_Enter env sm g) = pae_view sm :=
  SM_ENTRY_SUPP_BE_view sm g SUPP_BE.INITIALIZE

theorem sm_SUPP_BE_RECEIVE_Enter_view (sm : eapol_sm) (g : Bool) :
    pae_view (sm_SUPP_BE_RECEIVE_Enter sm g) = pae_view sm :=
  SM_ENTRY_SUPP_BE_view sm g SUPP_BE.RECEIVE

theorem sm_SUPP_BE_Step_local_view (sm : eapol_sm) :
    pae_view (sm_SUPP_BE_Step_local sm) = pae_view sm := by
  unfold sm_SUPP_BE_Step_local
  split <;> (try split_ifs) <;>
    simp only [sm_SUPP_BE_REQUEST_Enter_view, sm_SUPP_BE_RESPONSE_Enter_view,
      sm_SUPP_BE_SUCCESS_Enter_view, sm_SUPP_BE_FAIL_Enter_view,
      sm_SUPP_BE_TIMEOUT_Enter_view, sm_SUPP_BE_IDLE_Enter_view,
      sm_SUPP_BE_RECEIVE_Enter_view]

theorem sm_SUPP_BE_Step_view (env : Env) (sm : eapol_sm) :
    pae_view (sm_SUPP_BE_Step env sm) = pae_view sm := by
  unfold sm_SUPP_BE_Step
  split_ifs
  · exact sm_SUPP_BE_INITIALIZE_Enter_view env sm true
  · exact sm_SUPP_BE_Step_local_view sm

theorem eap_sm_step_run_view (env : Env) (sm : eapol_sm) :
    pae_view (eap_sm_step_run env sm) = pae_view sm := by
  unfold eap_sm_step_run
  dsimp only
  split_ifs <;> rfl

theorem eapol_sm_step_view (env : Env) (sm : eapol_sm) :
    pae_view (eapol_sm_step env sm) =
      pae_view (sm_SUPP_PAE_Step env { sm with changed := false }) := by
  have h : pae_view (eapol_sm_step_machines env sm) =
      pae_view (sm_SUPP_PAE_Step env { sm with changed := false }) := by
    unfold eapol_sm_step_machines
    dsimp only
    rw [eap_sm_step_run_view, sm_SUPP_BE_Step_view, sm_KEY_RX_Step_view]
  rw [← h]
  unfold eapol_sm_step
  dsimp only
  split_ifs <;> rfl

/-! ## The PAE step on the PAE variables -/

theorem sm_SUPP_PAE_LOGOFF_Enter_view (sm : eapol_sm) (g : Bool) :
    pae_view (sm_SUPP_PAE_LOGOFF_Enter sm g) =
      { pae_view sm with
        SUPP_PAE_state := SUPP_PAE.LOGOFF, logoffSent := true
        suppPortStatus := PortStatus.Unauthorized
        dot1xSuppEapolLogoffFramesTx := sm.dot1xSuppEapolLogoffFramesTx + 1 } := by
  unfold sm_SUPP_PAE_LOGOFF_Enter SM_ENTRY_SUPP_PAE eapol_sm_txLogoff
  dsimp only
  split_ifs <;> rfl

theorem sm_SUPP_PAE_DISCONNECTED_Enter_view (sm : eapol_sm) (g : Bool) :
    pae_view (sm_SUPP_PAE_DISCONNECTED_Enter sm g) =
      { pae_view sm with
        SUPP_PAE_state := SUPP_PAE.DISCONNECTED, sPortMode := PortControl.Auto
        startCount := 0, logoffSent := false
        suppPortStatus := PortStatus.Unauthorized } := by
  unfold sm_SUPP_PAE_DISCONNECTED_Enter SM_ENTRY_SUPP_PAE
  dsimp only
  split_ifs <;> rfl

theorem sm_SUPP_PAE_CONNECTING_Enter_view (sm : eapol_sm) (g : Bool) :
    pae_view (sm_SUPP_PAE_CONNECTING_Enter sm g) =
      { pae_view sm with
        SUPP_PAE_state := SUPP_PAE.CONNECTING, startWhen := sm.startPeriod
        startCount := sm.startCount + 1
        dot1xSuppEapolStartFramesTx := sm.dot1xSuppEapolStartFramesTx + 1 } := by
  unfold sm_SUPP_PAE_CONNECTING_Enter SM_ENTRY_SUPP_PAE eapol_sm_txStart
  dsimp only
  split_ifs <;> rfl

theorem sm_SUPP_PAE_AUTHENTICATING_Enter_view (sm : eapol_sm) (g : Bool) :
    pae_view (sm_SUPP_PAE_AUTHENTICATING_Enter sm g) =
      { pae_view sm with SUPP_PAE_state := SUPP_PAE.AUTHENTICATING, startCount := 0 } := by
  unfold sm_SUPP_PAE_AUTHENTICATING_Enter SM_ENTRY_SUPP_PAE
  dsimp only
  split_ifs <;> rfl

theorem sm_SUPP_PAE_HELD_Enter_view (sm : eapol_sm) (g : Bool) :
    pae_view (sm_SUPP_PAE_HELD_Enter sm g) =
      { pae_view sm with
        SUPP_PAE_state := SUPP_PAE.HELD, heldWhile := sm.heldPeriod
        suppPortStatus := PortStatus.Unauthorized } := by
  unfold sm_SUPP_PAE_HELD_Enter SM_ENTRY_SUPP_PAE
  dsimp only
  split_ifs <;> rfl

theorem sm_SUPP_PAE_AUTHENTICATED_Enter_view (sm : eapol_sm) (g : Bool) :
    pae_view (sm_SUPP_PAE_AUTHENTICATED_Enter sm g) =
      { pae_view sm with
        SUPP_PAE_state := SUPP_PAE.AUTHENTICATED
        suppPortStatus := PortStatus.Authorized } := by
  unfold sm_SUPP_PAE_AUTHENTICATED_Enter SM_ENTRY_SUPP_PAE
  dsimp only
  split_ifs <;> rfl

theorem sm_SUPP_PAE_RESTART_Enter_view (sm : eapol_sm) (g : Bool) :
    pae_view (sm_SUPP_PAE_RESTART_Enter sm g) =
      { pae_view sm with SUPP_PAE_state := SUPP_PAE.RESTART } := by
  unfold sm_SUPP_PAE_RESTART_Enter SM_ENTRY_SUPP_PAE
  dsimp only
  split_ifs <;> rfl

theorem sm_SUPP_PAE_S_FORCE_AUTH_Enter_view (sm : eapol_sm) (g : Bool) :
    pae_view (sm_SUPP_PAE_S_FORCE_AUTH_Enter sm g) =
      { pae_view sm with
        SUPP_PAE_state := SUPP_PAE.S_FORCE_AUTH
        suppPortStatus := PortStatus.Authorized
        sPortMode := PortControl.ForceAuthorized } := by
  unfold sm_SUPP_PAE_S_FORCE_AUTH_Enter SM_ENTRY_SUPP_PAE
  dsimp only
  split_ifs <;> rfl

theorem sm_SUPP_PAE_S_FORCE_UNAUTH_Enter_view (sm : eapol_sm) (g : Bool) :
    pae_view (sm_SUPP_PAE_S_FORCE_UNAUTH_Enter sm g) =
      { pae_view sm with
        SUPP_PAE_state := SUPP_PAE.S_FORCE_UNAUTH
        suppPortStatus := PortStatus.Unauthorized
        sPortMode := PortControl.ForceUnauthorized
        dot1xSuppEapolLogoffFramesTx := sm.dot1xSuppEapolLogoffFramesTx + 1 } := by
  unfold sm_SUPP_PAE_S_FORCE_UNAUTH_Enter SM_ENTRY_SUPP_PAE eapol_sm_txLogoff
  dsimp only
  split_ifs <;> rfl

theorem SUPP_PAE_plaintext_view (env : Env) (sm : eapol_sm) :
    pae_view (SUPP_PAE_plaintext env sm) = pae_view sm := by
  unfold SUPP_PAE_plaintext
  dsimp only
  split_ifs <;> rfl

theorem same_inputs_refl (v : pae_vars) : same_inputs v v :=
  ⟨rfl, rfl, rfl, rfl, rfl, rfl, rfl, rfl, rfl⟩

theorem same_inputs_trans {u v w : pae_vars} (h1 : same_inputs u v) (h2 : same_inputs v w) :
    same_inputs u w := by
  unfold same_inputs at *
  obtain ⟨a1, a2, a3, a4, a5, a6, a7, a8, a9⟩ := h1
  obtain ⟨b1, b2, b3, b4, b5, b6, b7, b8, b9⟩ := h2
  exact ⟨a1.trans b1, a2.trans b2, a3.trans b3, a4.trans b4, a5.trans b5, a6.trans b6,
    a7.trans b7, a8.trans b8, a9.trans b9⟩

theorem same_inputs_of_eq {v w : pae_vars} (h : v = w) : same_inputs v w :=
  h ▸ same_inputs_refl v

theorem sm_SUPP_PAE_Step_local_inputs (env : Env) (sm : eapol_sm) :
    same_inputs (pae_view (sm_SUPP_PAE_Step_local env sm)) (pae_view sm) := by
  have hp : same_inputs (pae_view (SUPP_PAE_plaintext env sm)) (pae_view sm) :=
    same_inputs_of_eq (SUPP_PAE_plaintext_view env sm)
  unfold sm_SUPP_PAE_Step_local
  split <;> (try dsimp only) <;> (try split_ifs) <;>
    (try simp only [sm_SUPP_PAE_LOGOFF_Enter_view, sm_SUPP_PAE_DISCONNECTED_Enter_view,
      sm_SUPP_PAE_CONNECTING_Enter_view, sm_SUPP_PAE_AUTHENTICATING_Enter_view,
      sm_SUPP_PAE_HELD_Enter_view, sm_SUPP_PAE_AUTHENTICATED_Enter_view,
      sm_SUPP_PAE_RESTART_Enter_view]) <;>
    first
      | exact ⟨rfl, rfl, rfl, rfl, rfl, rfl, rfl, rfl, rfl⟩
      | exact hp

theorem sm_SUPP_PAE_Step_inputs (env : Env) (sm : eapol_sm) :
    same_inputs (pae_view (sm_SUPP_PAE_Step env sm)) (pae_view sm) := by
  unfold sm_SUPP_PAE_Step
  split_ifs
  · rw [sm_SUPP_PAE_LOGOFF_Enter_view]; exact ⟨rfl, rfl, rfl, rfl, rfl, rfl, rfl, rfl, rfl⟩
  · rw [sm_SUPP_PAE_DISCONNECTED_Enter_view]; exact ⟨rfl, rfl, rfl, rfl, rfl, rfl, rfl, rfl, rfl⟩
  · rw [sm_SUPP_PAE_S_FORCE_AUTH_Enter_view]; exact ⟨rfl, rfl, rfl, rfl, rfl, rfl, rfl, rfl, rfl⟩
  · rw [sm_SUPP_PAE_S_FORCE_UNAUTH_Enter_view]
    exact ⟨rfl, rfl, rfl, rfl, rfl, rfl, rfl, rfl, rfl⟩
  · exact sm_SUPP_PAE_Step_local_inputs env sm

theorem eapol_sm_step_inputs (env : Env) (sm : eapol_sm) :
    same_inputs (pae_view (eapol_sm_step env sm)) (pae_view sm) := by
  rw [eapol_sm_step_view]
  exact sm_SUPP_PAE_Step_inputs env _

/-! ## Port status and PAE state -/

theorem port_ok_of_eq {v : pae_vars} {s : SUPP_PAE} {p : PortStatus}
    (hs : v.SUPP_PAE_state = s) (hp : v.suppPortStatus = p)
    (hc : ((s = SUPP_PAE.AUTHENTICATED ∨ s = SUPP_PAE.S_FORCE_AUTH) → p = PortStatus.Authorized) ∧
      (p = PortStatus.Authorized →
        (s = SUPP_PAE.AUTHENTICATED ∨ s = SUPP_PAE.S_FORCE_AUTH ∨ s = SUPP_PAE.RESTART ∨
         s = SUPP_PAE.AUTHENTICATING ∨ s = SUPP_PAE.CONNECTING))) : port_ok v := by
  unfold port_ok
  rw [hs, hp]
  exact hc

theorem sm_SUPP_PAE_Step_local_port_ok (env : Env) (sm : eapol_sm)
    (h : port_ok (pae_view sm)) : port_ok (pae_view (sm_SUPP_PAE_Step_local env sm)) := by
  have hp : pae_view (SUPP_PAE_plaintext env sm) = pae_view sm := SUPP_PAE_plaintext_view env sm
  unfold sm_SUPP_PAE_Step_local
  split <;> (try dsimp only) <;> (try split_ifs) <;>
    (try simp only [sm_SUPP_PAE_LOGOFF_Enter_view, sm_SUPP_PAE_DISCONNECTED_Enter_view,
      sm_SUPP_PAE_CONNECTING_Enter_view, sm_SUPP_PAE_AUTHENTICATING_Enter_view,
      sm_SUPP_PAE_HELD_Enter_view, sm_SUPP_PAE_AUTHENTICATED_Enter_view,
      sm_SUPP_PAE_RESTART_Enter_view, hp]) <;>
    first
      | exact h
      | (unfold port_ok pae_view at *; simp_all)

theorem sm_SUPP_PAE_Step_port_ok (env : Env) (sm : eapol_sm)
    (h : port_ok (pae_view sm)) : port_ok (pae_view (sm_SUPP_PAE_Step env sm)) := by
  unfold sm_SUPP_PAE_Step
  split_ifs
  · rw [sm_SUPP_PAE_LOGOFF_Enter_view]
    exact port_ok_of_eq (s := SUPP_PAE.LOGOFF) (p := PortStatus.Unauthorized) rfl rfl (by decide)
  · rw [sm_SUPP_PAE_DISCONNECTED_Enter_view]
    exact port_ok_of_eq (s := SUPP_PAE.DISCONNECTED) (p := PortStatus.Unauthorized) rfl rfl
      (by decide)
  · rw [sm_SUPP_PAE_S_FORCE_AUTH_Enter_view]
    exact port_ok_of_eq (s := SUPP_PAE.S_FORCE_AUTH) (p := PortStatus.Authorized) rfl rfl
      (by decide)
  · rw [sm_SUPP_PAE_S_FORCE_UNAUTH_Enter_view]
    exact port_ok_of_eq (s := SUPP_PAE.S_FORCE_UNAUTH) (p := PortStatus.Unauthorized) rfl rfl
      (by decide)
  · exact sm_SUPP_PAE_Step_local_port_ok env sm h

theorem eapol_sm_step_port_ok (env : Env) (sm : eapol_sm)
    (h : port_ok (pae_view sm)) : port_ok (pae_view (eapol_sm_step env sm)) := by
  rw [eapol_sm_step_view]
  exact sm_SUPP_PAE_Step_port_ok env _ h

theorem eapol_port_timers_tick_port_ok (env : Env) (sm : eapol_sm)
    (h : port_ok (pae_view sm)) : port_ok (pae_view (eapol_port_timers_tick env sm)) := by
  unfold eapol_port_timers_tick
  dsimp only
  apply eapol_sm_step_port_ok
  split_ifs <;> exact h

/-- What `eapol_sm_rx_eapol` does to the PAE variables and the transmit
counters: it leaves the counters alone and the PAE variables as they are or as
`eapol_sm_abort_cached` sets them, and then possibly runs one `eapol_sm_step`. -/
theorem eapol_sm_rx_eapol_cases (env : Env) (sm : eapol_sm) (src buf : List Nat)
    (alloc : Bool) :
    ∃ s, (eapol_sm_rx_eapol env sm src buf alloc = s ∨
          eapol_sm_rx_eapol env sm src buf alloc = eapol_sm_step env s) ∧
      (pae_view s = pae_view sm ∨ pae_view s = pae_view (eapol_sm_abort_cached sm)) ∧
      tx_view s = tx_view sm := by
  unfold eapol_sm_rx_eapol
  dsimp only
  by_cases c1 : buf.length < sizeof_hdr
  · rw [if_pos c1]; exact ⟨_, Or.inl rfl, Or.inl rfl, rfl⟩
  rw [if_neg c1]
  by_cases c2 : hdr_length buf > buf.length - sizeof_hdr
  · rw [if_pos c2]; exact ⟨_, Or.inl rfl, Or.inl rfl, rfl⟩
  rw [if_neg c2]
  by_cases c3 : hdr_type buf = IEEE802_1X_TYPE_EAP_PACKET
  · rw [if_pos c3]
    by_cases c4 : alloc = true
    · rw [if_pos c4]
      by_cases c5 : sm.cached_pmk = true
      · rw [if_pos c5]; exact ⟨_, Or.inr rfl, Or.inr rfl, rfl⟩
      · rw [if_neg c5]; exact ⟨_, Or.inr rfl, Or.inl rfl, rfl⟩
    · rw [if_neg c4]
      by_cases c5 : sm.cached_pmk = true
      · rw [if_pos c5]; exact ⟨_, Or.inl rfl, Or.inr rfl, rfl⟩
      · rw [if_neg c5]; exact ⟨_, Or.inl rfl, Or.inl rfl, rfl⟩
  rw [if_neg c3]
  by_cases c6 : hdr_type buf = IEEE802_1X_TYPE_EAPOL_KEY
  · rw [if_pos c6]
    by_cases c7 : hdr_length buf < sizeof_key
    · rw [if_pos c7]; exact ⟨_, Or.inl rfl, Or.inl rfl, rfl⟩
    rw [if_neg c7]
    by_cases c8 : key_type buf = EAPOL_KEY_TYPE_WPA ∨ key_type buf = EAPOL_KEY_TYPE_RSN
    · rw [if_pos c8]; exact ⟨_, Or.inl rfl, Or.inl rfl, rfl⟩
    rw [if_neg c8]
    by_cases c9 : key_type buf ≠ EAPOL_KEY_TYPE_RC4
    · rw [if_pos c9]; exact ⟨_, Or.inl rfl, Or.inl rfl, rfl⟩
    rw [if_neg c9]
    by_cases c4 : alloc = true
    · rw [if_pos c4]; exact ⟨_, Or.inr rfl, Or.inl rfl, rfl⟩
    · rw [if_neg c4]; exact ⟨_, Or.inl rfl, Or.inl rfl, rfl⟩
  · rw [if_neg c6]; exact ⟨_, Or.inl rfl, Or.inl rfl, rfl⟩

theorem eapol_sm_rx_eapol_port_ok (env : Env) (sm : eapol_sm) (src buf : List Nat)
    (alloc : Bool) (h : port_ok (pae_view sm)) :
    port_ok (pae_view (eapol_sm_rx_eapol env sm src buf alloc)) := by
  have hc : port_ok (pae_view (eapol_sm_abort_cached sm)) :=
    port_ok_of_eq (s := SUPP_PAE.CONNECTING) (p := PortStatus.Unauthorized) rfl rfl (by decide)
  obtain ⟨s, e, e2, _⟩ := eapol_sm_rx_eapol_cases env sm src buf alloc
  have hs : port_ok (pae_view s) := by
    rcases e2 with e2 | e2 <;> rw [e2]
    · exact h
    · exact hc
  rcases e with e | e <;> rw [e]
  · exact hs
  · exact eapol_sm_step_port_ok env s hs

theorem deliver_port_ok (env : Env) (sm : eapol_sm) (ev : Event)
    (h : port_ok (pae_view sm)) : port_ok (pae_view (deliver env sm ev)) := by
  cases ev with
  | tick => exact eapol_port_timers_tick_port_ok env sm h
  | step => exact eapol_sm_step_port_ok env sm h
  | step_timeout =>
    show port_ok (pae_view (if sm.step_timeout = true then eapol_sm_step_timeout env sm else sm))
    split_ifs
    · exact eapol_sm_step_port_ok env _ h
    · exact h
  | rx_eapol src buf alloc => exact eapol_sm_rx_eapol_port_ok env sm src buf alloc h
  | configure a b c d =>
    show port_ok (pae_view (eapol_sm_configure sm a b c d))
    unfold eapol_sm_configure
    dsimp only
    split_ifs <;> exact h
  | notify_portEnabled b => exact eapol_sm_step_port_ok env _ h
  | notify_portValid b => exact eapol_sm_step_port_ok env _ h
  | notify_eap_success b =>
    show port_ok (pae_view (eapol_sm_notify_eap_success env sm b))
    unfold eapol_sm_notify_eap_success
    dsimp only
    apply eapol_sm_step_port_ok
    split_ifs <;> exact h
  | notify_eap_fail b => exact eapol_sm_step_port_ok env _ h
  | notify_config c =>
    cases c with
    | none => exact h
    | some c => exact h
  | notify_logoff b => exact eapol_sm_step_port_ok env _ h
  | notify_cached =>
    exact port_ok_of_eq (s := SUPP_PAE.AUTHENTICATED) (p := PortStatus.Authorized) rfl rfl
      (by decide)
  | notify_pmkid_attempt => exact h
  | notify_portControl pc => exact eapol_sm_step_port_ok env _ h
  | notify_ctrl_attached => exact h
  | notify_ctrl_response =>
    show port_ok (pae_view (eapol_sm_notify_ctrl_response env sm))
    unfold eapol_sm_notify_ctrl_response
    split_ifs
    · exact eapol_sm_step_port_ok env _ h
    · exact h

theorem run_port_ok (env : Env) (evs : List Event) :
    ∀ sm : eapol_sm, port_ok (pae_view sm) → port_ok (pae_view (run env sm evs)) := by
  induction evs with
  | nil => intro sm h; exact h
  | cons ev evs ih =>
    intro sm h
    exact ih (deliver env sm ev) (deliver_port_ok env sm ev h)

theorem eapol_sm_init_port_ok (env : Env) (sm0 : eapol_sm)
    (h : eapol_sm_init env = some sm0) : port_ok (pae_view sm0) := by
  unfold eapol_sm_init at h
  split at h
  · exact absurd h (by simp)
  · dsimp only at h
    injection h with h
    rw [← h]
    apply eapol_sm_step_port_ok
    have h1 := eapol_sm_step_port_ok env
      { eapol_sm_zero ‹eap_sm› with
        portControl := PortControl.Auto, heldPeriod := 60, startPeriod := 30, maxStart := 3
        authPeriod := 30, initialize_ := true }
      (port_ok_of_eq (s := SUPP_PAE.UNKNOWN) (p := PortStatus.Unauthorized) rfl rfl (by decide))
    exact h1

/-! ## Transmit counters -/

theorem eapol_sm_txLogoff_tx (sm : eapol_sm) (h : tx_ok (tx_view sm)) :
    tx_ok (tx_view (eapol_sm_txLogoff sm)) := by
  unfold tx_ok tx_view eapol_sm_txLogoff at *
  dsimp only at *
  omega

theorem eapol_sm_txStart_tx (sm : eapol_sm) (h : tx_ok (tx_view sm)) :
    tx_ok (tx_view (eapol_sm_txStart sm)) := by
  unfold tx_ok tx_view eapol_sm_txStart at *
  dsimp only at *
  omega

theorem eapol_sm_txSuppRsp_tx (sm : eapol_sm) (h : tx_ok (tx_view sm)) :
    tx_ok (tx_view (eapol_sm_txSuppRsp sm)) := by
  unfold eapol_sm_txSuppRsp
  split
  · exact h
  · unfold tx_ok tx_view at *
    dsimp only at *
    split_ifs <;> (dsimp only; omega)

theorem SM_ENTRY_SUPP_PAE_tx (sm : eapol_sm) (g : Bool) (st : SUPP_PAE) :
    tx_view (SM_ENTRY_SUPP_PAE sm g st) = tx_view sm := by
  unfold SM_ENTRY_SUPP_PAE
  dsimp only
  split_ifs <;> rfl

theorem SM_ENTRY_KEY_RX_tx (sm : eapol_sm) (g : Bool) (st : KEY_RX) :
    tx_view (SM_ENTRY_KEY_RX sm g st) = tx_view sm := by
  unfold SM_ENTRY_KEY_RX
  dsimp only
  split_ifs <;> rfl

theorem SM_ENTRY_SUPP_BE_tx (sm : eapol_sm) (g : Bool) (st : SUPP_BE) :
    tx_view (SM_ENTRY_SUPP_BE sm g st) = tx_view sm := by
  unfold SM_ENTRY_SUPP_BE
  dsimp only
  split_ifs <;> rfl

theorem sm_SUPP_PAE_LOGOFF_Enter_tx (sm : eapol_sm) (g : Bool) (h : tx_ok (tx_view sm)) :
    tx_ok (tx_view (sm_SUPP_PAE_LOGOFF_Enter sm g)) := by
  have h1 : tx_ok (tx_view (SM_ENTRY_SUPP_PAE sm g SUPP_PAE.LOGOFF)) := by
    rw [SM_ENTRY_SUPP_PAE_tx]; exact h
  exact eapol_sm_txLogoff_tx _ h1

theorem sm_SUPP_PAE_DISCONNECTED_Enter_tx (sm : eapol_sm) (g : Bool) :
    tx_view (sm_SUPP_PAE_DISCONNECTED_Enter sm g) = tx_view sm :=
  SM_ENTRY_SUPP_PAE_tx sm g _

theorem sm_SUPP_PAE_CONNECTING_Enter_tx (sm : eapol_sm) (g : Bool) (h : tx_ok (tx_view sm)) :
    tx_ok (tx_view (sm_SUPP_PAE_CONNECTING_Enter sm g)) := by
  have h1 : tx_ok (tx_view (SM_ENTRY_SUPP_PAE sm g SUPP_PAE.CONNECTING)) := by
    rw [SM_ENTRY_SUPP_PAE_tx]; exact h
  exact eapol_sm_txStart_tx _ h1

theorem sm_SUPP_PAE_AUTHENTICATING_Enter_tx (sm : eapol_sm) (g : Bool) :
    tx_view (sm_SUPP_PAE_AUTHENTICATING_Enter sm g) = tx_view sm :=
  SM_ENTRY_SUPP_PAE_tx sm g _

theorem sm_SUPP_PAE_HELD_Enter_tx (sm : eapol_sm) (g : Bool) :
    tx_view (sm_SUPP_PAE_HELD_Enter sm g) = tx_view sm :=
  SM_ENTRY_SUPP_PAE_tx sm g _

theorem sm_SUPP_PAE_AUTHENTICATED_Enter_tx (sm : eapol_sm) (g : Bool) :
    tx_view (sm_SUPP_PAE_AUTHENTICATED_Enter sm g) = tx_view sm :=
  SM_ENTRY_SUPP_PAE_tx sm g _

theorem sm_SUPP_PAE_RESTART_Enter_tx (sm : eapol_sm) (g : Bool) :
    tx_view (sm_SUPP_PAE_RESTART_Enter sm g) = tx_view sm :=
  SM_ENTRY_SUPP_PAE_tx sm g _

theorem sm_SUPP_PAE_S_FORCE_AUTH_Enter_tx (sm : eapol_sm) (g : Bool) :
    tx_view (sm_SUPP_PAE_S_FORCE_AUTH_Enter sm g) = tx_view sm :=
  SM_ENTRY_SUPP_PAE_tx sm g _

theorem sm_SUPP_PAE_S_FORCE_UNAUTH_Enter_tx (sm : eapol_sm) (g : Bool)
    (h : tx_ok (tx_view sm)) : tx_ok (tx_view (sm_SUPP_PAE_S_FORCE_UNAUTH_Enter sm g)) := by
  have h1 : tx_ok (tx_view (SM_ENTRY_SUPP_PAE sm g SUPP_PAE.S_FORCE_UNAUTH)) := by
    rw [SM_ENTRY_SUPP_PAE_tx]; exact h
  exact eapol_sm_txLogoff_tx _ h1

theorem SUPP_PAE_plaintext_tx (env : Env) (sm : eapol_sm) :
    tx_view (SUPP_PAE_plaintext env sm) = tx_view sm := by
  unfold SUPP_PAE_plaintext
  dsimp only
  split_ifs <;> rfl

theorem sm_SUPP_PAE_Step_local_tx (env : Env) (sm : eapol_sm) (h : tx_ok (tx_view sm)) :
    tx_ok (tx_view (sm_SUPP_PAE_Step_local env sm)) := by
  have hp : tx_ok (tx_view (SUPP_PAE_plaintext env sm)) := by
    rw [SUPP_PAE_plaintext_tx]; exact h
  unfold sm_SUPP_PAE_Step_local
  split <;> (try dsimp only) <;> (try split_ifs) <;>
    (try simp only [sm_SUPP_PAE_DISCONNECTED_Enter_tx, sm_SUPP_PAE_AUTHENTICATING_Enter_tx,
      sm_SUPP_PAE_HELD_Enter_tx, sm_SUPP_PAE_AUTHENTICATED_Enter_tx,
      sm_SUPP_PAE_RESTART_Enter_tx]) <;>
    first
      | exact h
      | exact hp
      | exact sm_SUPP_PAE_CONNECTING_Enter_tx _ _ h
      | exact sm_SUPP_PAE_CONNECTING_Enter_tx _ _ hp

theorem sm_SUPP_PAE_Step_tx (env : Env) (sm : eapol_sm) (h : tx_ok (tx_view sm)) :
    tx_ok (tx_view (sm_SUPP_PAE_Step env sm)) := by
  unfold sm_SUPP_PAE_Step
  split_ifs
  · exact sm_SUPP_PAE_LOGOFF_Enter_tx sm true h
  · rw [sm_SUPP_PAE_DISCONNECTED_Enter_tx]; exact h
  · rw [sm_SUPP_PAE_S_FORCE_AUTH_Enter_tx]; exact h
  · exact sm_SUPP_PAE_S_FORCE_UNAUTH_Enter_tx sm true h
  · exact sm_SUPP_PAE_Step_local_tx env sm h

theorem processKey_received_tx (env : Env) (sm : eapol_sm) (u : Nat) :
    tx_view (processKey_received env sm u) = tx_view sm := by
  unfold processKey_received
  dsimp only
  split_ifs <;> rfl

theorem processKey_install_tx (env : Env) (sm : eapol_sm) (buf dk : List Nat) :
    tx_view (processKey_install env sm buf dk) = tx_view sm := by
  unfold processKey_install
  dsimp only
  split
  · split_ifs
    · rfl
    · rw [processKey_received_tx]; rfl
  · rw [processKey_received_tx]; rfl

theorem processKey_tx (env : Env) (sm : eapol_sm) :
    tx_view (eapol_sm_processKey env sm) = tx_view sm := by
  unfold eapol_sm_processKey eapol_sm_processKey_aux
  dsimp only
  repeat' split
  all_goals first
    | rfl
    | (rw [processKey_install_tx]; rfl)

theorem sm_KEY_RX_KEY_RECEIVE_Enter_tx (env : Env) (sm : eapol_sm) (g : Bool) :
    tx_view (sm_KEY_RX_KEY_RECEIVE_Enter env sm g) = tx_view sm :=
  calc tx_view (sm_KEY_RX_KEY_RECEIVE_Enter env sm g)
      = tx_view (eapol_sm_processKey env (SM_ENTRY_KEY_RX sm g KEY_RX.KEY_RECEIVE)) := rfl
    _ = tx_view (SM_ENTRY_KEY_RX sm g KEY_RX.KEY_RECEIVE) := processKey_tx env _
    _ = tx_view sm := SM_ENTRY_KEY_RX_tx sm g _

theorem sm_KEY_RX_Step_local_tx (env : Env) (sm : eapol_sm) :
    tx_view (sm_KEY_RX_Step_local env sm) = tx_view sm := by
  unfold sm_KEY_RX_Step_local
  split
  · rfl
  · split_ifs
    · exact sm_KEY_RX_KEY_RECEIVE_Enter_tx env sm false
    · rfl
  · split_ifs
    · exact sm_KEY_RX_KEY_RECEIVE_Enter_tx env sm false
    · rfl

theorem sm_KEY_RX_Step_tx (env : Env) (sm : eapol_sm) :
    tx_view (sm_KEY_RX_Step env sm) = tx_view sm := by
  unfold sm_KEY_RX_Step
  dsimp only
  rw [sm_KEY_RX_Step_local_tx]
  split_ifs
  · exact SM_ENTRY_KEY_RX_tx sm true _
  · rfl

theorem sm_SUPP_BE_RESPONSE_Enter_tx (sm : eapol_sm) (g : Bool) (h : tx_ok (tx_view sm)) :
    tx_ok (tx_view (sm_SUPP_BE_RESPONSE_Enter sm g)) := by
  have h1 : tx_ok (tx_view (SM_ENTRY_SUPP_BE sm g SUPP_BE.RESPONSE)) := by
    rw [SM_ENTRY_SUPP_BE_tx]; exact h
  exact eapol_sm_txSuppRsp_tx _ h1

theorem sm_SUPP_BE_SUCCESS_Enter_tx (sm : eapol_sm) (g : Bool) :
    tx_view (sm_SUPP_BE_SUCCESS_Enter sm g) = tx_view sm := by
  unfold sm_SUPP_BE_SUCCESS_Enter
  dsimp only
  split_ifs <;> exact SM_ENTRY_SUPP_BE_tx sm g SUPP_BE.SUCCESS

theorem sm_SUPP_BE_Step_local_tx (sm : eapol_sm) (h : tx_ok (tx_view sm)) :
    tx_ok (tx_view (sm_SUPP_BE_Step_local sm)) := by
  have e1 : ∀ g, tx_view (sm_SUPP_BE_REQUEST_Enter sm g) = tx_view sm :=
    fun g => SM_ENTRY_SUPP_BE_tx sm g _
  have e2 : ∀ g, tx_view (sm_SUPP_BE_FAIL_Enter sm g) = tx_view sm :=
    fun g => SM_ENTRY_SUPP_BE_tx sm g _
  have e3 : ∀ g, tx_view (sm_SUPP_BE_TIMEOUT_Enter sm g) = tx_view sm :=
    fun g => SM_ENTRY_SUPP_BE_tx sm g _
  have e4 : ∀ g, tx_view (sm_SUPP_BE_IDLE_Enter sm g) = tx_view sm :=
    fun g => SM_ENTRY_SUPP_BE_tx sm g _
  have e5 : ∀ g, tx_view (sm_SUPP_BE_RECEIVE_Enter sm g) = tx_view sm :=
    fun g => SM_ENTRY_SUPP_BE_tx sm g _
  unfold sm_SUPP_BE_Step_local
  split <;> (try split_ifs) <;>
    (try simp only [e1, e2, e3, e4, e5, sm_SUPP_BE_SUCCESS_Enter_tx]) <;>
    first
      | exact h
      | exact sm_SUPP_BE_RESPONSE_Enter_tx _ _ h

theorem sm_SUPP_BE_Step_tx (env : Env) (sm : eapol_sm) (h : tx_ok (tx_view sm)) :
    tx_ok (tx_view (sm_SUPP_BE_Step env sm)) := by
  unfold sm_SUPP_BE_Step
  split_ifs
  · have e : tx_view (sm_SUPP_BE_INITIALIZE_Enter env sm true) = tx_view sm :=
      SM_ENTRY_SUPP_BE_tx sm true _
    rw [e]; exact h
  · exact sm_SUPP_BE_Step_local_tx sm h

theorem eap_sm_step_run_tx (env : Env) (sm : eapol_sm) :
    tx_view (eap_sm_step_run env sm) = tx_view sm := by
  unfold eap_sm_step_run
  dsimp only
  split_ifs <;> rfl

theorem eapol_sm_step_tx (env : Env) (sm : eapol_sm) (h : tx_ok (tx_view sm)) :
    tx_ok (tx_view (eapol_sm_step env sm)) := by
  have h1 : tx_ok (tx_view (eapol_sm_step_machines env sm)) := by
    unfold eapol_sm_step_machines
    dsimp only
    rw [eap_sm_step_run_tx]
    apply sm_SUPP_BE_Step_tx
    rw [sm_KEY_RX_Step_tx]
    exact sm_SUPP_PAE_Step_tx env _ h
  have e : tx_view (eapol_sm_step env sm) = tx_view (eapol_sm_step_machines env sm) := by
    unfold eapol_sm_step
    dsimp only
    split_ifs <;> rfl
  rw [e]; exact h1

/-! ## Frames handed to `eapol_send` -/

theorem sent_append (t : Nat) (sm : eapol_sm) (c : host_call)
    (hc : c ≠ host_call.eapol_send t []) :
    sent t { sm with calls := sm.calls ++ [c] } = sent t sm := by
  unfold sent
  dsimp only
  rw [List.count_append, List.count_singleton]
  have : (c == host_call.eapol_send t []) = false := by
    rw [beq_eq_false_iff_ne]; exact hc
  rw [if_neg (by rw [this]; exact Bool.false_ne_true)]
  rfl

theorem processKey_received_sent (env : Env) (sm : eapol_sm) (u t : Nat) :
    sent t (processKey_received env sm u) = sent t sm := by
  have key : ∀ s : eapol_sm, sent t { s with calls := s.calls ++ [host_call.eapol_done_cb] } =
      sent t s := fun s => sent_append t s _ (by intro h; cases h)
  unfold processKey_received
  dsimp only
  split_ifs
  · exact key { sm with unicast_key_received := true, portValid := true }
  · rfl
  · rfl
  · exact key { sm with broadcast_key_received := true, portValid := true }
  · rfl
  · rfl

theorem processKey_install_sent (env : Env) (sm : eapol_sm) (buf dk : List Nat) (t : Nat) :
    sent t (processKey_install env sm buf dk) = sent t sm := by
  have key : ∀ (s : eapol_sm) (a b : Nat) (k : List Nat),
      sent t { s with calls := s.calls ++ [host_call.set_wep_key a b k] } = sent t s :=
    fun s a b k => sent_append t s _ (by intro h; cases h)
  unfold processKey_install
  dsimp only
  split
  · split_ifs
    · exact key { sm with replay_counter_valid := true,
                          last_replay_counter := key_replay_counter buf } _ _ _
    · rw [processKey_received_sent]
      exact key { sm with replay_counter_valid := true,
                          last_replay_counter := key_replay_counter buf } _ _ _
  · rw [processKey_received_sent]; rfl

theorem processKey_sent (env : Env) (sm : eapol_sm) (t : Nat) :
    sent t (eapol_sm_processKey env sm) = sent t sm := by
  unfold eapol_sm_processKey eapol_sm_processKey_aux
  dsimp only
  repeat' split
  all_goals first
    | rfl
    | (rw [processKey_install_sent]; rfl)

theorem SM_ENTRY_KEY_RX_sent (sm : eapol_sm) (g : Bool) (st : KEY_RX) (t : Nat) :
    sent t (SM_ENTRY_KEY_RX sm g st) = sent t sm := by
  unfold SM_ENTRY_KEY_RX
  dsimp only
  split_ifs <;> rfl

theorem sm_KEY_RX_KEY_RECEIVE_Enter_sent (env : Env) (sm : eapol_sm) (g : Bool) (t : Nat) :
    sent t (sm_KEY_RX_KEY_RECEIVE_Enter env sm g) = sent t sm :=
  calc sent t (sm_KEY_RX_KEY_RECEIVE_Enter env sm g)
      = sent t (eapol_sm_processKey env (SM_ENTRY_KEY_RX sm g KEY_RX.KEY_RECEIVE)) := rfl
    _ = sent t (SM_ENTRY_KEY_RX sm g KEY_RX.KEY_RECEIVE) := processKey_sent env _ t
    _ = sent t sm := SM_ENTRY_KEY_RX_sent sm g _ t

theorem sm_KEY_RX_Step_sent (env : Env) (sm : eapol_sm) (t : Nat) :
    sent t (sm_KEY_RX_Step env sm) = sent t sm := by
  have hl : ∀ s : eapol_sm, sent t (sm_KEY_RX_Step_local env s) = sent t s := by
    intro s
    unfold sm_KEY_RX_Step_local
    split
    · rfl
    · split_ifs
      · exact sm_KEY_RX_KEY_RECEIVE_Enter_sent env s false t
      · rfl
    · split_ifs
      · exact sm_KEY_RX_KEY_RECEIVE_Enter_sent env s false t
      · rfl
  unfold sm_KEY_RX_Step
  dsimp only
  rw [hl]
  split_ifs
  · exact SM_ENTRY_KEY_RX_sent sm true _ t
  · rfl

theorem SM_ENTRY_SUPP_BE_sent (sm : eapol_sm) (g : Bool) (st : SUPP_BE) (t : Nat) :
    sent t (SM_ENTRY_SUPP_BE sm g st) = sent t sm := by
  unfold SM_ENTRY_SUPP_BE
  dsimp only
  split_ifs <;> rfl

theorem eapol_sm_txSuppRsp_sent (sm : eapol_sm) (t : Nat)
    (ht : t ≠ IEEE802_1X_TYPE_EAP_PACKET) :
    sent t (eapol_sm_txSuppRsp sm) = sent t sm := by
  have key : ∀ (s : eapol_sm) (r : List Nat),
      sent t { s with calls := s.calls ++ [host_call.eapol_send IEEE802_1X_TYPE_EAP_PACKET r] } =
        sent t s :=
    fun s r => sent_append t s _ (by intro h; injection h with h1 h2; exact ht h1.symm)
  unfold eapol_sm_txSuppRsp
  split
  · rfl
  · dsimp only
    split_ifs
    · exact key sm _
    · exact key sm _

theorem sm_SUPP_BE_Step_sent (env : Env) (sm : eapol_sm) (t : Nat)
    (ht : t ≠ IEEE802_1X_TYPE_EAP_PACKET) :
    sent t (sm_SUPP_BE_Step env sm) = sent t sm := by
  have e1 : ∀ g, sent t (sm_SUPP_BE_REQUEST_Enter sm g) = sent t sm :=
    fun g => SM_ENTRY_SUPP_BE_sent sm g _ t
  have e2 : ∀ g, sent t (sm_SUPP_BE_FAIL_Enter sm g) = sent t sm :=
    fun g => SM_ENTRY_SUPP_BE_sent sm g _ t
  have e3 : ∀ g, sent t (sm_SUPP_BE_TIMEOUT_Enter sm g) = sent t sm :=
    fun g => SM_ENTRY_SUPP_BE_sent sm g _ t
  have e4 : ∀ g, sent t (sm_SUPP_BE_IDLE_Enter sm g) = sent t sm :=
    fun g => SM_ENTRY_SUPP_BE_sent sm g _ t
  have e5 : ∀ g, sent t (sm_SUPP_BE_RECEIVE_Enter sm g) = sent t sm :=
    fun g => SM_ENTRY_SUPP_BE_sent sm g _ t
  have e6 : ∀ g, sent t (sm_SUPP_BE_INITIALIZE_Enter env sm g) = sent t sm :=
    fun g => SM_ENTRY_SUPP_BE_sent sm g _ t
  have e7 : ∀ g, sent t (sm_SUPP_BE_SUCCESS_Enter sm g) = sent t sm := by
    intro g
    unfold sm_SUPP_BE_SUCCESS_Enter
    dsimp only
    split_ifs <;> exact SM_ENTRY_SUPP_BE_sent sm g SUPP_BE.SUCCESS t
  have e8 : ∀ g, sent t (sm_SUPP_BE_RESPONSE_Enter sm g) = sent t sm := fun g =>
    calc sent t (sm_SUPP_BE_RESPONSE_Enter sm g)
        = sent t (eapol_sm_txSuppRsp (SM_ENTRY_SUPP_BE sm g SUPP_BE.RESPONSE)) := rfl
      _ = sent t (SM_ENTRY_SUPP_BE sm g SUPP_BE.RESPONSE) := eapol_sm_txSuppRsp_sent _ t ht
      _ = sent t sm := SM_ENTRY_SUPP_BE_sent _ _ _ t
  unfold sm_SUPP_BE_Step
  split_ifs
  · exact e6 true
  · unfold sm_SUPP_BE_Step_local
    split <;> (try split_ifs) <;> (try simp only [e1, e2, e3, e4, e5, e7, e8])

theorem eap_sm_step_run_sent (env : Env) (sm : eapol_sm) (t : Nat) :
    sent t (eap_sm_step_run env sm) = sent t sm := by
  unfold eap_sm_step_run
  dsimp only
  split_ifs <;> rfl

theorem eapol_sm_step_sent (env : Env) (sm : eapol_sm) (t : Nat)
    (ht : t ≠ IEEE802_1X_TYPE_EAP_PACKET) :
    sent t (eapol_sm_step env sm) = sent t (sm_SUPP_PAE_Step env { sm with changed := false }) := by
  have h : sent t (eapol_sm_step_machines env sm) =
      sent t (sm_SUPP_PAE_Step env { sm with changed := false }) := by
    unfold eapol_sm_step_machines
    dsimp only
    rw [eap_sm_step_run_sent, sm_SUPP_BE_Step_sent _ _ _ ht, sm_KEY_RX_Step_sent]
  rw [← h]
  have key : ∀ (s : eapol_sm) (b : Bool),
      sent t { s with calls := s.calls ++ [host_call.cb b] } = sent t s :=
    fun s b => sent_append t s _ (by intro h; cases h)
  unfold eapol_sm_step
  dsimp only
  split_ifs
  · exact key { eapol_sm_step_machines env sm with
      step_timeout := true, cb_status := eapol_cb_status.EAPOL_CB_IN_PROGRESS } _
  · rfl
  · exact key { eapol_sm_step_machines env sm with
      cb_status := eapol_cb_status.EAPOL_CB_IN_PROGRESS } _
  · rfl

theorem sm_SUPP_PAE_LOGOFF_Enter_sent (sm : eapol_sm) (g : Bool) :
    sent IEEE802_1X_TYPE_EAPOL_LOGOFF (sm_SUPP_PAE_LOGOFF_Enter sm g) =
      sent IEEE802_1X_TYPE_EAPOL_LOGOFF sm + 1 := by
  unfold sm_SUPP_PAE_LOGOFF_Enter SM_ENTRY_SUPP_PAE eapol_sm_txLogoff sent
  dsimp only
  split_ifs <;> simp [List.count_append]

/-! ## The PAE step without a global override -/

theorem sm_SUPP_PAE_Step_no_global (env : Env) (sm : eapol_sm)
    (h1 : sm.userLogoff = false ∨ sm.logoffSent = true)
    (h2 : sm.portEnabled = true) (h3 : sm.initialize_ = false)
    (h4 : sm.sPortMode = sm.portControl) :
    sm_SUPP_PAE_Step env sm = sm_SUPP_PAE_Step_local env sm := by
  have g0 : ¬ (sm.initialize_ = true ∨ sm.portEnabled = false) := by
    rw [h2, h3]; simp
  have g1 : ¬ ((sm.userLogoff = true ∧ sm.logoffSent = false) ∧
      ¬ (sm.initialize_ = true ∨ sm.portEnabled = false)) := by
    rintro ⟨⟨a, b⟩, _⟩
    rcases h1 with h1 | h1
    · rw [h1] at a; exact Bool.false_ne_true a
    · rw [h1] at b; exact Bool.false_ne_true b.symm
  have g2 : ¬ ((sm.portControl = PortControl.Auto ∧ sm.sPortMode ≠ sm.portControl) ∨
      sm.initialize_ = true ∨ sm.portEnabled = false) := by
    rintro (⟨_, b⟩ | c)
    · exact b h4
    · exact g0 c
  have g3 : ¬ (sm.portControl = PortControl.ForceAuthorized ∧
      sm.sPortMode ≠ sm.portControl ∧
      ¬ (sm.initialize_ = true ∨ sm.portEnabled = false)) := fun h => h.2.1 h4
  have g4 : ¬ (sm.portControl = PortControl.ForceUnauthorized ∧
      sm.sPortMode ≠ sm.portControl ∧
      ¬ (sm.initialize_ = true ∨ sm.portEnabled = false)) := fun h => h.2.1 h4
  unfold sm_SUPP_PAE_Step
  rw [if_neg g1, if_neg g2, if_neg g3, if_neg g4]

theorem sm_SUPP_PAE_Step_logoff (env : Env) (sm : eapol_sm)
    (h1 : sm.userLogoff = true) (h2 : sm.logoffSent = false)
    (h3 : sm.portEnabled = true) (h4 : sm.initialize_ = false) :
    sm_SUPP_PAE_Step env sm = sm_SUPP_PAE_LOGOFF_Enter sm true := by
  have g0 : ¬ (sm.initialize_ = true ∨ sm.portEnabled = false) := by
    rw [h3, h4]; simp
  unfold sm_SUPP_PAE_Step
  rw [if_pos ⟨⟨h1, h2⟩, g0⟩]

theorem sm_SUPP_PAE_Step_local_LOGOFF (env : Env) (sm : eapol_sm)
    (hs : sm.SUPP_PAE_state = SUPP_PAE.LOGOFF) (h : sm.userLogoff = false) :
    sm_SUPP_PAE_Step_local env sm = sm_SUPP_PAE_DISCONNECTED_Enter sm false := by
  unfold sm_SUPP_PAE_Step_local
  rw [hs]
  dsimp only
  rw [if_pos h]

theorem sm_SUPP_PAE_Step_local_DISCONNECTED (env : Env) (sm : eapol_sm)
    (hs : sm.SUPP_PAE_state = SUPP_PAE.DISCONNECTED) :
    sm_SUPP_PAE_Step_local env sm = sm_SUPP_PAE_CONNECTING_Enter sm false := by
  unfold sm_SUPP_PAE_Step_local
  rw [hs]

/-! ## Byte strings: `memcmp`, big-endian order and the signature field -/

theorem be_value_lt (l : List Nat) (h : ∀ x ∈ l, x < 256) : be_value l < 256 ^ l.length := by
  induction l with
  | nil => simp [be_value]
  | cons x xs ih =>
    have hx : x < 256 := h x (List.mem_cons_self x xs)
    have hxs : be_value xs < 256 ^ xs.length := ih (fun y hy => h y (List.mem_cons_of_mem x hy))
    unfold be_value
    rw [List.length_cons, pow_succ]
    have : x * 256 ^ xs.length + 256 ^ xs.length ≤ 256 ^ xs.length * 256 := by
      have h1 : (x + 1) * 256 ^ xs.length ≤ 256 * 256 ^ xs.length :=
        Nat.mul_le_mul_right _ (by omega)
      rw [Nat.add_mul, Nat.one_mul] at h1
      rw [Nat.mul_comm (256 ^ xs.length) 256]
      exact h1
    omega

theorem memcmp_neg_be_value (n : Nat) :
    ∀ a b : List Nat, a.length = n → b.length = n → (∀ x ∈ b, x < 256) →
      (∀ x ∈ a, x < 256) → memcmp a b n < 0 → be_value a < be_value b := by
  induction n with
  | zero =>
    intro a b _ _ _ _ h
    cases a <;> cases b <;> simp [memcmp] at h
  | succ n ih =>
    intro a b ha hb hbb hab h
    cases a with
    | nil => simp at ha
    | cons x xs =>
      cases b with
      | nil => simp at hb
      | cons y ys =>
        have hxs : xs.length = n := by simpa using ha
        have hys : ys.length = n := by simpa using hb
        unfold memcmp at h
        unfold be_value
        rw [hxs, hys]
        by_cases hxy : x = y
        · rw [if_pos hxy] at h
          have := ih xs ys hxs hys (fun z hz => hbb z (List.mem_cons_of_mem y hz))
            (fun z hz => hab z (List.mem_cons_of_mem x hz)) h
          rw [hxy]
          omega
        · rw [if_neg hxy] at h
          have hlt : x < y := by omega
          have hbx : be_value xs < 256 ^ n := by
            have := be_value_lt xs (fun z hz => hab z (List.mem_cons_of_mem x hz))
            rwa [hxs] at this
          have h1 : (x + 1) * 256 ^ n ≤ y * 256 ^ n := Nat.mul_le_mul_right _ hlt
          rw [Nat.add_mul, Nat.one_mul] at h1
          omega

theorem memcmp_eq_zero (n : Nat) :
    ∀ a b : List Nat, a.length = n → b.length = n → memcmp a b n = 0 → a = b := by
  induction n with
  | zero =>
    intro a b ha hb _
    rw [List.length_eq_zero.mp ha, List.length_eq_zero.mp hb]
  | succ n ih =>
    intro a b ha hb h
    cases a with
    | nil => simp at ha
    | cons x xs =>
      cases b with
      | nil => simp at hb
      | cons y ys =>
        unfold memcmp at h
        by_cases hxy : x = y
        · rw [if_pos hxy] at h
          rw [hxy, ih xs ys (by simpa using ha) (by simpa using hb) h]
        · rw [if_neg hxy] at h
          omega

theorem memcmp_self (n : Nat) : ∀ a : List Nat, memcmp a a n = 0 := by
  induction n with
  | zero => intro a; cases a <;> rfl
  | succ n ih =>
    intro a
    cases a with
    | nil => rfl
    | cons x xs =>
      unfold memcmp
      rw [if_pos rfl]
      exact ih xs

theorem key_key_signature_length (buf : List Nat) (h : 48 ≤ buf.length) :
    (key_key_signature buf).length = 16 := by
  unfold key_key_signature
  rw [List.length_take, List.length_drop]
  omega

theorem digest_bytes_length (d : Fin 16 → Nat) : (digest_bytes d).length = 16 := rfl

theorem set_key_signature_length (buf sig : List Nat) (h : 48 ≤ buf.length)
    (hs : sig.length = 16) : (set_key_signature buf sig).length = buf.length := by
  unfold set_key_signature
  rw [List.length_append, List.length_append, List.length_take, List.length_drop, hs]
  omega

theorem set_key_signature_take (buf sig : List Nat) (h : 32 ≤ buf.length) :
    (set_key_signature buf sig).take 32 = buf.take 32 := by
  unfold set_key_signature
  rw [List.append_assoc, List.take_append_of_le_length (by rw [List.length_take]; omega),
    List.take_take]
  simp

theorem set_key_signature_drop (buf sig : List Nat) (h : 32 ≤ buf.length)
    (hs : sig.length = 16) : (set_key_signature buf sig).drop 48 = buf.drop 48 := by
  unfold set_key_signature
  have h1 : (buf.take 32 ++ sig).length = 48 := by
    rw [List.length_append, List.length_take, hs]; omega
  rw [List.drop_left' h1]

theorem key_key_signature_set (buf sig : List Nat) (h : 32 ≤ buf.length)
    (hs : sig.length = 16) : key_key_signature (set_key_signature buf sig) = sig := by
  unfold key_key_signature set_key_signature
  have h1 : (buf.take 32).length = 32 := by rw [List.length_take]; omega
  rw [List.append_assoc, List.drop_left' h1, List.take_left' hs]

theorem set_key_signature_set (buf a b : List Nat) (h : 32 ≤ buf.length)
    (ha : a.length = 16) :
    set_key_signature (set_key_signature buf a) b = set_key_signature buf b := by
  have h1 := set_key_signature_take buf a h
  have h2 := set_key_signature_drop buf a h ha
  unfold set_key_signature at *
  rw [h1, h2]

theorem set_key_signature_self (buf : List Nat) :
    set_key_signature buf (key_key_signature buf) = buf := by
  unfold set_key_signature key_key_signature
  have h : List.drop 48 buf = List.drop 16 (List.drop 32 buf) := by
    rw [List.drop_drop]
  rw [h, List.append_assoc, List.take_append_drop, List.take_append_drop]

theorem getD_set_key_signature (buf sig : List Nat) (i : Nat) (hi : i < 32)
    (h : 32 ≤ buf.length) : (set_key_signature buf sig).getD i 0 = buf.getD i 0 := by
  have h1 := set_key_signature_take buf sig h
  have e1 : (set_key_signature buf sig).getD i 0 = ((set_key_signature buf sig).take 32).getD i 0 := by
    rw [List.getD_eq_getElem?_getD, List.getD_eq_getElem?_getD, List.getElem?_take_of_lt hi]
  have e2 : buf.getD i 0 = (buf.take 32).getD i 0 := by
    rw [List.getD_eq_getElem?_getD, List.getD_eq_getElem?_getD, List.getElem?_take_of_lt hi]
  rw [e1, e2, h1]

theorem hdr_length_set_key_signature (buf sig : List Nat) (h : 32 ≤ buf.length) :
    hdr_length (set_key_signature buf sig) = hdr_length buf := by
  unfold hdr_length
  rw [getD_set_key_signature buf sig 2 (by omega) h, getD_set_key_signature buf sig 3 (by omega) h]

theorem key_replay_counter_set_key_signature (buf sig : List Nat) (h : 32 ≤ buf.length) :
    key_replay_counter (set_key_signature buf sig) = key_replay_counter buf := by
  have h1 := set_key_signature_take buf sig h
  have e : ∀ l : List Nat, key_replay_counter l = ((l.take 32).drop 7).take 8 := by
    intro l
    unfold key_replay_counter
    rw [List.drop_take, List.take_take]
    simp
  rw [e, e, h1]

/-! ## The signature check and the verdicts of the key processor -/

theorem verify_key_signature_buf (env : Env) (k buf : List Nat) (h : 48 ≤ buf.length) :
    (verify_key_signature env k buf).2 = buf := by
  have hz : (List.replicate IEEE8021X_KEY_SIGN_LEN 0).length = 16 := rfl
  have hm : (recomputed_signature env k buf).length = 16 := rfl
  have h32 : 32 ≤ buf.length := by omega
  have hzl : 32 ≤ (set_key_signature buf (List.replicate IEEE8021X_KEY_SIGN_LEN 0)).length := by
    rw [set_key_signature_length buf _ h hz]; exact h32
  unfold verify_key_signature
  dsimp only
  split_ifs with hc
  · dsimp only
    rw [set_key_signature_set _ _ _ hzl hm, set_key_signature_set _ _ _ h32 hz,
      set_key_signature_self]
  · dsimp only
    rw [key_key_signature_set _ _ hzl hm] at hc
    have e : key_key_signature buf = recomputed_signature env k buf :=
      memcmp_eq_zero 16 _ _ (key_key_signature_length buf h) hm (not_not.mp hc)
    rw [set_key_signature_set _ _ _ h32 hz, ← e, set_key_signature_self]

theorem verify_key_signature_iff (env : Env) (k buf : List Nat) (h : 48 ≤ buf.length) :
    (verify_key_signature env k buf).1 = true ↔
      key_key_signature buf = recomputed_signature env k buf := by
  have hz : (List.replicate IEEE8021X_KEY_SIGN_LEN 0).length = 16 := rfl
  have hm : (recomputed_signature env k buf).length = 16 := rfl
  have hzl : 32 ≤ (set_key_signature buf (List.replicate IEEE8021X_KEY_SIGN_LEN 0)).length := by
    rw [set_key_signature_length buf _ h hz]; omega
  unfold verify_key_signature
  dsimp only
  rw [key_key_signature_set _ _ hzl hm]
  split_ifs with hc
  · constructor
    · intro h1; exact absurd h1 (by simp)
    · intro e
      exact absurd (by rw [e]; exact memcmp_self _ _) hc
  · constructor
    · intro _
      exact memcmp_eq_zero 16 _ _ (key_key_signature_length buf h) hm (not_not.mp hc)
    · intro _; rfl

theorem processKey_received_replay (env : Env) (sm : eapol_sm) (u : Nat) :
    (processKey_received env sm u).replay_counter_valid = sm.replay_counter_valid ∧
    (processKey_received env sm u).last_replay_counter = sm.last_replay_counter := by
  unfold processKey_received
  dsimp only
  split_ifs <;> exact ⟨rfl, rfl⟩

theorem processKey_install_replay (env : Env) (sm : eapol_sm) (buf dk : List Nat) :
    (processKey_install env sm buf dk).replay_counter_valid = true ∧
    (processKey_install env sm buf dk).last_replay_counter = key_replay_counter buf := by
  unfold processKey_install
  dsimp only
  split
  · split_ifs
    · exact ⟨rfl, rfl⟩
    · rw [(processKey_received_replay env _ _).1, (processKey_received_replay env _ _).2]
      exact ⟨rfl, rfl⟩
  · rw [(processKey_received_replay env _ _).1, (processKey_received_replay env _ _).2]
    exact ⟨rfl, rfl⟩

theorem processKey_keydata_error (env : Env) (sm : eapol_sm) (v : key_verdict)
    (h : processKey_keydata env sm = Except.error v) : v ≠ key_verdict.installed := by
  unfold processKey_keydata at h
  dsimp only at h
  split_ifs at h
  all_goals (injection h with h; rw [← h]; intro c; exact key_verdict.noConfusion c)

/-- The key processor on a stored frame that holds a complete key body: either
the frame is installed, after passing the replay check, or the instance is
left exactly as it was. -/
theorem processKey_aux_cases (env : Env) (sm : eapol_sm) (buf : List Nat)
    (hbuf : sm.last_rx_key = some buf) (hlen : 48 ≤ buf.length) :
    ((eapol_sm_processKey_aux env sm).1 ≠ key_verdict.installed ∧
      (eapol_sm_processKey_aux env sm).2 = sm) ∨
    ((eapol_sm_processKey_aux env sm).1 = key_verdict.installed ∧
      ¬ (sm.replay_counter_valid = true ∧
          memcmp sm.last_replay_counter (key_replay_counter buf)
            IEEE8021X_REPLAY_COUNTER_LEN ≥ 0) ∧
      (eapol_sm_processKey_aux env sm).2.replay_counter_valid = true ∧
      (eapol_sm_processKey_aux env sm).2.last_replay_counter = key_replay_counter buf) := by
  have hsame : ∀ k : List Nat,
      { sm with last_rx_key := some (verify_key_signature env k buf).2 } = sm := by
    intro k
    rw [verify_key_signature_buf env k buf hlen, ← hbuf]
  unfold eapol_sm_processKey_aux
  rw [hbuf]
  dsimp only
  by_cases h1 : sm.conf.accept_802_1x_keys = false
  · rw [if_pos h1]; exact Or.inl ⟨fun c => key_verdict.noConfusion c, rfl⟩
  rw [if_neg h1]
  by_cases h2 : sizeof_hdr + hdr_length buf > sm.last_rx_key_len
  · rw [if_pos h2]; exact Or.inl ⟨fun c => key_verdict.noConfusion c, rfl⟩
  rw [if_neg h2]
  cases hk : processKey_keydata env sm with
  | error v => exact Or.inl ⟨processKey_keydata_error env sm v hk, rfl⟩
  | ok r =>
    obtain ⟨kd, skl, ekl⟩ := r
    dsimp only
    by_cases h3 : sm.replay_counter_valid = true ∧
        memcmp sm.last_replay_counter (key_replay_counter buf) IEEE8021X_REPLAY_COUNTER_LEN ≥ 0
    · rw [if_pos h3]; exact Or.inl ⟨fun c => key_verdict.noConfusion c, rfl⟩
    rw [if_neg h3]
    by_cases h4 : (verify_key_signature env (List.take skl (List.drop 32 kd)) buf).1 = false
    · rw [if_pos h4]; exact Or.inl ⟨fun c => key_verdict.noConfusion c, hsame _⟩
    rw [if_neg h4]
    by_cases h5 : processKey_key_len (verify_key_signature env (List.take skl (List.drop 32 kd))
        buf).2 > 32 ∨
        key_key_length (verify_key_signature env (List.take skl (List.drop 32 kd)) buf).2 > 32
    · rw [if_pos h5]; exact Or.inl ⟨fun c => key_verdict.noConfusion c, hsame _⟩
    rw [if_neg h5]
    cases hd : processKey_datakey env kd ekl
        (verify_key_signature env (List.take skl (List.drop 32 kd)) buf).2 with
    | none => exact Or.inl ⟨fun c => key_verdict.noConfusion c, hsame _⟩
    | some dk =>
      refine Or.inr ⟨rfl, h3, ?_, ?_⟩
      · exact (processKey_install_replay env _ _ _).1
      · dsimp only
        rw [(processKey_install_replay env _ _ _).2, verify_key_signature_buf env _ buf hlen]
/-! ## C1, C2: port status, PAE state and forced modes -/

/-- C1 (amended): in every state reachable from `eapol_sm_init` through any
sequence of ticks, received frames and notifications (in particular at the end
of every `eapol_sm_step`), the PAE states AUTHENTICATED and S_FORCE_AUTH imply
`suppPortStatus = Authorized`, and `suppPortStatus = Authorized` implies that
the PAE state is AUTHENTICATED, S_FORCE_AUTH, or one of the states RESTART,
AUTHENTICATING, CONNECTING that a re-authentication passes through. -/
theorem C1_port_status_reachable (env : Env) (sm : eapol_sm) (h : Reachable env sm) :
    ((sm.SUPP_PAE_state = SUPP_PAE.AUTHENTICATED ∨
        sm.SUPP_PAE_state = SUPP_PAE.S_FORCE_AUTH) →
      sm.suppPortStatus = PortStatus.Authorized) ∧
    (sm.suppPortStatus = PortStatus.Authorized →
      (sm.SUPP_PAE_state = SUPP_PAE.AUTHENTICATED ∨
       sm.SUPP_PAE_state = SUPP_PAE.S_FORCE_AUTH ∨
       sm.SUPP_PAE_state = SUPP_PAE.RESTART ∨
       sm.SUPP_PAE_state = SUPP_PAE.AUTHENTICATING ∨
       sm.SUPP_PAE_state = SUPP_PAE.CONNECTING)) := by
  obtain ⟨sm0, evs, h0, hr⟩ := h
  rw [← hr]
  exact run_port_ok env evs sm0 (eapol_sm_init_port_ok env sm0 h0)

set_option maxRecDepth 20000 in
/-- C1, witness: the state after a full authentication and the first frame of
a re-authentication is reachable, and the amended relation holds there. -/
theorem C1_port_status_reachable_witness :
    Reachable env_idle (run env_idle fresh_idle reauth_trace) ∧
    (((run env_idle fresh_idle reauth_trace).SUPP_PAE_state = SUPP_PAE.AUTHENTICATED ∨
        (run env_idle fresh_idle reauth_trace).SUPP_PAE_state = SUPP_PAE.S_FORCE_AUTH) →
      (run env_idle fresh_idle reauth_trace).suppPortStatus = PortStatus.Authorized) ∧
    ((run env_idle fresh_idle reauth_trace).suppPortStatus = PortStatus.Authorized →
      ((run env_idle fresh_idle reauth_trace).SUPP_PAE_state = SUPP_PAE.AUTHENTICATED ∨
       (run env_idle fresh_idle reauth_trace).SUPP_PAE_state = SUPP_PAE.S_FORCE_AUTH ∨
       (run env_idle fresh_idle reauth_trace).SUPP_PAE_state = SUPP_PAE.RESTART ∨
       (run env_idle fresh_idle reauth_trace).SUPP_PAE_state = SUPP_PAE.AUTHENTICATING ∨
       (run env_idle fresh_idle reauth_trace).SUPP_PAE_state = SUPP_PAE.CONNECTING)) :=
  ⟨⟨fresh_idle, reauth_trace, rfl, rfl⟩,
   C1_port_status_reachable env_idle _ ⟨fresh_idle, reauth_trace, rfl, rfl⟩⟩

set_option maxRecDepth 20000 in
/-- C1, counterexample: after a full authentication, the EAP-Packet that starts
a re-authentication moves the PAE from AUTHENTICATED to RESTART in the step run
by `eapol_sm_rx_eapol`; at the end of that step, and of the next one, the port
is still `Authorized` while the PAE state is RESTART. -/
theorem C1_counterexample :
    Reachable env_idle (run env_idle fresh_idle reauth_trace) ∧
    (run env_idle fresh_idle reauth_trace).SUPP_PAE_state = SUPP_PAE.RESTART ∧
    (run env_idle fresh_idle reauth_trace).suppPortStatus = PortStatus.Authorized ∧
    (eapol_sm_step env_idle (run env_idle fresh_idle reauth_trace)).SUPP_PAE_state =
      SUPP_PAE.RESTART ∧
    ¬ ((eapol_sm_step env_idle (run env_idle fresh_idle reauth_trace)).suppPortStatus =
          PortStatus.Authorized ↔
        ((eapol_sm_step env_idle (run env_idle fresh_idle reauth_trace)).SUPP_PAE_state =
            SUPP_PAE.AUTHENTICATED ∨
          (eapol_sm_step env_idle (run env_idle fresh_idle reauth_trace)).SUPP_PAE_state =
            SUPP_PAE.S_FORCE_AUTH)) :=
  ⟨⟨fresh_idle, reauth_trace, rfl, rfl⟩, by decide, by decide, by decide, by decide⟩

theorem sm_SUPP_PAE_Step_forced (env : Env) (sm : eapol_sm) (m : PortControl)
    (s : SUPP_PAE) (p : PortStatus)
    (hm : (m = PortControl.ForceAuthorized ∧ s = SUPP_PAE.S_FORCE_AUTH ∧
            p = PortStatus.Authorized) ∨
          (m = PortControl.ForceUnauthorized ∧ s = SUPP_PAE.S_FORCE_UNAUTH ∧
            p = PortStatus.Unauthorized))
    (hlog : ¬ (sm.userLogoff = true ∧ sm.logoffSent = false))
    (hc : sm.portControl = m) (he : sm.portEnabled = true) (hi : sm.initialize_ = false)
    (hs : sm.sPortMode ≠ m ∨ (sm.SUPP_PAE_state = s ∧ sm.suppPortStatus = p)) :
    (pae_view (sm_SUPP_PAE_Step env sm)).SUPP_PAE_state = s ∧
    (pae_view (sm_SUPP_PAE_Step env sm)).suppPortStatus = p := by
  have g1 : ¬ ((sm.userLogoff = true ∧ sm.logoffSent = false) ∧
      ¬ (sm.initialize_ = true ∨ sm.portEnabled = false)) := fun h => hlog h.1
  have g0 : ¬ (sm.initialize_ = true ∨ sm.portEnabled = false) := by
    rw [he, hi]; simp
  have g2 : ¬ ((sm.portControl = PortControl.Auto ∧ sm.sPortMode ≠ sm.portControl) ∨
      sm.initialize_ = true ∨ sm.portEnabled = false) := by
    rw [he, hi, hc]
    rcases hm with ⟨h, _, _⟩ | ⟨h, _, _⟩ <;> (rw [h]; simp)
  unfold sm_SUPP_PAE_Step
  rw [if_neg g1, if_neg g2]
  rcases hm with ⟨h1, h2, h3⟩ | ⟨h1, h2, h3⟩
  · subst h1 h2 h3
    by_cases hd : sm.sPortMode = PortControl.ForceAuthorized
    · have g3 : ¬ (sm.portControl = PortControl.ForceAuthorized ∧
          sm.sPortMode ≠ sm.portControl ∧
          ¬ (sm.initialize_ = true ∨ sm.portEnabled = false)) := by
        rw [hc]; exact fun h => h.2.1 hd
      have g4 : ¬ (sm.portControl = PortControl.ForceUnauthorized ∧
          sm.sPortMode ≠ sm.portControl ∧
          ¬ (sm.initialize_ = true ∨ sm.portEnabled = false)) := by
        rw [hc]; exact fun h => absurd h.1 (by decide)
      rw [if_neg g3, if_neg g4]
      rcases hs with hs | ⟨hs1, hs2⟩
      · exact absurd hd hs
      · unfold sm_SUPP_PAE_Step_local
        rw [hs1]
        exact ⟨hs1, hs2⟩
    · have g3 : sm.portControl = PortControl.ForceAuthorized ∧
          sm.sPortMode ≠ sm.portControl ∧
          ¬ (sm.initialize_ = true ∨ sm.portEnabled = false) := by
        rw [hc]; exact ⟨rfl, hd, g0⟩
      rw [if_pos g3, sm_SUPP_PAE_S_FORCE_AUTH_Enter_view]
      exact ⟨rfl, rfl⟩
  · subst h1 h2 h3
    have g3 : ¬ (sm.portControl = PortControl.ForceAuthorized ∧
        sm.sPortMode ≠ sm.portControl ∧
        ¬ (sm.initialize_ = true ∨ sm.portEnabled = false)) := by
      rw [hc]; exact fun h => absurd h.1 (by decide)
    rw [if_neg g3]
    by_cases hd : sm.sPortMode = PortControl.ForceUnauthorized
    · have g4 : ¬ (sm.portControl = PortControl.ForceUnauthorized ∧
          sm.sPortMode ≠ sm.portControl ∧
          ¬ (sm.initialize_ = true ∨ sm.portEnabled = false)) := by
        rw [hc]; exact fun h => h.2.1 hd
      rw [if_neg g4]
      rcases hs with hs | ⟨hs1, hs2⟩
      · exact absurd hd hs
      · unfold sm_SUPP_PAE_Step_local
        rw [hs1]
        exact ⟨hs1, hs2⟩
    · have g4 : sm.portControl = PortControl.ForceUnauthorized ∧
          sm.sPortMode ≠ sm.portControl ∧
          ¬ (sm.initialize_ = true ∨ sm.portEnabled = false) := by
        rw [hc]; exact ⟨rfl, hd, g0⟩
      rw [if_pos g4, sm_SUPP_PAE_S_FORCE_UNAUTH_Enter_view]
      exact ⟨rfl, rfl⟩

theorem eapol_sm_step_forced (env : Env) (sm : eapol_sm) (m : PortControl)
    (s : SUPP_PAE) (p : PortStatus)
    (hm : (m = PortControl.ForceAuthorized ∧ s = SUPP_PAE.S_FORCE_AUTH ∧
            p = PortStatus.Authorized) ∨
          (m = PortControl.ForceUnauthorized ∧ s = SUPP_PAE.S_FORCE_UNAUTH ∧
            p = PortStatus.Unauthorized))
    (hlog : ¬ (sm.userLogoff = true ∧ sm.logoffSent = false))
    (hs : sm.sPortMode ≠ m ∨ (sm.SUPP_PAE_state = s ∧ sm.suppPortStatus = p))
    (hc : (eapol_sm_step env sm).portControl = m)
    (he : (eapol_sm_step env sm).portEnabled = true)
    (hi : (eapol_sm_step env sm).initialize_ = false) :
    (eapol_sm_step env sm).SUPP_PAE_state = s ∧ (eapol_sm_step env sm).suppPortStatus = p := by
  obtain ⟨_, i2, i3, i4, _⟩ := eapol_sm_step_inputs env sm
  have hc' : sm.portControl = m := i2.symm.trans hc
  have he' : sm.portEnabled = true := i3.symm.trans he
  have hi' : sm.initialize_ = false := i4.symm.trans hi
  have h := sm_SUPP_PAE_Step_forced env { sm with changed := false } m s p hm hlog hc' he' hi' hs
  rw [← eapol_sm_step_view] at h
  exact h

/-- C2 (amended): for each forced mode m in {ForceAuthorized, ForceUnauthorized}
and every state before the step in which no logoff is pending (not both
`userLogoff` and `¬logoffSent`) and in which either `sPortMode ≠ m` or the PAE
is already in the matching forced state with the matching port status: after
`eapol_sm_step`, if `portControl = m`, `portEnabled` is true and `initialize`
is false, then the PAE state is the matching forced state (S_FORCE_AUTH,
respectively S_FORCE_UNAUTH) and `suppPortStatus` is Authorized, respectively
Unauthorized. -/
theorem C2_forced_mode_after_step (env : Env) (sm : eapol_sm)
    (hlog : ¬ (sm.userLogoff = true ∧ sm.logoffSent = false)) :
    (((eapol_sm_step env sm).portControl = PortControl.ForceAuthorized ∧
        (eapol_sm_step env sm).portEnabled = true ∧
        (eapol_sm_step env sm).initialize_ = false) →
      (sm.sPortMode ≠ PortControl.ForceAuthorized ∨
        (sm.SUPP_PAE_state = SUPP_PAE.S_FORCE_AUTH ∧
          sm.suppPortStatus = PortStatus.Authorized)) →
      (eapol_sm_step env sm).SUPP_PAE_state = SUPP_PAE.S_FORCE_AUTH ∧
      (eapol_sm_step env sm).suppPortStatus = PortStatus.Authorized) ∧
    (((eapol_sm_step env sm).portControl = PortControl.ForceUnauthorized ∧
        (eapol_sm_step env sm).portEnabled = true ∧
        (eapol_sm_step env sm).initialize_ = false) →
      (sm.sPortMode ≠ PortControl.ForceUnauthorized ∨
        (sm.SUPP_PAE_state = SUPP_PAE.S_FORCE_UNAUTH ∧
          sm.suppPortStatus = PortStatus.Unauthorized)) →
      (eapol_sm_step env sm).SUPP_PAE_state = SUPP_PAE.S_FORCE_UNAUTH ∧
      (eapol_sm_step env sm).suppPortStatus = PortStatus.Unauthorized) :=
  ⟨fun h hs => eapol_sm_step_forced env sm _ _ _ (Or.inl ⟨rfl, rfl, rfl⟩) hlog hs h.1 h.2.1 h.2.2,
   fun h hs => eapol_sm_step_forced env sm _ _ _ (Or.inr ⟨rfl, rfl, rfl⟩) hlog hs h.1 h.2.1 h.2.2⟩

set_option maxRecDepth 20000 in
/-- C2, witness: switching an enabled port to ForceAuthorized, respectively
ForceUnauthorized, meets the hypotheses and the step ends in the forced state. -/
theorem C2_forced_mode_after_step_witness :
    (¬ ((forced_pre PortControl.ForceAuthorized).userLogoff = true ∧
        (forced_pre PortControl.ForceAuthorized).logoffSent = false) ∧
      (forced_pre PortControl.ForceAuthorized).sPortMode ≠ PortControl.ForceAuthorized ∧
      (eapol_sm_step env_idle (forced_pre PortControl.ForceAuthorized)).SUPP_PAE_state =
        SUPP_PAE.S_FORCE_AUTH ∧
      (eapol_sm_step env_idle (forced_pre PortControl.ForceAuthorized)).suppPortStatus =
        PortStatus.Authorized) ∧
    (¬ ((forced_pre PortControl.ForceUnauthorized).userLogoff = true ∧
        (forced_pre PortControl.ForceUnauthorized).logoffSent = false) ∧
      (forced_pre PortControl.ForceUnauthorized).sPortMode ≠ PortControl.ForceUnauthorized ∧
      (eapol_sm_step env_idle (forced_pre PortControl.ForceUnauthorized)).SUPP_PAE_state =
        SUPP_PAE.S_FORCE_UNAUTH ∧
      (eapol_sm_step env_idle (forced_pre PortControl.ForceUnauthorized)).suppPortStatus =
        PortStatus.Unauthorized) :=
  ⟨⟨by decide, by decide,
    (C2_forced_mode_after_step env_idle (forced_pre PortControl.ForceAuthorized)
      (by decide)).1 ⟨by decide, by decide, by decide⟩ (Or.inl (by decide))⟩,
   ⟨by decide, by decide,
    (C2_forced_mode_after_step env_idle (forced_pre PortControl.ForceUnauthorized)
      (by decide)).2 ⟨by decide, by decide, by decide⟩ (Or.inl (by decide))⟩⟩

set_option maxRecDepth 20000 in
/-- C2, counterexample: on an enabled port forced to authorised, the step run by
`eapol_sm_notify_logoff (true)` ends with `portControl = ForceAuthorized`,
`portEnabled` true and `initialize` false, yet with the PAE in LOGOFF and the
port Unauthorized: the logoff override has priority over the forced modes. -/
theorem C2_counterexample :
    run env_idle fresh_idle forced_logoff_trace = eapol_sm_step env_idle forced_logoff_pre ∧
    (eapol_sm_step env_idle forced_logoff_pre).portControl = PortControl.ForceAuthorized ∧
    (eapol_sm_step env_idle forced_logoff_pre).portEnabled = true ∧
    (eapol_sm_step env_idle forced_logoff_pre).initialize_ = false ∧
    (eapol_sm_step env_idle forced_logoff_pre).SUPP_PAE_state = SUPP_PAE.LOGOFF ∧
    (eapol_sm_step env_idle forced_logoff_pre).suppPortStatus = PortStatus.Unauthorized ∧
    ¬ (((eapol_sm_step env_idle forced_logoff_pre).portControl = PortControl.ForceAuthorized ∧
        (eapol_sm_step env_idle forced_logoff_pre).portEnabled = true ∧
        (eapol_sm_step env_idle forced_logoff_pre).initialize_ = false) →
      ((eapol_sm_step env_idle forced_logoff_pre).SUPP_PAE_state = SUPP_PAE.S_FORCE_AUTH ∧
        (eapol_sm_step env_idle forced_logoff_pre).suppPortStatus = PortStatus.Authorized)) :=
  ⟨rfl, by decide, by decide, by decide, by decide, by decide, by decide⟩

/-! ## C3, C4, C5: replay counter, rejected frames, signature check -/

theorem key_replay_counter_length (buf : List Nat) (h : 48 ≤ buf.length) :
    (key_replay_counter buf).length = 8 := by
  unfold key_replay_counter
  rw [List.length_take, List.length_drop]
  omega

theorem key_replay_counter_mem (buf : List Nat) (x : Nat) (h : x ∈ key_replay_counter buf) :
    x ∈ buf :=
  List.mem_of_mem_drop (List.mem_of_mem_take h)

/-- C3: for every call of `eapol_sm_processKey` that accepts its frame (reaches
the install stage), if `replay_counter_valid` was set then the frame's 8-byte
replay counter, read as a big-endian number, is strictly greater than
`last_replay_counter` before the call; and after the call
`replay_counter_valid` is true and `last_replay_counter` equals the frame's
replay counter.  The stored frame holds a complete key body and the buffers
hold bytes. -/
theorem C3_replay_counter_increases (env : Env) (sm : eapol_sm) (buf : List Nat)
    (hbuf : sm.last_rx_key = some buf) (hlen : 48 ≤ buf.length)
    (hbytes : ∀ x ∈ buf, x < 256)
    (hlast : sm.last_replay_counter.length = 8)
    (hlastbytes : ∀ x ∈ sm.last_replay_counter, x < 256)
    (hacc : (eapol_sm_processKey_aux env sm).1 = key_verdict.installed) :
    (sm.replay_counter_valid = true →
      be_value sm.last_replay_counter < be_value (key_replay_counter buf)) ∧
    (eapol_sm_processKey env sm).replay_counter_valid = true ∧
    (eapol_sm_processKey env sm).last_replay_counter = key_replay_counter buf := by
  rcases processKey_aux_cases env sm buf hbuf hlen with ⟨hn, _⟩ | ⟨_, hr, hv, hc⟩
  · exact absurd hacc hn
  · refine ⟨fun hval => ?_, hv, hc⟩
    have hneg : memcmp sm.last_replay_counter (key_replay_counter buf) 8 < 0 := by
      by_contra hge
      exact hr ⟨hval, not_lt.mp hge⟩
    exact memcmp_neg_be_value 8 _ _ hlast (key_replay_counter_length buf hlen)
      (fun x hx => hbytes x (key_replay_counter_mem buf x hx)) hlastbytes hneg

set_option maxRecDepth 20000 in
/-- C3, witness: with the stored counter ending in 3, a correctly signed frame
whose counter ends in 5 is installed. -/
theorem C3_replay_counter_increases_witness :
    (eapol_sm_processKey_aux env_idle (key_sm 3 (key_frame 5 sig_rc5))).1 =
      key_verdict.installed ∧
    ((key_sm 3 (key_frame 5 sig_rc5)).replay_counter_valid = true →
      be_value (key_sm 3 (key_frame 5 sig_rc5)).last_replay_counter <
        be_value (key_replay_counter (key_frame 5 sig_rc5))) ∧
    (eapol_sm_processKey env_idle (key_sm 3 (key_frame 5 sig_rc5))).replay_counter_valid = true ∧
    (eapol_sm_processKey env_idle (key_sm 3 (key_frame 5 sig_rc5))).last_replay_counter =
      key_replay_counter (key_frame 5 sig_rc5) :=
  ⟨by decide,
   C3_replay_counter_increases env_idle (key_sm 3 (key_frame 5 sig_rc5))
     (key_frame 5 sig_rc5) rfl (by decide) (by decide) (by decide) (by decide) (by decide)⟩

/-- C4: for every stored EAPOL-Key frame (holding a complete key body) that
`eapol_sm_processKey` rejects, that is, for every way of leaving the function
other than through the install stage (keys not accepted, replay counter not
greater than the stored one, signature mismatch, key data length or announced
key length above 32, key data length neither 0 nor the announced length, and
also keying material unavailable), the instance after the call is the instance
before the call: no `set_wep_key` (no host call at all), `last_replay_counter`,
`replay_counter_valid`, `unicast_key_received`, `broadcast_key_received` and
`portValid` keep their values, and the stored frame bytes, signature field
included, are the same. -/
theorem C4_rejected_frame_changes_nothing (env : Env) (sm : eapol_sm) (buf : List Nat)
    (hbuf : sm.last_rx_key = some buf) (hlen : 48 ≤ buf.length)
    (hrej : (eapol_sm_processKey_aux env sm).1 ≠ key_verdict.installed) :
    eapol_sm_processKey env sm = sm ∧
    (eapol_sm_processKey env sm).calls = sm.calls ∧
    (eapol_sm_processKey env sm).last_rx_key = some buf ∧
    (eapol_sm_processKey env sm).last_replay_counter = sm.last_replay_counter ∧
    (eapol_sm_processKey env sm).replay_counter_valid = sm.replay_counter_valid ∧
    (eapol_sm_processKey env sm).unicast_key_received = sm.unicast_key_received ∧
    (eapol_sm_processKey env sm).broadcast_key_received = sm.broadcast_key_received ∧
    (eapol_sm_processKey env sm).portValid = sm.portValid := by
  have h : eapol_sm_processKey env sm = sm := by
    rcases processKey_aux_cases env sm buf hbuf hlen with ⟨_, he⟩ | ⟨hi, _⟩
    · exact he
    · exact absurd hi hrej
  rw [h]
  exact ⟨rfl, rfl, hbuf, rfl, rfl, rfl, rfl, rfl⟩

set_option maxRecDepth 20000 in
/-- C4, witness: a frame whose signature has one bit flipped is rejected with
the verdict `bad_signature`, a frame whose replay counter (3) is below the
stored one (5) with the verdict `replay`; both leave the instance as it was. -/
theorem C4_rejected_frame_changes_nothing_witness :
    ((eapol_sm_processKey_aux env_idle (key_sm 3 (key_frame 5 sig_rc5_flipped))).1 =
        key_verdict.bad_signature ∧
      eapol_sm_processKey env_idle (key_sm 3 (key_frame 5 sig_rc5_flipped)) =
        key_sm 3 (key_frame 5 sig_rc5_flipped)) ∧
    ((eapol_sm_processKey_aux env_idle (key_sm 5 (key_frame 3 sig_rc3))).1 =
        key_verdict.replay ∧
      eapol_sm_processKey env_idle (key_sm 5 (key_frame 3 sig_rc3)) =
        key_sm 5 (key_frame 3 sig_rc3)) :=
  ⟨⟨by decide,
    (C4_rejected_frame_changes_nothing env_idle (key_sm 3 (key_frame 5 sig_rc5_flipped))
      (key_frame 5 sig_rc5_flipped) rfl (by decide) (by decide)).1⟩,
   ⟨by decide,
    (C4_rejected_frame_changes_nothing env_idle (key_sm 5 (key_frame 3 sig_rc3))
      (key_frame 3 sig_rc3) rfl (by decide) (by decide)).1⟩⟩

theorem processKey_aux_bad_signature_iff (env : Env) (sm : eapol_sm) (buf kd : List Nat)
    (skl ekl : Nat) (hbuf : sm.last_rx_key = some buf)
    (h1 : sm.conf.accept_802_1x_keys = true)
    (h2 : ¬ sizeof_hdr + hdr_length buf > sm.last_rx_key_len)
    (hk : processKey_keydata env sm = Except.ok (kd, skl, ekl))
    (h3 : ¬ (sm.replay_counter_valid = true ∧
        memcmp sm.last_replay_counter (key_replay_counter buf)
          IEEE8021X_REPLAY_COUNTER_LEN ≥ 0)) :
    (eapol_sm_processKey_aux env sm).1 = key_verdict.bad_signature ↔
      (verify_key_signature env ((kd.drop 32).take skl) buf).1 = false := by
  unfold eapol_sm_processKey_aux
  rw [hbuf]
  dsimp only
  rw [if_neg (by rw [h1]; exact Bool.noConfusion), if_neg h2, hk]
  dsimp only
  rw [if_neg h3]
  by_cases h4 : (verify_key_signature env (List.take skl (List.drop 32 kd)) buf).1 = false
  · rw [if_pos h4]
    exact ⟨fun _ => h4, fun _ => rfl⟩
  · rw [if_neg h4]
    refine ⟨fun h => ?_, fun h => absurd h h4⟩
    exfalso
    by_cases h5 : processKey_key_len (verify_key_signature env (List.take skl (List.drop 32 kd))
        buf).2 > 32 ∨
        key_key_length (verify_key_signature env (List.take skl (List.drop 32 kd)) buf).2 > 32
    · rw [if_pos h5] at h
      exact key_verdict.noConfusion h
    · rw [if_neg h5] at h
      cases hd : processKey_datakey env kd ekl
          (verify_key_signature env (List.take skl (List.drop 32 kd)) buf).2 with
      | none => rw [hd] at h; exact key_verdict.noConfusion h
      | some dk => rw [hd] at h; exact key_verdict.noConfusion h

/-- C5: the signature check of `eapol_sm_processKey` depends on the signature
bytes carried in the frame only through the final comparison.  For two frames
(each holding a complete key body) that are equal outside the 16-byte
`key_signature` field and for the same signing key, the recomputed HMAC-MD5
value is the same; a frame passes the check if and only if its original
signature field equals HMAC-MD5 under the signing key of the first
`4 + length` bytes of the frame with the signature field zeroed; and once the
earlier stages of `eapol_sm_processKey` have passed, the function leaves with
the verdict "invalid key signature" exactly when that check fails. -/
theorem C5_signature_check (env : Env) (sign_key f1 f2 : List Nat)
    (h1 : 48 ≤ f1.length) (h2 : 48 ≤ f2.length)
    (hhead : f1.take 32 = f2.take 32) (htail : f1.drop 48 = f2.drop 48) :
    recomputed_signature env sign_key f1 = recomputed_signature env sign_key f2 ∧
    ((verify_key_signature env sign_key f1).1 = true ↔
      key_key_signature f1 =
        digest_bytes (env.hmac_md5 sign_key
          ((set_key_signature f1 (List.replicate 16 0)).take (sizeof_hdr + hdr_length f1)))) ∧
    (∀ (sm : eapol_sm) (kd : List Nat) (skl ekl : Nat),
      sm.last_rx_key = some f1 → sm.conf.accept_802_1x_keys = true →
      ¬ sizeof_hdr + hdr_length f1 > sm.last_rx_key_len →
      processKey_keydata env sm = Except.ok (kd, skl, ekl) →
      ¬ (sm.replay_counter_valid = true ∧
          memcmp sm.last_replay_counter (key_replay_counter f1)
            IEEE8021X_REPLAY_COUNTER_LEN ≥ 0) →
      ((eapol_sm_processKey_aux env sm).1 = key_verdict.bad_signature ↔
        key_key_signature f1 ≠ recomputed_signature env ((kd.drop 32).take skl) f1)) := by
  refine ⟨?_, verify_key_signature_iff env sign_key f1 h1, ?_⟩
  · have hz : set_key_signature f1 (List.replicate IEEE8021X_KEY_SIGN_LEN 0) =
        set_key_signature f2 (List.replicate IEEE8021X_KEY_SIGN_LEN 0) := by
      unfold set_key_signature
      rw [hhead, htail]
    have hl : hdr_length f1 = hdr_length f2 := by
      rw [← hdr_length_set_key_signature f1 (List.replicate IEEE8021X_KEY_SIGN_LEN 0) (by omega),
        ← hdr_length_set_key_signature f2 (List.replicate IEEE8021X_KEY_SIGN_LEN 0) (by omega), hz]
    unfold recomputed_signature
    dsimp only
    rw [hz, hl]
  · intro sm kd skl ekl hbuf ha hs hk hr
    rw [processKey_aux_bad_signature_iff env sm f1 kd skl ekl hbuf ha hs hk hr]
    have hv := verify_key_signature_iff env (List.take skl (List.drop 32 kd)) f1 h1
    rw [Ne, ← hv]
    cases (verify_key_signature env (List.take skl (List.drop 32 kd)) f1).1 <;> simp

set_option maxRecDepth 20000 in
/-- C5, witness: the correctly signed frame and the frame with one signature
bit flipped are equal outside the signature field. -/
theorem C5_signature_check_witness :
    48 ≤ (key_frame 5 sig_rc5).length ∧
    (key_frame 5 sig_rc5).take 32 = (key_frame 5 sig_rc5_flipped).take 32 ∧
    (key_frame 5 sig_rc5).drop 48 = (key_frame 5 sig_rc5_flipped).drop 48 ∧
    recomputed_signature env_idle (List.replicate 32 7) (key_frame 5 sig_rc5) =
      recomputed_signature env_idle (List.replicate 32 7) (key_frame 5 sig_rc5_flipped) ∧
    (verify_key_signature env_idle (List.replicate 32 7) (key_frame 5 sig_rc5)).1 = true :=
  ⟨by decide, by decide, by decide,
   (C5_signature_check env_idle (List.replicate 32 7) (key_frame 5 sig_rc5)
      (key_frame 5 sig_rc5_flipped) (by decide) (by decide) (by decide) (by decide)).1,
   by decide⟩

/-! ## C6: transmit counters -/

theorem deliver_tx (env : Env) (sm : eapol_sm) (ev : Event) (h : tx_ok (tx_view sm)) :
    tx_ok (tx_view (deliver env sm ev)) := by
  cases ev with
  | tick =>
    show tx_ok (tx_view (eapol_port_timers_tick env sm))
    unfold eapol_port_timers_tick
    dsimp only
    apply eapol_sm_step_tx
    split_ifs <;> exact h
  | step => exact eapol_sm_step_tx env sm h
  | step_timeout =>
    show tx_ok (tx_view (if sm.step_timeout = true then eapol_sm_step_timeout env sm else sm))
    split_ifs
    · exact eapol_sm_step_tx env _ h
    · exact h
  | rx_eapol src buf alloc =>
    obtain ⟨s, e, _, e3⟩ := eapol_sm_rx_eapol_cases env sm src buf alloc
    have hs : tx_ok (tx_view s) := by rw [e3]; exact h
    show tx_ok (tx_view (eapol_sm_rx_eapol env sm src buf alloc))
    rcases e with e | e <;> rw [e]
    · exact hs
    · exact eapol_sm_step_tx env s hs
  | configure a b c d =>
    show tx_ok (tx_view (eapol_sm_configure sm a b c d))
    unfold eapol_sm_configure
    dsimp only
    split_ifs <;> exact h
  | notify_portEnabled b => exact eapol_sm_step_tx env _ h
  | notify_portValid b => exact eapol_sm_step_tx env _ h
  | notify_eap_success b =>
    show tx_ok (tx_view (eapol_sm_notify_eap_success env sm b))
    unfold eapol_sm_notify_eap_success
    dsimp only
    apply eapol_sm_step_tx
    split_ifs <;> exact h
  | notify_eap_fail b => exact eapol_sm_step_tx env _ h
  | notify_config c =>
    cases c with
    | none => exact h
    | some c => exact h
  | notify_logoff b => exact eapol_sm_step_tx env _ h
  | notify_cached => exact h
  | notify_pmkid_attempt => exact h
  | notify_portControl pc => exact eapol_sm_step_tx env _ h
  | notify_ctrl_attached => exact h
  | notify_ctrl_response =>
    show tx_ok (tx_view (eapol_sm_notify_ctrl_response env sm))
    unfold eapol_sm_notify_ctrl_response
    split_ifs
    · exact eapol_sm_step_tx env _ h
    · exact h

theorem run_tx (env : Env) (evs : List Event) :
    ∀ sm : eapol_sm, tx_ok (tx_view sm) → tx_ok (tx_view (run env sm evs)) := by
  induction evs with
  | nil => intro sm h; exact h
  | cons ev evs ih =>
    intro sm h
    exact ih (deliver env sm ev) (deliver_tx env sm ev h)

theorem eapol_sm_init_tx (env : Env) (sm0 : eapol_sm)
    (h : eapol_sm_init env = some sm0) : tx_ok (tx_view sm0) := by
  unfold eapol_sm_init at h
  split at h
  · exact absurd h (by simp)
  · dsimp only at h
    injection h with h
    rw [← h]
    apply eapol_sm_step_tx
    have h1 := eapol_sm_step_tx env
      { eapol_sm_zero ‹eap_sm› with
        portControl := PortControl.Auto, heldPeriod := 60, startPeriod := 30, maxStart := 3
        authPeriod := 30, initialize_ := true }
      rfl
    exact h1

/-- C6: in every state reachable from `eapol_sm_init`,
`dot1xSuppEapolFramesTx = dot1xSuppEapolStartFramesTx +
dot1xSuppEapolLogoffFramesTx + dot1xSuppEapolRespFramesTx`; and from any state
in which the equality holds, `eapol_sm_txStart`, `eapol_sm_txLogoff`,
`eapol_sm_txSuppRsp`, `eapol_sm_step` and every input (tick, scheduled step,
frame, notification, configuration) lead to a state in which it holds. -/
theorem C6_tx_counters (env : Env) (sm : eapol_sm) :
    (Reachable env sm →
      sm.dot1xSuppEapolFramesTx =
        sm.dot1xSuppEapolStartFramesTx + sm.dot1xSuppEapolLogoffFramesTx +
          sm.dot1xSuppEapolRespFramesTx) ∧
    (sm.dot1xSuppEapolFramesTx =
        sm.dot1xSuppEapolStartFramesTx + sm.dot1xSuppEapolLogoffFramesTx +
          sm.dot1xSuppEapolRespFramesTx →
      ((eapol_sm_txStart sm).dot1xSuppEapolFramesTx =
        (eapol_sm_txStart sm).dot1xSuppEapolStartFramesTx +
          (eapol_sm_txStart sm).dot1xSuppEapolLogoffFramesTx +
          (eapol_sm_txStart sm).dot1xSuppEapolRespFramesTx) ∧
      ((eapol_sm_txLogoff sm).dot1xSuppEapolFramesTx =
        (eapol_sm_txLogoff sm).dot1xSuppEapolStartFramesTx +
          (eapol_sm_txLogoff sm).dot1xSuppEapolLogoffFramesTx +
          (eapol_sm_txLogoff sm).dot1xSuppEapolRespFramesTx) ∧
      ((eapol_sm_txSuppRsp sm).dot1xSuppEapolFramesTx =
        (eapol_sm_txSuppRsp sm).dot1xSuppEapolStartFramesTx +
          (eapol_sm_txSuppRsp sm).dot1xSuppEapolLogoffFramesTx +
          (eapol_sm_txSuppRsp sm).dot1xSuppEapolRespFramesTx) ∧
      ((eapol_sm_step env sm).dot1xSuppEapolFramesTx =
        (eapol_sm_step env sm).dot1xSuppEapolStartFramesTx +
          (eapol_sm_step env sm).dot1xSuppEapolLogoffFramesTx +
          (eapol_sm_step env sm).dot1xSuppEapolRespFramesTx) ∧
      ∀ ev : Event,
        (deliver env sm ev).dot1xSuppEapolFramesTx =
          (deliver env sm ev).dot1xSuppEapolStartFramesTx +
            (deliver env sm ev).dot1xSuppEapolLogoffFramesTx +
            (deliver env sm ev).dot1xSuppEapolRespFramesTx) := by
  constructor
  · rintro ⟨sm0, evs, h0, hr⟩
    rw [← hr]
    exact run_tx env evs sm0 (eapol_sm_init_tx env sm0 h0)
  · intro h
    exact ⟨eapol_sm_txStart_tx sm h, eapol_sm_txLogoff_tx sm h, eapol_sm_txSuppRsp_tx sm h,
      eapol_sm_step_tx env sm h, fun ev => deliver_tx env sm ev h⟩

set_option maxRecDepth 20000 in
/-- C6, witness: the state after a full authentication and the first frame of
a re-authentication is reachable, its counters satisfy the equality, and the
equality survives a further tick. -/
theorem C6_tx_counters_witness :
    Reachable env_idle (run env_idle fresh_idle reauth_trace) ∧
    (run env_idle fresh_idle reauth_trace).dot1xSuppEapolFramesTx =
      (run env_idle fresh_idle reauth_trace).dot1xSuppEapolStartFramesTx +
        (run env_idle fresh_idle reauth_trace).dot1xSuppEapolLogoffFramesTx +
        (run env_idle fresh_idle reauth_trace).dot1xSuppEapolRespFramesTx ∧
    (deliver env_idle (run env_idle fresh_idle reauth_trace) Event.tick).dot1xSuppEapolFramesTx =
      (deliver env_idle (run env_idle fresh_idle reauth_trace)
          Event.tick).dot1xSuppEapolStartFramesTx +
        (deliver env_idle (run env_idle fresh_idle reauth_trace)
          Event.tick).dot1xSuppEapolLogoffFramesTx +
        (deliver env_idle (run env_idle fresh_idle reauth_trace)
          Event.tick).dot1xSuppEapolRespFramesTx :=
  ⟨⟨fresh_idle, reauth_trace, rfl, rfl⟩,
   (C6_tx_counters env_idle _).1 ⟨fresh_idle, reauth_trace, rfl, rfl⟩,
   ((C6_tx_counters env_idle _).2
      ((C6_tx_counters env_idle _).1 ⟨fresh_idle, reauth_trace, rfl, rfl⟩)).2.2.2.2 Event.tick⟩

/-! ## C7: start-up without an authenticator -/

set_option maxRecDepth 100000 in
theorem startup_first : tick_quiesce env_idle connecting_idle = startup_state 1 := by
  decide!

set_option maxRecDepth 100000 in
theorem startup_next :
    ∀ t, t < 149 → tick_quiesce env_idle (startup_state (t + 1)) = startup_state (t + 2) := by
  decide!

theorem ticks_startup (t : Nat) (h : t < 150) :
    ticks env_idle (t + 1) connecting_idle = startup_state (t + 1) := by
  induction t with
  | zero => exact startup_first
  | succ n ih =>
    show tick_quiesce env_idle (ticks env_idle (n + 1) connecting_idle) = startup_state (n + 2)
    rw [ih (by omega)]
    exact startup_next n (by omega)

set_option maxRecDepth 100000 in
/-- C7: start-up trace with the default parameters (heldPeriod = 60,
startPeriod = 30, maxStart = 3).  Starting from a freshly initialised instance
with `portControl = Auto`, after `eapol_sm_notify_portEnabled (true)`, with no
frame received, `portValid = false` and an EAP engine that changes nothing:
the PAE is in CONNECTING with `startCount = 1` after tick 1 (and still at tick
29), re-enters CONNECTING with `startCount = 2` at tick 30 and with
`startCount = 3` at tick 60, sending an EAPOL-Start each time, enters HELD at
tick 90 and stays there until tick 149, and enters CONNECTING again at tick
150; at least 3 EAPOL-Start frames have been sent by then.  At every tick from
1 to 150 the instance is the one `startup_state` describes. -/
theorem C7_startup_trace :
    eapol_sm_init env_idle = some fresh_idle ∧
    fresh_idle.portControl = PortControl.Auto ∧
    (fresh_idle.heldPeriod = 60 ∧ fresh_idle.startPeriod = 30 ∧ fresh_idle.maxStart = 3) ∧
    connecting_idle = eapol_sm_notify_portEnabled env_idle fresh_idle true ∧
    (∀ t, 1 ≤ t → t ≤ 150 →
      ticks env_idle t connecting_idle = startup_state t ∧
      (ticks env_idle t connecting_idle).portValid = false ∧
      (ticks env_idle t connecting_idle).dot1xSuppEapolFramesRx = 0) ∧
    ((ticks env_idle 1 connecting_idle).SUPP_PAE_state = SUPP_PAE.CONNECTING ∧
      (ticks env_idle 1 connecting_idle).startCount = 1) ∧
    ((ticks env_idle 29 connecting_idle).SUPP_PAE_state = SUPP_PAE.CONNECTING ∧
      (ticks env_idle 29 connecting_idle).startCount = 1 ∧
      sent IEEE802_1X_TYPE_EAPOL_START (ticks env_idle 29 connecting_idle) = 1) ∧
    ((ticks env_idle 30 connecting_idle).SUPP_PAE_state = SUPP_PAE.CONNECTING ∧
      (ticks env_idle 30 connecting_idle).startCount = 2 ∧
      sent IEEE802_1X_TYPE_EAPOL_START (ticks env_idle 30 connecting_idle) = 2) ∧
    ((ticks env_idle 59 connecting_idle).startCount = 2 ∧
      (ticks env_idle 60 connecting_idle).SUPP_PAE_state = SUPP_PAE.CONNECTING ∧
      (ticks env_idle 60 connecting_idle).startCount = 3 ∧
      sent IEEE802_1X_TYPE_EAPOL_START (ticks env_idle 60 connecting_idle) = 3) ∧
    ((ticks env_idle 89 connecting_idle).SUPP_PAE_state = SUPP_PAE.CONNECTING ∧
      (ticks env_idle 90 connecting_idle).SUPP_PAE_state = SUPP_PAE.HELD ∧
      (ticks env_idle 90 connecting_idle).heldWhile = 60) ∧
    ((ticks env_idle 149 connecting_idle).SUPP_PAE_state = SUPP_PAE.HELD ∧
      (ticks env_idle 150 connecting_idle).SUPP_PAE_state = SUPP_PAE.CONNECTING ∧
      3 ≤ sent IEEE802_1X_TYPE_EAPOL_START (ticks env_idle 150 connecting_idle)) := by
  have hall : ∀ t, 1 ≤ t → t ≤ 150 → ticks env_idle t connecting_idle = startup_state t := by
    intro t h1 h2
    obtain ⟨n, rfl⟩ : ∃ n, t = n + 1 := ⟨t - 1, by omega⟩
    exact ticks_startup n (by omega)
  refine ⟨rfl, rfl, ⟨rfl, rfl, rfl⟩, rfl, ?_, ?_, ?_, ?_, ?_, ?_, ?_⟩
  · intro t h1 h2
    rw [hall t h1 h2]
    exact ⟨rfl, rfl, rfl⟩
  · rw [hall 1 (by omega) (by omega)]; decide
  · rw [hall 29 (by omega) (by omega)]; decide
  · rw [hall 30 (by omega) (by omega)]; decide
  · rw [hall 59 (by omega) (by omega), hall 60 (by omega) (by omega)]; decide
  · rw [hall 89 (by omega) (by omega), hall 90 (by omega) (by omega)]; decide
  · rw [hall 149 (by omega) (by omega), hall 150 (by omega) (by omega)]; decide

/-! ## C8: plaintext acceptance -/

set_option maxRecDepth 100000 in
/-- C8: plaintext acceptance.  With `accept_802_1x_keys = true` and
`required_keys = 0`, `portEnabled`, `portControl = Auto` and
`portValid = false`, starting from PAE state CONNECTING (`startWhen = 30`),
delivering a well-formed EAP-Packet frame moves the PAE to RESTART, the
scheduled step moves it to AUTHENTICATING, and `eapol_sm_notify_eap_success
(true)` then sets `portValid`, calls `eapol_done_cb`, enters AUTHENTICATED
with `suppPortStatus = Authorized` and invokes the completion callback with
success = true, exactly once.  This holds with the EAP engine that only clears
`eapRestart` and with the one that also answers the request; with the latter
the scheduled steps that follow leave the PAE in AUTHENTICATED, with nothing
more scheduled. -/
theorem C8_plaintext_acceptance :
    ((plaintext_start env_answer).conf = { accept_802_1x_keys := true, required_keys := 0 } ∧
      (plaintext_start env_answer).portEnabled = true ∧
      (plaintext_start env_answer).portControl = PortControl.Auto ∧
      (plaintext_start env_answer).portValid = false ∧
      (plaintext_start env_answer).SUPP_PAE_state = SUPP_PAE.CONNECTING ∧
      (plaintext_start env_answer).startWhen = 30) ∧
    ((plaintext_rx env_answer).SUPP_PAE_state = SUPP_PAE.RESTART ∧
      (eapol_sm_step_timeout env_answer (plaintext_rx env_answer)).SUPP_PAE_state =
        SUPP_PAE.AUTHENTICATING ∧
      (run_scheduled env_answer 8 (plaintext_rx env_answer)).SUPP_PAE_state =
        SUPP_PAE.AUTHENTICATING ∧
      (run_scheduled env_answer 8 (plaintext_rx env_answer)).portValid = false ∧
      (run_scheduled env_answer 8 (plaintext_rx env_answer)).step_timeout = false) ∧
    ((plaintext_success env_answer).SUPP_PAE_state = SUPP_PAE.AUTHENTICATED ∧
      (plaintext_success env_answer).portValid = true ∧
      (plaintext_success env_answer).suppPortStatus = PortStatus.Authorized ∧
      (plaintext_success env_answer).calls =
        (run_scheduled env_answer 8 (plaintext_rx env_answer)).calls ++
          [host_call.eapol_done_cb, host_call.cb true]) ∧
    ((run_scheduled env_answer 8 (plaintext_success env_answer)).SUPP_PAE_state =
        SUPP_PAE.AUTHENTICATED ∧
      (run_scheduled env_answer 8 (plaintext_success env_answer)).suppPortStatus =
        PortStatus.Authorized ∧
      (run_scheduled env_answer 8 (plaintext_success env_answer)).portValid = true ∧
      (run_scheduled env_answer 8 (plaintext_success env_answer)).step_timeout = false ∧
      (run_scheduled env_answer 8 (plaintext_success env_answer)).calls.count
        (host_call.cb true) = 1 ∧
      (run_scheduled env_answer 8 (plaintext_success env_answer)).calls.count
        (host_call.cb false) = 0) ∧
    ((plaintext_start env_restart).SUPP_PAE_state = SUPP_PAE.CONNECTING ∧
      (plaintext_start env_restart).portValid = false ∧
      (plaintext_rx env_restart).SUPP_PAE_state = SUPP_PAE.RESTART ∧
      (run_scheduled env_restart 8 (plaintext_rx env_restart)).SUPP_PAE_state =
        SUPP_PAE.AUTHENTICATING ∧
      (plaintext_success env_restart).SUPP_PAE_state = SUPP_PAE.AUTHENTICATED ∧
      (plaintext_success env_restart).portValid = true ∧
      (plaintext_success env_restart).suppPortStatus = PortStatus.Authorized ∧
      (plaintext_success env_restart).calls =
        (run_scheduled env_restart 8 (plaintext_rx env_restart)).calls ++
          [host_call.eapol_done_cb, host_call.cb true]) := by
  decide!

/-! ## C9: logoff -/

/-- C9: from PAE state AUTHENTICATED with `portEnabled`, not initializing,
`portControl = sPortMode = Auto` and `logoffSent = false`,
`eapol_sm_notify_logoff (true)` moves the PAE to LOGOFF, hands exactly one
EAPOL-Logoff frame to `eapol_send`, sets `logoffSent` and makes the port
Unauthorized; a following `eapol_sm_notify_logoff (false)` moves the PAE to
DISCONNECTED, and the next `eapol_sm_step` moves it to CONNECTING. -/
theorem C9_logoff (env : Env) (sm : eapol_sm)
    (_hs : sm.SUPP_PAE_state = SUPP_PAE.AUTHENTICATED)
    (he : sm.portEnabled = true) (hi : sm.initialize_ = false)
    (hc : sm.portControl = PortControl.Auto) (hm : sm.sPortMode = PortControl.Auto)
    (hl : sm.logoffSent = false) :
    (eapol_sm_notify_logoff env sm true).SUPP_PAE_state = SUPP_PAE.LOGOFF ∧
    sent IEEE802_1X_TYPE_EAPOL_LOGOFF (eapol_sm_notify_logoff env sm true) =
      sent IEEE802_1X_TYPE_EAPOL_LOGOFF sm + 1 ∧
    (eapol_sm_notify_logoff env sm true).logoffSent = true ∧
    (eapol_sm_notify_logoff env sm true).suppPortStatus = PortStatus.Unauthorized ∧
    (eapol_sm_notify_logoff env (eapol_sm_notify_logoff env sm true) false).SUPP_PAE_state =
      SUPP_PAE.DISCONNECTED ∧
    (eapol_sm_step env
      (eapol_sm_notify_logoff env (eapol_sm_notify_logoff env sm true) false)).SUPP_PAE_state =
      SUPP_PAE.CONNECTING := by
  -- first call
  have p1 : sm_SUPP_PAE_Step env { sm with userLogoff := true, changed := false } =
      sm_SUPP_PAE_LOGOFF_Enter { sm with userLogoff := true, changed := false } true :=
    sm_SUPP_PAE_Step_logoff env { sm with userLogoff := true, changed := false } rfl hl he hi
  have v1 : pae_view (eapol_sm_notify_logoff env sm true) =
      { pae_view sm with
        userLogoff := true, SUPP_PAE_state := SUPP_PAE.LOGOFF, logoffSent := true
        suppPortStatus := PortStatus.Unauthorized
        dot1xSuppEapolLogoffFramesTx := sm.dot1xSuppEapolLogoffFramesTx + 1 } := by
    show pae_view (eapol_sm_step env { sm with userLogoff := true }) = _
    rw [eapol_sm_step_view, p1, sm_SUPP_PAE_LOGOFF_Enter_view]
    rfl
  have n1 : sent IEEE802_1X_TYPE_EAPOL_LOGOFF (eapol_sm_notify_logoff env sm true) =
      sent IEEE802_1X_TYPE_EAPOL_LOGOFF sm + 1 := by
    show sent _ (eapol_sm_step env { sm with userLogoff := true }) = _
    rw [eapol_sm_step_sent _ _ _ (by decide), p1, sm_SUPP_PAE_LOGOFF_Enter_sent]
    rfl
  -- second call
  have e1 : (eapol_sm_notify_logoff env sm true).portEnabled = true :=
    (congrArg pae_vars.portEnabled v1).trans he
  have i1 : (eapol_sm_notify_logoff env sm true).initialize_ = false :=
    (congrArg pae_vars.initialize_ v1).trans hi
  have c1 : (eapol_sm_notify_logoff env sm true).portControl = PortControl.Auto :=
    (congrArg pae_vars.portControl v1).trans hc
  have m1 : (eapol_sm_notify_logoff env sm true).sPortMode = PortControl.Auto :=
    (congrArg pae_vars.sPortMode v1).trans hm
  have s1 : (eapol_sm_notify_logoff env sm true).SUPP_PAE_state = SUPP_PAE.LOGOFF :=
    congrArg pae_vars.SUPP_PAE_state v1
  have p2 : sm_SUPP_PAE_Step env
      { eapol_sm_notify_logoff env sm true with userLogoff := false, changed := false } =
      sm_SUPP_PAE_DISCONNECTED_Enter
        { eapol_sm_notify_logoff env sm true with userLogoff := false, changed := false }
        false := by
    rw [sm_SUPP_PAE_Step_no_global env
        { eapol_sm_notify_logoff env sm true with userLogoff := false, changed := false }
        (Or.inl rfl) e1 i1 (m1.trans c1.symm)]
    exact sm_SUPP_PAE_Step_local_LOGOFF env
      { eapol_sm_notify_logoff env sm true with userLogoff := false, changed := false } s1 rfl
  have v2 : pae_view (eapol_sm_notify_logoff env (eapol_sm_notify_logoff env sm true) false) =
      { pae_view (eapol_sm_notify_logoff env sm true) with
        userLogoff := false
        SUPP_PAE_state := SUPP_PAE.DISCONNECTED, sPortMode := PortControl.Auto
        startCount := 0, logoffSent := false
        suppPortStatus := PortStatus.Unauthorized } := by
    show pae_view (eapol_sm_step env
      { eapol_sm_notify_logoff env sm true with userLogoff := false }) = _
    rw [eapol_sm_step_view, p2, sm_SUPP_PAE_DISCONNECTED_Enter_view]
    rfl
  -- third step
  have p3 : sm_SUPP_PAE_Step env
      { eapol_sm_notify_logoff env (eapol_sm_notify_logoff env sm true) false with
        changed := false } =
      sm_SUPP_PAE_CONNECTING_Enter
        { eapol_sm_notify_logoff env (eapol_sm_notify_logoff env sm true) false with
          changed := false } false := by
    rw [sm_SUPP_PAE_Step_no_global env
        { eapol_sm_notify_logoff env (eapol_sm_notify_logoff env sm true) false with
          changed := false }
        (Or.inl (congrArg pae_vars.userLogoff v2))
        ((congrArg pae_vars.portEnabled v2).trans e1)
        ((congrArg pae_vars.initialize_ v2).trans i1)
        ((congrArg pae_vars.sPortMode v2).trans
          ((congrArg pae_vars.portControl v2).trans c1).symm)]
    exact sm_SUPP_PAE_Step_local_DISCONNECTED env
      { eapol_sm_notify_logoff env (eapol_sm_notify_logoff env sm true) false with
        changed := false } (congrArg pae_vars.SUPP_PAE_state v2)
  have v3 : (pae_view (eapol_sm_step env
      (eapol_sm_notify_logoff env (eapol_sm_notify_logoff env sm true) false))).SUPP_PAE_state =
      SUPP_PAE.CONNECTING := by
    rw [eapol_sm_step_view, p3, sm_SUPP_PAE_CONNECTING_Enter_view]
  exact ⟨s1, n1, congrArg pae_vars.logoffSent v1, congrArg pae_vars.suppPortStatus v1,
    congrArg pae_vars.SUPP_PAE_state v2, v3⟩

set_option maxRecDepth 100000 in
/-- C9, witness: the instance after a full authentication is in
AUTHENTICATED and meets the hypotheses; logging off and on again takes it
through LOGOFF and DISCONNECTED to CONNECTING. -/
theorem C9_logoff_witness :
    authenticated_idle.SUPP_PAE_state = SUPP_PAE.AUTHENTICATED ∧
    (eapol_sm_notify_logoff env_idle authenticated_idle true).SUPP_PAE_state = SUPP_PAE.LOGOFF ∧
    sent IEEE802_1X_TYPE_EAPOL_LOGOFF (eapol_sm_notify_logoff env_idle authenticated_idle true) =
      sent IEEE802_1X_TYPE_EAPOL_LOGOFF authenticated_idle + 1 ∧
    (eapol_sm_notify_logoff env_idle authenticated_idle true).logoffSent = true ∧
    (eapol_sm_notify_logoff env_idle authenticated_idle true).suppPortStatus =
      PortStatus.Unauthorized ∧
    (eapol_sm_notify_logoff env_idle
      (eapol_sm_notify_logoff env_idle authenticated_idle true) false).SUPP_PAE_state =
      SUPP_PAE.DISCONNECTED ∧
    (eapol_sm_step env_idle
      (eapol_sm_notify_logoff env_idle
        (eapol_sm_notify_logoff env_idle authenticated_idle true) false)).SUPP_PAE_state =
      SUPP_PAE.CONNECTING :=
  ⟨by decide!,
   C9_logoff env_idle authenticated_idle (by decide!) (by decide!) (by decide!) (by decide!)
     (by decide!) (by decide!)⟩

/-! ## C10: PMKSA cache miss -/

/-- C10 (amended): for every state, after `eapol_sm_notify_pmkid_attempt`
followed by `eapol_sm_rx_eapol` of a well-formed EAP-Packet frame (type 0),
`cached_pmk` is false when `eapol_sm_rx_eapol` returns; and the state from
which `eapol_sm_rx_eapol` runs its `eapol_sm_step` (the state it returns, when
the copy of the request cannot be allocated) has `cached_pmk` false, PAE
state CONNECTING, `eapRestart` true and `suppPortStatus` Unauthorized, with
`eapolEap` set when the step is run. -/
theorem C10_pmksa_cache_miss (env : Env) (sm : eapol_sm) (src buf : List Nat) (alloc : Bool)
    (hlen : sizeof_hdr ≤ buf.length) (hplen : hdr_length buf ≤ buf.length - sizeof_hdr)
    (htype : hdr_type buf = IEEE802_1X_TYPE_EAP_PACKET) :
    (eapol_sm_rx_eapol env (eapol_sm_notify_pmkid_attempt sm) src buf alloc).cached_pmk = false ∧
    ∃ s : eapol_sm,
      s.cached_pmk = false ∧ s.SUPP_PAE_state = SUPP_PAE.CONNECTING ∧
      s.eapRestart = true ∧ s.suppPortStatus = PortStatus.Unauthorized ∧
      (alloc = true → s.eapolEap = true ∧
        eapol_sm_rx_eapol env (eapol_sm_notify_pmkid_attempt sm) src buf alloc =
          eapol_sm_step env s) ∧
      (alloc = false →
        eapol_sm_rx_eapol env (eapol_sm_notify_pmkid_attempt sm) src buf alloc = s) := by
  have c1 : ¬ buf.length < sizeof_hdr := Nat.not_lt.mpr hlen
  have c2 : ¬ hdr_length buf > buf.length - sizeof_hdr := Nat.not_lt.mpr hplen
  have c5 : (eapol_sm_notify_pmkid_attempt sm).cached_pmk = true := rfl
  cases alloc with
  | true =>
    have e : eapol_sm_rx_eapol env (eapol_sm_notify_pmkid_attempt sm) src buf true =
        eapol_sm_step env
          { eapol_sm_abort_cached
              { eapol_sm_notify_pmkid_attempt sm with
                dot1xSuppEapolFramesRx := sm.dot1xSuppEapolFramesRx + 1
                dot1xSuppLastEapolFrameVersion := hdr_version buf
                dot1xSuppLastEapolFrameSource := src.take ETH_ALEN } with
            eapReqDataLen := hdr_length buf
            eapReqData := some ((buf.drop sizeof_hdr).take (hdr_length buf))
            eapolEap := true } := by
      unfold eapol_sm_rx_eapol
      dsimp only
      rw [if_neg c1, if_neg c2, if_pos htype, if_pos rfl, if_pos c5]
      rfl
    refine ⟨?_, _, rfl, rfl, rfl, rfl, fun _ => ⟨rfl, e⟩, fun h => absurd h (by decide)⟩
    rw [e]
    exact (eapol_sm_step_inputs env _).2.2.2.2.2.2.2.2
  | false =>
    have e : eapol_sm_rx_eapol env (eapol_sm_notify_pmkid_attempt sm) src buf false =
        { eapol_sm_abort_cached
            { eapol_sm_notify_pmkid_attempt sm with
              dot1xSuppEapolFramesRx := sm.dot1xSuppEapolFramesRx + 1
              dot1xSuppLastEapolFrameVersion := hdr_version buf
              dot1xSuppLastEapolFrameSource := src.take ETH_ALEN } with
          eapReqDataLen := hdr_length buf
          eapReqData := none } := by
      unfold eapol_sm_rx_eapol
      dsimp only
      rw [if_neg c1, if_neg c2, if_pos htype, if_neg (by decide), if_pos c5]
      rfl
    refine ⟨?_, _, rfl, rfl, rfl, rfl, fun h => absurd h (by decide), fun _ => e⟩
    rw [e]
    rfl

set_option maxRecDepth 100000 in
/-- C10, witness: the EAP-Request frame is a well-formed EAP-Packet, and on the
instance in CONNECTING the amended statement holds. -/
theorem C10_pmksa_cache_miss_witness :
    (sizeof_hdr ≤ eap_request_frame.length ∧
      hdr_length eap_request_frame ≤ eap_request_frame.length - sizeof_hdr ∧
      hdr_type eap_request_frame = IEEE802_1X_TYPE_EAP_PACKET) ∧
    (eapol_sm_rx_eapol env_idle (eapol_sm_notify_pmkid_attempt connecting_idle) src_mac
        eap_request_frame true).cached_pmk = false ∧
    ∃ s : eapol_sm,
      s.cached_pmk = false ∧ s.SUPP_PAE_state = SUPP_PAE.CONNECTING ∧
      s.eapRestart = true ∧ s.suppPortStatus = PortStatus.Unauthorized ∧
      (true = true → s.eapolEap = true ∧
        eapol_sm_rx_eapol env_idle (eapol_sm_notify_pmkid_attempt connecting_idle) src_mac
            eap_request_frame true =
          eapol_sm_step env_idle s) ∧
      (true = false →
        eapol_sm_rx_eapol env_idle (eapol_sm_notify_pmkid_attempt connecting_idle) src_mac
            eap_request_frame true = s) :=
  ⟨⟨by decide, by decide, by decide⟩,
   C10_pmksa_cache_miss env_idle connecting_idle src_mac eap_request_frame true
     (by decide) (by decide) (by decide)⟩

set_option maxRecDepth 100000 in
/-- C10, counterexample: on an enabled port in CONNECTING with `startWhen = 30`,
after `eapol_sm_notify_pmkid_attempt` and the delivery of a well-formed
EAP-Packet frame, `eapol_sm_rx_eapol` returns with the PAE in RESTART, not in
CONNECTING: the step it runs sees `eapolEap` set.  With the engine that clears
`eapRestart`, `eapRestart` is false as well when it returns. -/
theorem C10_counterexample :
    connecting_idle.SUPP_PAE_state = SUPP_PAE.CONNECTING ∧
    (eapol_sm_rx_eapol env_idle (eapol_sm_notify_pmkid_attempt connecting_idle) src_mac
        eap_request_frame true).SUPP_PAE_state = SUPP_PAE.RESTART ∧
    (eapol_sm_rx_eapol env_restart (eapol_sm_notify_pmkid_attempt connecting_idle) src_mac
        eap_request_frame true).SUPP_PAE_state = SUPP_PAE.RESTART ∧
    (eapol_sm_rx_eapol env_restart (eapol_sm_notify_pmkid_attempt connecting_idle) src_mac
        eap_request_frame true).eapRestart = false ∧
    ¬ ((eapol_sm_rx_eapol env_idle (eapol_sm_notify_pmkid_attempt connecting_idle) src_mac
          eap_request_frame true).cached_pmk = false ∧
       (eapol_sm_rx_eapol env_idle (eapol_sm_notify_pmkid_attempt connecting_idle) src_mac
          eap_request_frame true).SUPP_PAE_state = SUPP_PAE.CONNECTING ∧
       (eapol_sm_rx_eapol env_idle (eapol_sm_notify_pmkid_attempt connecting_idle) src_mac
          eap_request_frame true).eapRestart = true ∧
       (eapol_sm_rx_eapol env_idle (eapol_sm_notify_pmkid_attempt connecting_idle) src_mac
          eap_request_frame true).suppPortStatus = PortStatus.Unauthorized) := by
  decide!


/-! ## Case analysis of the three state machine steps -/

theorem SUPP_PAE_plaintext_eq (env : Env) (sm : eapol_sm)
    (h : sm.eapSuccess = true ∧ sm.portValid = false ∧ sm.conf.accept_802_1x_keys = true ∧
      sm.conf.required_keys = 0) :
    SUPP_PAE_plaintext env sm =
      { sm with
        portValid := true
        calls := if env.eapol_done_cb = true then sm.calls ++ [host_call.eapol_done_cb]
                 else sm.calls } := by
  unfold SUPP_PAE_plaintext
  rw [if_pos h]
  dsimp only
  split_ifs <;> rfl

theorem SUPP_PAE_plaintext_skip (env : Env) (sm : eapol_sm)
    (h : ¬ (sm.eapSuccess = true ∧ sm.portValid = false ∧ sm.conf.accept_802_1x_keys = true ∧
      sm.conf.required_keys = 0)) :
    SUPP_PAE_plaintext env sm = sm := by
  unfold SUPP_PAE_plaintext
  rw [if_neg h]

/-- Every outcome of the `switch` of `SM_STEP(SUPP_PAE)`, with the guard that
selects it. -/
theorem sm_SUPP_PAE_Step_local_cases (env : Env) (sm : eapol_sm) (P : eapol_sm → Prop)
    (stay : P sm)
    (logoff_disc : sm.SUPP_PAE_state = SUPP_PAE.LOGOFF → sm.userLogoff = false →
      P (sm_SUPP_PAE_DISCONNECTED_Enter sm false))
    (disc_conn : sm.SUPP_PAE_state = SUPP_PAE.DISCONNECTED →
      P (sm_SUPP_PAE_CONNECTING_Enter sm false))
    (conn_conn : sm.SUPP_PAE_state = SUPP_PAE.CONNECTING → sm.startWhen = 0 →
      sm.startCount < sm.maxStart → P (sm_SUPP_PAE_CONNECTING_Enter sm false))
    (conn_authd : sm.SUPP_PAE_state = SUPP_PAE.CONNECTING → sm.startWhen = 0 →
      sm.startCount ≥ sm.maxStart → sm.portValid = true →
      P (sm_SUPP_PAE_AUTHENTICATED_Enter sm false))
    (conn_authg : sm.SUPP_PAE_state = SUPP_PAE.CONNECTING →
      (sm.eapSuccess = true ∨ sm.eapFail = true) →
      P (sm_SUPP_PAE_AUTHENTICATING_Enter sm false))
    (conn_restart : sm.SUPP_PAE_state = SUPP_PAE.CONNECTING → sm.eapolEap = true →
      P (sm_SUPP_PAE_RESTART_Enter sm false))
    (conn_held : sm.SUPP_PAE_state = SUPP_PAE.CONNECTING → sm.startWhen = 0 →
      sm.startCount ≥ sm.maxStart → sm.portValid = false →
      P (sm_SUPP_PAE_HELD_Enter sm false))
    (authg_plain : sm.SUPP_PAE_state = SUPP_PAE.AUTHENTICATING →
      (sm.eapSuccess = true ∧ sm.portValid = false ∧ sm.conf.accept_802_1x_keys = true ∧
        sm.conf.required_keys = 0) →
      P (sm_SUPP_PAE_AUTHENTICATED_Enter
        { sm with
          portValid := true
          calls := if env.eapol_done_cb = true then sm.calls ++ [host_call.eapol_done_cb]
                   else sm.calls } false))
    (authg_authd : sm.SUPP_PAE_state = SUPP_PAE.AUTHENTICATING → sm.eapSuccess = true →
      sm.portValid = true → P (sm_SUPP_PAE_AUTHENTICATED_Enter sm false))
    (authg_held : sm.SUPP_PAE_state = SUPP_PAE.AUTHENTICATING →
      (sm.eapFail = true ∨ (sm.keyDone = true ∧ sm.portValid = false)) →
      P (sm_SUPP_PAE_HELD_Enter sm false))
    (authg_conn : sm.SUPP_PAE_state = SUPP_PAE.AUTHENTICATING → sm.suppTimeout = true →
      P (sm_SUPP_PAE_CONNECTING_Enter sm false))
    (held_conn : sm.SUPP_PAE_state = SUPP_PAE.HELD → sm.heldWhile = 0 →
      P (sm_SUPP_PAE_CONNECTING_Enter sm false))
    (held_restart : sm.SUPP_PAE_state = SUPP_PAE.HELD → sm.heldWhile ≠ 0 →
      sm.eapolEap = true → P (sm_SUPP_PAE_RESTART_Enter sm false))
    (authd_restart : sm.SUPP_PAE_state = SUPP_PAE.AUTHENTICATED → sm.eapolEap = true →
      sm.portValid = true → P (sm_SUPP_PAE_RESTART_Enter sm false))
    (authd_disc : sm.SUPP_PAE_state = SUPP_PAE.AUTHENTICATED → sm.portValid = false →
      P (sm_SUPP_PAE_DISCONNECTED_Enter sm false))
    (restart_authg : sm.SUPP_PAE_state = SUPP_PAE.RESTART → sm.eapRestart = false →
      P (sm_SUPP_PAE_AUTHENTICATING_Enter sm false)) :
    P (sm_SUPP_PAE_Step_local env sm) := by
  unfold sm_SUPP_PAE_Step_local
  cases hs : sm.SUPP_PAE_state with
  | UNKNOWN => exact stay
  | LOGOFF =>
    dsimp only
    by_cases c : sm.userLogoff = false
    · rw [if_pos c]; exact logoff_disc hs c
    · rw [if_neg c]; exact stay
  | DISCONNECTED => exact disc_conn hs
  | CONNECTING =>
    dsimp only
    by_cases c1 : sm.startWhen = 0 ∧ sm.startCount < sm.maxStart
    · rw [if_pos c1]; exact conn_conn hs c1.1 c1.2
    rw [if_neg c1]
    by_cases c2 : sm.startWhen = 0 ∧ sm.startCount ≥ sm.maxStart ∧ sm.portValid = true
    · rw [if_pos c2]; exact conn_authd hs c2.1 c2.2.1 c2.2.2
    rw [if_neg c2]
    by_cases c3 : sm.eapSuccess = true ∨ sm.eapFail = true
    · rw [if_pos c3]; exact conn_authg hs c3
    rw [if_neg c3]
    by_cases c4 : sm.eapolEap = true
    · rw [if_pos c4]; exact conn_restart hs c4
    rw [if_neg c4]
    by_cases c5 : sm.startWhen = 0 ∧ sm.startCount ≥ sm.maxStart ∧ sm.portValid = false
    · rw [if_pos c5]; exact conn_held hs c5.1 c5.2.1 c5.2.2
    rw [if_neg c5]; exact stay
  | AUTHENTICATING =>
    dsimp only
    by_cases cp : sm.eapSuccess = true ∧ sm.portValid = false ∧
        sm.conf.accept_802_1x_keys = true ∧ sm.conf.required_keys = 0
    · rw [SUPP_PAE_plaintext_eq env sm cp]
      rw [if_pos ⟨cp.1, rfl⟩]
      exact authg_plain hs cp
    rw [SUPP_PAE_plaintext_skip env sm cp]
    by_cases c1 : sm.eapSuccess = true ∧ sm.portValid = true
    · rw [if_pos c1]; exact authg_authd hs c1.1 c1.2
    rw [if_neg c1]
    by_cases c2 : sm.eapFail = true ∨ (sm.keyDone = true ∧ sm.portValid = false)
    · rw [if_pos c2]; exact authg_held hs c2
    rw [if_neg c2]
    by_cases c3 : sm.suppTimeout = true
    · rw [if_pos c3]; exact authg_conn hs c3
    rw [if_neg c3]; exact stay
  | HELD =>
    dsimp only
    by_cases c1 : sm.heldWhile = 0
    · rw [if_pos c1]; exact held_conn hs c1
    rw [if_neg c1]
    by_cases c2 : sm.eapolEap = true
    · rw [if_pos c2]; exact held_restart hs c1 c2
    rw [if_neg c2]; exact stay
  | AUTHENTICATED =>
    dsimp only
    by_cases c1 : sm.eapolEap = true ∧ sm.portValid = true
    · rw [if_pos c1]; exact authd_restart hs c1.1 c1.2
    rw [if_neg c1]
    by_cases c2 : sm.portValid = false
    · rw [if_pos c2]; exact authd_disc hs c2
    rw [if_neg c2]; exact stay
  | RESTART =>
    dsimp only
    by_cases c1 : sm.eapRestart = false
    · rw [if_pos c1]; exact restart_authg hs c1
    rw [if_neg c1]; exact stay
  | S_FORCE_AUTH => exact stay
  | S_FORCE_UNAUTH => exact stay

/-- Every outcome of `SM_STEP(SUPP_PAE)`: the four global transitions in
their order of priority, then the `switch`. -/
theorem sm_SUPP_PAE_Step_cases (env : Env) (sm : eapol_sm) (P : eapol_sm → Prop)
    (logoff : sm.userLogoff = true → sm.logoffSent = false →
      ¬ (sm.initialize_ = true ∨ sm.portEnabled = false) →
      P (sm_SUPP_PAE_LOGOFF_Enter sm true))
    (disc : ((sm.portControl = PortControl.Auto ∧ sm.sPortMode ≠ sm.portControl) ∨
        sm.initialize_ = true ∨ sm.portEnabled = false) →
      P (sm_SUPP_PAE_DISCONNECTED_Enter sm true))
    (force_auth : sm.portControl = PortControl.ForceAuthorized →
      sm.sPortMode ≠ sm.portControl →
      ¬ (sm.initialize_ = true ∨ sm.portEnabled = false) →
      P (sm_SUPP_PAE_S_FORCE_AUTH_Enter sm true))
    (force_unauth : sm.portControl = PortControl.ForceUnauthorized →
      sm.sPortMode ≠ sm.portControl →
      ¬ (sm.initialize_ = true ∨ sm.portEnabled = false) →
      P (sm_SUPP_PAE_S_FORCE_UNAUTH_Enter sm true))
    (loc : (sm.userLogoff = false ∨ sm.logoffSent = true) →
      ¬ (sm.initialize_ = true ∨ sm.portEnabled = false) →
      sm.sPortMode = sm.portControl →
      P (sm_SUPP_PAE_Step_local env sm)) :
    P (sm_SUPP_PAE_Step env sm) := by
  unfold sm_SUPP_PAE_Step
  by_cases c1 : (sm.userLogoff = true ∧ sm.logoffSent = false) ∧
      ¬ (sm.initialize_ = true ∨ sm.portEnabled = false)
  · rw [if_pos c1]; exact logoff c1.1.1 c1.1.2 c1.2
  rw [if_neg c1]
  by_cases c2 : (sm.portControl = PortControl.Auto ∧ sm.sPortMode ≠ sm.portControl) ∨
      sm.initialize_ = true ∨ sm.portEnabled = false
  · rw [if_pos c2]; exact disc c2
  rw [if_neg c2]
  by_cases c3 : sm.portControl = PortControl.ForceAuthorized ∧ sm.sPortMode ≠ sm.portControl ∧
      ¬ (sm.initialize_ = true ∨ sm.portEnabled = false)
  · rw [if_pos c3]; exact force_auth c3.1 c3.2.1 c3.2.2
  rw [if_neg c3]
  by_cases c4 : sm.portControl = PortControl.ForceUnauthorized ∧
      sm.sPortMode ≠ sm.portControl ∧
      ¬ (sm.initialize_ = true ∨ sm.portEnabled = false)
  · rw [if_pos c4]; exact force_unauth c4.1 c4.2.1 c4.2.2
  rw [if_neg c4]
  have hG : ¬ (sm.initialize_ = true ∨ sm.portEnabled = false) := fun h => c2 (Or.inr h)
  have hU : sm.userLogoff = false ∨ sm.logoffSent = true := by
    cases hu : sm.userLogoff
    · exact Or.inl rfl
    · cases hl : sm.logoffSent
      · exact absurd ⟨⟨hu, hl⟩, hG⟩ c1
      · exact Or.inr rfl
  have hM : sm.sPortMode = sm.portControl := by
    by_contra hne
    cases hp : sm.portControl
    · exact c2 (Or.inl ⟨hp, hne⟩)
    · exact c4 ⟨hp, hne, hG⟩
    · exact c3 ⟨hp, hne, hG⟩
  exact loc hU hG hM

/-- Every outcome of `SM_STEP(KEY_RX)`: the state the `switch` starts from is
`NO_KEY_RECEIVE` after the global transition, the current one otherwise. -/
theorem sm_KEY_RX_Step_cases (env : Env) (sm : eapol_sm) (P : eapol_sm → Prop)
    (glob_key : (sm.initialize_ = true ∨ sm.portEnabled = false) → sm.rxKey = true →
      P (sm_KEY_RX_KEY_RECEIVE_Enter env (sm_KEY_RX_NO_KEY_RECEIVE_Enter sm true) false))
    (glob : (sm.initialize_ = true ∨ sm.portEnabled = false) → sm.rxKey = false →
      P (sm_KEY_RX_NO_KEY_RECEIVE_Enter sm true))
    (key : ¬ (sm.initialize_ = true ∨ sm.portEnabled = false) → sm.rxKey = true →
      sm.KEY_RX_state ≠ KEY_RX.UNKNOWN → P (sm_KEY_RX_KEY_RECEIVE_Enter env sm false))
    (stay : ¬ (sm.initialize_ = true ∨ sm.portEnabled = false) →
      (sm.rxKey = false ∨ sm.KEY_RX_state = KEY_RX.UNKNOWN) → P sm) :
    P (sm_KEY_RX_Step env sm) := by
  unfold sm_KEY_RX_Step
  dsimp only
  by_cases g : sm.initialize_ = true ∨ sm.portEnabled = false
  · rw [if_pos g]
    have hst : (sm_KEY_RX_NO_KEY_RECEIVE_Enter sm true).KEY_RX_state = KEY_RX.NO_KEY_RECEIVE :=
      rfl
    have hrx : (sm_KEY_RX_NO_KEY_RECEIVE_Enter sm true).rxKey = sm.rxKey := by
      unfold sm_KEY_RX_NO_KEY_RECEIVE_Enter SM_ENTRY_KEY_RX
      dsimp only
      split_ifs <;> rfl
    unfold sm_KEY_RX_Step_local
    rw [hst]
    dsimp only
    rw [hrx]
    cases hr : sm.rxKey
    · rw [if_neg (by decide)]; exact glob g hr
    · rw [if_pos rfl]; exact glob_key g hr
  · rw [if_neg g]
    unfold sm_KEY_RX_Step_local
    cases hs : sm.KEY_RX_state with
    | UNKNOWN => exact stay g (Or.inr hs)
    | NO_KEY_RECEIVE =>
      dsimp only
      cases hr : sm.rxKey
      · rw [if_neg (by decide)]; exact stay g (Or.inl hr)
      · rw [if_pos rfl]; exact key g hr (by rw [hs]; decide)
    | KEY_RECEIVE =>
      dsimp only
      cases hr : sm.rxKey
      · rw [if_neg (by decide)]; exact stay g (Or.inl hr)
      · rw [if_pos rfl]; exact key g hr (by rw [hs]; decide)

/-- Every outcome of the `switch` of `SM_STEP(SUPP_BE)`, with the guard that
selects it. -/
theorem sm_SUPP_BE_Step_local_cases (sm : eapol_sm) (P : eapol_sm → Prop)
    (stay : P sm)
    (request_response : sm.SUPP_BE_state = SUPP_BE.REQUEST → sm.eapResp = true →
      P (sm_SUPP_BE_RESPONSE_Enter sm false))
    (request_receive : sm.SUPP_BE_state = SUPP_BE.REQUEST → sm.eapResp = false →
      sm.eapNoResp = true → P (sm_SUPP_BE_RECEIVE_Enter sm false))
    (response_receive : sm.SUPP_BE_state = SUPP_BE.RESPONSE →
      P (sm_SUPP_BE_RECEIVE_Enter sm false))
    (done_idle : (sm.SUPP_BE_state = SUPP_BE.SUCCESS ∨ sm.SUPP_BE_state = SUPP_BE.FAIL ∨
        sm.SUPP_BE_state = SUPP_BE.TIMEOUT ∨ sm.SUPP_BE_state = SUPP_BE.INITIALIZE) →
      P (sm_SUPP_BE_IDLE_Enter sm false))
    (idle_fail : sm.SUPP_BE_state = SUPP_BE.IDLE → sm.eapFail = true → sm.suppStart = true →
      P (sm_SUPP_BE_FAIL_Enter sm false))
    (idle_request : sm.SUPP_BE_state = SUPP_BE.IDLE → sm.eapolEap = true →
      sm.suppStart = true → P (sm_SUPP_BE_REQUEST_Enter sm false))
    (idle_success : sm.SUPP_BE_state = SUPP_BE.IDLE → sm.eapSuccess = true →
      sm.suppStart = true → P (sm_SUPP_BE_SUCCESS_Enter sm false))
    (receive_request : sm.SUPP_BE_state = SUPP_BE.RECEIVE → sm.eapolEap = true →
      P (sm_SUPP_BE_REQUEST_Enter sm false))
    (receive_fail : sm.SUPP_BE_state = SUPP_BE.RECEIVE → sm.eapolEap = false →
      sm.eapFail = true → P (sm_SUPP_BE_FAIL_Enter sm false))
    (receive_timeout : sm.SUPP_BE_state = SUPP_BE.RECEIVE → sm.eapolEap = false →
      sm.authWhile = 0 → P (sm_SUPP_BE_TIMEOUT_Enter sm false))
    (receive_success : sm.SUPP_BE_state = SUPP_BE.RECEIVE → sm.eapolEap = false →
      sm.eapSuccess = true → P (sm_SUPP_BE_SUCCESS_Enter sm false)) :
    P (sm_SUPP_BE_Step_local sm) := by
  unfold sm_SUPP_BE_Step_local
  cases hs : sm.SUPP_BE_state with
  | UNKNOWN => exact stay
  | REQUEST =>
    dsimp only
    cases h1 : sm.eapResp
    · rw [if_neg (by decide)]
      cases h2 : sm.eapNoResp
      · rw [if_neg (by decide)]; exact stay
      · rw [if_pos rfl]; exact request_receive hs h1 h2
    · rw [if_pos rfl]; exact request_response hs h1
  | RESPONSE => exact response_receive hs
  | SUCCESS => exact done_idle (Or.inl hs)
  | FAIL => exact done_idle (Or.inr (Or.inl hs))
  | TIMEOUT => exact done_idle (Or.inr (Or.inr (Or.inl hs)))
  | INITIALIZE => exact done_idle (Or.inr (Or.inr (Or.inr hs)))
  | IDLE =>
    dsimp only
    by_cases c1 : sm.eapFail = true ∧ sm.suppStart = true
    · rw [if_pos c1]; exact idle_fail hs c1.1 c1.2
    rw [if_neg c1]
    by_cases c2 : sm.eapolEap = true ∧ sm.suppStart = true
    · rw [if_pos c2]; exact idle_request hs c2.1 c2.2
    rw [if_neg c2]
    by_cases c3 : sm.eapSuccess = true ∧ sm.suppStart = true
    · rw [if_pos c3]; exact idle_success hs c3.1 c3.2
    rw [if_neg c3]; exact stay
  | RECEIVE =>
    dsimp only
    cases h1 : sm.eapolEap
    · rw [if_neg (by decide)]
      by_cases c2 : sm.eapFail = true
      · rw [if_pos c2]; exact receive_fail hs h1 c2
      rw [if_neg c2]
      by_cases c3 : sm.authWhile = 0
      · rw [if_pos c3]; exact receive_timeout hs h1 c3
      rw [if_neg c3]
      by_cases c4 : sm.eapSuccess = true
      · rw [if_pos c4]; exact receive_success hs h1 c4
      rw [if_neg c4]; exact stay
    · rw [if_pos rfl]; exact receive_request hs h1

/-- Every outcome of `SM_STEP(SUPP_BE)`. -/
theorem sm_SUPP_BE_Step_cases (env : Env) (sm : eapol_sm) (P : eapol_sm → Prop)
    (glob : (sm.initialize_ = true ∨ sm.suppAbort = true) →
      P (sm_SUPP_BE_INITIALIZE_Enter env sm true))
    (loc : sm.initialize_ = false → sm.suppAbort = false → P (sm_SUPP_BE_Step_local sm)) :
    P (sm_SUPP_BE_Step env sm) := by
  unfold sm_SUPP_BE_Step
  by_cases g : sm.initialize_ = true ∨ sm.suppAbort = true
  · rw [if_pos g]; exact glob g
  · rw [if_neg g]
    refine loc ?_ ?_
    · cases h : sm.initialize_
      · rfl
      · exact absurd (Or.inl h) g
    · cases h : sm.suppAbort
      · rfl
      · exact absurd (Or.inr h) g

/-! ## Invocations of the completion callback -/

theorem cb_calls_append (sm : eapol_sm) (c : host_call)
    (hc : ∀ b, c ≠ host_call.cb b) :
    cb_calls { sm with calls := sm.calls ++ [c] } = cb_calls sm := by
  unfold cb_calls
  dsimp only
  rw [List.filterMap_append]
  cases c with
  | cb b => exact absurd rfl (hc b)
  | eapol_send t b => simp
  | set_wep_key a b k => simp
  | eapol_done_cb => simp

theorem cb_calls_of_calls {s r : eapol_sm} (h : r.calls = s.calls) : cb_calls r = cb_calls s := by
  unfold cb_calls; rw [h]

theorem SM_ENTRY_SUPP_PAE_calls (sm : eapol_sm) (g : Bool) (st : SUPP_PAE) :
    (SM_ENTRY_SUPP_PAE sm g st).calls = sm.calls := by
  unfold SM_ENTRY_SUPP_PAE
  dsimp only
  split_ifs <;> rfl

theorem SM_ENTRY_KEY_RX_calls (sm : eapol_sm) (g : Bool) (st : KEY_RX) :
    (SM_ENTRY_KEY_RX sm g st).calls = sm.calls := by
  unfold SM_ENTRY_KEY_RX
  dsimp only
  split_ifs <;> rfl

theorem SM_ENTRY_SUPP_BE_calls (sm : eapol_sm) (g : Bool) (st : SUPP_BE) :
    (SM_ENTRY_SUPP_BE sm g st).calls = sm.calls := by
  unfold SM_ENTRY_SUPP_BE
  dsimp only
  split_ifs <;> rfl

theorem sm_SUPP_PAE_LOGOFF_Enter_cb (sm : eapol_sm) (g : Bool) :
    cb_calls (sm_SUPP_PAE_LOGOFF_Enter sm g) = cb_calls sm :=
  calc cb_calls (sm_SUPP_PAE_LOGOFF_Enter sm g)
      = cb_calls { SM_ENTRY_SUPP_PAE sm g SUPP_PAE.LOGOFF with
          calls := (SM_ENTRY_SUPP_PAE sm g SUPP_PAE.LOGOFF).calls ++
            [host_call.eapol_send IEEE802_1X_TYPE_EAPOL_LOGOFF []] } := rfl
    _ = cb_calls (SM_ENTRY_SUPP_PAE sm g SUPP_PAE.LOGOFF) :=
        cb_calls_append _ _ (by intro b h; cases h)
    _ = cb_calls sm := cb_calls_of_calls (SM_ENTRY_SUPP_PAE_calls sm g _)

theorem sm_SUPP_PAE_S_FORCE_UNAUTH_Enter_cb (sm : eapol_sm) (g : Bool) :
    cb_calls (sm_SUPP_PAE_S_FORCE_UNAUTH_Enter sm g) = cb_calls sm :=
  calc cb_calls (sm_SUPP_PAE_S_FORCE_UNAUTH_Enter sm g)
      = cb_calls { SM_ENTRY_SUPP_PAE sm g SUPP_PAE.S_FORCE_UNAUTH with
          calls := (SM_ENTRY_SUPP_PAE sm g SUPP_PAE.S_FORCE_UNAUTH).calls ++
            [host_call.eapol_send IEEE802_1X_TYPE_EAPOL_LOGOFF []] } := rfl
    _ = cb_calls (SM_ENTRY_SUPP_PAE sm g SUPP_PAE.S_FORCE_UNAUTH) :=
        cb_calls_append _ _ (by intro b h; cases h)
    _ = cb_calls sm := cb_calls_of_calls (SM_ENTRY_SUPP_PAE_calls sm g _)

theorem sm_SUPP_PAE_CONNECTING_Enter_cb (sm : eapol_sm) (g : Bool) :
    cb_calls (sm_SUPP_PAE_CONNECTING_Enter sm g) = cb_calls sm :=
  calc cb_calls (sm_SUPP_PAE_CONNECTING_Enter sm g)
      = cb_calls { SM_ENTRY_SUPP_PAE sm g SUPP_PAE.CONNECTING with
          calls := (SM_ENTRY_SUPP_PAE sm g SUPP_PAE.CONNECTING).calls ++
            [host_call.eapol_send IEEE802_1X_TYPE_EAPOL_START []] } := rfl
    _ = cb_calls (SM_ENTRY_SUPP_PAE sm g SUPP_PAE.CONNECTING) :=
        cb_calls_append _ _ (by intro b h; cases h)
    _ = cb_calls sm := cb_calls_of_calls (SM_ENTRY_SUPP_PAE_calls sm g _)

theorem sm_SUPP_PAE_DISCONNECTED_Enter_cb (sm : eapol_sm) (g : Bool) :
    cb_calls (sm_SUPP_PAE_DISCONNECTED_Enter sm g) = cb_calls sm :=
  cb_calls_of_calls (SM_ENTRY_SUPP_PAE_calls sm g _)

theorem sm_SUPP_PAE_AUTHENTICATING_Enter_cb (sm : eapol_sm) (g : Bool) :
    cb_calls (sm_SUPP_PAE_AUTHENTICATING_Enter sm g) = cb_calls sm :=
  cb_calls_of_calls (SM_ENTRY_SUPP_PAE_calls sm g _)

theorem sm_SUPP_PAE_HELD_Enter_cb (sm : eapol_sm) (g : Bool) :
    cb_calls (sm_SUPP_PAE_HELD_Enter sm g) = cb_calls sm :=
  cb_calls_of_calls (SM_ENTRY_SUPP_PAE_calls sm g _)

theorem sm_SUPP_PAE_AUTHENTICATED_Enter_cb (sm : eapol_sm) (g : Bool) :
    cb_calls (sm_SUPP_PAE_AUTHENTICATED_Enter sm g) = cb_calls sm :=
  cb_calls_of_calls (SM_ENTRY_SUPP_PAE_calls sm g _)

theorem sm_SUPP_PAE_RESTART_Enter_cb (sm : eapol_sm) (g : Bool) :
    cb_calls (sm_SUPP_PAE_RESTART_Enter sm g) = cb_calls sm :=
  cb_calls_of_calls (SM_ENTRY_SUPP_PAE_calls sm g _)

theorem sm_SUPP_PAE_S_FORCE_AUTH_Enter_cb (sm : eapol_sm) (g : Bool) :
    cb_calls (sm_SUPP_PAE_S_FORCE_AUTH_Enter sm g) = cb_calls sm :=
  cb_calls_of_calls (SM_ENTRY_SUPP_PAE_calls sm g _)

theorem sm_SUPP_PAE_Step_cb (env : Env) (sm : eapol_sm) :
    cb_calls (sm_SUPP_PAE_Step env sm) = cb_calls sm := by
  refine sm_SUPP_PAE_Step_cases env sm (fun r => cb_calls r = cb_calls sm) ?_ ?_ ?_ ?_ ?_
  · intros; exact sm_SUPP_PAE_LOGOFF_Enter_cb sm true
  · intros; exact sm_SUPP_PAE_DISCONNECTED_Enter_cb sm true
  · intros; exact sm_SUPP_PAE_S_FORCE_AUTH_Enter_cb sm true
  · intros; exact sm_SUPP_PAE_S_FORCE_UNAUTH_Enter_cb sm true
  · intros
    refine sm_SUPP_PAE_Step_local_cases env sm (fun r => cb_calls r = cb_calls sm) rfl
      ?_ ?_ ?_ ?_ ?_ ?_ ?_ ?_ ?_ ?_ ?_ ?_ ?_ ?_ ?_ ?_
    · intros; exact sm_SUPP_PAE_DISCONNECTED_Enter_cb sm false
    · intros; exact sm_SUPP_PAE_CONNECTING_Enter_cb sm false
    · intros; exact sm_SUPP_PAE_CONNECTING_Enter_cb sm false
    · intros; exact sm_SUPP_PAE_AUTHENTICATED_Enter_cb sm false
    · intros; exact sm_SUPP_PAE_AUTHENTICATING_Enter_cb sm false
    · intros; exact sm_SUPP_PAE_RESTART_Enter_cb sm false
    · intros; exact sm_SUPP_PAE_HELD_Enter_cb sm false
    · intros
      rw [sm_SUPP_PAE_AUTHENTICATED_Enter_cb]
      by_cases c : env.eapol_done_cb = true
      · rw [if_pos c]
        exact cb_calls_append { sm with portValid := true } _ (by intro b h; cases h)
      · rw [if_neg c]; rfl
    · intros; exact sm_SUPP_PAE_AUTHENTICATED_Enter_cb sm false
    · intros; exact sm_SUPP_PAE_HELD_Enter_cb sm false
    · intros; exact sm_SUPP_PAE_CONNECTING_Enter_cb sm false
    · intros; exact sm_SUPP_PAE_CONNECTING_Enter_cb sm false
    · intros; exact sm_SUPP_PAE_RESTART_Enter_cb sm false
    · intros; exact sm_SUPP_PAE_RESTART_Enter_cb sm false
    · intros; exact sm_SUPP_PAE_DISCONNECTED_Enter_cb sm false
    · intros; exact sm_SUPP_PAE_AUTHENTICATING_Enter_cb sm false

theorem processKey_received_cb (env : Env) (sm : eapol_sm) (u : Nat) :
    cb_calls (processKey_received env sm u) = cb_calls sm := by
  have key : ∀ s : eapol_sm, cb_calls { s with calls := s.calls ++ [host_call.eapol_done_cb] } =
      cb_calls s := fun s => cb_calls_append s _ (by intro b h; cases h)
  unfold processKey_received
  dsimp only
  split_ifs
  · exact key { sm with unicast_key_received := true, portValid := true }
  · rfl
  · rfl
  · exact key { sm with broadcast_key_received := true, portValid := true }
  · rfl
  · rfl

theorem processKey_install_cb (env : Env) (sm : eapol_sm) (buf dk : List Nat) :
    cb_calls (processKey_install env sm buf dk) = cb_calls sm := by
  have key : ∀ (s : eapol_sm) (a b : Nat) (k : List Nat),
      cb_calls { s with calls := s.calls ++ [host_call.set_wep_key a b k] } = cb_calls s :=
    fun s a b k => cb_calls_append s _ (by intro b h; cases h)
  unfold processKey_install
  dsimp only
  split
  · split_ifs
    · exact key { sm with replay_counter_valid := true,
                          last_replay_counter := key_replay_counter buf } _ _ _
    · rw [processKey_received_cb]
      exact key { sm with replay_counter_valid := true,
                          last_replay_counter := key_replay_counter buf } _ _ _
  · rw [processKey_received_cb]; rfl

theorem processKey_cb (env : Env) (sm : eapol_sm) :
    cb_calls (eapol_sm_processKey env sm) = cb_calls sm := by
  unfold eapol_sm_processKey eapol_sm_processKey_aux
  dsimp only
  repeat' split
  all_goals first
    | rfl
    | (rw [processKey_install_cb]; rfl)

theorem sm_KEY_RX_KEY_RECEIVE_Enter_cb (env : Env) (sm : eapol_sm) (g : Bool) :
    cb_calls (sm_KEY_RX_KEY_RECEIVE_Enter env sm g) = cb_calls sm :=
  calc cb_calls (sm_KEY_RX_KEY_RECEIVE_Enter env sm g)
      = cb_calls (eapol_sm_processKey env (SM_ENTRY_KEY_RX sm g KEY_RX.KEY_RECEIVE)) := rfl
    _ = cb_calls (SM_ENTRY_KEY_RX sm g KEY_RX.KEY_RECEIVE) := processKey_cb env _
    _ = cb_calls sm := cb_calls_of_calls (SM_ENTRY_KEY_RX_calls sm g _)

theorem sm_KEY_RX_Step_cb (env : Env) (sm : eapol_sm) :
    cb_calls (sm_KEY_RX_Step env sm) = cb_calls sm := by
  refine sm_KEY_RX_Step_cases env sm (fun r => cb_calls r = cb_calls sm) ?_ ?_ ?_ ?_
  · intros
    rw [sm_KEY_RX_KEY_RECEIVE_Enter_cb]
    exact cb_calls_of_calls (SM_ENTRY_KEY_RX_calls sm true _)
  · intros; exact cb_calls_of_calls (SM_ENTRY_KEY_RX_calls sm true _)
  · intros; exact sm_KEY_RX_KEY_RECEIVE_Enter_cb env sm false
  · intros; rfl

theorem eapol_sm_txSuppRsp_cb (sm : eapol_sm) :
    cb_calls (eapol_sm_txSuppRsp sm) = cb_calls sm := by
  have key : ∀ (s : eapol_sm) (r : List Nat),
      cb_calls { s with calls := s.calls ++ [host_call.eapol_send IEEE802_1X_TYPE_EAP_PACKET r] } =
        cb_calls s :=
    fun s r => cb_calls_append s _ (by intro b h; cases h)
  unfold eapol_sm_txSuppRsp
  split
  · rfl
  · dsimp only
    split_ifs <;> exact key sm _

theorem sm_SUPP_BE_Step_cb (env : Env) (sm : eapol_sm) :
    cb_calls (sm_SUPP_BE_Step env sm) = cb_calls sm := by
  have e : ∀ g st, cb_calls (SM_ENTRY_SUPP_BE sm g st) = cb_calls sm :=
    fun g st => cb_calls_of_calls (SM_ENTRY_SUPP_BE_calls sm g st)
  have e7 : ∀ g, cb_calls (sm_SUPP_BE_SUCCESS_Enter sm g) = cb_calls sm := by
    intro g
    unfold sm_SUPP_BE_SUCCESS_Enter
    dsimp only
    split_ifs <;> exact e g SUPP_BE.SUCCESS
  have e8 : ∀ g, cb_calls (sm_SUPP_BE_RESPONSE_Enter sm g) = cb_calls sm := fun g =>
    calc cb_calls (sm_SUPP_BE_RESPONSE_Enter sm g)
        = cb_calls (eapol_sm_txSuppRsp (SM_ENTRY_SUPP_BE sm g SUPP_BE.RESPONSE)) := rfl
      _ = cb_calls (SM_ENTRY_SUPP_BE sm g SUPP_BE.RESPONSE) := eapol_sm_txSuppRsp_cb _
      _ = cb_calls sm := e g _
  refine sm_SUPP_BE_Step_cases env sm (fun r => cb_calls r = cb_calls sm) ?_ ?_
  · intros; exact e true SUPP_BE.INITIALIZE
  · intros
    refine sm_SUPP_BE_Step_local_cases sm (fun r => cb_calls r = cb_calls sm) rfl
      ?_ ?_ ?_ ?_ ?_ ?_ ?_ ?_ ?_ ?_ ?_
    · intros; exact e8 false
    · intros; exact e false SUPP_BE.RECEIVE
    · intros; exact e false SUPP_BE.RECEIVE
    · intros; exact e false SUPP_BE.IDLE
    · intros; exact e false SUPP_BE.FAIL
    · intros; exact e false SUPP_BE.REQUEST
    · intros; exact e7 false
    · intros; exact e false SUPP_BE.REQUEST
    · intros; exact e false SUPP_BE.FAIL
    · intros; exact e false SUPP_BE.TIMEOUT
    · intros; exact e7 false

theorem eap_sm_step_run_calls (env : Env) (sm : eapol_sm) :
    (eap_sm_step_run env sm).calls = sm.calls := by
  unfold eap_sm_step_run
  dsimp only
  split_ifs <;> rfl

theorem eapol_sm_step_machines_cb (env : Env) (sm : eapol_sm) :
    cb_calls (eapol_sm_step_machines env sm) = cb_calls sm := by
  unfold eapol_sm_step_machines
  dsimp only
  rw [cb_calls_of_calls (eap_sm_step_run_calls env _), sm_SUPP_BE_Step_cb, sm_KEY_RX_Step_cb,
    sm_SUPP_PAE_Step_cb]
  rfl

/-! ## The key processor on a stored frame with a complete key body -/

/-- On a stored frame of at least 48 bytes the signature check leaves the
frame as it was, so `eapol_sm_processKey` reads as a cascade over the frame
itself. -/
theorem processKey_aux_eq (env : Env) (sm : eapol_sm) (buf : List Nat)
    (hbuf : sm.last_rx_key = some buf) (hlen : 48 ≤ buf.length) :
    eapol_sm_processKey_aux env sm =
      if sm.conf.accept_802_1x_keys = false then (key_verdict.not_accepted, sm)
      else if sizeof_hdr + hdr_length buf > sm.last_rx_key_len then (key_verdict.too_short, sm)
      else
        match processKey_keydata env sm with
        | Except.error v => (v, sm)
        | Except.ok (keydata, sign_key_len, encr_key_len) =>
          if sm.replay_counter_valid = true ∧
              memcmp sm.last_replay_counter (key_replay_counter buf)
                IEEE8021X_REPLAY_COUNTER_LEN ≥ 0 then
            (key_verdict.replay, sm)
          else if (verify_key_signature env ((keydata.drop 32).take sign_key_len) buf).1 =
              false then
            (key_verdict.bad_signature, sm)
          else if processKey_key_len buf > 32 ∨ key_key_length buf > 32 then
            (key_verdict.too_long, sm)
          else
            match processKey_datakey env keydata encr_key_len buf with
            | none => (key_verdict.bad_length, sm)
            | some datakey => (key_verdict.installed, processKey_install env sm buf datakey) := by
  have hsame : { sm with last_rx_key := some buf } = sm := by rw [← hbuf]
  unfold eapol_sm_processKey_aux
  rw [hbuf]
  dsimp only
  by_cases h1 : sm.conf.accept_802_1x_keys = false
  · rw [if_pos h1, if_pos h1]
  rw [if_neg h1, if_neg h1]
  by_cases h2 : sizeof_hdr + hdr_length buf > sm.last_rx_key_len
  · rw [if_pos h2, if_pos h2]
  rw [if_neg h2, if_neg h2]
  cases hk : processKey_keydata env sm with
  | error v => rfl
  | ok r =>
    obtain ⟨kd, skl, ekl⟩ := r
    dsimp only
    by_cases h3 : sm.replay_counter_valid = true ∧
        memcmp sm.last_replay_counter (key_replay_counter buf) IEEE8021X_REPLAY_COUNTER_LEN ≥ 0
    · rw [if_pos h3, if_pos h3]
    rw [if_neg h3, if_neg h3]
    rw [verify_key_signature_buf env _ buf hlen, hsame]

/-- The frame handed to the install stage, for a verdict `installed`. -/
theorem processKey_aux_installed (env : Env) (sm : eapol_sm) (buf : List Nat)
    (hbuf : sm.last_rx_key = some buf) (hlen : 48 ≤ buf.length)
    (hv : (eapol_sm_processKey_aux env sm).1 = key_verdict.installed) :
    ∃ kd skl ekl dk,
      processKey_keydata env sm = Except.ok (kd, skl, ekl) ∧
      (verify_key_signature env ((kd.drop 32).take skl) buf).1 = true ∧
      ¬ (processKey_key_len buf > 32 ∨ key_key_length buf > 32) ∧
      processKey_datakey env kd ekl buf = some dk ∧
      eapol_sm_processKey env sm = processKey_install env sm buf dk := by
  unfold eapol_sm_processKey
  rw [processKey_aux_eq env sm buf hbuf hlen] at hv ⊢
  by_cases h1 : sm.conf.accept_802_1x_keys = false
  · rw [if_pos h1] at hv; exact absurd hv (fun c => key_verdict.noConfusion c)
  rw [if_neg h1] at hv ⊢
  by_cases h2 : sizeof_hdr + hdr_length buf > sm.last_rx_key_len
  · rw [if_pos h2] at hv; exact absurd hv (fun c => key_verdict.noConfusion c)
  rw [if_neg h2] at hv ⊢
  cases hk : processKey_keydata env sm with
  | error v =>
    rw [hk] at hv
    exact absurd hv (processKey_keydata_error env sm v hk)
  | ok r =>
    obtain ⟨kd, skl, ekl⟩ := r
    rw [hk] at hv
    dsimp only at hv ⊢
    by_cases h3 : sm.replay_counter_valid = true ∧
        memcmp sm.last_replay_counter (key_replay_counter buf) IEEE8021X_REPLAY_COUNTER_LEN ≥ 0
    · rw [if_pos h3] at hv; exact absurd hv (fun c => key_verdict.noConfusion c)
    rw [if_neg h3] at hv ⊢
    by_cases h4 : (verify_key_signature env (List.take skl (List.drop 32 kd)) buf).1 = false
    · rw [if_pos h4] at hv; exact absurd hv (fun c => key_verdict.noConfusion c)
    rw [if_neg h4] at hv ⊢
    by_cases h5 : processKey_key_len buf > 32 ∨ key_key_length buf > 32
    · rw [if_pos h5] at hv; exact absurd hv (fun c => key_verdict.noConfusion c)
    rw [if_neg h5] at hv ⊢
    cases hd : processKey_datakey env kd ekl buf with
    | none =>
      rw [hd] at hv
      exact absurd hv (fun c => key_verdict.noConfusion c)
    | some dk =>
      refine ⟨kd, skl, ekl, dk, rfl, ?_, h5, hd, rfl⟩
      cases hb : (verify_key_signature env (List.take skl (List.drop 32 kd)) buf).1
      · exact absurd hb h4
      · rfl

theorem processKey_eq_install (env : Env) (sm : eapol_sm) (buf kd : List Nat) (skl ekl : Nat)
    (dk : List Nat)
    (hbuf : sm.last_rx_key = some buf) (hlen : 48 ≤ buf.length)
    (hv : (eapol_sm_processKey_aux env sm).1 = key_verdict.installed)
    (hk : processKey_keydata env sm = Except.ok (kd, skl, ekl))
    (hd : processKey_datakey env kd ekl buf = some dk) :
    eapol_sm_processKey env sm = processKey_install env sm buf dk := by
  obtain ⟨kd', skl', ekl', dk', hk', _, _, hd', he⟩ :=
    processKey_aux_installed env sm buf hbuf hlen hv
  rw [hk] at hk'
  injection hk' with hk'
  injection hk' with h1 h2
  injection h2 with h2 h3
  subst h1; subst h2; subst h3
  rw [hd] at hd'
  injection hd' with hd'
  subst hd'
  exact he

/-- The install stage when the driver refuses the key. -/
theorem processKey_install_failed (env : Env) (sm : eapol_sm) (buf dk : List Nat)
    (f : Nat → Nat → List Nat → Int) (hf : env.set_wep_key = some f)
    (hneg : f (Nat.land (key_key_index buf) IEEE8021X_KEY_INDEX_FLAG)
      (Nat.land (key_key_index buf) IEEE8021X_KEY_INDEX_MASK) dk < 0) :
    processKey_install env sm buf dk =
      { sm with
        replay_counter_valid := true
        last_replay_counter := key_replay_counter buf
        calls := sm.calls ++ [host_call.set_wep_key
          (Nat.land (key_key_index buf) IEEE8021X_KEY_INDEX_FLAG)
          (Nat.land (key_key_index buf) IEEE8021X_KEY_INDEX_MASK) dk] } := by
  unfold processKey_install
  rw [hf]
  dsimp only
  rw [if_pos hneg]

/-- The install stage when the driver takes the key, or when there is no
driver callback. -/
theorem processKey_install_ok (env : Env) (sm : eapol_sm) (buf dk : List Nat)
    (hok : ∀ f, env.set_wep_key = some f →
      ¬ f (Nat.land (key_key_index buf) IEEE8021X_KEY_INDEX_FLAG)
        (Nat.land (key_key_index buf) IEEE8021X_KEY_INDEX_MASK) dk < 0) :
    processKey_install env sm buf dk =
      processKey_received env
        { sm with
          replay_counter_valid := true
          last_replay_counter := key_replay_counter buf
          calls := sm.calls ++ driver_calls env buf dk }
        (Nat.land (key_key_index buf) IEEE8021X_KEY_INDEX_FLAG) := by
  unfold processKey_install driver_calls
  cases hf : env.set_wep_key with
  | none =>
    dsimp only
    rw [List.append_nil]
  | some f =>
    dsimp only
    rw [if_neg (hok f hf)]

/-- The outcome of `processKey_received`: the flag of the received kind, then
the port validation when every required kind is there. -/
theorem processKey_received_eq (env : Env) (sm : eapol_sm) (u : Nat) :
    (u ≠ 0 → (processKey_received env sm u).unicast_key_received = true ∧
      (processKey_received env sm u).broadcast_key_received = sm.broadcast_key_received) ∧
    (u = 0 → (processKey_received env sm u).broadcast_key_received = true ∧
      (processKey_received env sm u).unicast_key_received = sm.unicast_key_received) ∧
    (((processKey_received env sm u).unicast_key_received = true ∨
        Nat.land sm.conf.required_keys EAPOL_REQUIRE_KEY_UNICAST = 0) ∧
      ((processKey_received env sm u).broadcast_key_received = true ∨
        Nat.land sm.conf.required_keys EAPOL_REQUIRE_KEY_BROADCAST = 0) →
      (processKey_received env sm u).portValid = true ∧
      (processKey_received env sm u).calls =
        sm.calls ++ (if env.eapol_done_cb = true then [host_call.eapol_done_cb] else [])) ∧
    (¬ (((processKey_received env sm u).unicast_key_received = true ∨
        Nat.land sm.conf.required_keys EAPOL_REQUIRE_KEY_UNICAST = 0) ∧
      ((processKey_received env sm u).broadcast_key_received = true ∨
        Nat.land sm.conf.required_keys EAPOL_REQUIRE_KEY_BROADCAST = 0)) →
      (processKey_received env sm u).portValid = sm.portValid ∧
      (processKey_received env sm u).calls = sm.calls) := by
  unfold processKey_received
  dsimp only
  by_cases hu : u ≠ 0
  · rw [if_pos hu]
    dsimp only
    by_cases hr : (true = true ∨ Nat.land sm.conf.required_keys EAPOL_REQUIRE_KEY_UNICAST = 0) ∧
        (sm.broadcast_key_received = true ∨
          Nat.land sm.conf.required_keys EAPOL_REQUIRE_KEY_BROADCAST = 0)
    · rw [if_pos hr]
      by_cases hc : env.eapol_done_cb = true
      · rw [if_pos hc, if_pos hc]
        exact ⟨fun _ => ⟨rfl, rfl⟩, fun h => absurd h hu, fun _ => ⟨rfl, rfl⟩,
          fun h => absurd hr h⟩
      · rw [if_neg hc, if_neg hc]
        exact ⟨fun _ => ⟨rfl, rfl⟩, fun h => absurd h hu,
          fun _ => ⟨rfl, (List.append_nil _).symm⟩, fun h => absurd hr h⟩
    · rw [if_neg hr]
      exact ⟨fun _ => ⟨rfl, rfl⟩, fun h => absurd h hu, fun h => absurd h hr,
        fun _ => ⟨rfl, rfl⟩⟩
  · rw [if_neg hu]
    dsimp only
    have hu0 : u = 0 := not_not.mp hu
    by_cases hr : (sm.unicast_key_received = true ∨
          Nat.land sm.conf.required_keys EAPOL_REQUIRE_KEY_UNICAST = 0) ∧
        (true = true ∨ Nat.land sm.conf.required_keys EAPOL_REQUIRE_KEY_BROADCAST = 0)
    · rw [if_pos hr]
      by_cases hc : env.eapol_done_cb = true
      · rw [if_pos hc, if_pos hc]
        exact ⟨fun h => absurd hu0 h, fun _ => ⟨rfl, rfl⟩, fun _ => ⟨rfl, rfl⟩,
          fun h => absurd hr h⟩
      · rw [if_neg hc, if_neg hc]
        exact ⟨fun h => absurd hu0 h, fun _ => ⟨rfl, rfl⟩,
          fun _ => ⟨rfl, (List.append_nil _).symm⟩, fun h => absurd hr h⟩
    · rw [if_neg hr]
      exact ⟨fun h => absurd hu0 h, fun _ => ⟨rfl, rfl⟩, fun h => absurd h hr,
        fun _ => ⟨rfl, rfl⟩⟩

/-! ## Entry actions as record updates -/

theorem SM_ENTRY_SUPP_PAE_eq (sm : eapol_sm) (g : Bool) (st : SUPP_PAE) :
    SM_ENTRY_SUPP_PAE sm g st =
      { sm with
        changed := sm.changed || (!g || decide (sm.SUPP_PAE_state ≠ st))
        SUPP_PAE_state := st } := by
  unfold SM_ENTRY_SUPP_PAE
  cases g <;> by_cases h : sm.SUPP_PAE_state = st <;> cases hc : sm.changed <;>
    simp [h, hc]

theorem SM_ENTRY_KEY_RX_eq (sm : eapol_sm) (g : Bool) (st : KEY_RX) :
    SM_ENTRY_KEY_RX sm g st =
      { sm with
        changed := sm.changed || (!g || decide (sm.KEY_RX_state ≠ st))
        KEY_RX_state := st } := by
  unfold SM_ENTRY_KEY_RX
  cases g <;> by_cases h : sm.KEY_RX_state = st <;> cases hc : sm.changed <;>
    simp [h, hc]

theorem SM_ENTRY_SUPP_BE_eq (sm : eapol_sm) (g : Bool) (st : SUPP_BE) :
    SM_ENTRY_SUPP_BE sm g st =
      { sm with
        changed := sm.changed || (!g || decide (sm.SUPP_BE_state ≠ st))
        SUPP_BE_state := st } := by
  unfold SM_ENTRY_SUPP_BE
  cases g <;> by_cases h : sm.SUPP_BE_state = st <;> cases hc : sm.changed <;>
    simp [h, hc]

theorem sm_SUPP_PAE_LOGOFF_Enter_eq (sm : eapol_sm) (g : Bool) :
    sm_SUPP_PAE_LOGOFF_Enter sm g =
      { sm with
        changed := sm.changed || (!g || decide (sm.SUPP_PAE_state ≠ SUPP_PAE.LOGOFF))
        SUPP_PAE_state := SUPP_PAE.LOGOFF
        calls := sm.calls ++ [host_call.eapol_send IEEE802_1X_TYPE_EAPOL_LOGOFF []]
        dot1xSuppEapolLogoffFramesTx := sm.dot1xSuppEapolLogoffFramesTx + 1
        dot1xSuppEapolFramesTx := sm.dot1xSuppEapolFramesTx + 1
        logoffSent := true
        suppPortStatus := PortStatus.Unauthorized } := by
  unfold sm_SUPP_PAE_LOGOFF_Enter
  rw [SM_ENTRY_SUPP_PAE_eq]
  rfl

theorem sm_SUPP_PAE_DISCONNECTED_Enter_eq (sm : eapol_sm) (g : Bool) :
    sm_SUPP_PAE_DISCONNECTED_Enter sm g =
      { sm with
        changed := sm.changed || (!g || decide (sm.SUPP_PAE_state ≠ SUPP_PAE.DISCONNECTED))
        SUPP_PAE_state := SUPP_PAE.DISCONNECTED
        sPortMode := PortControl.Auto
        startCount := 0
        logoffSent := false
        suppPortStatus := PortStatus.Unauthorized
        suppAbort := true
        unicast_key_received := false
        broadcast_key_received := false } := by
  unfold sm_SUPP_PAE_DISCONNECTED_Enter
  rw [SM_ENTRY_SUPP_PAE_eq]

theorem sm_SUPP_PAE_CONNECTING_Enter_eq (sm : eapol_sm) (g : Bool) :
    sm_SUPP_PAE_CONNECTING_Enter sm g =
      { sm with
        changed := sm.changed || (!g || decide (sm.SUPP_PAE_state ≠ SUPP_PAE.CONNECTING))
        SUPP_PAE_state := SUPP_PAE.CONNECTING
        startWhen := sm.startPeriod
        startCount := sm.startCount + 1
        eapolEap := false
        calls := sm.calls ++ [host_call.eapol_send IEEE802_1X_TYPE_EAPOL_START []]
        dot1xSuppEapolStartFramesTx := sm.dot1xSuppEapolStartFramesTx + 1
        dot1xSuppEapolFramesTx := sm.dot1xSuppEapolFramesTx + 1 } := by
  unfold sm_SUPP_PAE_CONNECTING_Enter
  rw [SM_ENTRY_SUPP_PAE_eq]
  rfl

theorem sm_SUPP_PAE_AUTHENTICATING_Enter_eq (sm : eapol_sm) (g : Bool) :
    sm_SUPP_PAE_AUTHENTICATING_Enter sm g =
      { sm with
        changed := sm.changed || (!g || decide (sm.SUPP_PAE_state ≠ SUPP_PAE.AUTHENTICATING))
        SUPP_PAE_state := SUPP_PAE.AUTHENTICATING
        startCount := 0
        suppSuccess := false
        suppFail := false
        suppTimeout := false
        keyRun := false
        keyDone := false
        suppStart := true } := by
  unfold sm_SUPP_PAE_AUTHENTICATING_Enter
  rw [SM_ENTRY_SUPP_PAE_eq]

theorem sm_SUPP_PAE_HELD_Enter_eq (sm : eapol_sm) (g : Bool) :
    sm_SUPP_PAE_HELD_Enter sm g =
      { sm with
        changed := sm.changed || (!g || decide (sm.SUPP_PAE_state ≠ SUPP_PAE.HELD))
        SUPP_PAE_state := SUPP_PAE.HELD
        heldWhile := sm.heldPeriod
        suppPortStatus := PortStatus.Unauthorized
        cb_status := eapol_cb_status.EAPOL_CB_FAILURE } := by
  unfold sm_SUPP_PAE_HELD_Enter
  rw [SM_ENTRY_SUPP_PAE_eq]

theorem sm_SUPP_PAE_AUTHENTICATED_Enter_eq (sm : eapol_sm) (g : Bool) :
    sm_SUPP_PAE_AUTHENTICATED_Enter sm g =
      { sm with
        changed := sm.changed || (!g || decide (sm.SUPP_PAE_state ≠ SUPP_PAE.AUTHENTICATED))
        SUPP_PAE_state := SUPP_PAE.AUTHENTICATED
        suppPortStatus := PortStatus.Authorized
        cb_status := eapol_cb_status.EAPOL_CB_SUCCESS } := by
  unfold sm_SUPP_PAE_AUTHENTICATED_Enter
  rw [SM_ENTRY_SUPP_PAE_eq]

theorem sm_SUPP_PAE_RESTART_Enter_eq (sm : eapol_sm) (g : Bool) :
    sm_SUPP_PAE_RESTART_Enter sm g =
      { sm with
        changed := sm.changed || (!g || decide (sm.SUPP_PAE_state ≠ SUPP_PAE.RESTART))
        SUPP_PAE_state := SUPP_PAE.RESTART
        eapRestart := true } := by
  unfold sm_SUPP_PAE_RESTART_Enter
  rw [SM_ENTRY_SUPP_PAE_eq]

theorem sm_SUPP_PAE_S_FORCE_AUTH_Enter_eq (sm : eapol_sm) (g : Bool) :
    sm_SUPP_PAE_S_FORCE_AUTH_Enter sm g =
      { sm with
        changed := sm.changed || (!g || decide (sm.SUPP_PAE_state ≠ SUPP_PAE.S_FORCE_AUTH))
        SUPP_PAE_state := SUPP_PAE.S_FORCE_AUTH
        suppPortStatus := PortStatus.Authorized
        sPortMode := PortControl.ForceAuthorized } := by
  unfold sm_SUPP_PAE_S_FORCE_AUTH_Enter
  rw [SM_ENTRY_SUPP_PAE_eq]

theorem sm_SUPP_PAE_S_FORCE_UNAUTH_Enter_eq (sm : eapol_sm) (g : Bool) :
    sm_SUPP_PAE_S_FORCE_UNAUTH_Enter sm g =
      { sm with
        changed := sm.changed || (!g || decide (sm.SUPP_PAE_state ≠ SUPP_PAE.S_FORCE_UNAUTH))
        SUPP_PAE_state := SUPP_PAE.S_FORCE_UNAUTH
        suppPortStatus := PortStatus.Unauthorized
        sPortMode := PortControl.ForceUnauthorized
        calls := sm.calls ++ [host_call.eapol_send IEEE802_1X_TYPE_EAPOL_LOGOFF []]
        dot1xSuppEapolLogoffFramesTx := sm.dot1xSuppEapolLogoffFramesTx + 1
        dot1xSuppEapolFramesTx := sm.dot1xSuppEapolFramesTx + 1 } := by
  unfold sm_SUPP_PAE_S_FORCE_UNAUTH_Enter
  rw [SM_ENTRY_SUPP_PAE_eq]
  rfl

theorem sm_KEY_RX_NO_KEY_RECEIVE_Enter_eq (sm : eapol_sm) (g : Bool) :
    sm_KEY_RX_NO_KEY_RECEIVE_Enter sm g =
      { sm with
        changed := sm.changed || (!g || decide (sm.KEY_RX_state ≠ KEY_RX.NO_KEY_RECEIVE))
        KEY_RX_state := KEY_RX.NO_KEY_RECEIVE } := by
  unfold sm_KEY_RX_NO_KEY_RECEIVE_Enter
  rw [SM_ENTRY_KEY_RX_eq]

theorem sm_SUPP_BE_REQUEST_Enter_eq (sm : eapol_sm) (g : Bool) :
    sm_SUPP_BE_REQUEST_Enter sm g =
      { sm with
        changed := sm.changed || (!g || decide (sm.SUPP_BE_state ≠ SUPP_BE.REQUEST))
        SUPP_BE_state := SUPP_BE.REQUEST
        authWhile := 0
        eapReq := true } := by
  unfold sm_SUPP_BE_REQUEST_Enter
  rw [SM_ENTRY_SUPP_BE_eq]
  rfl

theorem sm_SUPP_BE_SUCCESS_Enter_eq (sm : eapol_sm) (g : Bool) :
    sm_SUPP_BE_SUCCESS_Enter sm g =
      { sm with
        changed := sm.changed || (!g || decide (sm.SUPP_BE_state ≠ SUPP_BE.SUCCESS))
        SUPP_BE_state := SUPP_BE.SUCCESS
        keyRun := true
        suppSuccess := true
        replay_counter_valid := sm.replay_counter_valid && !sm.eap.eapKeyAvailable } := by
  unfold sm_SUPP_BE_SUCCESS_Enter
  rw [SM_ENTRY_SUPP_BE_eq]
  dsimp only
  cases h : sm.eap.eapKeyAvailable
  · rw [if_neg (by decide), Bool.not_false, Bool.and_true]
  · rw [if_pos rfl, Bool.not_true, Bool.and_false]

theorem sm_SUPP_BE_FAIL_Enter_eq (sm : eapol_sm) (g : Bool) :
    sm_SUPP_BE_FAIL_Enter sm g =
      { sm with
        changed := sm.changed || (!g || decide (sm.SUPP_BE_state ≠ SUPP_BE.FAIL))
        SUPP_BE_state := SUPP_BE.FAIL
        suppFail := true } := by
  unfold sm_SUPP_BE_FAIL_Enter
  rw [SM_ENTRY_SUPP_BE_eq]

theorem sm_SUPP_BE_TIMEOUT_Enter_eq (sm : eapol_sm) (g : Bool) :
    sm_SUPP_BE_TIMEOUT_Enter sm g =
      { sm with
        changed := sm.changed || (!g || decide (sm.SUPP_BE_state ≠ SUPP_BE.TIMEOUT))
        SUPP_BE_state := SUPP_BE.TIMEOUT
        suppTimeout := true } := by
  unfold sm_SUPP_BE_TIMEOUT_Enter
  rw [SM_ENTRY_SUPP_BE_eq]

theorem sm_SUPP_BE_IDLE_Enter_eq (sm : eapol_sm) (g : Bool) :
    sm_SUPP_BE_IDLE_Enter sm g =
      { sm with
        changed := sm.changed || (!g || decide (sm.SUPP_BE_state ≠ SUPP_BE.IDLE))
        SUPP_BE_state := SUPP_BE.IDLE
        suppStart := false
        initial_req := true } := by
  unfold sm_SUPP_BE_IDLE_Enter
  rw [SM_ENTRY_SUPP_BE_eq]

theorem sm_SUPP_BE_INITIALIZE_Enter_eq (env : Env) (sm : eapol_sm) (g : Bool) :
    sm_SUPP_BE_INITIALIZE_Enter env sm g =
      { sm with
        changed := sm.changed || (!g || decide (sm.SUPP_BE_state ≠ SUPP_BE.INITIALIZE))
        SUPP_BE_state := SUPP_BE.INITIALIZE
        last_rx_key := none
        eapReqData := none
        eap := env.eap_sm_abort sm.eap
        suppAbort := false } := by
  unfold sm_SUPP_BE_INITIALIZE_Enter
  rw [SM_ENTRY_SUPP_BE_eq]
  rfl

theorem sm_SUPP_BE_RECEIVE_Enter_eq (sm : eapol_sm) (g : Bool) :
    sm_SUPP_BE_RECEIVE_Enter sm g =
      { sm with
        changed := sm.changed || (!g || decide (sm.SUPP_BE_state ≠ SUPP_BE.RECEIVE))
        SUPP_BE_state := SUPP_BE.RECEIVE
        authWhile := sm.authPeriod
        eapolEap := false
        eapNoResp := false
        initial_req := false } := by
  unfold sm_SUPP_BE_RECEIVE_Enter
  rw [SM_ENTRY_SUPP_BE_eq]

/-- What `eapol_sm_txSuppRsp` may change: the recorded calls, the response
buffer of the engine and transmit and request counters. -/
theorem eapol_sm_txSuppRsp_eq (sm : eapol_sm) :
    eapol_sm_txSuppRsp sm =
      { sm with
        calls := (eapol_sm_txSuppRsp sm).calls
        eap := (eapol_sm_txSuppRsp sm).eap
        dot1xSuppEapolReqIdFramesRx := (eapol_sm_txSuppRsp sm).dot1xSuppEapolReqIdFramesRx
        dot1xSuppEapolReqFramesRx := (eapol_sm_txSuppRsp sm).dot1xSuppEapolReqFramesRx
        dot1xSuppEapolRespFramesTx := (eapol_sm_txSuppRsp sm).dot1xSuppEapolRespFramesTx
        dot1xSuppEapolFramesTx := (eapol_sm_txSuppRsp sm).dot1xSuppEapolFramesTx } := by
  unfold eapol_sm_txSuppRsp
  split
  · rfl
  · dsimp only
    split_ifs <;> rfl

theorem sm_SUPP_BE_RESPONSE_Enter_eq (sm : eapol_sm) (g : Bool) :
    sm_SUPP_BE_RESPONSE_Enter sm g =
      { sm with
        changed := sm.changed || (!g || decide (sm.SUPP_BE_state ≠ SUPP_BE.RESPONSE))
        SUPP_BE_state := SUPP_BE.RESPONSE
        calls := (sm_SUPP_BE_RESPONSE_Enter sm g).calls
        eap := (sm_SUPP_BE_RESPONSE_Enter sm g).eap
        dot1xSuppEapolReqIdFramesRx := (sm_SUPP_BE_RESPONSE_Enter sm g).dot1xSuppEapolReqIdFramesRx
        dot1xSuppEapolReqFramesRx := (sm_SUPP_BE_RESPONSE_Enter sm g).dot1xSuppEapolReqFramesRx
        dot1xSuppEapolRespFramesTx := (sm_SUPP_BE_RESPONSE_Enter sm g).dot1xSuppEapolRespFramesTx
        dot1xSuppEapolFramesTx := (sm_SUPP_BE_RESPONSE_Enter sm g).dot1xSuppEapolFramesTx
        eapResp := false } := by
  have h : sm_SUPP_BE_RESPONSE_Enter sm g =
      { eapol_sm_txSuppRsp (SM_ENTRY_SUPP_BE sm g SUPP_BE.RESPONSE) with eapResp := false } := rfl
  rw [h, eapol_sm_txSuppRsp_eq, SM_ENTRY_SUPP_BE_eq]

/-! ## What the key processor may change -/

theorem processKey_received_frame (env : Env) (sm : eapol_sm) (u : Nat) :
    processKey_received env sm u =
      { sm with
        calls := (processKey_received env sm u).calls
        unicast_key_received := (processKey_received env sm u).unicast_key_received
        broadcast_key_received := (processKey_received env sm u).broadcast_key_received
        portValid := (processKey_received env sm u).portValid } ∧
    (sm.portValid = true → (processKey_received env sm u).portValid = true) := by
  unfold processKey_received
  dsimp only
  split_ifs <;> exact ⟨rfl, fun h => (by first | rfl | exact h)⟩

theorem processKey_install_frame (env : Env) (sm : eapol_sm) (buf dk : List Nat) :
    processKey_install env sm buf dk =
      { sm with
        replay_counter_valid := (processKey_install env sm buf dk).replay_counter_valid
        last_replay_counter := (processKey_install env sm buf dk).last_replay_counter
        calls := (processKey_install env sm buf dk).calls
        unicast_key_received := (processKey_install env sm buf dk).unicast_key_received
        broadcast_key_received := (processKey_install env sm buf dk).broadcast_key_received
        portValid := (processKey_install env sm buf dk).portValid } ∧
    (sm.portValid = true → (processKey_install env sm buf dk).portValid = true) := by
  unfold processKey_install
  dsimp only
  split
  · split_ifs
    · exact ⟨rfl, fun h => h⟩
    · constructor
      · rw [(processKey_received_frame env _ _).1]
      · intro h; exact (processKey_received_frame env _ _).2 h
  · constructor
    · rw [(processKey_received_frame env _ _).1]
    · intro h; exact (processKey_received_frame env _ _).2 h

theorem processKey_frame (env : Env) (sm : eapol_sm) :
    eapol_sm_processKey env sm =
      { sm with
        last_rx_key := (eapol_sm_processKey env sm).last_rx_key
        replay_counter_valid := (eapol_sm_processKey env sm).replay_counter_valid
        last_replay_counter := (eapol_sm_processKey env sm).last_replay_counter
        calls := (eapol_sm_processKey env sm).calls
        unicast_key_received := (eapol_sm_processKey env sm).unicast_key_received
        broadcast_key_received := (eapol_sm_processKey env sm).broadcast_key_received
        portValid := (eapol_sm_processKey env sm).portValid } ∧
    (sm.portValid = true → (eapol_sm_processKey env sm).portValid = true) := by
  unfold eapol_sm_processKey eapol_sm_processKey_aux
  dsimp only
  repeat' split
  all_goals first
    | exact ⟨rfl, fun h => h⟩
    | (constructor
       · rw [(processKey_install_frame env _ _ _).1]
       · intro h; exact (processKey_install_frame env _ _ _).2 h)

theorem sm_KEY_RX_KEY_RECEIVE_Enter_eq (env : Env) (sm : eapol_sm) (g : Bool) :
    sm_KEY_RX_KEY_RECEIVE_Enter env sm g =
      { sm with
        changed := sm.changed || (!g || decide (sm.KEY_RX_state ≠ KEY_RX.KEY_RECEIVE))
        KEY_RX_state := KEY_RX.KEY_RECEIVE
        rxKey := false
        last_rx_key := (sm_KEY_RX_KEY_RECEIVE_Enter env sm g).last_rx_key
        replay_counter_valid := (sm_KEY_RX_KEY_RECEIVE_Enter env sm g).replay_counter_valid
        last_replay_counter := (sm_KEY_RX_KEY_RECEIVE_Enter env sm g).last_replay_counter
        calls := (sm_KEY_RX_KEY_RECEIVE_Enter env sm g).calls
        unicast_key_received := (sm_KEY_RX_KEY_RECEIVE_Enter env sm g).unicast_key_received
        broadcast_key_received := (sm_KEY_RX_KEY_RECEIVE_Enter env sm g).broadcast_key_received
        portValid := (sm_KEY_RX_KEY_RECEIVE_Enter env sm g).portValid } ∧
    (sm.portValid = true → (sm_KEY_RX_KEY_RECEIVE_Enter env sm g).portValid = true) := by
  have h : sm_KEY_RX_KEY_RECEIVE_Enter env sm g =
      { eapol_sm_processKey env (SM_ENTRY_KEY_RX sm g KEY_RX.KEY_RECEIVE) with rxKey := false } :=
    rfl
  constructor
  · rw [h, (processKey_frame env _).1, SM_ENTRY_KEY_RX_eq]
  · intro hp
    rw [h]
    refine (processKey_frame env _).2 ?_
    rw [SM_ENTRY_KEY_RX_eq]
    exact hp

/-! ## C11, C12: frames that `eapol_sm_rx_eapol` drops -/

theorem eapol_sm_rx_eapol_short (env : Env) (sm : eapol_sm) (src buf : List Nat) (alloc : Bool)
    (h : buf.length < sizeof_hdr) :
    eapol_sm_rx_eapol env sm src buf alloc =
      { sm with
        dot1xSuppEapolFramesRx := sm.dot1xSuppEapolFramesRx + 1
        dot1xSuppInvalidEapolFramesRx := sm.dot1xSuppInvalidEapolFramesRx + 1 } := by
  unfold eapol_sm_rx_eapol
  dsimp only
  rw [if_pos h]

theorem eapol_sm_rx_eapol_length_error (env : Env) (sm : eapol_sm) (src buf : List Nat)
    (alloc : Bool) (h1 : ¬ buf.length < sizeof_hdr)
    (h2 : hdr_length buf > buf.length - sizeof_hdr) :
    eapol_sm_rx_eapol env sm src buf alloc =
      { sm with
        dot1xSuppEapolFramesRx := sm.dot1xSuppEapolFramesRx + 1
        dot1xSuppLastEapolFrameVersion := hdr_version buf
        dot1xSuppLastEapolFrameSource := src.take ETH_ALEN
        dot1xSuppEapLengthErrorFramesRx := sm.dot1xSuppEapLengthErrorFramesRx + 1 } := by
  unfold eapol_sm_rx_eapol
  dsimp only
  rw [if_neg h1, if_pos h2]

theorem eapol_sm_rx_eapol_key_dropped (env : Env) (sm : eapol_sm) (src buf : List Nat)
    (alloc : Bool) (h1 : ¬ buf.length < sizeof_hdr)
    (h2 : ¬ hdr_length buf > buf.length - sizeof_hdr)
    (h3 : hdr_type buf = IEEE802_1X_TYPE_EAPOL_KEY)
    (h4 : hdr_length buf < sizeof_key ∨ key_type buf = EAPOL_KEY_TYPE_WPA ∨
      key_type buf = EAPOL_KEY_TYPE_RSN ∨ key_type buf ≠ EAPOL_KEY_TYPE_RC4) :
    eapol_sm_rx_eapol env sm src buf alloc =
      { sm with
        dot1xSuppEapolFramesRx := sm.dot1xSuppEapolFramesRx + 1
        dot1xSuppLastEapolFrameVersion := hdr_version buf
        dot1xSuppLastEapolFrameSource := src.take ETH_ALEN } := by
  have h0 : ¬ hdr_type buf = IEEE802_1X_TYPE_EAP_PACKET := by rw [h3]; decide
  unfold eapol_sm_rx_eapol
  dsimp only
  rw [if_neg h1, if_neg h2, if_neg h0, if_pos h3]
  by_cases c1 : hdr_length buf < sizeof_key
  · rw [if_pos c1]
  rw [if_neg c1]
  by_cases c2 : key_type buf = EAPOL_KEY_TYPE_WPA ∨ key_type buf = EAPOL_KEY_TYPE_RSN
  · rw [if_pos c2]
  rw [if_neg c2]
  by_cases c3 : key_type buf ≠ EAPOL_KEY_TYPE_RC4
  · rw [if_pos c3]
  · rcases h4 with h | h | h | h
    · exact absurd h c1
    · exact absurd (Or.inl h) c2
    · exact absurd (Or.inr h) c2
    · exact absurd h c3

theorem eapol_sm_rx_eapol_unknown_type (env : Env) (sm : eapol_sm) (src buf : List Nat)
    (alloc : Bool) (h1 : ¬ buf.length < sizeof_hdr)
    (h2 : ¬ hdr_length buf > buf.length - sizeof_hdr)
    (h3 : hdr_type buf ≠ IEEE802_1X_TYPE_EAP_PACKET)
    (h4 : hdr_type buf ≠ IEEE802_1X_TYPE_EAPOL_KEY) :
    eapol_sm_rx_eapol env sm src buf alloc =
      { sm with
        dot1xSuppEapolFramesRx := sm.dot1xSuppEapolFramesRx + 1
        dot1xSuppLastEapolFrameVersion := hdr_version buf
        dot1xSuppLastEapolFrameSource := src.take ETH_ALEN
        dot1xSuppInvalidEapolFramesRx := sm.dot1xSuppInvalidEapolFramesRx + 1 } := by
  unfold eapol_sm_rx_eapol
  dsimp only
  rw [if_neg h1, if_neg h2, if_neg h3, if_neg h4]

/-- C11 (amended): a frame shorter than the 4-byte header is dropped and
counted in `dot1xSuppInvalidEapolFramesRx`; a frame whose declared length
exceeds the bytes that follow the header is dropped and counted in
`dot1xSuppEapLengthErrorFramesRx`; an EAPOL-Key frame whose declared length is
shorter than the fixed key body is dropped without touching either error
counter.  In all three cases nothing changes but the receive statistics
(`dot1xSuppEapolFramesRx` goes up by one in each). -/
theorem C11_malformed_frames (env : Env) (sm : eapol_sm) (src buf : List Nat) (alloc : Bool) :
    (buf.length < sizeof_hdr →
      eapol_sm_rx_eapol env sm src buf alloc =
        { sm with
          dot1xSuppEapolFramesRx := sm.dot1xSuppEapolFramesRx + 1
          dot1xSuppInvalidEapolFramesRx := sm.dot1xSuppInvalidEapolFramesRx + 1 }) ∧
    (sizeof_hdr ≤ buf.length → hdr_length buf > buf.length - sizeof_hdr →
      eapol_sm_rx_eapol env sm src buf alloc =
        { sm with
          dot1xSuppEapolFramesRx := sm.dot1xSuppEapolFramesRx + 1
          dot1xSuppLastEapolFrameVersion := hdr_version buf
          dot1xSuppLastEapolFrameSource := src.take ETH_ALEN
          dot1xSuppEapLengthErrorFramesRx := sm.dot1xSuppEapLengthErrorFramesRx + 1 }) ∧
    (sizeof_hdr ≤ buf.length → hdr_length buf ≤ buf.length - sizeof_hdr →
      hdr_type buf = IEEE802_1X_TYPE_EAPOL_KEY → hdr_length buf < sizeof_key →
      eapol_sm_rx_eapol env sm src buf alloc =
        { sm with
          dot1xSuppEapolFramesRx := sm.dot1xSuppEapolFramesRx + 1
          dot1xSuppLastEapolFrameVersion := hdr_version buf
          dot1xSuppLastEapolFrameSource := src.take ETH_ALEN }) :=
  ⟨fun h => eapol_sm_rx_eapol_short env sm src buf alloc h,
   fun h1 h2 => eapol_sm_rx_eapol_length_error env sm src buf alloc (not_lt.mpr h1) h2,
   fun h1 h2 h3 h4 => eapol_sm_rx_eapol_key_dropped env sm src buf alloc (not_lt.mpr h1)
     (not_lt.mpr h2) h3 (Or.inl h4)⟩

/-- C11, counterexample: an EAPOL-Key frame of 14 bytes that declares a body
of 10 bytes, shorter than the 44-byte fixed key body, is dropped with both
`dot1xSuppInvalidEapolFramesRx` and `dot1xSuppEapLengthErrorFramesRx` left
as they were. -/
theorem C11_counterexample :
    hdr_type short_key_frame = IEEE802_1X_TYPE_EAPOL_KEY ∧
    hdr_length short_key_frame < sizeof_key ∧
    hdr_length short_key_frame ≤ short_key_frame.length - sizeof_hdr ∧
    (eapol_sm_rx_eapol env_idle connecting_idle src_mac short_key_frame
      true).dot1xSuppInvalidEapolFramesRx =
      connecting_idle.dot1xSuppInvalidEapolFramesRx ∧
    (eapol_sm_rx_eapol env_idle connecting_idle src_mac short_key_frame
      true).dot1xSuppEapLengthErrorFramesRx =
      connecting_idle.dot1xSuppEapLengthErrorFramesRx := by
  decide

/-- C12: for every frame that `eapol_sm_rx_eapol` drops (shorter than the
header, declared length beyond the buffer, EAPOL-Key frame with a body shorter
than the fixed key body, with key type WPA or RSN, or with a key type other
than RC4, and also a frame of an unknown type) no step is run: the instance
after the call is the instance before it with only the receive statistics
(frame counter, the two error counters, last frame version and source)
possibly changed.  In particular the three state machine states, `rxKey`,
`eapolEap`, the four timers, `last_rx_key`, `eapReqData`, the pending
zero-delay step and the recorded host calls are unchanged. -/
theorem C12_dropped_frames (env : Env) (sm : eapol_sm) (src buf : List Nat) (alloc : Bool)
    (h : buf.length < sizeof_hdr ∨ hdr_length buf > buf.length - sizeof_hdr ∨
      (hdr_type buf = IEEE802_1X_TYPE_EAPOL_KEY ∧
        (hdr_length buf < sizeof_key ∨ key_type buf = EAPOL_KEY_TYPE_WPA ∨
          key_type buf = EAPOL_KEY_TYPE_RSN ∨ key_type buf ≠ EAPOL_KEY_TYPE_RC4)) ∨
      (hdr_type buf ≠ IEEE802_1X_TYPE_EAP_PACKET ∧ hdr_type buf ≠ IEEE802_1X_TYPE_EAPOL_KEY)) :
    eapol_sm_rx_eapol env sm src buf alloc =
      { sm with
        dot1xSuppEapolFramesRx :=
          (eapol_sm_rx_eapol env sm src buf alloc).dot1xSuppEapolFramesRx
        dot1xSuppInvalidEapolFramesRx :=
          (eapol_sm_rx_eapol env sm src buf alloc).dot1xSuppInvalidEapolFramesRx
        dot1xSuppEapLengthErrorFramesRx :=
          (eapol_sm_rx_eapol env sm src buf alloc).dot1xSuppEapLengthErrorFramesRx
        dot1xSuppLastEapolFrameVersion :=
          (eapol_sm_rx_eapol env sm src buf alloc).dot1xSuppLastEapolFrameVersion
        dot1xSuppLastEapolFrameSource :=
          (eapol_sm_rx_eapol env sm src buf alloc).dot1xSuppLastEapolFrameSource } ∧
    (eapol_sm_rx_eapol env sm src buf alloc).SUPP_PAE_state = sm.SUPP_PAE_state ∧
    (eapol_sm_rx_eapol env sm src buf alloc).KEY_RX_state = sm.KEY_RX_state ∧
    (eapol_sm_rx_eapol env sm src buf alloc).SUPP_BE_state = sm.SUPP_BE_state ∧
    (eapol_sm_rx_eapol env sm src buf alloc).rxKey = sm.rxKey ∧
    (eapol_sm_rx_eapol env sm src buf alloc).eapolEap = sm.eapolEap ∧
    (eapol_sm_rx_eapol env sm src buf alloc).authWhile = sm.authWhile ∧
    (eapol_sm_rx_eapol env sm src buf alloc).heldWhile = sm.heldWhile ∧
    (eapol_sm_rx_eapol env sm src buf alloc).startWhen = sm.startWhen ∧
    (eapol_sm_rx_eapol env sm src buf alloc).idleWhile = sm.idleWhile ∧
    (eapol_sm_rx_eapol env sm src buf alloc).last_rx_key = sm.last_rx_key ∧
    (eapol_sm_rx_eapol env sm src buf alloc).eapReqData = sm.eapReqData ∧
    (eapol_sm_rx_eapol env sm src buf alloc).step_timeout = sm.step_timeout ∧
    (eapol_sm_rx_eapol env sm src buf alloc).calls = sm.calls := by
  have key : ∃ a b c d e, eapol_sm_rx_eapol env sm src buf alloc =
      { sm with
        dot1xSuppEapolFramesRx := a
        dot1xSuppInvalidEapolFramesRx := b
        dot1xSuppEapLengthErrorFramesRx := c
        dot1xSuppLastEapolFrameVersion := d
        dot1xSuppLastEapolFrameSource := e } := by
    by_cases h1 : buf.length < sizeof_hdr
    · exact ⟨_, _, _, _, _, eapol_sm_rx_eapol_short env sm src buf alloc h1⟩
    by_cases h2 : hdr_length buf > buf.length - sizeof_hdr
    · exact ⟨_, _, _, _, _, eapol_sm_rx_eapol_length_error env sm src buf alloc h1 h2⟩
    rcases h with h | h | h | h
    · exact absurd h h1
    · exact absurd h h2
    · exact ⟨_, _, _, _, _, eapol_sm_rx_eapol_key_dropped env sm src buf alloc h1 h2 h.1 h.2⟩
    · exact ⟨_, _, _, _, _, eapol_sm_rx_eapol_unknown_type env sm src buf alloc h1 h2 h.1 h.2⟩
  obtain ⟨a, b, c, d, e, hr⟩ := key
  rw [hr]
  exact ⟨rfl, rfl, rfl, rfl, rfl, rfl, rfl, rfl, rfl, rfl, rfl, rfl, rfl, rfl⟩

/-- C12 at a concrete frame: an EAPOL-Key frame of key type WPA (254) with a
complete key body, received while connecting. -/
theorem C12_dropped_frames_witness :
    (eapol_sm_rx_eapol env_idle connecting_idle src_mac wpa_key_frame true).rxKey =
      connecting_idle.rxKey ∧
    (eapol_sm_rx_eapol env_idle connecting_idle src_mac wpa_key_frame true).last_rx_key =
      connecting_idle.last_rx_key ∧
    (eapol_sm_rx_eapol env_idle connecting_idle src_mac wpa_key_frame true).calls =
      connecting_idle.calls :=
  have h := C12_dropped_frames env_idle connecting_idle src_mac wpa_key_frame true
    (Or.inr (Or.inr (Or.inl ⟨by decide, Or.inr (Or.inl (by decide))⟩)))
  ⟨h.2.2.2.2.1, h.2.2.2.2.2.2.2.2.2.2.1, h.2.2.2.2.2.2.2.2.2.2.2.2.2⟩

/-! ## C15, C16: the install stage -/

/-- C15: when the stored key frame (holding a complete key body) passes every
check of `eapol_sm_processKey` and the driver callback `set_wep_key` returns a
negative value for the key, the call sets neither `unicast_key_received` nor
`broadcast_key_received`, does not set `portValid`, and does not invoke
`eapol_done_cb`: the only host call it makes is the refused `set_wep_key`. -/
theorem C15_driver_refuses_key (env : Env) (sm : eapol_sm) (buf kd : List Nat) (skl ekl : Nat)
    (dk : List Nat) (f : Nat → Nat → List Nat → Int)
    (hbuf : sm.last_rx_key = some buf) (hlen : 48 ≤ buf.length)
    (hv : (eapol_sm_processKey_aux env sm).1 = key_verdict.installed)
    (hk : processKey_keydata env sm = Except.ok (kd, skl, ekl))
    (hd : processKey_datakey env kd ekl buf = some dk)
    (hf : env.set_wep_key = some f)
    (hneg : f (Nat.land (key_key_index buf) IEEE8021X_KEY_INDEX_FLAG)
      (Nat.land (key_key_index buf) IEEE8021X_KEY_INDEX_MASK) dk < 0) :
    (eapol_sm_processKey env sm).unicast_key_received = sm.unicast_key_received ∧
    (eapol_sm_processKey env sm).broadcast_key_received = sm.broadcast_key_received ∧
    (eapol_sm_processKey env sm).portValid = sm.portValid ∧
    (eapol_sm_processKey env sm).calls = sm.calls ++ [host_call.set_wep_key
      (Nat.land (key_key_index buf) IEEE8021X_KEY_INDEX_FLAG)
      (Nat.land (key_key_index buf) IEEE8021X_KEY_INDEX_MASK) dk] := by
  rw [processKey_eq_install env sm buf kd skl ekl dk hbuf hlen hv hk hd,
    processKey_install_failed env sm buf dk f hf hneg]
  exact ⟨rfl, rfl, rfl, rfl⟩

set_option maxRecDepth 20000 in
/-- C15 at a concrete frame: the correctly signed unicast key frame with
counter 5 against the stored counter 3, under a driver that refuses it. -/
theorem C15_driver_refuses_key_witness :
    (eapol_sm_processKey_aux env_refuse (key_sm 3 (key_frame 5 sig_rc5))).1 =
      key_verdict.installed ∧
    (eapol_sm_processKey env_refuse (key_sm 3 (key_frame 5 sig_rc5))).unicast_key_received =
      false ∧
    (eapol_sm_processKey env_refuse (key_sm 3 (key_frame 5 sig_rc5))).portValid = false ∧
    (eapol_sm_processKey env_refuse (key_sm 3 (key_frame 5 sig_rc5))).calls =
      (key_sm 3 (key_frame 5 sig_rc5)).calls ++
        [host_call.set_wep_key 128 1 [122, 132, 142, 152, 162]] :=
  have h := C15_driver_refuses_key env_refuse (key_sm 3 (key_frame 5 sig_rc5))
    (key_frame 5 sig_rc5) (List.replicate 64 7) 32 32 [122, 132, 142, 152, 162]
    (fun _ _ _ => -1) rfl (by decide) (by decide) rfl (by decide) rfl (by decide)
  ⟨by decide, h.1, h.2.2.1, h.2.2.2⟩

/-- C16: when the stored key frame (holding a complete key body) passes every
check of `eapol_sm_processKey` and the driver takes the key (`set_wep_key`
does not return a negative value, or no such callback is installed), the call
sets `unicast_key_received` if the top bit (0x80) of `key_index` is set and
`broadcast_key_received` otherwise, leaving the other flag alone.  Then,
exactly when every key kind required by `conf.required_keys` has its flag set,
it sets `portValid` to true and invokes `eapol_done_cb` (once, if installed);
otherwise it leaves `portValid` unchanged and makes no further host call. -/
theorem C16_key_installed (env : Env) (sm : eapol_sm) (buf kd : List Nat) (skl ekl : Nat)
    (dk : List Nat)
    (hbuf : sm.last_rx_key = some buf) (hlen : 48 ≤ buf.length)
    (hv : (eapol_sm_processKey_aux env sm).1 = key_verdict.installed)
    (hk : processKey_keydata env sm = Except.ok (kd, skl, ekl))
    (hd : processKey_datakey env kd ekl buf = some dk)
    (hok : ∀ f, env.set_wep_key = some f →
      ¬ f (Nat.land (key_key_index buf) IEEE8021X_KEY_INDEX_FLAG)
        (Nat.land (key_key_index buf) IEEE8021X_KEY_INDEX_MASK) dk < 0) :
    (Nat.land (key_key_index buf) IEEE8021X_KEY_INDEX_FLAG ≠ 0 →
      (eapol_sm_processKey env sm).unicast_key_received = true ∧
      (eapol_sm_processKey env sm).broadcast_key_received = sm.broadcast_key_received) ∧
    (Nat.land (key_key_index buf) IEEE8021X_KEY_INDEX_FLAG = 0 →
      (eapol_sm_processKey env sm).broadcast_key_received = true ∧
      (eapol_sm_processKey env sm).unicast_key_received = sm.unicast_key_received) ∧
    (((eapol_sm_processKey env sm).unicast_key_received = true ∨
        Nat.land sm.conf.required_keys EAPOL_REQUIRE_KEY_UNICAST = 0) ∧
      ((eapol_sm_processKey env sm).broadcast_key_received = true ∨
        Nat.land sm.conf.required_keys EAPOL_REQUIRE_KEY_BROADCAST = 0) →
      (eapol_sm_processKey env sm).portValid = true ∧
      (eapol_sm_processKey env sm).calls = sm.calls ++ driver_calls env buf dk ++
        (if env.eapol_done_cb = true then [host_call.eapol_done_cb] else [])) ∧
    (¬ (((eapol_sm_processKey env sm).unicast_key_received = true ∨
        Nat.land sm.conf.required_keys EAPOL_REQUIRE_KEY_UNICAST = 0) ∧
      ((eapol_sm_processKey env sm).broadcast_key_received = true ∨
        Nat.land sm.conf.required_keys EAPOL_REQUIRE_KEY_BROADCAST = 0)) →
      (eapol_sm_processKey env sm).portValid = sm.portValid ∧
      (eapol_sm_processKey env sm).calls = sm.calls ++ driver_calls env buf dk) := by
  rw [processKey_eq_install env sm buf kd skl ekl dk hbuf hlen hv hk hd,
    processKey_install_ok env sm buf dk hok]
  exact processKey_received_eq env _ _

set_option maxRecDepth 20000 in
/-- C16 at a concrete frame: the correctly signed unicast key frame (key index
0x81) with counter 5 against the stored counter 3, under a driver that takes
it, on an instance that requires both key kinds and has no broadcast key yet:
the unicast flag is set, `portValid` stays false and `eapol_done_cb` is not
invoked. -/
theorem C16_key_installed_witness :
    (eapol_sm_processKey_aux env_idle (key_sm 3 (key_frame 5 sig_rc5))).1 =
      key_verdict.installed ∧
    (eapol_sm_processKey env_idle (key_sm 3 (key_frame 5 sig_rc5))).unicast_key_received =
      true ∧
    (eapol_sm_processKey env_idle (key_sm 3 (key_frame 5 sig_rc5))).portValid = false ∧
    (eapol_sm_processKey env_idle (key_sm 3 (key_frame 5 sig_rc5))).calls =
      (key_sm 3 (key_frame 5 sig_rc5)).calls ++
        [host_call.set_wep_key 128 1 [122, 132, 142, 152, 162]] :=
  have h := C16_key_installed env_idle (key_sm 3 (key_frame 5 sig_rc5))
    (key_frame 5 sig_rc5) (List.replicate 64 7) 32 32 [122, 132, 142, 152, 162]
    rfl (by decide) (by decide) rfl (by decide)
    (by intro f hf; injection hf with hf; rw [← hf]; decide)
  ⟨by decide, (h.1 (by decide)).1, (h.2.2.2 (by decide)).1, (h.2.2.2 (by decide)).2⟩

/-! ## C17: payload handling -/

/-- C17: for a stored key frame (holding a complete key body) that passed the
replay and signature checks, with `key_len` the frame's declared length minus
the size of the fixed key body and `encr_key` the encryption key derived from
the EAP keying material: the frame is rejected, leaving the instance as it
was, if `key_len > 32` or the announced `key_length > 32`; otherwise, if
`key_len = key_length`, the key handed to the install stage is RC4 applied,
with the key made of the 16-byte `key_iv` followed by `encr_key`, to the
`key_len` bytes that follow the key body; otherwise, if `key_len = 0`, it is
the first `key_length` bytes of the encryption key field; in every other case
the frame is dropped, leaving the instance as it was. -/
theorem C17_payload_handling (env : Env) (sm : eapol_sm) (buf kd : List Nat) (skl ekl : Nat)
    (hbuf : sm.last_rx_key = some buf) (hlen : 48 ≤ buf.length)
    (hacc : sm.conf.accept_802_1x_keys = true)
    (hfit : sizeof_hdr + hdr_length buf ≤ sm.last_rx_key_len)
    (hk : processKey_keydata env sm = Except.ok (kd, skl, ekl))
    (hreplay : ¬ (sm.replay_counter_valid = true ∧
      memcmp sm.last_replay_counter (key_replay_counter buf)
        IEEE8021X_REPLAY_COUNTER_LEN ≥ 0))
    (hsig : (verify_key_signature env ((kd.drop 32).take skl) buf).1 = true) :
    (processKey_key_len buf > 32 ∨ key_key_length buf > 32 →
      eapol_sm_processKey_aux env sm = (key_verdict.too_long, sm)) ∧
    (¬ (processKey_key_len buf > 32 ∨ key_key_length buf > 32) →
      processKey_key_len buf = (key_key_length buf : Int) →
      eapol_sm_processKey_aux env sm = (key_verdict.installed,
        processKey_install env sm buf
          (env.rc4 (key_key_iv buf ++ (kd.take 32).take ekl)
            ((buf.drop (sizeof_hdr + sizeof_key)).take (processKey_key_len buf).toNat)))) ∧
    (¬ (processKey_key_len buf > 32 ∨ key_key_length buf > 32) →
      processKey_key_len buf ≠ (key_key_length buf : Int) →
      processKey_key_len buf = 0 →
      eapol_sm_processKey_aux env sm = (key_verdict.installed,
        processKey_install env sm buf ((kd.take 32).take (key_key_length buf)))) ∧
    (¬ (processKey_key_len buf > 32 ∨ key_key_length buf > 32) →
      processKey_key_len buf ≠ (key_key_length buf : Int) →
      processKey_key_len buf ≠ 0 →
      eapol_sm_processKey_aux env sm = (key_verdict.bad_length, sm)) := by
  have hsig' : ¬ (verify_key_signature env ((kd.drop 32).take skl) buf).1 = false := by
    rw [hsig]; decide
  have hfit' : ¬ sizeof_hdr + hdr_length buf > sm.last_rx_key_len := not_lt.mpr hfit
  have hacc' : ¬ sm.conf.accept_802_1x_keys = false := by rw [hacc]; decide
  have base : eapol_sm_processKey_aux env sm =
      if processKey_key_len buf > 32 ∨ key_key_length buf > 32 then (key_verdict.too_long, sm)
      else
        match processKey_datakey env kd ekl buf with
        | none => (key_verdict.bad_length, sm)
        | some datakey => (key_verdict.installed, processKey_install env sm buf datakey) := by
    rw [processKey_aux_eq env sm buf hbuf hlen, if_neg hacc', if_neg hfit', hk]
    dsimp only
    rw [if_neg hreplay, if_neg hsig']
  rw [base]
  refine ⟨fun h => by rw [if_pos h], fun h he => ?_, fun h hne h0 => ?_, fun h hne h0 => ?_⟩
  · rw [if_neg h]
    have : processKey_datakey env kd ekl buf =
        some (env.rc4 (key_key_iv buf ++ (kd.take 32).take ekl)
          ((buf.drop (sizeof_hdr + sizeof_key)).take (processKey_key_len buf).toNat)) := by
      unfold processKey_datakey
      dsimp only
      rw [if_pos he]
      rfl
    rw [this]
  · rw [if_neg h]
    have : processKey_datakey env kd ekl buf = some ((kd.take 32).take (key_key_length buf)) := by
      unfold processKey_datakey
      dsimp only
      rw [if_neg hne, if_pos h0]
    rw [this]
  · rw [if_neg h]
    have : processKey_datakey env kd ekl buf = none := by
      unfold processKey_datakey
      dsimp only
      rw [if_neg hne, if_neg h0]
    rw [this]

set_option maxRecDepth 20000 in
/-- C17 at a concrete frame: the correctly signed key frame with counter 5,
whose five bytes of key data match the announced key length 5, is installed
with the RC4 output over those five bytes. -/
theorem C17_payload_handling_witness :
    eapol_sm_processKey_aux env_idle (key_sm 3 (key_frame 5 sig_rc5)) =
      (key_verdict.installed,
        processKey_install env_idle (key_sm 3 (key_frame 5 sig_rc5)) (key_frame 5 sig_rc5)
          (env_idle.rc4 (key_key_iv (key_frame 5 sig_rc5) ++
              ((List.replicate 64 7).take 32).take 32)
            (((key_frame 5 sig_rc5).drop (sizeof_hdr + sizeof_key)).take
              (processKey_key_len (key_frame 5 sig_rc5)).toNat))) :=
  (C17_payload_handling env_idle (key_sm 3 (key_frame 5 sig_rc5)) (key_frame 5 sig_rc5)
    (List.replicate 64 7) 32 32 rfl (by decide) rfl (by decide) rfl (by decide)
    (by decide)).2.1 (by decide) (by decide)

/-! ## C18: key derivation -/

theorem eapol_sm_get_key_unavailable (sm : eapol_sm) (key : List Nat) (len : Nat)
    (h : sm.eap.eapKeyAvailable = false ∨ sm.eap.eapKeyData = none) :
    eapol_sm_get_key sm key len = (-1, key) := by
  unfold eapol_sm_get_key
  rcases h with h | h
  · rw [if_pos h]
  · by_cases c : sm.eap.eapKeyAvailable = false
    · rw [if_pos c]
    · rw [if_neg c, h]

theorem eapol_sm_get_key_available (sm : eapol_sm) (key d : List Nat) (len : Nat)
    (ha : sm.eap.eapKeyAvailable = true) (hd : sm.eap.eapKeyData = some d) :
    eapol_sm_get_key sm key len =
      if len > d.length then ((d.length : Int), key) else (0, d.take len ++ key.drop len) := by
  unfold eapol_sm_get_key
  rw [if_neg (by rw [ha]; decide), hd]

set_option maxRecDepth 20000 in
/-- C18, evaluated on the code: `eapol_sm_processKey` aborts at key derivation
when the keying material is unavailable or its length is neither 0, nor 16,
nor at least 64; it continues with bytes 0..31 as encryption key and bytes
32..63 as signing key when there are at least 64 bytes, and with the same 16
bytes in both roles when there are exactly 16.  With keying material of length
0 reported available it does not abort: `eapol_sm_get_key` returns the length
0, which the caller takes for success, and processing continues with the
untouched content of the local `keydata`; on the instance `key_sm_empty` a
frame signed under that content is installed. -/
theorem C18_key_derivation :
    (∀ (env : Env) (sm : eapol_sm),
      (sm.eap.eapKeyAvailable = false ∨ sm.eap.eapKeyData = none) →
      processKey_keydata env sm = Except.error key_verdict.no_master_key) ∧
    (∀ (env : Env) (sm : eapol_sm) (d : List Nat),
      sm.eap.eapKeyAvailable = true → sm.eap.eapKeyData = some d → 64 ≤ d.length →
      processKey_keydata env sm =
        Except.ok (d.take 32 ++ (d.drop 32).take 32 ++ env.stack.drop 64, 32, 32)) ∧
    (∀ (env : Env) (sm : eapol_sm) (d : List Nat),
      sm.eap.eapKeyAvailable = true → sm.eap.eapKeyData = some d → d.length = 16 →
      env.stack.length = 64 →
      ∃ kd, processKey_keydata env sm = Except.ok (kd, 16, 16) ∧
        (kd.take 32).take 16 = d ∧ (kd.drop 32).take 16 = d) ∧
    (∀ (env : Env) (sm : eapol_sm) (d : List Nat),
      sm.eap.eapKeyAvailable = true → sm.eap.eapKeyData = some d →
      d.length < 64 → d.length ≠ 16 → d.length ≠ 0 →
      processKey_keydata env sm = Except.error key_verdict.not_enough_key) ∧
    (∀ (env : Env) (sm : eapol_sm),
      sm.eap.eapKeyAvailable = true → sm.eap.eapKeyData = some [] →
      processKey_keydata env sm = Except.ok (env.stack, 32, 32)) ∧
    (eapol_sm_processKey_aux env_idle (key_sm_empty 3 (key_frame 5 sig_rc5_stack))).1 =
      key_verdict.installed ∧
    (eapol_sm_processKey env_idle (key_sm_empty 3 (key_frame 5 sig_rc5_stack))).calls =
      (key_sm_empty 3 (key_frame 5 sig_rc5_stack)).calls ++
        [host_call.set_wep_key 128 1 [154, 164, 174, 184, 194]] := by
  refine ⟨?_, ?_, ?_, ?_, ?_, by decide, by decide⟩
  · intro env sm h
    unfold processKey_keydata
    dsimp only
    rw [eapol_sm_get_key_unavailable sm _ _ h]
    rfl
  · intro env sm d ha hd hl
    have hg : eapol_sm_get_key sm env.stack 64 = (0, d.take 64 ++ env.stack.drop 64) := by
      rw [eapol_sm_get_key_available sm _ d _ ha hd, if_neg (show ¬ 64 > d.length by omega)]
    unfold processKey_keydata
    dsimp only
    rw [hg]
    dsimp only
    rw [if_neg (by decide), if_neg (by decide), if_neg (by decide)]
    have : d.take 64 = d.take 32 ++ (d.drop 32).take 32 := by
      rw [← List.take_append_drop 32 (d.take 64), List.take_take, List.drop_take]
      rfl
    rw [this]
    rfl
  · intro env sm d ha hd hl hs
    have hg : eapol_sm_get_key sm env.stack 64 = (16, env.stack) := by
      rw [eapol_sm_get_key_available sm _ d _ ha hd, if_pos (show 64 > d.length by omega), hl]
      rfl
    have hg2 : eapol_sm_get_key sm env.stack 16 = (0, d.take 16 ++ env.stack.drop 16) := by
      rw [eapol_sm_get_key_available sm _ d _ ha hd, if_neg (show ¬ 16 > d.length by omega)]
    unfold processKey_keydata
    dsimp only
    rw [hg]
    dsimp only
    rw [if_neg (by decide), if_pos rfl, hg2]
    dsimp only
    rw [if_neg (by decide)]
    have h16 : d.take 16 = d := List.take_of_length_le (by omega)
    have hlen : (d ++ List.drop 16 env.stack).length = 64 := by
      rw [List.length_append, List.length_drop]; omega
    refine ⟨_, rfl, ?_, ?_⟩
    · rw [h16, List.take_take, List.append_assoc,
        List.take_append_of_le_length (by rw [List.length_take]; omega), List.take_take,
        List.take_append_of_le_length (by omega)]
      exact List.take_of_length_le (by omega)
    · rw [h16, List.append_assoc, List.drop_append_of_le_length (by rw [List.length_take]; omega),
        List.drop_of_length_le (by rw [List.length_take]; omega), List.nil_append,
        List.take_append_of_le_length (by rw [List.length_take]; omega), List.take_take,
        List.take_append_of_le_length (by omega)]
      exact List.take_of_length_le (by omega)
  · intro env sm d ha hd hl h16 h0
    have hg : eapol_sm_get_key sm env.stack 64 = ((d.length : Int), env.stack) := by
      rw [eapol_sm_get_key_available sm _ d _ ha hd, if_pos (show 64 > d.length by omega)]
    unfold processKey_keydata
    dsimp only
    rw [hg]
    dsimp only
    rw [if_neg (by omega), if_neg (by omega), if_pos (by omega)]
  · intro env sm ha hd
    have hg : eapol_sm_get_key sm env.stack 64 = (0, env.stack) := by
      rw [eapol_sm_get_key_available sm _ [] _ ha hd, if_pos (show 64 > ([] : List Nat).length by decide)]
      rfl
    unfold processKey_keydata
    dsimp only
    rw [hg]
    dsimp only
    rw [if_neg (by decide), if_neg (by decide), if_neg (by decide)]
    rfl

/-! ## C19: the port timers -/

theorem port_timers_decrement_eq (sm : eapol_sm) :
    port_timers_decrement sm =
      { sm with
        authWhile := if sm.authWhile > 0 then sm.authWhile - 1 else sm.authWhile
        heldWhile := if sm.heldWhile > 0 then sm.heldWhile - 1 else sm.heldWhile
        startWhen := if sm.startWhen > 0 then sm.startWhen - 1 else sm.startWhen
        idleWhile := if sm.idleWhile > 0 then sm.idleWhile - 1 else sm.idleWhile } := by
  unfold port_timers_decrement
  dsimp only
  split_ifs <;> rfl

/-- C19: `eapol_port_timers_tick` is the step run on the instance whose four
timers `authWhile`, `heldWhile`, `startWhen` and `idleWhile` have first been
counted down, so the decrement comes before the step of the same tick.  The
count-down touches nothing but the four timers; each timer that is positive
drops by exactly one, each timer that is 0 stays 0, and timers that are all
non-negative before the count-down are all non-negative after it. -/
theorem C19_port_timers_tick (env : Env) (sm : eapol_sm) :
    eapol_port_timers_tick env sm = eapol_sm_step env (port_timers_decrement sm) ∧
    port_timers_decrement sm =
      { sm with
        authWhile := (port_timers_decrement sm).authWhile
        heldWhile := (port_timers_decrement sm).heldWhile
        startWhen := (port_timers_decrement sm).startWhen
        idleWhile := (port_timers_decrement sm).idleWhile } ∧
    (0 < sm.authWhile → (port_timers_decrement sm).authWhile = sm.authWhile - 1) ∧
    (0 < sm.heldWhile → (port_timers_decrement sm).heldWhile = sm.heldWhile - 1) ∧
    (0 < sm.startWhen → (port_timers_decrement sm).startWhen = sm.startWhen - 1) ∧
    (0 < sm.idleWhile → (port_timers_decrement sm).idleWhile = sm.idleWhile - 1) ∧
    (sm.authWhile = 0 → (port_timers_decrement sm).authWhile = 0) ∧
    (sm.heldWhile = 0 → (port_timers_decrement sm).heldWhile = 0) ∧
    (sm.startWhen = 0 → (port_timers_decrement sm).startWhen = 0) ∧
    (sm.idleWhile = 0 → (port_timers_decrement sm).idleWhile = 0) ∧
    (0 ≤ sm.authWhile ∧ 0 ≤ sm.heldWhile ∧ 0 ≤ sm.startWhen ∧ 0 ≤ sm.idleWhile →
      0 ≤ (port_timers_decrement sm).authWhile ∧ 0 ≤ (port_timers_decrement sm).heldWhile ∧
      0 ≤ (port_timers_decrement sm).startWhen ∧ 0 ≤ (port_timers_decrement sm).idleWhile) := by
  refine ⟨rfl, ?_, ?_⟩
  · rw [port_timers_decrement_eq]
  · rw [port_timers_decrement_eq]
    dsimp only
    refine ⟨?_, ?_, ?_, ?_, ?_, ?_, ?_, ?_, ?_⟩
    · intro h; rw [if_pos h]
    · intro h; rw [if_pos h]
    · intro h; rw [if_pos h]
    · intro h; rw [if_pos h]
    · intro h; rw [h]; rfl
    · intro h; rw [h]; rfl
    · intro h; rw [h]; rfl
    · intro h; rw [h]; rfl
    · rintro ⟨h1, h2, h3, h4⟩
      refine ⟨?_, ?_, ?_, ?_⟩ <;> split_ifs <;> omega

/-! ## The variable `keyRun` -/

theorem sm_SUPP_PAE_Step_local_keyRun (env : Env) (sm : eapol_sm) :
    (sm_SUPP_PAE_Step_local env sm).keyRun = sm.keyRun ∨
    (sm.SUPP_PAE_state ≠ SUPP_PAE.AUTHENTICATING ∧
      (sm_SUPP_PAE_Step_local env sm).SUPP_PAE_state = SUPP_PAE.AUTHENTICATING) := by
  refine sm_SUPP_PAE_Step_local_cases env sm
    (fun r => r.keyRun = sm.keyRun ∨
      (sm.SUPP_PAE_state ≠ SUPP_PAE.AUTHENTICATING ∧
        r.SUPP_PAE_state = SUPP_PAE.AUTHENTICATING)) (Or.inl rfl)
    ?_ ?_ ?_ ?_ ?_ ?_ ?_ ?_ ?_ ?_ ?_ ?_ ?_ ?_ ?_ ?_
  · intros; exact Or.inl rfl
  · intros; exact Or.inl rfl
  · intros; exact Or.inl rfl
  · intros; exact Or.inl rfl
  · intro hs _; exact Or.inr ⟨by rw [hs]; decide, rfl⟩
  · intros; exact Or.inl rfl
  · intros; exact Or.inl rfl
  · intros; exact Or.inl rfl
  · intros; exact Or.inl rfl
  · intros; exact Or.inl rfl
  · intros; exact Or.inl rfl
  · intros; exact Or.inl rfl
  · intros; exact Or.inl rfl
  · intros; exact Or.inl rfl
  · intros; exact Or.inl rfl
  · intro hs _; exact Or.inr ⟨by rw [hs]; decide, rfl⟩

theorem sm_SUPP_PAE_Step_keyRun (env : Env) (sm : eapol_sm) :
    ((sm_SUPP_PAE_Step env sm).keyRun = sm.keyRun ∨
      (sm.SUPP_PAE_state ≠ SUPP_PAE.AUTHENTICATING ∧
        (sm_SUPP_PAE_Step env sm).SUPP_PAE_state = SUPP_PAE.AUTHENTICATING)) ∧
    (sm.initialize_ = true → (sm_SUPP_PAE_Step env sm).keyRun = sm.keyRun) := by
  refine sm_SUPP_PAE_Step_cases env sm
    (fun r => (r.keyRun = sm.keyRun ∨
      (sm.SUPP_PAE_state ≠ SUPP_PAE.AUTHENTICATING ∧
        r.SUPP_PAE_state = SUPP_PAE.AUTHENTICATING)) ∧
      (sm.initialize_ = true → r.keyRun = sm.keyRun)) ?_ ?_ ?_ ?_ ?_
  · intro _ _ hg
    rw [sm_SUPP_PAE_LOGOFF_Enter_eq]
    exact ⟨Or.inl rfl, fun _ => rfl⟩
  · intro _
    rw [sm_SUPP_PAE_DISCONNECTED_Enter_eq]
    exact ⟨Or.inl rfl, fun _ => rfl⟩
  · intro _ _ _
    rw [sm_SUPP_PAE_S_FORCE_AUTH_Enter_eq]
    exact ⟨Or.inl rfl, fun _ => rfl⟩
  · intro _ _ _
    rw [sm_SUPP_PAE_S_FORCE_UNAUTH_Enter_eq]
    exact ⟨Or.inl rfl, fun _ => rfl⟩
  · intro _ hg _
    exact ⟨sm_SUPP_PAE_Step_local_keyRun env sm, fun hi => absurd (Or.inl hi) hg⟩

theorem sm_KEY_RX_Step_keyRun (env : Env) (sm : eapol_sm) :
    (sm_KEY_RX_Step env sm).keyRun = sm.keyRun := by
  refine sm_KEY_RX_Step_cases env sm (fun r => r.keyRun = sm.keyRun) ?_ ?_ ?_ ?_
  · intros
    rw [(sm_KEY_RX_KEY_RECEIVE_Enter_eq env _ _).1, sm_KEY_RX_NO_KEY_RECEIVE_Enter_eq]
  · intros
    rw [sm_KEY_RX_NO_KEY_RECEIVE_Enter_eq]
  · intros
    rw [(sm_KEY_RX_KEY_RECEIVE_Enter_eq env _ _).1]
  · intros; rfl

theorem sm_SUPP_BE_Step_keyRun (env : Env) (sm : eapol_sm) :
    ((sm_SUPP_BE_Step env sm).keyRun = sm.keyRun ∨ (sm_SUPP_BE_Step env sm).keyRun = true) ∧
    (sm.initialize_ = true → (sm_SUPP_BE_Step env sm).keyRun = sm.keyRun) := by
  refine sm_SUPP_BE_Step_cases env sm
    (fun r => (r.keyRun = sm.keyRun ∨ r.keyRun = true) ∧
      (sm.initialize_ = true → r.keyRun = sm.keyRun)) ?_ ?_
  · intro _
    rw [sm_SUPP_BE_INITIALIZE_Enter_eq]
    exact ⟨Or.inl rfl, fun _ => rfl⟩
  · intro hi _
    refine ⟨?_, fun h => absurd h (by rw [hi]; decide)⟩
    refine sm_SUPP_BE_Step_local_cases sm (fun r => r.keyRun = sm.keyRun ∨ r.keyRun = true)
      (Or.inl rfl) ?_ ?_ ?_ ?_ ?_ ?_ ?_ ?_ ?_ ?_ ?_
    · intros; rw [sm_SUPP_BE_RESPONSE_Enter_eq]; exact Or.inl rfl
    · intros; exact Or.inl rfl
    · intros; exact Or.inl rfl
    · intros; exact Or.inl rfl
    · intros; exact Or.inl rfl
    · intros; exact Or.inl rfl
    · intros; rw [sm_SUPP_BE_SUCCESS_Enter_eq]; exact Or.inr rfl
    · intros; exact Or.inl rfl
    · intros; exact Or.inl rfl
    · intros; exact Or.inl rfl
    · intros; rw [sm_SUPP_BE_SUCCESS_Enter_eq]; exact Or.inr rfl

theorem eap_sm_step_run_keyRun (env : Env) (sm : eapol_sm) :
    (eap_sm_step_run env sm).keyRun = sm.keyRun := by
  unfold eap_sm_step_run
  dsimp only
  split_ifs <;> rfl

theorem eapol_sm_step_keyRun_eq (env : Env) (sm : eapol_sm) :
    (eapol_sm_step env sm).keyRun = (eapol_sm_step_machines env sm).keyRun := by
  unfold eapol_sm_step
  dsimp only
  split_ifs <;> rfl

/-- One step keeps `keyRun` set unless the PAE enters AUTHENTICATING in it; a
step with `initialize` set leaves `keyRun` as it is. -/
theorem eapol_sm_step_keyRun (env : Env) (sm : eapol_sm) :
    (sm.keyRun = true → (eapol_sm_step env sm).keyRun = true ∨
      (sm.SUPP_PAE_state ≠ SUPP_PAE.AUTHENTICATING ∧
        (eapol_sm_step env sm).SUPP_PAE_state = SUPP_PAE.AUTHENTICATING)) ∧
    (sm.initialize_ = true → (eapol_sm_step env sm).keyRun = sm.keyRun) := by
  have hv := eapol_sm_step_view env sm
  have hst : (eapol_sm_step env sm).SUPP_PAE_state =
      (sm_SUPP_PAE_Step env { sm with changed := false }).SUPP_PAE_state :=
    congrArg pae_vars.SUPP_PAE_state hv
  have hP := sm_SUPP_PAE_Step_keyRun env { sm with changed := false }
  have hPv : (sm_SUPP_PAE_Step env { sm with changed := false }).initialize_ = sm.initialize_ :=
    (sm_SUPP_PAE_Step_inputs env { sm with changed := false }).2.2.2.1
  have hK := sm_KEY_RX_Step_keyRun env (sm_SUPP_PAE_Step env { sm with changed := false })
  have hKi : (sm_KEY_RX_Step env (sm_SUPP_PAE_Step env { sm with changed := false })).initialize_ =
      (sm_SUPP_PAE_Step env { sm with changed := false }).initialize_ :=
    congrArg pae_vars.initialize_ (sm_KEY_RX_Step_view env _)
  have hB := sm_SUPP_BE_Step_keyRun env
    (sm_KEY_RX_Step env (sm_SUPP_PAE_Step env { sm with changed := false }))
  have hE := eap_sm_step_run_keyRun env (sm_SUPP_BE_Step env
    (sm_KEY_RX_Step env (sm_SUPP_PAE_Step env { sm with changed := false })))
  have hm : (eapol_sm_step_machines env sm).keyRun =
      (sm_SUPP_BE_Step env
        (sm_KEY_RX_Step env (sm_SUPP_PAE_Step env { sm with changed := false }))).keyRun := hE
  rw [eapol_sm_step_keyRun_eq, hm, hst]
  constructor
  · intro hk
    rcases hB.1 with h | h
    · rw [h, hK]
      rcases hP.1 with h1 | h1
      · rw [h1]; exact Or.inl hk
      · exact Or.inr h1
    · exact Or.inl h
  · intro hi
    rw [hB.2 (by rw [hKi, hPv]; exact hi), hK, hP.2 hi]

theorem eapol_sm_step_keyRun_weak (env : Env) (sm : eapol_sm) (h : sm.keyRun = true) :
    (eapol_sm_step env sm).keyRun = true ∨
      (eapol_sm_step env sm).SUPP_PAE_state = SUPP_PAE.AUTHENTICATING := by
  rcases (eapol_sm_step_keyRun env sm).1 h with h1 | h1
  · exact Or.inl h1
  · exact Or.inr h1.2

theorem eapol_sm_rx_eapol_keyRun_cases (env : Env) (sm : eapol_sm) (src buf : List Nat)
    (alloc : Bool) :
    ∃ s, (eapol_sm_rx_eapol env sm src buf alloc = s ∨
        eapol_sm_rx_eapol env sm src buf alloc = eapol_sm_step env s) ∧
      s.keyRun = sm.keyRun := by
  unfold eapol_sm_rx_eapol
  dsimp only
  by_cases c1 : buf.length < sizeof_hdr
  · rw [if_pos c1]; exact ⟨_, Or.inl rfl, rfl⟩
  rw [if_neg c1]
  by_cases c2 : hdr_length buf > buf.length - sizeof_hdr
  · rw [if_pos c2]; exact ⟨_, Or.inl rfl, rfl⟩
  rw [if_neg c2]
  by_cases c3 : hdr_type buf = IEEE802_1X_TYPE_EAP_PACKET
  · rw [if_pos c3]
    by_cases c4 : alloc = true
    · rw [if_pos c4]
      by_cases c5 : sm.cached_pmk = true
      · rw [if_pos c5]; exact ⟨_, Or.inr rfl, rfl⟩
      · rw [if_neg c5]; exact ⟨_, Or.inr rfl, rfl⟩
    · rw [if_neg c4]
      by_cases c5 : sm.cached_pmk = true
      · rw [if_pos c5]; exact ⟨_, Or.inl rfl, rfl⟩
      · rw [if_neg c5]; exact ⟨_, Or.inl rfl, rfl⟩
  rw [if_neg c3]
  by_cases c6 : hdr_type buf = IEEE802_1X_TYPE_EAPOL_KEY
  · rw [if_pos c6]
    by_cases c7 : hdr_length buf < sizeof_key
    · rw [if_pos c7]; exact ⟨_, Or.inl rfl, rfl⟩
    rw [if_neg c7]
    by_cases c8 : key_type buf = EAPOL_KEY_TYPE_WPA ∨ key_type buf = EAPOL_KEY_TYPE_RSN
    · rw [if_pos c8]; exact ⟨_, Or.inl rfl, rfl⟩
    rw [if_neg c8]
    by_cases c9 : key_type buf ≠ EAPOL_KEY_TYPE_RC4
    · rw [if_pos c9]; exact ⟨_, Or.inl rfl, rfl⟩
    rw [if_neg c9]
    by_cases c4 : alloc = true
    · rw [if_pos c4]; exact ⟨_, Or.inr rfl, rfl⟩
    · rw [if_neg c4]; exact ⟨_, Or.inl rfl, rfl⟩
  · rw [if_neg c6]; exact ⟨_, Or.inl rfl, rfl⟩

/-- Every input keeps `keyRun` set unless it leaves the PAE in
AUTHENTICATING. -/
theorem deliver_keyRun (env : Env) (sm : eapol_sm) (ev : Event) (h : sm.keyRun = true) :
    (deliver env sm ev).keyRun = true ∨
      (deliver env sm ev).SUPP_PAE_state = SUPP_PAE.AUTHENTICATING := by
  have hd : (port_timers_decrement sm).keyRun = true := by
    rw [port_timers_decrement_eq]; exact h
  cases ev with
  | tick => exact eapol_sm_step_keyRun_weak env (port_timers_decrement sm) hd
  | step => exact eapol_sm_step_keyRun_weak env sm h
  | step_timeout =>
    show (if sm.step_timeout = true then eapol_sm_step_timeout env sm else sm).keyRun = true ∨
      (if sm.step_timeout = true then eapol_sm_step_timeout env sm
        else sm).SUPP_PAE_state = SUPP_PAE.AUTHENTICATING
    split_ifs
    · apply eapol_sm_step_keyRun_weak; exact h
    · exact Or.inl h
  | rx_eapol src buf alloc =>
    show (eapol_sm_rx_eapol env sm src buf alloc).keyRun = true ∨
      (eapol_sm_rx_eapol env sm src buf alloc).SUPP_PAE_state = SUPP_PAE.AUTHENTICATING
    obtain ⟨s, e, hs⟩ := eapol_sm_rx_eapol_keyRun_cases env sm src buf alloc
    rcases e with e | e
    · rw [e]; exact Or.inl (hs.trans h)
    · rw [e]; exact eapol_sm_step_keyRun_weak env s (hs.trans h)
  | configure a b c d =>
    show (eapol_sm_configure sm a b c d).keyRun = true ∨
      (eapol_sm_configure sm a b c d).SUPP_PAE_state = SUPP_PAE.AUTHENTICATING
    unfold eapol_sm_configure
    dsimp only
    split_ifs <;> exact Or.inl h
  | notify_portEnabled b => exact eapol_sm_step_keyRun_weak env _ h
  | notify_portValid b => exact eapol_sm_step_keyRun_weak env _ h
  | notify_eap_success b =>
    show (eapol_sm_notify_eap_success env sm b).keyRun = true ∨
      (eapol_sm_notify_eap_success env sm b).SUPP_PAE_state = SUPP_PAE.AUTHENTICATING
    unfold eapol_sm_notify_eap_success
    dsimp only
    apply eapol_sm_step_keyRun_weak
    split_ifs <;> exact h
  | notify_eap_fail b => exact eapol_sm_step_keyRun_weak env _ h
  | notify_config c =>
    cases c with
    | none => exact Or.inl h
    | some c => exact Or.inl h
  | notify_logoff b => exact eapol_sm_step_keyRun_weak env _ h
  | notify_cached => exact Or.inl h
  | notify_pmkid_attempt => exact Or.inl h
  | notify_portControl pc => exact eapol_sm_step_keyRun_weak env _ h
  | notify_ctrl_attached => exact Or.inl h
  | notify_ctrl_response =>
    show (eapol_sm_notify_ctrl_response env sm).keyRun = true ∨
      (eapol_sm_notify_ctrl_response env sm).SUPP_PAE_state = SUPP_PAE.AUTHENTICATING
    unfold eapol_sm_notify_ctrl_response
    split_ifs
    · apply eapol_sm_step_keyRun_weak; exact h
    · exact Or.inl h

theorem run_keyRun (env : Env) (evs : List Event) :
    ∀ sm : eapol_sm, sm.keyRun = true →
      (∀ k, 0 < k → k ≤ evs.length →
        (run env sm (evs.take k)).SUPP_PAE_state ≠ SUPP_PAE.AUTHENTICATING) →
      (run env sm evs).keyRun = true := by
  induction evs with
  | nil => intro sm h _; exact h
  | cons ev evs ih =>
    intro sm h hno
    have h1 : (deliver env sm ev).keyRun = true := by
      rcases deliver_keyRun env sm ev h with h1 | h1
      · exact h1
      · exact absurd h1 (hno 1 (by decide) (by simp))
    refine ih (deliver env sm ev) h1 ?_
    intro k hk hle
    exact hno (k + 1) (by omega) (by simp; omega)

/-! ## C14: `keyRun` after a Backend SUCCESS -/

/-- C14 (amended): entering the Backend state SUCCESS sets `keyRun` to true,
and `keyRun` then stays true in every later state of every execution over the
inputs of the instance, up to the first input that leaves the PAE in
AUTHENTICATING: the entry action of AUTHENTICATING is the only thing that
clears `keyRun`.  A step run with `initialize` set leaves `keyRun` as it
is. -/
theorem C14_keyRun_after_success (env : Env) (sm : eapol_sm) (g : Bool) (evs : List Event) :
    (sm_SUPP_BE_SUCCESS_Enter sm g).keyRun = true ∧
    (sm.keyRun = true →
      (∀ k, 0 < k → k ≤ evs.length →
        (run env sm (evs.take k)).SUPP_PAE_state ≠ SUPP_PAE.AUTHENTICATING) →
      (run env sm evs).keyRun = true) ∧
    (sm.initialize_ = true → (eapol_sm_step env sm).keyRun = sm.keyRun) := by
  refine ⟨?_, run_keyRun env evs sm, (eapol_sm_step_keyRun env sm).2⟩
  rw [sm_SUPP_BE_SUCCESS_Enter_eq]

set_option maxRecDepth 100000 in
/-- C14, counterexample: in the plaintext scenario with the answering engine,
`eapol_sm_notify_eap_success` leaves the Backend in SUCCESS with `keyRun`
true.  After the scheduled steps a second EAP-Packet frame starts a
re-authentication; the step it schedules enters AUTHENTICATING and `keyRun` is
false, although `initialize` was false in every state passed through. -/
theorem C14_counterexample :
    (plaintext_success env_answer).SUPP_BE_state = SUPP_BE.SUCCESS ∧
    (plaintext_success env_answer).keyRun = true ∧
    (plaintext_success env_answer).initialize_ = false ∧
    (run_scheduled env_answer 8 (plaintext_success env_answer)).keyRun = true ∧
    (run_scheduled env_answer 8 (plaintext_success env_answer)).initialize_ = false ∧
    (reauth_rx env_answer).keyRun = true ∧
    (reauth_rx env_answer).initialize_ = false ∧
    (reauth_rx env_answer).SUPP_PAE_state = SUPP_PAE.RESTART ∧
    (eapol_sm_step_timeout env_answer (reauth_rx env_answer)).SUPP_PAE_state =
      SUPP_PAE.AUTHENTICATING ∧
    (eapol_sm_step_timeout env_answer (reauth_rx env_answer)).initialize_ = false ∧
    (eapol_sm_step_timeout env_answer (reauth_rx env_answer)).keyRun = false := by
  decide!

/-! ## C20: the completion callback -/

/-- C20: with a completion callback installed, every `eapol_sm_step` ends with
`cb_status = EAPOL_CB_IN_PROGRESS`.  The state machine runs of the step never
invoke the callback themselves; when they leave `cb_status` different from
`EAPOL_CB_IN_PROGRESS` the step invokes it exactly once, with `success` true
exactly when `cb_status` was `EAPOL_CB_SUCCESS`, and when they leave it at
`EAPOL_CB_IN_PROGRESS` the step does not invoke it at all. -/
theorem C20_completion_callback (env : Env) (sm : eapol_sm) (hcb : env.cb = true) :
    (eapol_sm_step env sm).cb_status = eapol_cb_status.EAPOL_CB_IN_PROGRESS ∧
    cb_calls (eapol_sm_step_machines env sm) = cb_calls sm ∧
    ((eapol_sm_step_machines env sm).cb_status ≠ eapol_cb_status.EAPOL_CB_IN_PROGRESS →
      cb_calls (eapol_sm_step env sm) = cb_calls sm ++
        [decide ((eapol_sm_step_machines env sm).cb_status =
          eapol_cb_status.EAPOL_CB_SUCCESS)]) ∧
    ((eapol_sm_step_machines env sm).cb_status = eapol_cb_status.EAPOL_CB_IN_PROGRESS →
      cb_calls (eapol_sm_step env sm) = cb_calls sm) := by
  have hm := eapol_sm_step_machines_cb env sm
  have hst : ∀ s : eapol_sm,
      (if s.changed = true then { s with step_timeout := true } else s).cb_status =
        s.cb_status ∧
      (if s.changed = true then { s with step_timeout := true } else s).calls = s.calls := by
    intro s; split_ifs <;> exact ⟨rfl, rfl⟩
  refine ⟨?_, hm, ?_, ?_⟩
  · unfold eapol_sm_step
    dsimp only
    by_cases c : env.cb = true ∧
        (if (eapol_sm_step_machines env sm).changed = true then
          { eapol_sm_step_machines env sm with step_timeout := true }
         else eapol_sm_step_machines env sm).cb_status ≠
          eapol_cb_status.EAPOL_CB_IN_PROGRESS
    · rw [if_pos c]
    · rw [if_neg c]
      by_contra hne
      exact c ⟨hcb, hne⟩
  · intro hne
    unfold eapol_sm_step
    dsimp only
    rw [if_pos ⟨hcb, by rw [(hst _).1]; exact hne⟩]
    unfold cb_calls
    dsimp only
    rw [(hst _).1, (hst _).2, List.filterMap_append]
    unfold cb_calls at hm
    rw [hm]
    rfl
  · intro he
    unfold eapol_sm_step
    dsimp only
    rw [if_neg (by rw [(hst _).1]; exact fun h => h.2 he)]
    rw [cb_calls_of_calls (hst _).2]
    exact hm

/-- C20 at a concrete state: the freshly initialised instance under the host
`env_idle`, which has the completion callback installed. -/
theorem C20_completion_callback_witness :
    env_idle.cb = true ∧
    (eapol_sm_step env_idle fresh_idle).cb_status = eapol_cb_status.EAPOL_CB_IN_PROGRESS :=
  ⟨rfl, (C20_completion_callback env_idle fresh_idle rfl).1⟩

/-! ## The ranking function along one step -/

theorem rank_be_le (sm : eapol_sm) : rank_be sm ≤ 5 := by
  unfold rank_be
  cases sm.SUPP_BE_state <;> dsimp only <;> split_ifs <;> omega

theorem rank_key_congr (s r : eapol_sm) (h1 : r.rxKey = s.rxKey)
    (h2 : r.KEY_RX_state = s.KEY_RX_state) : rank_key r = rank_key s := by
  unfold rank_key
  rw [h1, h2]

theorem rank_timeout_mono (s r : eapol_sm) (h1 : r.eapolEap = true → s.eapolEap = true)
    (h2 : r.SUPP_BE_state = s.SUPP_BE_state) (h3 : r.startPeriod = s.startPeriod)
    (h4 : r.maxStart = s.maxStart)
    (h5 : r.startCount = s.startCount ∨ r.startCount = s.startCount + 1 ∨ r.startCount = 0) :
    rank_timeout r ≤ rank_timeout s := by
  unfold rank_timeout start_budget start_budget_reset
  rw [h2, h3, h4]
  by_cases c : r.eapolEap = true ∨ s.SUPP_BE_state = SUPP_BE.REQUEST ∨
      s.SUPP_BE_state = SUPP_BE.RESPONSE ∨ s.SUPP_BE_state = SUPP_BE.RECEIVE
  · have c' : s.eapolEap = true ∨ s.SUPP_BE_state = SUPP_BE.REQUEST ∨
        s.SUPP_BE_state = SUPP_BE.RESPONSE ∨ s.SUPP_BE_state = SUPP_BE.RECEIVE := by
      rcases c with c | c
      · exact Or.inl (h1 c)
      · exact Or.inr c
    rw [if_pos c, if_pos c']
    rcases h5 with h | h | h <;> rw [h] <;> split_ifs <;> omega
  · rw [if_neg c]
    exact Nat.zero_le _


/-- The local transitions of the PAE, port enabled and no global transition
pending: the state is left as it is, or the PAE rank drops. -/
theorem sm_SUPP_PAE_Step_local_rank (env : Env) (sm : eapol_sm) (hh : sm.heldPeriod ≠ 0)
    (hU : sm.userLogoff = false ∨ sm.logoffSent = true)
    (hM : sm.sPortMode = sm.portControl) :
    sm_SUPP_PAE_Step_local env sm = sm ∨
    (rank_pae (sm_SUPP_PAE_Step_local env sm) + 1 ≤ rank_pae sm ∧
      rank_timeout (sm_SUPP_PAE_Step_local env sm) ≤ rank_timeout sm ∧
      rank_key (sm_SUPP_PAE_Step_local env sm) = rank_key sm ∧
      (sm_SUPP_PAE_Step_local env sm).initialize_ = sm.initialize_ ∧
      (sm_SUPP_PAE_Step_local env sm).portEnabled = sm.portEnabled ∧
      (sm_SUPP_PAE_Step_local env sm).heldPeriod = sm.heldPeriod) := by
  have hB : ¬ (sm.userLogoff = true ∧ sm.logoffSent = false) := by
    rcases hU with h | h <;> simp [h]
  refine sm_SUPP_PAE_Step_local_cases env sm
    (fun r => r = sm ∨ (rank_pae r + 1 ≤ rank_pae sm ∧ rank_timeout r ≤ rank_timeout sm ∧
      rank_key r = rank_key sm ∧ r.initialize_ = sm.initialize_ ∧
      r.portEnabled = sm.portEnabled ∧ r.heldPeriod = sm.heldPeriod)) (Or.inl rfl)
    ?_ ?_ ?_ ?_ ?_ ?_ ?_ ?_ ?_ ?_ ?_ ?_ ?_ ?_ ?_ ?_
  · -- LOGOFF to DISCONNECTED
    intro hs hu
    rw [sm_SUPP_PAE_DISCONNECTED_Enter_eq]
    refine Or.inr ⟨?_, rank_timeout_mono _ _ (fun h => h) rfl rfl rfl (Or.inr (Or.inr rfl)),
      rank_key_congr _ _ rfl rfl, rfl, rfl, rfl⟩
    unfold rank_pae start_budget start_budget_reset
    dsimp only
    cases hpc : sm.portControl <;>
    simp only [hs, hu, hM, hB, hpc, ne_eq, not_true_eq_false, not_false_eq_true, if_true, if_false,
      reduceCtorEq, and_true, and_false, true_and, false_and, Bool.false_eq_true] <;>
    split_ifs <;> omega
  · -- DISCONNECTED to CONNECTING
    intro hs
    rw [sm_SUPP_PAE_CONNECTING_Enter_eq]
    refine Or.inr ⟨?_, rank_timeout_mono _ _ (fun h => absurd h Bool.false_ne_true) rfl rfl rfl (Or.inr (Or.inl rfl)),
      rank_key_congr _ _ rfl rfl, rfl, rfl, rfl⟩
    unfold rank_pae start_budget start_budget_reset
    dsimp only
    cases hpc : sm.portControl <;>
    simp only [hs, hM, hB, hpc, ne_eq, not_true_eq_false, not_false_eq_true, if_true, if_false,
      reduceCtorEq, and_true, and_false, true_and, false_and, Bool.false_eq_true] <;>
    split_ifs <;> omega
  · -- CONNECTING to CONNECTING
    intro hs hw hc
    rw [sm_SUPP_PAE_CONNECTING_Enter_eq]
    refine Or.inr ⟨?_, rank_timeout_mono _ _ (fun h => absurd h Bool.false_ne_true) rfl rfl rfl (Or.inr (Or.inl rfl)),
      rank_key_congr _ _ rfl rfl, rfl, rfl, rfl⟩
    unfold rank_pae start_budget start_budget_reset
    dsimp only
    cases hpc : sm.portControl <;>
    simp only [hs, hw, hM, hB, hpc, ne_eq, not_true_eq_false, not_false_eq_true, if_true, if_false,
      reduceCtorEq, and_true, and_false, true_and, false_and, Bool.false_eq_true] <;>
    split_ifs <;> omega
  · -- CONNECTING to AUTHENTICATED
    intro hs hw hc hp
    rw [sm_SUPP_PAE_AUTHENTICATED_Enter_eq]
    refine Or.inr ⟨?_, rank_timeout_mono _ _ (fun h => h) rfl rfl rfl (Or.inl rfl),
      rank_key_congr _ _ rfl rfl, rfl, rfl, rfl⟩
    unfold rank_pae start_budget start_budget_reset
    dsimp only
    cases hpc : sm.portControl <;>
    simp only [hs, hw, hp, hM, hB, hpc, ne_eq, not_true_eq_false, not_false_eq_true, if_true, if_false,
      reduceCtorEq, and_true, and_false, true_and, false_and, Bool.false_eq_true] <;>
    split_ifs <;> omega
  · -- CONNECTING to AUTHENTICATING
    intro hs h
    rw [sm_SUPP_PAE_AUTHENTICATING_Enter_eq]
    refine Or.inr ⟨?_, rank_timeout_mono _ _ (fun h => h) rfl rfl rfl (Or.inr (Or.inr rfl)),
      rank_key_congr _ _ rfl rfl, rfl, rfl, rfl⟩
    unfold rank_pae start_budget start_budget_reset
    dsimp only
    cases hpc : sm.portControl <;>
    simp only [hs, hM, hB, hpc, ne_eq, not_true_eq_false, not_false_eq_true, if_true, if_false,
      reduceCtorEq, and_true, and_false, true_and, false_and, Bool.false_eq_true] <;>
    split_ifs <;> omega
  · -- CONNECTING to RESTART
    intro hs h
    rw [sm_SUPP_PAE_RESTART_Enter_eq]
    refine Or.inr ⟨?_, rank_timeout_mono _ _ (fun h => h) rfl rfl rfl (Or.inl rfl),
      rank_key_congr _ _ rfl rfl, rfl, rfl, rfl⟩
    unfold rank_pae start_budget start_budget_reset
    dsimp only
    cases hpc : sm.portControl <;>
    simp only [hs, hM, hB, hpc, ne_eq, not_true_eq_false, not_false_eq_true, if_true, if_false,
      reduceCtorEq, and_true, and_false, true_and, false_and, Bool.false_eq_true] <;>
    split_ifs <;> omega
  · -- CONNECTING to HELD
    intro hs hw hc hp
    rw [sm_SUPP_PAE_HELD_Enter_eq]
    refine Or.inr ⟨?_, rank_timeout_mono _ _ (fun h => h) rfl rfl rfl (Or.inl rfl),
      rank_key_congr _ _ rfl rfl, rfl, rfl, rfl⟩
    unfold rank_pae start_budget start_budget_reset
    dsimp only
    cases hpc : sm.portControl <;>
    simp only [hs, hw, hM, hB, hh, hpc, ne_eq, not_true_eq_false, not_false_eq_true, if_true, if_false,
      reduceCtorEq, and_true, and_false, true_and, false_and, Bool.false_eq_true] <;>
    split_ifs <;> omega
  · -- AUTHENTICATING to AUTHENTICATED, plaintext
    intro hs h
    rw [sm_SUPP_PAE_AUTHENTICATED_Enter_eq]
    refine Or.inr ⟨?_, rank_timeout_mono _ _ (fun h => h) rfl rfl rfl (Or.inl rfl),
      rank_key_congr _ _ rfl rfl, rfl, rfl, rfl⟩
    unfold rank_pae start_budget start_budget_reset
    dsimp only
    cases hpc : sm.portControl <;>
    simp only [hs, hM, hB, hpc, ne_eq, not_true_eq_false, not_false_eq_true, if_true, if_false,
      reduceCtorEq, and_true, and_false, true_and, false_and, Bool.false_eq_true] <;>
    split_ifs <;> omega
  · -- AUTHENTICATING to AUTHENTICATED
    intro hs he hp
    rw [sm_SUPP_PAE_AUTHENTICATED_Enter_eq]
    refine Or.inr ⟨?_, rank_timeout_mono _ _ (fun h => h) rfl rfl rfl (Or.inl rfl),
      rank_key_congr _ _ rfl rfl, rfl, rfl, rfl⟩
    unfold rank_pae start_budget start_budget_reset
    dsimp only
    cases hpc : sm.portControl <;>
    simp only [hs, hp, hM, hB, hpc, ne_eq, not_true_eq_false, not_false_eq_true, if_true, if_false,
      reduceCtorEq, and_true, and_false, true_and, false_and, Bool.false_eq_true] <;>
    split_ifs <;> omega
  · -- AUTHENTICATING to HELD
    intro hs h
    rw [sm_SUPP_PAE_HELD_Enter_eq]
    refine Or.inr ⟨?_, rank_timeout_mono _ _ (fun h => h) rfl rfl rfl (Or.inl rfl),
      rank_key_congr _ _ rfl rfl, rfl, rfl, rfl⟩
    unfold rank_pae start_budget start_budget_reset
    dsimp only
    cases hpc : sm.portControl <;>
    simp only [hs, hM, hB, hh, hpc, ne_eq, not_true_eq_false, not_false_eq_true, if_true, if_false,
      reduceCtorEq, and_true, and_false, true_and, false_and, Bool.false_eq_true] <;>
    split_ifs <;> omega
  · -- AUTHENTICATING to CONNECTING
    intro hs ht
    rw [sm_SUPP_PAE_CONNECTING_Enter_eq]
    refine Or.inr ⟨?_, rank_timeout_mono _ _ (fun h => absurd h Bool.false_ne_true) rfl rfl rfl (Or.inr (Or.inl rfl)),
      rank_key_congr _ _ rfl rfl, rfl, rfl, rfl⟩
    unfold rank_pae start_budget start_budget_reset
    dsimp only
    cases hpc : sm.portControl <;>
    simp only [hs, ht, hM, hB, hpc, ne_eq, not_true_eq_false, not_false_eq_true, if_true, if_false,
      reduceCtorEq, and_true, and_false, true_and, false_and, Bool.false_eq_true] <;>
    split_ifs <;> omega
  · -- HELD to CONNECTING
    intro hs hw
    rw [sm_SUPP_PAE_CONNECTING_Enter_eq]
    refine Or.inr ⟨?_, rank_timeout_mono _ _ (fun h => absurd h Bool.false_ne_true) rfl rfl rfl (Or.inr (Or.inl rfl)),
      rank_key_congr _ _ rfl rfl, rfl, rfl, rfl⟩
    unfold rank_pae start_budget start_budget_reset
    dsimp only
    cases hpc : sm.portControl <;>
    simp only [hs, hw, hM, hB, hpc, ne_eq, not_true_eq_false, not_false_eq_true, if_true, if_false,
      reduceCtorEq, and_true, and_false, true_and, false_and, Bool.false_eq_true] <;>
    split_ifs <;> omega
  · -- HELD to RESTART
    intro hs hw he
    rw [sm_SUPP_PAE_RESTART_Enter_eq]
    refine Or.inr ⟨?_, rank_timeout_mono _ _ (fun h => h) rfl rfl rfl (Or.inl rfl),
      rank_key_congr _ _ rfl rfl, rfl, rfl, rfl⟩
    unfold rank_pae start_budget start_budget_reset
    dsimp only
    cases hpc : sm.portControl <;>
    simp only [hs, hw, hM, hB, hpc, ne_eq, not_true_eq_false, not_false_eq_true, if_true, if_false,
      reduceCtorEq, and_true, and_false, true_and, false_and, Bool.false_eq_true] <;>
    omega
  · -- AUTHENTICATED to RESTART
    intro hs he hp
    rw [sm_SUPP_PAE_RESTART_Enter_eq]
    refine Or.inr ⟨?_, rank_timeout_mono _ _ (fun h => h) rfl rfl rfl (Or.inl rfl),
      rank_key_congr _ _ rfl rfl, rfl, rfl, rfl⟩
    unfold rank_pae start_budget start_budget_reset
    dsimp only
    cases hpc : sm.portControl <;>
    simp only [hs, hp, hM, hB, hpc, ne_eq, not_true_eq_false, not_false_eq_true, if_true, if_false,
      reduceCtorEq, and_true, and_false, true_and, false_and, Bool.false_eq_true] <;>
    omega
  · -- AUTHENTICATED to DISCONNECTED
    intro hs hp
    rw [sm_SUPP_PAE_DISCONNECTED_Enter_eq]
    refine Or.inr ⟨?_, rank_timeout_mono _ _ (fun h => h) rfl rfl rfl (Or.inr (Or.inr rfl)),
      rank_key_congr _ _ rfl rfl, rfl, rfl, rfl⟩
    unfold rank_pae start_budget start_budget_reset
    dsimp only
    cases hpc : sm.portControl <;>
    simp only [hs, hp, hM, hB, hpc, ne_eq, not_true_eq_false, not_false_eq_true, if_true, if_false,
      reduceCtorEq, and_true, and_false, true_and, false_and, Bool.false_eq_true] <;>
    split_ifs <;> omega
  · -- RESTART to AUTHENTICATING
    intro hs he
    rw [sm_SUPP_PAE_AUTHENTICATING_Enter_eq]
    refine Or.inr ⟨?_, rank_timeout_mono _ _ (fun h => h) rfl rfl rfl (Or.inr (Or.inr rfl)),
      rank_key_congr _ _ rfl rfl, rfl, rfl, rfl⟩
    unfold rank_pae start_budget start_budget_reset
    dsimp only
    cases hpc : sm.portControl <;>
    simp only [hs, he, hM, hB, hpc, ne_eq, not_true_eq_false, not_false_eq_true, if_true, if_false,
      reduceCtorEq, and_true, and_false, true_and, false_and, Bool.false_eq_true] <;>
    omega

/-- The step of the PAE with the port enabled: the state is left as it is, or
the PAE rank drops. -/
theorem sm_SUPP_PAE_Step_rank (env : Env) (sm : eapol_sm) (hh : sm.heldPeriod ≠ 0)
    (hG : ¬ (sm.initialize_ = true ∨ sm.portEnabled = false)) :
    sm_SUPP_PAE_Step env sm = sm ∨
    (rank_pae (sm_SUPP_PAE_Step env sm) + 1 ≤ rank_pae sm ∧
      rank_timeout (sm_SUPP_PAE_Step env sm) ≤ rank_timeout sm ∧
      rank_key (sm_SUPP_PAE_Step env sm) = rank_key sm ∧
      (sm_SUPP_PAE_Step env sm).initialize_ = sm.initialize_ ∧
      (sm_SUPP_PAE_Step env sm).portEnabled = sm.portEnabled ∧
      (sm_SUPP_PAE_Step env sm).heldPeriod = sm.heldPeriod) := by
  refine sm_SUPP_PAE_Step_cases env sm
    (fun r => r = sm ∨ (rank_pae r + 1 ≤ rank_pae sm ∧ rank_timeout r ≤ rank_timeout sm ∧
      rank_key r = rank_key sm ∧ r.initialize_ = sm.initialize_ ∧
      r.portEnabled = sm.portEnabled ∧ r.heldPeriod = sm.heldPeriod)) ?_ ?_ ?_ ?_ ?_
  · -- global transition to LOGOFF
    intro hu hl _
    rw [sm_SUPP_PAE_LOGOFF_Enter_eq]
    refine Or.inr ⟨?_, rank_timeout_mono _ _ (fun h => h) rfl rfl rfl (Or.inl rfl),
      rank_key_congr _ _ rfl rfl, rfl, rfl, rfl⟩
    unfold rank_pae start_budget start_budget_reset
    dsimp only
    cases hpc : sm.portControl <;> cases hpm : sm.sPortMode <;>
    simp only [hu, hl, hpc, hpm, ne_eq, not_true_eq_false, not_false_eq_true, if_true, if_false,
      reduceCtorEq, and_true, and_false, true_and, false_and, Bool.true_eq_false, and_self] <;>
    omega
  · -- global transition to DISCONNECTED
    intro h
    have hA : sm.portControl = PortControl.Auto ∧ sm.sPortMode ≠ sm.portControl := by
      rcases h with h | h
      · exact h
      · exact absurd h hG
    rw [sm_SUPP_PAE_DISCONNECTED_Enter_eq]
    refine Or.inr ⟨?_, rank_timeout_mono _ _ (fun h => h) rfl rfl rfl (Or.inr (Or.inr rfl)),
      rank_key_congr _ _ rfl rfl, rfl, rfl, rfl⟩
    have hne : ¬ sm.sPortMode = PortControl.Auto := by
      intro c; exact hA.2 (c.trans hA.1.symm)
    unfold rank_pae start_budget start_budget_reset
    dsimp only
    cases hu : sm.userLogoff <;> cases hl : sm.logoffSent <;>
    simp only [hA.1, hne, ne_eq, not_true_eq_false, not_false_eq_true, if_true, if_false,
      reduceCtorEq, and_true, and_false, true_and, false_and, Bool.true_eq_false,
      Bool.false_eq_true, and_self] <;>
    first | omega | (split_ifs <;> omega)
  · -- global transition to S_FORCE_AUTH
    intro hp hA _
    rw [sm_SUPP_PAE_S_FORCE_AUTH_Enter_eq]
    refine Or.inr ⟨?_, rank_timeout_mono _ _ (fun h => h) rfl rfl rfl (Or.inl rfl),
      rank_key_congr _ _ rfl rfl, rfl, rfl, rfl⟩
    have hne : ¬ sm.sPortMode = PortControl.ForceAuthorized := by
      intro c; exact hA (c.trans hp.symm)
    unfold rank_pae start_budget start_budget_reset
    dsimp only
    cases hu : sm.userLogoff <;> cases hl : sm.logoffSent <;>
    simp only [hp, hne, ne_eq, not_true_eq_false, not_false_eq_true, if_true, if_false,
      reduceCtorEq, and_true, and_false, true_and, false_and, Bool.true_eq_false,
      Bool.false_eq_true, and_self] <;>
    omega
  · -- global transition to S_FORCE_UNAUTH
    intro hp hA _
    rw [sm_SUPP_PAE_S_FORCE_UNAUTH_Enter_eq]
    refine Or.inr ⟨?_, rank_timeout_mono _ _ (fun h => h) rfl rfl rfl (Or.inl rfl),
      rank_key_congr _ _ rfl rfl, rfl, rfl, rfl⟩
    have hne : ¬ sm.sPortMode = PortControl.ForceUnauthorized := by
      intro c; exact hA (c.trans hp.symm)
    unfold rank_pae start_budget start_budget_reset
    dsimp only
    cases hu : sm.userLogoff <;> cases hl : sm.logoffSent <;>
    simp only [hp, hne, ne_eq, not_true_eq_false, not_false_eq_true, if_true, if_false,
      reduceCtorEq, and_true, and_false, true_and, false_and, Bool.true_eq_false,
      Bool.false_eq_true, and_self] <;>
    omega
  · intro hU _ hM
    exact sm_SUPP_PAE_Step_local_rank env sm hh hU hM

theorem rank_timeout_mono_of (s r : eapol_sm)
    (h1 : (r.eapolEap = true ∨ r.SUPP_BE_state = SUPP_BE.REQUEST ∨
        r.SUPP_BE_state = SUPP_BE.RESPONSE ∨ r.SUPP_BE_state = SUPP_BE.RECEIVE) →
      (s.eapolEap = true ∨ s.SUPP_BE_state = SUPP_BE.REQUEST ∨
        s.SUPP_BE_state = SUPP_BE.RESPONSE ∨ s.SUPP_BE_state = SUPP_BE.RECEIVE))
    (h3 : r.startPeriod = s.startPeriod) (h4 : r.maxStart = s.maxStart)
    (h5 : r.startCount = s.startCount) :
    rank_timeout r ≤ rank_timeout s := by
  unfold rank_timeout start_budget start_budget_reset
  rw [h3, h4, h5]
  by_cases c : r.eapolEap = true ∨ r.SUPP_BE_state = SUPP_BE.REQUEST ∨
      r.SUPP_BE_state = SUPP_BE.RESPONSE ∨ r.SUPP_BE_state = SUPP_BE.RECEIVE
  · rw [if_pos c, if_pos (h1 c)]
  · rw [if_neg c]
    exact Nat.zero_le _

theorem rank_be_congr (s r : eapol_sm) (h1 : r.suppAbort = s.suppAbort)
    (h2 : r.SUPP_BE_state = s.SUPP_BE_state) (h3 : r.suppStart = s.suppStart)
    (h4 : r.eapolEap = s.eapolEap) : rank_be r = rank_be s := by
  unfold rank_be
  rw [h1, h2, h3, h4]

/-- The PAE rank does not go up when `portValid` is set and nothing else that
it reads changes. -/
theorem rank_pae_mono (s r : eapol_sm)
    (h1 : r.userLogoff = s.userLogoff) (h2 : r.logoffSent = s.logoffSent)
    (h3 : r.sPortMode = s.sPortMode) (h4 : r.portControl = s.portControl)
    (h5 : r.SUPP_PAE_state = s.SUPP_PAE_state) (h6 : r.eapRestart = s.eapRestart)
    (h7 : r.heldWhile = s.heldWhile) (h8 : r.suppTimeout = s.suppTimeout)
    (h9 : r.startWhen = s.startWhen) (h10 : r.startPeriod = s.startPeriod)
    (h11 : r.maxStart = s.maxStart) (h12 : r.startCount = s.startCount)
    (h13 : s.portValid = true → r.portValid = true) :
    rank_pae r ≤ rank_pae s := by
  unfold rank_pae start_budget start_budget_reset
  rw [h1, h2, h3, h4, h5, h6, h7, h8, h9, h10, h11, h12]
  by_cases c1 : s.userLogoff = true ∧ s.logoffSent = false
  · rw [if_pos c1, if_pos c1]
  rw [if_neg c1, if_neg c1]
  by_cases c2 : s.sPortMode ≠ s.portControl
  · rw [if_pos c2, if_pos c2]
  rw [if_neg c2, if_neg c2]
  cases hst : s.SUPP_PAE_state <;> dsimp only <;> try exact Nat.le_refl _
  cases hp : s.portValid
  · simp only [Bool.false_eq_true, if_false]
    split_ifs <;> omega
  · rw [h13 hp]

/-- Setting `suppTimeout` raises the PAE rank by at most the reserve kept in
`rank_timeout`. -/
theorem rank_pae_suppTimeout (s r : eapol_sm)
    (h1 : r.userLogoff = s.userLogoff) (h2 : r.logoffSent = s.logoffSent)
    (h3 : r.sPortMode = s.sPortMode) (h4 : r.portControl = s.portControl)
    (h5 : r.SUPP_PAE_state = s.SUPP_PAE_state) (h6 : r.eapRestart = s.eapRestart)
    (h7 : r.heldWhile = s.heldWhile)
    (h9 : r.startWhen = s.startWhen) (h10 : r.startPeriod = s.startPeriod)
    (h11 : r.maxStart = s.maxStart) (h12 : r.startCount = s.startCount)
    (h13 : r.portValid = s.portValid) :
    rank_pae r ≤ rank_pae s + (2 + max (start_budget s) (start_budget_reset s)) := by
  unfold rank_pae start_budget start_budget_reset
  rw [h1, h2, h3, h4, h5, h6, h7, h9, h10, h11, h12, h13]
  by_cases c1 : s.userLogoff = true ∧ s.logoffSent = false
  · rw [if_pos c1, if_pos c1]; exact Nat.le_add_right _ _
  rw [if_neg c1, if_neg c1]
  by_cases c2 : s.sPortMode ≠ s.portControl
  · rw [if_pos c2, if_pos c2]; exact Nat.le_add_right _ _
  rw [if_neg c2, if_neg c2]
  cases hst : s.SUPP_PAE_state <;> dsimp only <;> try exact Nat.le_add_right _ _
  split_ifs <;> omega

theorem rank_step_of_eq {a b k m : Nat} (h1 : a = k) (h2 : b = m) (h : k + 1 ≤ m) :
    a + 1 ≤ b := by
  omega

/-- The step of the Key Receive machine with the port enabled: the state is
left as it is, or the pending key frame is consumed. -/
theorem sm_KEY_RX_Step_rank (env : Env) (sm : eapol_sm)
    (hG : ¬ (sm.initialize_ = true ∨ sm.portEnabled = false)) :
    sm_KEY_RX_Step env sm = sm ∨
    (rank_key (sm_KEY_RX_Step env sm) + 1 ≤ rank_key sm ∧
      rank_pae (sm_KEY_RX_Step env sm) ≤ rank_pae sm ∧
      rank_timeout (sm_KEY_RX_Step env sm) ≤ rank_timeout sm ∧
      rank_be (sm_KEY_RX_Step env sm) = rank_be sm ∧
      (sm_KEY_RX_Step env sm).initialize_ = sm.initialize_ ∧
      (sm_KEY_RX_Step env sm).portEnabled = sm.portEnabled ∧
      (sm_KEY_RX_Step env sm).heldPeriod = sm.heldPeriod) := by
  refine sm_KEY_RX_Step_cases env sm
    (fun r => r = sm ∨ (rank_key r + 1 ≤ rank_key sm ∧ rank_pae r ≤ rank_pae sm ∧
      rank_timeout r ≤ rank_timeout sm ∧ rank_be r = rank_be sm ∧
      r.initialize_ = sm.initialize_ ∧ r.portEnabled = sm.portEnabled ∧
      r.heldPeriod = sm.heldPeriod)) ?_ ?_ ?_ ?_
  · intro h _; exact absurd h hG
  · intro h _; exact absurd h hG
  · intro _ hr hs
    have e := (sm_KEY_RX_KEY_RECEIVE_Enter_eq env sm false).1
    have hp := (sm_KEY_RX_KEY_RECEIVE_Enter_eq env sm false).2
    refine Or.inr ⟨?_, ?_, ?_, ?_, ?_, ?_, ?_⟩
    · have h0 : rank_key (sm_KEY_RX_KEY_RECEIVE_Enter env sm false) = 0 := by
        rw [e]
        unfold rank_key
        dsimp only
        rw [if_neg (fun c => Bool.false_ne_true c.1)]
      have h1 : rank_key sm = 1 := by
        unfold rank_key
        rw [if_pos ⟨hr, hs⟩]
      exact rank_step_of_eq h0 h1 (by decide)
    · exact rank_pae_mono sm _ (by rw [e]) (by rw [e]) (by rw [e]) (by rw [e]) (by rw [e])
        (by rw [e]) (by rw [e]) (by rw [e]) (by rw [e]) (by rw [e]) (by rw [e]) (by rw [e]) hp
    · exact rank_timeout_mono_of sm _ (by rw [e]; exact fun h => h) (by rw [e]) (by rw [e])
        (by rw [e])
    · exact rank_be_congr sm _ (by rw [e]) (by rw [e]) (by rw [e]) (by rw [e])
    · rw [e]
    · rw [e]
    · rw [e]
  · intro _ _; exact Or.inl rfl


/-- The step of the Backend machine with the port enabled: the state is left
as it is, or the Backend rank drops while the sum of the PAE rank and the
timeout reserve does not go up. -/
theorem sm_SUPP_BE_Step_rank (env : Env) (sm : eapol_sm)
    (hG : ¬ (sm.initialize_ = true ∨ sm.portEnabled = false)) :
    sm_SUPP_BE_Step env sm = sm ∨
    (rank_be (sm_SUPP_BE_Step env sm) + 1 ≤ rank_be sm ∧
      rank_pae (sm_SUPP_BE_Step env sm) + rank_timeout (sm_SUPP_BE_Step env sm) ≤
        rank_pae sm + rank_timeout sm ∧
      rank_key (sm_SUPP_BE_Step env sm) = rank_key sm ∧
      (sm_SUPP_BE_Step env sm).initialize_ = sm.initialize_ ∧
      (sm_SUPP_BE_Step env sm).portEnabled = sm.portEnabled ∧
      (sm_SUPP_BE_Step env sm).heldPeriod = sm.heldPeriod) := by
  have hi : sm.initialize_ = false := by
    cases h : sm.initialize_
    · rfl
    · exact absurd (Or.inl h) hG
  have key : ∀ r : eapol_sm,
      rank_be r + 1 ≤ rank_be sm →
      ((r.eapolEap = true ∨ r.SUPP_BE_state = SUPP_BE.REQUEST ∨
          r.SUPP_BE_state = SUPP_BE.RESPONSE ∨ r.SUPP_BE_state = SUPP_BE.RECEIVE) →
        (sm.eapolEap = true ∨ sm.SUPP_BE_state = SUPP_BE.REQUEST ∨
          sm.SUPP_BE_state = SUPP_BE.RESPONSE ∨ sm.SUPP_BE_state = SUPP_BE.RECEIVE)) →
      r.userLogoff = sm.userLogoff → r.logoffSent = sm.logoffSent →
      r.sPortMode = sm.sPortMode → r.portControl = sm.portControl →
      r.SUPP_PAE_state = sm.SUPP_PAE_state → r.eapRestart = sm.eapRestart →
      r.heldWhile = sm.heldWhile → r.suppTimeout = sm.suppTimeout →
      r.startWhen = sm.startWhen → r.startPeriod = sm.startPeriod →
      r.maxStart = sm.maxStart → r.startCount = sm.startCount →
      r.portValid = sm.portValid → r.rxKey = sm.rxKey → r.KEY_RX_state = sm.KEY_RX_state →
      r.initialize_ = sm.initialize_ → r.portEnabled = sm.portEnabled →
      r.heldPeriod = sm.heldPeriod →
      r = sm ∨ (rank_be r + 1 ≤ rank_be sm ∧
        rank_pae r + rank_timeout r ≤ rank_pae sm + rank_timeout sm ∧
        rank_key r = rank_key sm ∧ r.initialize_ = sm.initialize_ ∧
        r.portEnabled = sm.portEnabled ∧ r.heldPeriod = sm.heldPeriod) := by
    intro r hb hf h1 h2 h3 h4 h5 h6 h7 h8 h9 h10 h11 h12 h13 h14 h15 h16 h17 h18
    refine Or.inr ⟨hb, ?_, rank_key_congr sm r h14 h15, h16, h17, h18⟩
    have a := rank_pae_mono sm r h1 h2 h3 h4 h5 h6 h7 h8 h9 h10 h11 h12 (fun h => h13.trans h)
    have b := rank_timeout_mono_of sm r hf h10 h11 h12
    omega
  refine sm_SUPP_BE_Step_cases env sm
    (fun r => r = sm ∨ (rank_be r + 1 ≤ rank_be sm ∧
      rank_pae r + rank_timeout r ≤ rank_pae sm + rank_timeout sm ∧
      rank_key r = rank_key sm ∧ r.initialize_ = sm.initialize_ ∧
      r.portEnabled = sm.portEnabled ∧ r.heldPeriod = sm.heldPeriod)) ?_ ?_
  · -- global transition to INITIALIZE
    intro h
    have ha : sm.suppAbort = true := by
      rcases h with h | h
      · rw [hi] at h; exact absurd h Bool.false_ne_true
      · exact h
    rw [sm_SUPP_BE_INITIALIZE_Enter_eq]
    refine key _ (rank_step_of_eq (k := 1) (m := 2) ?_ ?_ (by decide)) ?_ rfl rfl rfl rfl rfl rfl rfl rfl rfl rfl rfl rfl rfl rfl rfl rfl rfl rfl
    · unfold rank_be
      dsimp only
      rw [if_neg Bool.false_ne_true]
    · unfold rank_be
      rw [if_pos ha]
    · dsimp only
      intro c
      rcases c with c | c | c | c
      · exact Or.inl c
      · exact absurd c (by decide)
      · exact absurd c (by decide)
      · exact absurd c (by decide)
  · intro _ ha
    have hna : ¬ sm.suppAbort = true := by rw [ha]; exact Bool.false_ne_true
    have hbe : rank_be sm =
        match sm.SUPP_BE_state with
        | SUPP_BE.UNKNOWN => 0
        | SUPP_BE.INITIALIZE => 1
        | SUPP_BE.FAIL => 1
        | SUPP_BE.TIMEOUT => 1
        | SUPP_BE.SUCCESS => 1
        | SUPP_BE.IDLE => if sm.suppStart = true then 5 else 0
        | SUPP_BE.REQUEST => 4
        | SUPP_BE.RESPONSE => 3
        | SUPP_BE.RECEIVE => if sm.eapolEap = true then 5 else 2 := by
      unfold rank_be
      rw [if_neg hna]
    refine sm_SUPP_BE_Step_local_cases sm
      (fun r => r = sm ∨ (rank_be r + 1 ≤ rank_be sm ∧
        rank_pae r + rank_timeout r ≤ rank_pae sm + rank_timeout sm ∧
        rank_key r = rank_key sm ∧ r.initialize_ = sm.initialize_ ∧
        r.portEnabled = sm.portEnabled ∧ r.heldPeriod = sm.heldPeriod)) (Or.inl rfl)
      ?_ ?_ ?_ ?_ ?_ ?_ ?_ ?_ ?_ ?_ ?_
    · -- REQUEST to RESPONSE
      intro hs _
      have e := sm_SUPP_BE_RESPONSE_Enter_eq sm false
      refine key _ (rank_step_of_eq (k := 3) (m := 4) ?_ ?_ (by decide)) ?_
        (by rw [e]) (by rw [e]) (by rw [e]) (by rw [e]) (by rw [e]) (by rw [e])
        (by rw [e]) (by rw [e]) (by rw [e]) (by rw [e]) (by rw [e]) (by rw [e]) (by rw [e])
        (by rw [e]) (by rw [e]) (by rw [e]) (by rw [e]) (by rw [e])
      · rw [e]
        unfold rank_be
        dsimp only
        rw [if_neg hna]
      · rw [hbe, hs]
      · intro _; exact Or.inr (Or.inl hs)
    · -- REQUEST to RECEIVE
      intro hs _ _
      rw [sm_SUPP_BE_RECEIVE_Enter_eq]
      refine key _ (rank_step_of_eq (k := 2) (m := 4) ?_ ?_ (by decide)) ?_ rfl rfl rfl rfl rfl rfl rfl rfl rfl rfl rfl rfl rfl rfl rfl rfl rfl rfl
      · unfold rank_be
        dsimp only
        rw [if_neg hna, if_neg Bool.false_ne_true]
      · rw [hbe, hs]
      · intro _; exact Or.inr (Or.inl hs)
    · -- RESPONSE to RECEIVE
      intro hs
      rw [sm_SUPP_BE_RECEIVE_Enter_eq]
      refine key _ (rank_step_of_eq (k := 2) (m := 3) ?_ ?_ (by decide)) ?_ rfl rfl rfl rfl rfl rfl rfl rfl rfl rfl rfl rfl rfl rfl rfl rfl rfl rfl
      · unfold rank_be
        dsimp only
        rw [if_neg hna, if_neg Bool.false_ne_true]
      · rw [hbe, hs]
      · intro _; exact Or.inr (Or.inr (Or.inl hs))
    · -- SUCCESS, FAIL, TIMEOUT, INITIALIZE to IDLE
      intro hs
      rw [sm_SUPP_BE_IDLE_Enter_eq]
      refine key _ (rank_step_of_eq (k := 0) (m := 1) ?_ ?_ (by decide)) ?_ rfl rfl rfl rfl rfl rfl rfl rfl rfl rfl rfl rfl rfl rfl rfl rfl rfl rfl
      · unfold rank_be
        dsimp only
        rw [if_neg hna, if_neg Bool.false_ne_true]
      · rw [hbe]
        rcases hs with hs | hs | hs | hs <;> rw [hs]
      · dsimp only
        intro c
        rcases c with c | c | c | c
        · exact Or.inl c
        · exact absurd c (by decide)
        · exact absurd c (by decide)
        · exact absurd c (by decide)
    · -- IDLE to FAIL
      intro hs _ hst
      rw [sm_SUPP_BE_FAIL_Enter_eq]
      refine key _ (rank_step_of_eq (k := 1) (m := 5) ?_ ?_ (by decide)) ?_ rfl rfl rfl rfl rfl rfl rfl rfl rfl rfl rfl rfl rfl rfl rfl rfl rfl rfl
      · unfold rank_be
        dsimp only
        rw [if_neg hna]
      · rw [hbe, hs, if_pos hst]
      · dsimp only
        intro c
        rcases c with c | c | c | c
        · exact Or.inl c
        · exact absurd c (by decide)
        · exact absurd c (by decide)
        · exact absurd c (by decide)
    · -- IDLE to REQUEST
      intro hs he hst
      rw [sm_SUPP_BE_REQUEST_Enter_eq]
      refine key _ (rank_step_of_eq (k := 4) (m := 5) ?_ ?_ (by decide)) ?_ rfl rfl rfl rfl rfl rfl rfl rfl rfl rfl rfl rfl rfl rfl rfl rfl rfl rfl
      · unfold rank_be
        dsimp only
        rw [if_neg hna]
      · rw [hbe, hs, if_pos hst]
      · intro _; exact Or.inl he
    · -- IDLE to SUCCESS
      intro hs _ hst
      rw [sm_SUPP_BE_SUCCESS_Enter_eq]
      refine key _ (rank_step_of_eq (k := 1) (m := 5) ?_ ?_ (by decide)) ?_ rfl rfl rfl rfl rfl rfl rfl rfl rfl rfl rfl rfl rfl rfl rfl rfl rfl rfl
      · unfold rank_be
        dsimp only
        rw [if_neg hna]
      · rw [hbe, hs, if_pos hst]
      · dsimp only
        intro c
        rcases c with c | c | c | c
        · exact Or.inl c
        · exact absurd c (by decide)
        · exact absurd c (by decide)
        · exact absurd c (by decide)
    · -- RECEIVE to REQUEST
      intro hs he
      rw [sm_SUPP_BE_REQUEST_Enter_eq]
      refine key _ (rank_step_of_eq (k := 4) (m := 5) ?_ ?_ (by decide)) ?_ rfl rfl rfl rfl rfl rfl rfl rfl rfl rfl rfl rfl rfl rfl rfl rfl rfl rfl
      · unfold rank_be
        dsimp only
        rw [if_neg hna]
      · rw [hbe, hs, if_pos he]
      · intro _; exact Or.inl he
    · -- RECEIVE to FAIL
      intro hs he _
      rw [sm_SUPP_BE_FAIL_Enter_eq]
      refine key _ (rank_step_of_eq (k := 1) (m := 2) ?_ ?_ (by decide)) ?_ rfl rfl rfl rfl rfl rfl rfl rfl rfl rfl rfl rfl rfl rfl rfl rfl rfl rfl
      · unfold rank_be
        dsimp only
        rw [if_neg hna]
      · rw [hbe, hs, he, if_neg Bool.false_ne_true]
      · intro _; exact Or.inr (Or.inr (Or.inr hs))
    · -- RECEIVE to TIMEOUT
      intro hs he _
      rw [sm_SUPP_BE_TIMEOUT_Enter_eq]
      refine Or.inr ⟨rank_step_of_eq (k := 1) (m := 2) ?_ ?_ (by decide), ?_,
        rank_key_congr _ _ rfl rfl, rfl, rfl, rfl⟩
      · unfold rank_be
        dsimp only
        rw [if_neg hna]
      · rw [hbe, hs, he, if_neg Bool.false_ne_true]
      · have a := rank_pae_suppTimeout sm
          { sm with
            changed := sm.changed || (!false || decide (sm.SUPP_BE_state ≠ SUPP_BE.TIMEOUT))
            SUPP_BE_state := SUPP_BE.TIMEOUT
            suppTimeout := true } rfl rfl rfl rfl rfl rfl rfl rfl rfl rfl rfl rfl
        have b : rank_timeout
            { sm with
              changed := sm.changed || (!false || decide (sm.SUPP_BE_state ≠ SUPP_BE.TIMEOUT))
              SUPP_BE_state := SUPP_BE.TIMEOUT
              suppTimeout := true } = 0 := by
          unfold rank_timeout
          dsimp only
          rw [he]
          rw [if_neg (by decide)]
        have c : rank_timeout sm = 2 + max (start_budget sm) (start_budget_reset sm) := by
          unfold rank_timeout
          rw [if_pos (Or.inr (Or.inr (Or.inr hs)))]
        rw [b, c]
        exact a
    · -- RECEIVE to SUCCESS
      intro hs he _
      rw [sm_SUPP_BE_SUCCESS_Enter_eq]
      refine key _ (rank_step_of_eq (k := 1) (m := 2) ?_ ?_ (by decide)) ?_ rfl rfl rfl rfl rfl rfl rfl rfl rfl rfl rfl rfl rfl rfl rfl rfl rfl rfl
      · unfold rank_be
        dsimp only
        rw [if_neg hna]
      · rw [hbe, hs, he, if_neg Bool.false_ne_true]
      · intro _; exact Or.inr (Or.inr (Or.inr hs))

/-! The three machines while the port is disabled or the instance is being
initialised. -/

theorem sm_SUPP_PAE_Step_reset (env : Env) (sm : eapol_sm)
    (hG : sm.initialize_ = true ∨ sm.portEnabled = false) :
    sm_SUPP_PAE_Step env sm = sm_SUPP_PAE_DISCONNECTED_Enter sm true := by
  refine sm_SUPP_PAE_Step_cases env sm
    (fun r => r = sm_SUPP_PAE_DISCONNECTED_Enter sm true) ?_ ?_ ?_ ?_ ?_
  · intro _ _ h; exact absurd hG h
  · intro _; rfl
  · intro _ _ h; exact absurd hG h
  · intro _ _ h; exact absurd hG h
  · intro _ h _; exact absurd hG h

theorem sm_KEY_RX_Step_reset (env : Env) (sm : eapol_sm)
    (hG : sm.initialize_ = true ∨ sm.portEnabled = false) :
    (sm.rxKey = true ∧ sm_KEY_RX_Step env sm =
      sm_KEY_RX_KEY_RECEIVE_Enter env (sm_KEY_RX_NO_KEY_RECEIVE_Enter sm true) false) ∨
    (sm.rxKey = false ∧ sm_KEY_RX_Step env sm = sm_KEY_RX_NO_KEY_RECEIVE_Enter sm true) := by
  refine sm_KEY_RX_Step_cases env sm
    (fun r => (sm.rxKey = true ∧ r =
        sm_KEY_RX_KEY_RECEIVE_Enter env (sm_KEY_RX_NO_KEY_RECEIVE_Enter sm true) false) ∨
      (sm.rxKey = false ∧ r = sm_KEY_RX_NO_KEY_RECEIVE_Enter sm true)) ?_ ?_ ?_ ?_
  · intro _ h; exact Or.inl ⟨h, rfl⟩
  · intro _ h; exact Or.inr ⟨h, rfl⟩
  · intro h _ _; exact absurd hG h
  · intro h _; exact absurd hG h

theorem sm_SUPP_BE_Step_reset (env : Env) (sm : eapol_sm)
    (hG : sm.initialize_ = true ∨ sm.suppAbort = true) :
    sm_SUPP_BE_Step env sm = sm_SUPP_BE_INITIALIZE_Enter env sm true := by
  unfold sm_SUPP_BE_Step
  rw [if_pos hG]

theorem eap_sm_step_run_idle (env : Env) (sm : eapol_sm)
    (h : env.eap_sm_step sm = eap_step_idle sm) : eap_sm_step_run env sm = sm := by
  unfold eap_sm_step_run
  rw [h]
  unfold eap_step_idle
  dsimp only
  rw [if_neg Bool.false_ne_true]

theorem changed_global (c : Bool) (p : Prop) [Decidable p]
    (h : (c || (!true || decide p)) = true) : c = true ∨ p := by
  cases c
  · right
    simpa using h
  · exact Or.inl rfl

theorem sm_SUPP_PAE_Step_reset_fields (env : Env) (sm : eapol_sm)
    (hG : sm.initialize_ = true ∨ sm.portEnabled = false) :
    (sm_SUPP_PAE_Step env sm).SUPP_PAE_state = SUPP_PAE.DISCONNECTED ∧
    (sm_SUPP_PAE_Step env sm).rxKey = sm.rxKey ∧
    (sm_SUPP_PAE_Step env sm).KEY_RX_state = sm.KEY_RX_state ∧
    (sm_SUPP_PAE_Step env sm).SUPP_BE_state = sm.SUPP_BE_state ∧
    (sm_SUPP_PAE_Step env sm).suppAbort = true ∧
    (sm_SUPP_PAE_Step env sm).initialize_ = sm.initialize_ ∧
    (sm_SUPP_PAE_Step env sm).portEnabled = sm.portEnabled ∧
    (sm_SUPP_PAE_Step env sm).heldPeriod = sm.heldPeriod ∧
    ((sm_SUPP_PAE_Step env sm).changed = true →
      sm.changed = true ∨ sm.SUPP_PAE_state ≠ SUPP_PAE.DISCONNECTED) := by
  rw [sm_SUPP_PAE_Step_reset env sm hG, sm_SUPP_PAE_DISCONNECTED_Enter_eq]
  exact ⟨rfl, rfl, rfl, rfl, rfl, rfl, rfl, rfl, fun h => changed_global _ _ h⟩

theorem sm_KEY_RX_Step_reset_fields (env : Env) (sm : eapol_sm)
    (hG : sm.initialize_ = true ∨ sm.portEnabled = false) :
    (sm_KEY_RX_Step env sm).SUPP_PAE_state = sm.SUPP_PAE_state ∧
    (sm_KEY_RX_Step env sm).SUPP_BE_state = sm.SUPP_BE_state ∧
    (sm_KEY_RX_Step env sm).suppAbort = sm.suppAbort ∧
    (sm_KEY_RX_Step env sm).initialize_ = sm.initialize_ ∧
    (sm_KEY_RX_Step env sm).portEnabled = sm.portEnabled ∧
    (sm_KEY_RX_Step env sm).heldPeriod = sm.heldPeriod ∧
    (sm_KEY_RX_Step env sm).rxKey = false ∧
    ((sm.rxKey = true ∧ (sm_KEY_RX_Step env sm).KEY_RX_state = KEY_RX.KEY_RECEIVE) ∨
      (sm.rxKey = false ∧ (sm_KEY_RX_Step env sm).KEY_RX_state = KEY_RX.NO_KEY_RECEIVE ∧
        ((sm_KEY_RX_Step env sm).changed = true →
          sm.changed = true ∨ sm.KEY_RX_state ≠ KEY_RX.NO_KEY_RECEIVE))) := by
  rcases sm_KEY_RX_Step_reset env sm hG with ⟨hr, e⟩ | ⟨hr, e⟩
  · rw [e, (sm_KEY_RX_KEY_RECEIVE_Enter_eq env _ false).1, sm_KEY_RX_NO_KEY_RECEIVE_Enter_eq]
    exact ⟨rfl, rfl, rfl, rfl, rfl, rfl, rfl, Or.inl ⟨hr, rfl⟩⟩
  · rw [e, sm_KEY_RX_NO_KEY_RECEIVE_Enter_eq]
    exact ⟨rfl, rfl, rfl, rfl, rfl, rfl, hr, Or.inr ⟨hr, rfl, fun h => changed_global _ _ h⟩⟩

theorem sm_SUPP_BE_Step_reset_fields (env : Env) (sm : eapol_sm)
    (hG : sm.initialize_ = true ∨ sm.suppAbort = true) :
    (sm_SUPP_BE_Step env sm).SUPP_BE_state = SUPP_BE.INITIALIZE ∧
    (sm_SUPP_BE_Step env sm).SUPP_PAE_state = sm.SUPP_PAE_state ∧
    (sm_SUPP_BE_Step env sm).rxKey = sm.rxKey ∧
    (sm_SUPP_BE_Step env sm).KEY_RX_state = sm.KEY_RX_state ∧
    (sm_SUPP_BE_Step env sm).initialize_ = sm.initialize_ ∧
    (sm_SUPP_BE_Step env sm).portEnabled = sm.portEnabled ∧
    (sm_SUPP_BE_Step env sm).heldPeriod = sm.heldPeriod ∧
    ((sm_SUPP_BE_Step env sm).changed = true →
      sm.changed = true ∨ sm.SUPP_BE_state ≠ SUPP_BE.INITIALIZE) := by
  rw [sm_SUPP_BE_Step_reset env sm hG, sm_SUPP_BE_INITIALIZE_Enter_eq]
  exact ⟨rfl, rfl, rfl, rfl, rfl, rfl, rfl, fun h => changed_global _ _ h⟩

/-- One run of the three machines and the idle engine while the port is
disabled or the instance is being initialised: the rank does not go up, and
it drops when a machine changes state. -/
theorem eapol_sm_step_machines_reset (env : Env) (sm : eapol_sm)
    (hidle : ∀ s, env.eap_sm_step s = eap_step_idle s)
    (hG : sm.initialize_ = true ∨ sm.portEnabled = false) :
    (eapol_sm_step_machines env sm).initialize_ = sm.initialize_ ∧
    (eapol_sm_step_machines env sm).portEnabled = sm.portEnabled ∧
    (eapol_sm_step_machines env sm).heldPeriod = sm.heldPeriod ∧
    rank_reset (eapol_sm_step_machines env sm) ≤ rank_reset sm ∧
    ((eapol_sm_step_machines env sm).changed = true →
      rank_reset (eapol_sm_step_machines env sm) < rank_reset sm) := by
  have hm : eapol_sm_step_machines env sm =
      sm_SUPP_BE_Step env (sm_KEY_RX_Step env
        (sm_SUPP_PAE_Step env { sm with changed := false })) := by
    unfold eapol_sm_step_machines
    dsimp only
    rw [eap_sm_step_run_idle env _ (hidle _)]
  obtain ⟨p1, p2, p3, p4, p5, p6, p7, p8, p9⟩ :=
    sm_SUPP_PAE_Step_reset_fields env { sm with changed := false } hG
  have hG1 : (sm_SUPP_PAE_Step env { sm with changed := false }).initialize_ = true ∨
      (sm_SUPP_PAE_Step env { sm with changed := false }).portEnabled = false := by
    rw [p6, p7]; exact hG
  obtain ⟨k1, k2, k3, k4, k5, k6, k7, k8⟩ :=
    sm_KEY_RX_Step_reset_fields env (sm_SUPP_PAE_Step env { sm with changed := false }) hG1
  have hG2 : (sm_KEY_RX_Step env
        (sm_SUPP_PAE_Step env { sm with changed := false })).initialize_ = true ∨
      (sm_KEY_RX_Step env (sm_SUPP_PAE_Step env { sm with changed := false })).suppAbort =
        true := by
    right; rw [k3, p5]
  obtain ⟨b1, b2, b3, b4, b5, b6, b7, b8⟩ :=
    sm_SUPP_BE_Step_reset_fields env
      (sm_KEY_RX_Step env (sm_SUPP_PAE_Step env { sm with changed := false })) hG2
  rw [hm]
  have f1 : (sm_SUPP_BE_Step env (sm_KEY_RX_Step env
      (sm_SUPP_PAE_Step env { sm with changed := false }))).SUPP_PAE_state =
      SUPP_PAE.DISCONNECTED := by rw [b2, k1, p1]
  have f2 : (sm_SUPP_BE_Step env (sm_KEY_RX_Step env
      (sm_SUPP_PAE_Step env { sm with changed := false }))).rxKey = false := by rw [b3, k7]
  have f3 : (sm.rxKey = true ∧ (sm_SUPP_BE_Step env (sm_KEY_RX_Step env
        (sm_SUPP_PAE_Step env { sm with changed := false }))).KEY_RX_state =
        KEY_RX.KEY_RECEIVE) ∨
      (sm.rxKey = false ∧ (sm_SUPP_BE_Step env (sm_KEY_RX_Step env
        (sm_SUPP_PAE_Step env { sm with changed := false }))).KEY_RX_state =
        KEY_RX.NO_KEY_RECEIVE ∧
        ((sm_SUPP_BE_Step env (sm_KEY_RX_Step env
          (sm_SUPP_PAE_Step env { sm with changed := false }))).changed = true →
          sm.SUPP_PAE_state ≠ SUPP_PAE.DISCONNECTED ∨
          sm.KEY_RX_state ≠ KEY_RX.NO_KEY_RECEIVE ∨
          sm.SUPP_BE_state ≠ SUPP_BE.INITIALIZE)) := by
    rcases k8 with ⟨kr, ks⟩ | ⟨kr, ks, kc⟩
    · left
      exact ⟨by rw [← p2]; exact kr, by rw [b4, ks]⟩
    · right
      refine ⟨by rw [← p2]; exact kr, by rw [b4, ks], ?_⟩
      intro hc
      rcases b8 hc with h | h
      · rcases kc h with h' | h'
        · rcases p9 h' with h'' | h''
          · exact absurd h'' Bool.false_ne_true
          · exact Or.inl h''
        · right; left; rw [← p3]; exact h'
      · right; right; rw [← p4, ← k2]; exact h
  refine ⟨by rw [b5, k4, p6], by rw [b6, k5, p7], by rw [b7, k6, p8], ?_⟩
  generalize sm_SUPP_BE_Step env (sm_KEY_RX_Step env
      (sm_SUPP_PAE_Step env { sm with changed := false })) = m at f1 f2 f3 b1 ⊢
  unfold rank_reset
  rw [b1, f1, f2]
  simp only [if_true, Bool.false_eq_true, if_false]
  rcases f3 with ⟨hrx, ks⟩ | ⟨hrx, ks, kc⟩
  · rw [ks, hrx]
    simp only [if_true, reduceCtorEq, if_false]
    constructor
    · omega
    · intro _; omega
  · rw [ks, hrx]
    simp only [if_true, Bool.false_eq_true, if_false]
    constructor
    · omega
    · intro hc
      rcases kc hc with h | h | h
      · rw [if_neg h]; omega
      · rw [if_neg h]; omega
      · rw [if_neg h]; omega

/-- One run of the three machines and the idle engine with the port enabled:
either nothing changes at all, or the rank drops. -/
theorem eapol_sm_step_machines_run (env : Env) (sm : eapol_sm)
    (hidle : ∀ s, env.eap_sm_step s = eap_step_idle s) (hh : sm.heldPeriod ≠ 0)
    (hG : ¬ (sm.initialize_ = true ∨ sm.portEnabled = false)) :
    (eapol_sm_step_machines env sm).initialize_ = sm.initialize_ ∧
    (eapol_sm_step_machines env sm).portEnabled = sm.portEnabled ∧
    (eapol_sm_step_machines env sm).heldPeriod = sm.heldPeriod ∧
    rank_run (eapol_sm_step_machines env sm) ≤ rank_run sm ∧
    ((eapol_sm_step_machines env sm).changed = true →
      rank_run (eapol_sm_step_machines env sm) < rank_run sm) := by
  have hm : eapol_sm_step_machines env sm =
      sm_SUPP_BE_Step env (sm_KEY_RX_Step env
        (sm_SUPP_PAE_Step env { sm with changed := false })) := by
    unfold eapol_sm_step_machines
    dsimp only
    rw [eap_sm_step_run_idle env _ (hidle _)]
  rw [hm]
  have h0 : rank_run { sm with changed := false } = rank_run sm := rfl
  -- the PAE
  have s1 : sm_SUPP_PAE_Step env { sm with changed := false } = { sm with changed := false } ∨
      (rank_run (sm_SUPP_PAE_Step env { sm with changed := false }) < rank_run sm ∧
        (sm_SUPP_PAE_Step env { sm with changed := false }).initialize_ = sm.initialize_ ∧
        (sm_SUPP_PAE_Step env { sm with changed := false }).portEnabled = sm.portEnabled ∧
        (sm_SUPP_PAE_Step env { sm with changed := false }).heldPeriod = sm.heldPeriod) := by
    rcases sm_SUPP_PAE_Step_rank env { sm with changed := false } hh hG with
      h | ⟨a, b, c, d, e, f⟩
    · exact Or.inl h
    · refine Or.inr ⟨?_, d, e, f⟩
      have hb := rank_be_le (sm_SUPP_PAE_Step env { sm with changed := false })
      rw [← h0]
      unfold rank_run
      omega
  generalize sm_SUPP_PAE_Step env { sm with changed := false } = r1 at s1 ⊢
  have hG1 : ¬ (r1.initialize_ = true ∨ r1.portEnabled = false) := by
    rcases s1 with h | ⟨_, d, e, _⟩
    · rw [h]; exact hG
    · rw [d, e]; exact hG
  -- the Key Receive machine
  have s2 : sm_KEY_RX_Step env r1 = r1 ∨
      (rank_run (sm_KEY_RX_Step env r1) < rank_run r1 ∧
        (sm_KEY_RX_Step env r1).initialize_ = r1.initialize_ ∧
        (sm_KEY_RX_Step env r1).portEnabled = r1.portEnabled ∧
        (sm_KEY_RX_Step env r1).heldPeriod = r1.heldPeriod) := by
    rcases sm_KEY_RX_Step_rank env r1 hG1 with h | ⟨a, b, c, d, e, f, g⟩
    · exact Or.inl h
    · refine Or.inr ⟨?_, e, f, g⟩
      unfold rank_run
      omega
  generalize sm_KEY_RX_Step env r1 = r2 at s2 ⊢
  have hG2 : ¬ (r2.initialize_ = true ∨ r2.portEnabled = false) := by
    rcases s2 with h | ⟨_, d, e, _⟩
    · rw [h]; exact hG1
    · rw [d, e]; exact hG1
  -- the Backend
  have s3 : sm_SUPP_BE_Step env r2 = r2 ∨
      (rank_run (sm_SUPP_BE_Step env r2) < rank_run r2 ∧
        (sm_SUPP_BE_Step env r2).initialize_ = r2.initialize_ ∧
        (sm_SUPP_BE_Step env r2).portEnabled = r2.portEnabled ∧
        (sm_SUPP_BE_Step env r2).heldPeriod = r2.heldPeriod) := by
    rcases sm_SUPP_BE_Step_rank env r2 hG2 with h | ⟨a, b, c, d, e, f⟩
    · exact Or.inl h
    · refine Or.inr ⟨?_, d, e, f⟩
      unfold rank_run
      omega
  generalize sm_SUPP_BE_Step env r2 = r3 at s3 ⊢
  -- all together
  have t2 : r2 = { sm with changed := false } ∨
      (rank_run r2 < rank_run sm ∧ r2.initialize_ = sm.initialize_ ∧
        r2.portEnabled = sm.portEnabled ∧ r2.heldPeriod = sm.heldPeriod) := by
    rcases s2 with h | ⟨a, d, e, f⟩
    · rw [h]; exact s1
    · right
      rcases s1 with h | ⟨a', d', e', f'⟩
      · rw [h] at a d e f
        exact ⟨by rw [← h0]; exact a, d, e, f⟩
      · exact ⟨Nat.lt_trans a a', d.trans d', e.trans e', f.trans f'⟩
  have t3 : r3 = { sm with changed := false } ∨
      (rank_run r3 < rank_run sm ∧ r3.initialize_ = sm.initialize_ ∧
        r3.portEnabled = sm.portEnabled ∧ r3.heldPeriod = sm.heldPeriod) := by
    rcases s3 with h | ⟨a, d, e, f⟩
    · rw [h]; exact t2
    · right
      rcases t2 with h | ⟨a', d', e', f'⟩
      · rw [h] at a d e f
        exact ⟨by rw [← h0]; exact a, d, e, f⟩
      · exact ⟨Nat.lt_trans a a', d.trans d', e.trans e', f.trans f'⟩
  rcases t3 with h | ⟨a, d, e, f⟩
  · rw [h]
    exact ⟨rfl, rfl, rfl, Nat.le_of_eq h0, fun c => absurd c Bool.false_ne_true⟩
  · exact ⟨d, e, f, Nat.le_of_lt a, fun _ => a⟩

/-- What the end of `eapol_sm_step` may change after the machines have run:
the zero-delay registration, `cb_status` and the recorded calls. -/
theorem eapol_sm_step_tail (env : Env) (sm : eapol_sm) :
    eapol_sm_step env sm =
      { eapol_sm_step_machines env sm with
        step_timeout := (eapol_sm_step env sm).step_timeout
        cb_status := (eapol_sm_step env sm).cb_status
        calls := (eapol_sm_step env sm).calls } := by
  unfold eapol_sm_step
  dsimp only
  split_ifs <;> rfl

/-- With an idle EAP engine and a non-zero `heldPeriod`, one `eapol_sm_step`
does not raise the rank, and lowers it when it ends with `changed` set. -/
theorem eapol_sm_step_settles (env : Env) (sm : eapol_sm)
    (hidle : ∀ s, env.eap_sm_step s = eap_step_idle s) (hh : sm.heldPeriod ≠ 0) :
    (eapol_sm_step env sm).heldPeriod = sm.heldPeriod ∧
    settle_rank (eapol_sm_step env sm) ≤ settle_rank sm ∧
    ((eapol_sm_step env sm).changed = true →
      settle_rank (eapol_sm_step env sm) < settle_rank sm) := by
  have ht := eapol_sm_step_tail env sm
  have e1 : (eapol_sm_step env sm).heldPeriod = (eapol_sm_step_machines env sm).heldPeriod := by
    rw [ht]
  have e2 : (eapol_sm_step env sm).changed = (eapol_sm_step_machines env sm).changed := by
    rw [ht]
  have e3 : settle_rank (eapol_sm_step env sm) = settle_rank (eapol_sm_step_machines env sm) := by
    rw [ht]; rfl
  rw [e1, e2, e3]
  by_cases hG : sm.initialize_ = true ∨ sm.portEnabled = false
  · obtain ⟨a, b, c, d, e⟩ := eapol_sm_step_machines_reset env sm hidle hG
    have hG' : (eapol_sm_step_machines env sm).initialize_ = true ∨
        (eapol_sm_step_machines env sm).portEnabled = false := by rw [a, b]; exact hG
    unfold settle_rank
    rw [if_pos hG, if_pos hG']
    exact ⟨c, d, e⟩
  · obtain ⟨a, b, c, d, e⟩ := eapol_sm_step_machines_run env sm hidle hh hG
    have hG' : ¬ ((eapol_sm_step_machines env sm).initialize_ = true ∨
        (eapol_sm_step_machines env sm).portEnabled = false) := by rw [a, b]; exact hG
    unfold settle_rank
    rw [if_neg hG, if_neg hG']
    exact ⟨c, d, e⟩

/-- Repeating `eapol_sm_step` reaches a step that ends with `changed`
cleared, within as many steps as the rank allows. -/
theorem eapol_sm_step_converges (env : Env)
    (hidle : ∀ s, env.eap_sm_step s = eap_step_idle s) :
    ∀ (n : Nat) (sm : eapol_sm), sm.heldPeriod ≠ 0 → settle_rank sm ≤ n →
      ∃ k, k ≤ n ∧ ((eapol_sm_step env)^[k + 1] sm).changed = false := by
  intro n
  induction n with
  | zero =>
    intro sm hh hn
    refine ⟨0, Nat.le_refl 0, ?_⟩
    obtain ⟨_, _, c⟩ := eapol_sm_step_settles env sm hidle hh
    cases hc : (eapol_sm_step env sm).changed
    · exact hc
    · have := c hc
      omega
  | succ n ih =>
    intro sm hh hn
    obtain ⟨a, b, c⟩ := eapol_sm_step_settles env sm hidle hh
    cases hc : (eapol_sm_step env sm).changed
    · exact ⟨0, Nat.zero_le _, hc⟩
    · have hlt := c hc
      obtain ⟨k, hk, hk'⟩ := ih (eapol_sm_step env sm) (by rw [a]; exact hh) (by omega)
      refine ⟨k + 1, by omega, ?_⟩
      rw [Function.iterate_succ_apply]
      exact hk'

/-! ## The cycle that a zero `heldPeriod` allows -/

theorem sm_SUPP_PAE_Step_livelock (env : Env) (s : eapol_sm) (h : livelock_inv s) :
    livelock_inv (sm_SUPP_PAE_Step env s) ∧ (sm_SUPP_PAE_Step env s).changed = true := by
  obtain ⟨h1, h2, h3, h4, h5, h6, h7, h8, h9, h10, h11, h12, h13, h14, h15⟩ := h
  have hG : ¬ (s.initialize_ = true ∨ s.portEnabled = false) := by
    rw [h1, h2]; decide
  rw [sm_SUPP_PAE_Step_no_global env s (Or.inl h3) h1 h2 (h5.trans h4.symm)]
  unfold sm_SUPP_PAE_Step_local
  rcases h8 with hs | hs
  · rw [hs]
    dsimp only
    by_cases c1 : s.startWhen = 0 ∧ s.startCount < s.maxStart
    · rw [if_pos c1, sm_SUPP_PAE_CONNECTING_Enter_eq]
      exact ⟨⟨h1, h2, h3, h4, h5, h6, h7, Or.inl rfl, h7, h10, h11, h12, h13, rfl, h15⟩,
        Bool.or_true _⟩
    · rw [if_neg c1]
      have hc : s.startCount ≥ s.maxStart := by
        by_contra hlt
        exact c1 ⟨h9, not_le.mp hlt⟩
      rw [if_neg (fun c => by rw [h11] at c; exact Bool.false_ne_true c.2.2),
        if_neg (fun c => by
          rw [h12, h13] at c
          rcases c with c | c <;> exact Bool.false_ne_true c),
        if_neg (by rw [h14]; exact Bool.false_ne_true),
        if_pos ⟨h9, hc, h11⟩, sm_SUPP_PAE_HELD_Enter_eq]
      exact ⟨⟨h1, h2, h3, h4, h5, h6, h7, Or.inr rfl, h9, h6, h11, h12, h13, h14, h15⟩,
        Bool.or_true _⟩
  · rw [hs]
    dsimp only
    rw [if_pos h10, sm_SUPP_PAE_CONNECTING_Enter_eq]
    exact ⟨⟨h1, h2, h3, h4, h5, h6, h7, Or.inl rfl, h7, h10, h11, h12, h13, rfl, h15⟩,
      Bool.or_true _⟩

theorem sm_KEY_RX_Step_livelock (env : Env) (s : eapol_sm) (h : livelock_inv s) :
    sm_KEY_RX_Step env s = s := by
  obtain ⟨h1, h2, _, _, _, _, _, _, _, _, _, _, _, _, h15⟩ := h
  have hG : ¬ (s.initialize_ = true ∨ s.portEnabled = false) := by
    rw [h1, h2]; decide
  refine sm_KEY_RX_Step_cases env s (fun r => r = s) ?_ ?_ ?_ ?_
  · intro c _; exact absurd c hG
  · intro c _; exact absurd c hG
  · intro _ c _; rw [h15] at c; exact absurd c Bool.false_ne_true
  · intro _ _; rfl

theorem sm_SUPP_BE_Step_livelock (env : Env) (s : eapol_sm) (h : livelock_inv s)
    (hc : s.changed = true) :
    livelock_inv (sm_SUPP_BE_Step env s) ∧ (sm_SUPP_BE_Step env s).changed = true := by
  have hch : ∀ b : Bool, (s.changed || b) = true := by
    intro b; rw [hc]; rfl
  have h' := h
  obtain ⟨h1, h2, h3, h4, h5, h6, h7, h8, h9, h10, h11, h12, h13, h14, h15⟩ := h'
  refine sm_SUPP_BE_Step_cases env s
    (fun r => livelock_inv r ∧ r.changed = true) ?_ ?_
  · intro _
    rw [sm_SUPP_BE_INITIALIZE_Enter_eq]
    exact ⟨h, hch _⟩
  · intro _ _
    refine sm_SUPP_BE_Step_local_cases s
      (fun r => livelock_inv r ∧ r.changed = true) ⟨h, hc⟩ ?_ ?_ ?_ ?_ ?_ ?_ ?_ ?_ ?_ ?_ ?_
    · intro _ _
      rw [sm_SUPP_BE_RESPONSE_Enter_eq]
      exact ⟨h, hch _⟩
    · intro _ _ _
      rw [sm_SUPP_BE_RECEIVE_Enter_eq]
      exact ⟨⟨h1, h2, h3, h4, h5, h6, h7, h8, h9, h10, h11, h12, h13, rfl, h15⟩, hch _⟩
    · intro _
      rw [sm_SUPP_BE_RECEIVE_Enter_eq]
      exact ⟨⟨h1, h2, h3, h4, h5, h6, h7, h8, h9, h10, h11, h12, h13, rfl, h15⟩, hch _⟩
    · intro _
      rw [sm_SUPP_BE_IDLE_Enter_eq]
      exact ⟨h, hch _⟩
    · intro _ _ _
      rw [sm_SUPP_BE_FAIL_Enter_eq]
      exact ⟨h, hch _⟩
    · intro _ _ _
      rw [sm_SUPP_BE_REQUEST_Enter_eq]
      exact ⟨h, hch _⟩
    · intro _ _ _
      rw [sm_SUPP_BE_SUCCESS_Enter_eq]
      exact ⟨h, hch _⟩
    · intro _ _
      rw [sm_SUPP_BE_REQUEST_Enter_eq]
      exact ⟨h, hch _⟩
    · intro _ _ _
      rw [sm_SUPP_BE_FAIL_Enter_eq]
      exact ⟨h, hch _⟩
    · intro _ _ _
      rw [sm_SUPP_BE_TIMEOUT_Enter_eq]
      exact ⟨h, hch _⟩
    · intro _ _ _
      rw [sm_SUPP_BE_SUCCESS_Enter_eq]
      exact ⟨h, hch _⟩

/-- In the cycle, one `eapol_sm_step` of a host with an idle EAP engine stays
in the cycle and ends with `changed` set. -/
theorem eapol_sm_step_livelock (env : Env) (hidle : ∀ s, env.eap_sm_step s = eap_step_idle s)
    (s : eapol_sm) (h : livelock_inv s) :
    livelock_inv (eapol_sm_step env s) ∧ (eapol_sm_step env s).changed = true := by
  have hm : livelock_inv (eapol_sm_step_machines env s) ∧
      (eapol_sm_step_machines env s).changed = true := by
    unfold eapol_sm_step_machines
    dsimp only
    rw [eap_sm_step_run_idle env _ (hidle _)]
    have hp := sm_SUPP_PAE_Step_livelock env { s with changed := false } h
    rw [sm_KEY_RX_Step_livelock env _ hp.1]
    exact sm_SUPP_BE_Step_livelock env _ hp.1 hp.2
  rw [eapol_sm_step_tail]
  exact hm

theorem livelock_start_inv : livelock_inv livelock_start := by
  unfold livelock_inv
  decide

theorem eapol_sm_step_livelock_iterate (n : Nat) :
    livelock_inv ((eapol_sm_step env_idle)^[n] livelock_start) := by
  induction n with
  | zero => exact livelock_start_inv
  | succ n ih =>
    rw [Function.iterate_succ_apply']
    exact (eapol_sm_step_livelock env_idle (fun _ => rfl) _ ih).1

/-! ## C13: convergence of repeated steps -/

/-- C13 (amended): for every supplicant state whose `heldPeriod` is not zero
(every configuration `eapol_sm_configure` accepts except `heldPeriod = 0`),
with no external input and an EAP engine that reports no change and alters
nothing, repeating `eapol_sm_step` reaches, after at most `settle_rank sm`
steps that end with `changed` set, a step that ends with `changed` cleared. -/
theorem C13_fixpoint_convergence (env : Env) (sm : eapol_sm)
    (hidle : ∀ s, env.eap_sm_step s = eap_step_idle s) (hheld : sm.heldPeriod ≠ 0) :
    ∃ k, k ≤ settle_rank sm ∧ ((eapol_sm_step env)^[k + 1] sm).changed = false :=
  eapol_sm_step_converges env hidle (settle_rank sm) sm hheld (Nat.le_refl _)

/-- C13 at a concrete state: the instance of the idle host right after its
port was enabled, with the default `heldPeriod` of 60. -/
theorem C13_fixpoint_convergence_witness :
    ∃ k, k ≤ settle_rank connecting_idle ∧
      ((eapol_sm_step env_idle)^[k + 1] connecting_idle).changed = false :=
  C13_fixpoint_convergence env_idle connecting_idle (fun _ => rfl) (by decide)

/-- C13, counterexample: the claim as written fails for a configuration that
`eapol_sm_configure` accepts. With `heldPeriod = 0` and `startPeriod = 0` set
on a fresh instance and the port enabled, every later `eapol_sm_step` ends
with `changed` set, so the zero-delay step is re-registered forever and no
step reaches the fix-point. -/
theorem C13_counterexample :
    Reachable env_idle livelock_start ∧ livelock_start.heldPeriod = 0 ∧
    ∀ n, ((eapol_sm_step env_idle)^[n + 1] livelock_start).changed = true := by
  refine ⟨⟨fresh_idle, [Event.configure 0 (-1) 0 (-1), Event.notify_portEnabled true],
    rfl, rfl⟩, by decide, ?_⟩
  intro n
  rw [Function.iterate_succ_apply']
  exact (eapol_sm_step_livelock env_idle (fun _ => rfl) _
    (eapol_sm_step_livelock_iterate n)).2

/-! ## C21: the global test of the Key Receive machine -/

set_option maxRecDepth 100000 in
/-- C21, evaluated on the code: in `SM_STEP(KEY_RX)` the global test is an
`if` without `else`, so the `switch` runs after the global entry.  For every
state with `initialize` set or `portEnabled` clear: when `rxKey` is clear the
step is the global entry of NO_KEY_RECEIVE and the key processor does not
run; when `rxKey` is set the step goes on to enter KEY_RECEIVE, runs
`eapol_sm_processKey`, clears `rxKey` and ends in KEY_RECEIVE with `changed`
set.  A fresh instance, whose port is not enabled, that receives an RC4 key
frame ends in KEY_RECEIVE, and on `key_rx_disabled` the step hands the key of
the stored frame to the driver. -/
theorem C21_key_rx_global_override :
    (∀ (env : Env) (sm : eapol_sm),
      (sm.initialize_ = true ∨ sm.portEnabled = false) → sm.rxKey = false →
      sm_KEY_RX_Step env sm =
        { sm with
          changed := sm.changed || decide (sm.KEY_RX_state ≠ KEY_RX.NO_KEY_RECEIVE)
          KEY_RX_state := KEY_RX.NO_KEY_RECEIVE }) ∧
    (∀ (env : Env) (sm : eapol_sm),
      (sm.initialize_ = true ∨ sm.portEnabled = false) → sm.rxKey = true →
      sm_KEY_RX_Step env sm =
        { eapol_sm_processKey env
            { sm with changed := true, KEY_RX_state := KEY_RX.KEY_RECEIVE } with
          rxKey := false } ∧
      (sm_KEY_RX_Step env sm).KEY_RX_state = KEY_RX.KEY_RECEIVE ∧
      (sm_KEY_RX_Step env sm).changed = true) ∧
    fresh_idle.portEnabled = false ∧
    (run env_idle fresh_idle
      [Event.rx_eapol src_mac (key_frame 5 sig_rc5) true]).KEY_RX_state = KEY_RX.KEY_RECEIVE ∧
    (sm_KEY_RX_Step env_idle key_rx_disabled).KEY_RX_state = KEY_RX.KEY_RECEIVE ∧
    (sm_KEY_RX_Step env_idle key_rx_disabled).calls =
      key_rx_disabled.calls ++ [host_call.set_wep_key 128 1 [122, 132, 142, 152, 162]] := by
  refine ⟨?_, ?_, by decide, by decide, by decide, by decide⟩
  · intro env sm hG hk
    unfold sm_KEY_RX_Step
    dsimp only
    rw [if_pos hG, sm_KEY_RX_NO_KEY_RECEIVE_Enter_eq]
    unfold sm_KEY_RX_Step_local
    dsimp only
    rw [if_neg (by rw [hk]; exact Bool.false_ne_true)]
    rfl
  · intro env sm hG hk
    have e : sm_KEY_RX_Step env sm =
        { eapol_sm_processKey env
            { sm with changed := true, KEY_RX_state := KEY_RX.KEY_RECEIVE } with
          rxKey := false } := by
      unfold sm_KEY_RX_Step
      dsimp only
      rw [if_pos hG, sm_KEY_RX_NO_KEY_RECEIVE_Enter_eq]
      unfold sm_KEY_RX_Step_local
      dsimp only
      rw [if_pos hk]
      unfold sm_KEY_RX_KEY_RECEIVE_Enter
      rw [SM_ENTRY_KEY_RX_eq]
      dsimp only
      rw [Bool.not_false, Bool.true_or, Bool.or_true]
    refine ⟨e, ?_, ?_⟩
    · rw [e, (processKey_frame env _).1]
    · rw [e, (processKey_frame env _).1]

/-! ## The steps of the three machines through the targets of their transitions -/

theorem SM_ENTER_SUPP_PAE_changed (t : SUPP_PAE) (sm : eapol_sm) (g : Bool)
    (ht : t ≠ SUPP_PAE.UNKNOWN) :
    (SM_ENTER_SUPP_PAE t sm g).changed =
      (sm.changed || (!g || decide (sm.SUPP_PAE_state ≠ t))) ∧
    (SM_ENTER_SUPP_PAE t sm g).SUPP_PAE_state = t := by
  unfold SM_ENTER_SUPP_PAE
  cases t with
  | UNKNOWN => exact absurd rfl ht
  | LOGOFF => dsimp only; rw [sm_SUPP_PAE_LOGOFF_Enter_eq]; exact ⟨rfl, rfl⟩
  | DISCONNECTED => dsimp only; rw [sm_SUPP_PAE_DISCONNECTED_Enter_eq]; exact ⟨rfl, rfl⟩
  | CONNECTING => dsimp only; rw [sm_SUPP_PAE_CONNECTING_Enter_eq]; exact ⟨rfl, rfl⟩
  | AUTHENTICATING => dsimp only; rw [sm_SUPP_PAE_AUTHENTICATING_Enter_eq]; exact ⟨rfl, rfl⟩
  | HELD => dsimp only; rw [sm_SUPP_PAE_HELD_Enter_eq]; exact ⟨rfl, rfl⟩
  | AUTHENTICATED => dsimp only; rw [sm_SUPP_PAE_AUTHENTICATED_Enter_eq]; exact ⟨rfl, rfl⟩
  | RESTART => dsimp only; rw [sm_SUPP_PAE_RESTART_Enter_eq]; exact ⟨rfl, rfl⟩
  | S_FORCE_AUTH => dsimp only; rw [sm_SUPP_PAE_S_FORCE_AUTH_Enter_eq]; exact ⟨rfl, rfl⟩
  | S_FORCE_UNAUTH => dsimp only; rw [sm_SUPP_PAE_S_FORCE_UNAUTH_Enter_eq]; exact ⟨rfl, rfl⟩

theorem SM_ENTER_SUPP_BE_changed (env : Env) (t : SUPP_BE) (sm : eapol_sm) (g : Bool)
    (ht : t ≠ SUPP_BE.UNKNOWN) :
    (SM_ENTER_SUPP_BE env t sm g).changed =
      (sm.changed || (!g || decide (sm.SUPP_BE_state ≠ t))) ∧
    (SM_ENTER_SUPP_BE env t sm g).SUPP_BE_state = t := by
  unfold SM_ENTER_SUPP_BE
  cases t with
  | UNKNOWN => exact absurd rfl ht
  | REQUEST => dsimp only; rw [sm_SUPP_BE_REQUEST_Enter_eq]; exact ⟨rfl, rfl⟩
  | RESPONSE => dsimp only; rw [sm_SUPP_BE_RESPONSE_Enter_eq]; exact ⟨rfl, rfl⟩
  | SUCCESS => dsimp only; rw [sm_SUPP_BE_SUCCESS_Enter_eq]; exact ⟨rfl, rfl⟩
  | FAIL => dsimp only; rw [sm_SUPP_BE_FAIL_Enter_eq]; exact ⟨rfl, rfl⟩
  | TIMEOUT => dsimp only; rw [sm_SUPP_BE_TIMEOUT_Enter_eq]; exact ⟨rfl, rfl⟩
  | IDLE => dsimp only; rw [sm_SUPP_BE_IDLE_Enter_eq]; exact ⟨rfl, rfl⟩
  | INITIALIZE => dsimp only; rw [sm_SUPP_BE_INITIALIZE_Enter_eq]; exact ⟨rfl, rfl⟩
  | RECEIVE => dsimp only; rw [sm_SUPP_BE_RECEIVE_Enter_eq]; exact ⟨rfl, rfl⟩

theorem SM_ENTER_KEY_RX_changed (env : Env) (t : KEY_RX) (sm : eapol_sm) (g : Bool)
    (ht : t ≠ KEY_RX.UNKNOWN) :
    (SM_ENTER_KEY_RX env t sm g).changed =
      (sm.changed || (!g || decide (sm.KEY_RX_state ≠ t))) ∧
    (SM_ENTER_KEY_RX env t sm g).KEY_RX_state = t := by
  unfold SM_ENTER_KEY_RX
  cases t with
  | UNKNOWN => exact absurd rfl ht
  | NO_KEY_RECEIVE => dsimp only; rw [sm_KEY_RX_NO_KEY_RECEIVE_Enter_eq]; exact ⟨rfl, rfl⟩
  | KEY_RECEIVE =>
    dsimp only
    rw [(sm_KEY_RX_KEY_RECEIVE_Enter_eq env sm g).1]
    exact ⟨rfl, rfl⟩

theorem SUPP_PAE_global_ne_unknown (sm : eapol_sm) (t : SUPP_PAE)
    (h : SUPP_PAE_global sm = some t) : t ≠ SUPP_PAE.UNKNOWN := by
  unfold SUPP_PAE_global at h
  split_ifs at h <;> cases h <;> decide

theorem SUPP_PAE_local_ne_unknown (env : Env) (sm : eapol_sm) (t : SUPP_PAE)
    (h : SUPP_PAE_local env sm = some t) : t ≠ SUPP_PAE.UNKNOWN := by
  unfold SUPP_PAE_local at h
  cases hs : sm.SUPP_PAE_state <;> rw [hs] at h <;> dsimp only at h <;>
    (try split_ifs at h) <;> cases h <;> decide

theorem SUPP_BE_local_ne_unknown (sm : eapol_sm) (t : SUPP_BE)
    (h : SUPP_BE_local sm = some t) : t ≠ SUPP_BE.UNKNOWN := by
  unfold SUPP_BE_local at h
  cases hs : sm.SUPP_BE_state <;> rw [hs] at h <;> dsimp only at h <;>
    (try split_ifs at h) <;> cases h <;> decide

theorem KEY_RX_local_ne_unknown (sm : eapol_sm) (t : KEY_RX)
    (h : KEY_RX_local sm = some t) : t ≠ KEY_RX.UNKNOWN := by
  unfold KEY_RX_local at h
  cases hs : sm.KEY_RX_state <;> rw [hs] at h <;> dsimp only at h <;>
    (try split_ifs at h) <;> cases h <;> decide

/-- The head of `SM_STEP(SUPP_PAE)`: the global entry of the selected state, or
the `switch`. -/
theorem sm_SUPP_PAE_Step_eq_enter (env : Env) (sm : eapol_sm) :
    sm_SUPP_PAE_Step env sm =
      match SUPP_PAE_global sm with
      | some t => SM_ENTER_SUPP_PAE t sm true
      | none => sm_SUPP_PAE_Step_local env sm := by
  unfold sm_SUPP_PAE_Step SUPP_PAE_global
  split_ifs <;> rfl

/-- The `switch` of `SM_STEP(SUPP_PAE)`: the entry of the state it selects, on
the instance the tests were made on. -/
theorem sm_SUPP_PAE_Step_local_eq_enter (env : Env) (sm : eapol_sm) :
    sm_SUPP_PAE_Step_local env sm =
      match SUPP_PAE_local env sm with
      | some t => SM_ENTER_SUPP_PAE t (SUPP_PAE_pre env sm) false
      | none => SUPP_PAE_pre env sm := by
  unfold sm_SUPP_PAE_Step_local SUPP_PAE_local SUPP_PAE_pre
  cases hs : sm.SUPP_PAE_state <;> dsimp only <;>
    simp only [reduceCtorEq, if_true, if_false] <;> first | rfl | (split_ifs <;> rfl)

theorem sm_KEY_RX_Step_local_eq_enter (env : Env) (sm : eapol_sm) :
    sm_KEY_RX_Step_local env sm =
      match KEY_RX_local sm with
      | some t => SM_ENTER_KEY_RX env t sm false
      | none => sm := by
  unfold sm_KEY_RX_Step_local KEY_RX_local
  cases hs : sm.KEY_RX_state <;> dsimp only <;> first | rfl | (split_ifs <;> rfl)

theorem sm_SUPP_BE_Step_local_eq_enter (env : Env) (sm : eapol_sm) :
    sm_SUPP_BE_Step_local sm =
      match SUPP_BE_local sm with
      | some t => SM_ENTER_SUPP_BE env t sm false
      | none => sm := by
  unfold sm_SUPP_BE_Step_local SUPP_BE_local
  cases hs : sm.SUPP_BE_state <;> dsimp only <;> first | rfl | (split_ifs <;> rfl)

/-! ## When a step of a machine sets `changed` -/

theorem SUPP_PAE_plaintext_changed (env : Env) (sm : eapol_sm) :
    (SUPP_PAE_plaintext env sm).changed = sm.changed ∧
    (SUPP_PAE_plaintext env sm).SUPP_PAE_state = sm.SUPP_PAE_state := by
  unfold SUPP_PAE_plaintext
  split_ifs <;> exact ⟨rfl, rfl⟩

theorem SUPP_PAE_pre_changed (env : Env) (sm : eapol_sm) :
    (SUPP_PAE_pre env sm).changed = sm.changed ∧
    (SUPP_PAE_pre env sm).SUPP_PAE_state = sm.SUPP_PAE_state := by
  unfold SUPP_PAE_pre
  split_ifs
  · exact SUPP_PAE_plaintext_changed env sm
  · exact ⟨rfl, rfl⟩

theorem sm_SUPP_PAE_Step_changed (env : Env) (sm : eapol_sm) :
    (sm_SUPP_PAE_Step env sm).changed = (sm.changed || !SUPP_PAE_quiet env sm) := by
  rw [sm_SUPP_PAE_Step_eq_enter]
  unfold SUPP_PAE_quiet
  cases hg : SUPP_PAE_global sm with
  | some t =>
    dsimp only
    rw [(SM_ENTER_SUPP_PAE_changed t sm true (SUPP_PAE_global_ne_unknown sm t hg)).1]
    by_cases c : sm.SUPP_PAE_state = t <;> simp [c]
  | none =>
    dsimp only
    rw [sm_SUPP_PAE_Step_local_eq_enter]
    cases hl : SUPP_PAE_local env sm with
    | some t =>
      dsimp only
      rw [(SM_ENTER_SUPP_PAE_changed t _ false (SUPP_PAE_local_ne_unknown env sm t hl)).1]
      simp
    | none =>
      dsimp only
      rw [(SUPP_PAE_pre_changed env sm).1]
      simp

theorem sm_KEY_RX_Step_local_changed (env : Env) (sm : eapol_sm) :
    (sm_KEY_RX_Step_local env sm).changed = (sm.changed || (KEY_RX_local sm).isSome) := by
  rw [sm_KEY_RX_Step_local_eq_enter]
  cases hl : KEY_RX_local sm with
  | some t =>
    dsimp only
    rw [(SM_ENTER_KEY_RX_changed env t sm false (KEY_RX_local_ne_unknown sm t hl)).1]
    simp
  | none => simp

theorem sm_KEY_RX_Step_changed (env : Env) (sm : eapol_sm) :
    (sm_KEY_RX_Step env sm).changed = (sm.changed || !KEY_RX_quiet sm) := by
  unfold sm_KEY_RX_Step KEY_RX_quiet
  dsimp only
  by_cases g : sm.initialize_ = true ∨ sm.portEnabled = false
  · rw [if_pos g, if_pos g, sm_KEY_RX_Step_local_changed]
    have e : (sm_KEY_RX_NO_KEY_RECEIVE_Enter sm true).changed =
        (sm.changed || decide (sm.KEY_RX_state ≠ KEY_RX.NO_KEY_RECEIVE)) := by
      rw [sm_KEY_RX_NO_KEY_RECEIVE_Enter_eq]
      rfl
    rw [e]
    by_cases c : sm.KEY_RX_state = KEY_RX.NO_KEY_RECEIVE <;>
      cases (KEY_RX_local (sm_KEY_RX_NO_KEY_RECEIVE_Enter sm true)) <;> simp [c]
  · rw [if_neg g, if_neg g, sm_KEY_RX_Step_local_changed]
    cases (KEY_RX_local sm) <;> simp

theorem sm_SUPP_BE_Step_changed (env : Env) (sm : eapol_sm) :
    (sm_SUPP_BE_Step env sm).changed = (sm.changed || !SUPP_BE_quiet sm) := by
  unfold sm_SUPP_BE_Step SUPP_BE_quiet
  by_cases g : sm.initialize_ = true ∨ sm.suppAbort = true
  · rw [if_pos g, if_pos g, sm_SUPP_BE_INITIALIZE_Enter_eq]
    by_cases c : sm.SUPP_BE_state = SUPP_BE.INITIALIZE <;> simp [c]
  · rw [if_neg g, if_neg g, sm_SUPP_BE_Step_local_eq_enter env]
    cases hl : SUPP_BE_local sm with
    | some t =>
      dsimp only
      rw [(SM_ENTER_SUPP_BE_changed env t sm false (SUPP_BE_local_ne_unknown sm t hl)).1]
      simp
    | none => simp

theorem eap_sm_step_run_changed (env : Env) (sm : eapol_sm) :
    (eap_sm_step_run env sm).changed = (sm.changed || (env.eap_sm_step sm).changed) := by
  unfold eap_sm_step_run
  dsimp only
  cases h : (env.eap_sm_step sm).changed
  · rw [if_neg Bool.false_ne_true, Bool.or_false]
  · rw [if_pos rfl, Bool.or_true]

/-- One `eapol_sm_step` ends with `changed` clear exactly when only
same-state global overrides fired in it and the engine reported no change. -/
theorem eapol_sm_step_changed_iff (env : Env) (sm : eapol_sm) :
    (eapol_sm_step env sm).changed = false ↔ only_same_state_overrides env sm := by
  have e : (eapol_sm_step env sm).changed = (eapol_sm_step_machines env sm).changed := by
    rw [eapol_sm_step_tail]
  rw [e]
  unfold eapol_sm_step_machines only_same_state_overrides
  dsimp only
  rw [eap_sm_step_run_changed, sm_SUPP_BE_Step_changed, sm_KEY_RX_Step_changed,
    sm_SUPP_PAE_Step_changed]
  dsimp only
  generalize SUPP_PAE_quiet env { sm with changed := false } = a
  generalize KEY_RX_quiet (sm_SUPP_PAE_Step env { sm with changed := false }) = b
  generalize SUPP_BE_quiet
    (sm_KEY_RX_Step env (sm_SUPP_PAE_Step env { sm with changed := false })) = c
  generalize (env.eap_sm_step (sm_SUPP_BE_Step env
    (sm_KEY_RX_Step env (sm_SUPP_PAE_Step env { sm with changed := false })))).changed = d
  cases a <;> cases b <;> cases c <;> cases d <;> decide

/-! ## C22: global overrides into the present state -/

/-- C22: when the global test of a machine selects a state, the step calls the
entry function of that state whatever state the machine is in, and the entry
sets `changed` exactly when the state before it differs from the target (for
the Key Receive machine the `switch` still runs after the entry).  So an
`eapol_sm_step` in which only same-state global overrides fire and the EAP
engine reports no change ends with `changed` clear. -/
theorem C22_same_state_override (env : Env) (sm : eapol_sm) :
    (∀ t, SUPP_PAE_global sm = some t →
      sm_SUPP_PAE_Step env sm = SM_ENTER_SUPP_PAE t sm true ∧
      (sm_SUPP_PAE_Step env sm).SUPP_PAE_state = t ∧
      (sm_SUPP_PAE_Step env sm).changed =
        (sm.changed || decide (sm.SUPP_PAE_state ≠ t))) ∧
    ((sm.initialize_ = true ∨ sm.portEnabled = false) →
      sm_KEY_RX_Step env sm =
        sm_KEY_RX_Step_local env (sm_KEY_RX_NO_KEY_RECEIVE_Enter sm true) ∧
      (sm_KEY_RX_NO_KEY_RECEIVE_Enter sm true).KEY_RX_state = KEY_RX.NO_KEY_RECEIVE ∧
      (sm_KEY_RX_NO_KEY_RECEIVE_Enter sm true).changed =
        (sm.changed || decide (sm.KEY_RX_state ≠ KEY_RX.NO_KEY_RECEIVE))) ∧
    ((sm.initialize_ = true ∨ sm.suppAbort = true) →
      sm_SUPP_BE_Step env sm = sm_SUPP_BE_INITIALIZE_Enter env sm true ∧
      (sm_SUPP_BE_Step env sm).SUPP_BE_state = SUPP_BE.INITIALIZE ∧
      (sm_SUPP_BE_Step env sm).changed =
        (sm.changed || decide (sm.SUPP_BE_state ≠ SUPP_BE.INITIALIZE))) ∧
    (only_same_state_overrides env sm → (eapol_sm_step env sm).changed = false) := by
  refine ⟨?_, ?_, ?_, (eapol_sm_step_changed_iff env sm).mpr⟩
  · intro t ht
    have e : sm_SUPP_PAE_Step env sm = SM_ENTER_SUPP_PAE t sm true := by
      rw [sm_SUPP_PAE_Step_eq_enter, ht]
    have hc := SM_ENTER_SUPP_PAE_changed t sm true (SUPP_PAE_global_ne_unknown sm t ht)
    rw [e]
    refine ⟨rfl, hc.2, ?_⟩
    rw [hc.1, Bool.not_true, Bool.false_or]
  · intro hG
    refine ⟨?_, ?_, ?_⟩
    · unfold sm_KEY_RX_Step
      dsimp only
      rw [if_pos hG]
    · rw [sm_KEY_RX_NO_KEY_RECEIVE_Enter_eq]
    · rw [sm_KEY_RX_NO_KEY_RECEIVE_Enter_eq]
      rfl
  · intro hG
    have e : sm_SUPP_BE_Step env sm = sm_SUPP_BE_INITIALIZE_Enter env sm true := by
      unfold sm_SUPP_BE_Step
      rw [if_pos hG]
    rw [e, sm_SUPP_BE_INITIALIZE_Enter_eq]
    exact ⟨rfl, rfl, rfl⟩

set_option maxRecDepth 100000 in
/-- C22 on the fresh instance, whose port is not enabled: the PAE is in
DISCONNECTED and its global override selects DISCONNECTED; the entry runs
again (it sets `suppAbort`, which was clear), and the step ends with `changed`
clear. -/
theorem C22_same_state_override_witness :
    fresh_idle.SUPP_PAE_state = SUPP_PAE.DISCONNECTED ∧
    fresh_idle.suppAbort = false ∧
    (sm_SUPP_PAE_Step env_idle fresh_idle).suppAbort = true ∧
    (sm_SUPP_PAE_Step env_idle fresh_idle).changed =
      (fresh_idle.changed ||
        decide (fresh_idle.SUPP_PAE_state ≠ SUPP_PAE.DISCONNECTED)) ∧
    only_same_state_overrides env_idle fresh_idle ∧
    (eapol_sm_step env_idle fresh_idle).changed = false :=
  ⟨by decide, by decide, by decide,
    ((C22_same_state_override env_idle fresh_idle).1 SUPP_PAE.DISCONNECTED (by decide)).2.2,
    by decide,
    (C22_same_state_override env_idle fresh_idle).2.2.2 (by decide)⟩

/-! ## The `switch` statements against the tables of the specification -/

theorem SUPP_PAE_local_eq_spec (env : Env) (sm : eapol_sm) :
    SUPP_PAE_local env sm =
      spec_first_match
        (spec_SUPP_PAE_table (SUPP_PAE_pre env sm) (SUPP_PAE_pre env sm).SUPP_PAE_state) := by
  rw [(SUPP_PAE_pre_changed env sm).2]
  unfold SUPP_PAE_local SUPP_PAE_pre spec_first_match
  cases hs : sm.SUPP_PAE_state with
  | UNKNOWN => rfl
  | LOGOFF =>
    simp only [reduceCtorEq, if_false, spec_SUPP_PAE_table]
    cases sm.userLogoff <;> rfl
  | DISCONNECTED => rfl
  | CONNECTING =>
    simp only [reduceCtorEq, if_false, spec_SUPP_PAE_table]
    rcases lt_or_le sm.startCount sm.maxStart with c2 | c2
    · have c3 : ¬ sm.maxStart ≤ sm.startCount := not_le.mpr c2
      by_cases c1 : sm.startWhen = 0 <;>
        cases sm.portValid <;> cases sm.eapSuccess <;> cases sm.eapFail <;>
        cases sm.eapolEap <;> simp [c1, c2, c3, List.find?]
    · have c3 : ¬ sm.startCount < sm.maxStart := not_lt.mpr c2
      by_cases c1 : sm.startWhen = 0 <;>
        cases sm.portValid <;> cases sm.eapSuccess <;> cases sm.eapFail <;>
        cases sm.eapolEap <;> simp [c1, c2, c3, List.find?]
  | AUTHENTICATING =>
    simp only [if_true, spec_SUPP_PAE_table]
    generalize SUPP_PAE_plaintext env sm = s
    cases s.eapSuccess <;> cases s.portValid <;> cases s.eapFail <;> cases s.keyDone <;>
      cases s.suppTimeout <;> rfl
  | HELD =>
    simp only [reduceCtorEq, if_false, spec_SUPP_PAE_table]
    by_cases c1 : sm.heldWhile = 0 <;> cases sm.eapolEap <;> simp [c1, List.find?]
  | AUTHENTICATED =>
    simp only [reduceCtorEq, if_false, spec_SUPP_PAE_table]
    cases sm.eapolEap <;> cases sm.portValid <;> rfl
  | RESTART =>
    simp only [reduceCtorEq, if_false, spec_SUPP_PAE_table]
    cases sm.eapRestart <;> rfl
  | S_FORCE_AUTH => rfl
  | S_FORCE_UNAUTH => rfl

theorem SUPP_BE_local_eq_spec (sm : eapol_sm) :
    SUPP_BE_local sm = spec_first_match (spec_SUPP_BE_table sm sm.SUPP_BE_state) := by
  unfold SUPP_BE_local spec_first_match
  cases hs : sm.SUPP_BE_state with
  | UNKNOWN => rfl
  | REQUEST =>
    simp only [spec_SUPP_BE_table]
    cases sm.eapResp <;> cases sm.eapNoResp <;> rfl
  | RESPONSE => rfl
  | SUCCESS => rfl
  | FAIL => rfl
  | TIMEOUT => rfl
  | IDLE =>
    simp only [spec_SUPP_BE_table]
    cases sm.eapFail <;> cases sm.suppStart <;> cases sm.eapolEap <;> cases sm.eapSuccess <;> rfl
  | INITIALIZE => rfl
  | RECEIVE =>
    simp only [spec_SUPP_BE_table]
    by_cases c1 : sm.authWhile = 0 <;> cases sm.eapolEap <;> cases sm.eapFail <;>
      cases sm.eapSuccess <;> simp [c1, List.find?]

/-! ## C23: the state-local transitions of the PAE -/

/-- C23: when no global override of the PAE applies, `SM_STEP(SUPP_PAE)` is
the step of the specification: it enters the target of the first matching row
of the ordered table and otherwise keeps its state.  In particular, in
CONNECTING with `startWhen = 0` and `startCount < maxStart` it re-enters
CONNECTING (reloading `startWhen`, incrementing `startCount`, clearing
`eapolEap`, sending EAPOL-Start) whatever `eapSuccess`, `eapFail` and
`eapolEap` are; with `startWhen = 0`, `startCount ≥ maxStart` and `portValid`
it enters AUTHENTICATED whatever they are; and in S_FORCE_AUTH and
S_FORCE_UNAUTH it does nothing. -/
theorem C23_pae_local_transitions (env : Env) (sm : eapol_sm)
    (h : SUPP_PAE_global sm = none) :
    sm_SUPP_PAE_Step env sm = spec_SUPP_PAE_local_step env sm ∧
    (spec_first_match (spec_SUPP_PAE_table (SUPP_PAE_pre env sm) sm.SUPP_PAE_state) = none →
      (sm_SUPP_PAE_Step env sm).SUPP_PAE_state = sm.SUPP_PAE_state ∧
      (sm_SUPP_PAE_Step env sm).changed = sm.changed) ∧
    (sm.SUPP_PAE_state = SUPP_PAE.CONNECTING → sm.startWhen = 0 →
      sm.startCount < sm.maxStart →
      sm_SUPP_PAE_Step env sm = sm_SUPP_PAE_CONNECTING_Enter sm false ∧
      (sm_SUPP_PAE_Step env sm).SUPP_PAE_state = SUPP_PAE.CONNECTING ∧
      (sm_SUPP_PAE_Step env sm).startWhen = sm.startPeriod ∧
      (sm_SUPP_PAE_Step env sm).startCount = sm.startCount + 1 ∧
      (sm_SUPP_PAE_Step env sm).eapolEap = false ∧
      (sm_SUPP_PAE_Step env sm).calls =
        sm.calls ++ [host_call.eapol_send IEEE802_1X_TYPE_EAPOL_START []]) ∧
    (sm.SUPP_PAE_state = SUPP_PAE.CONNECTING → sm.startWhen = 0 →
      sm.startCount ≥ sm.maxStart → sm.portValid = true →
      sm_SUPP_PAE_Step env sm = sm_SUPP_PAE_AUTHENTICATED_Enter sm false ∧
      (sm_SUPP_PAE_Step env sm).SUPP_PAE_state = SUPP_PAE.AUTHENTICATED) ∧
    ((sm.SUPP_PAE_state = SUPP_PAE.S_FORCE_AUTH ∨
        sm.SUPP_PAE_state = SUPP_PAE.S_FORCE_UNAUTH) →
      sm_SUPP_PAE_Step env sm = sm) := by
  have e : sm_SUPP_PAE_Step env sm = sm_SUPP_PAE_Step_local env sm := by
    rw [sm_SUPP_PAE_Step_eq_enter, h]
  have e2 := sm_SUPP_PAE_Step_local_eq_enter env sm
  rw [SUPP_PAE_local_eq_spec] at e2
  refine ⟨?_, ?_, ?_, ?_, ?_⟩
  · rw [e, e2]
    rfl
  · intro hn
    rw [← (SUPP_PAE_pre_changed env sm).2] at hn
    rw [e, e2, hn]
    exact ⟨(SUPP_PAE_pre_changed env sm).2, (SUPP_PAE_pre_changed env sm).1⟩
  · intro hs h1 h2
    have e3 : sm_SUPP_PAE_Step env sm = sm_SUPP_PAE_CONNECTING_Enter sm false := by
      rw [e]
      unfold sm_SUPP_PAE_Step_local
      rw [hs]
      dsimp only
      rw [if_pos ⟨h1, h2⟩]
    rw [e3]
    refine ⟨rfl, ?_⟩
    rw [sm_SUPP_PAE_CONNECTING_Enter_eq]
    exact ⟨rfl, rfl, rfl, rfl, rfl⟩
  · intro hs h1 h2 h3
    have e3 : sm_SUPP_PAE_Step env sm = sm_SUPP_PAE_AUTHENTICATED_Enter sm false := by
      rw [e]
      unfold sm_SUPP_PAE_Step_local
      rw [hs]
      dsimp only
      rw [if_neg (fun c => absurd c.2 (not_lt.mpr h2)), if_pos ⟨h1, h2, h3⟩]
    rw [e3]
    refine ⟨rfl, ?_⟩
    rw [sm_SUPP_PAE_AUTHENTICATED_Enter_eq]
  · intro hs
    rw [e]
    unfold sm_SUPP_PAE_Step_local
    rcases hs with hs | hs <;> rw [hs]

set_option maxRecDepth 100000 in
/-- C23 on `connecting_retry`, where no global override applies and
`eapSuccess`, `eapFail` and `eapolEap` are all set: the PAE re-enters
CONNECTING, with `startCount` going from 1 to 2. -/
theorem C23_pae_local_transitions_witness :
    SUPP_PAE_global connecting_retry = none ∧
    connecting_retry.eapSuccess = true ∧ connecting_retry.eapFail = true ∧
    connecting_retry.eapolEap = true ∧ connecting_retry.startCount = 1 ∧
    (sm_SUPP_PAE_Step env_idle connecting_retry).SUPP_PAE_state = SUPP_PAE.CONNECTING ∧
    (sm_SUPP_PAE_Step env_idle connecting_retry).startCount = connecting_retry.startCount + 1 ∧
    (sm_SUPP_PAE_Step env_idle connecting_retry).eapolEap = false :=
  ⟨by decide, by decide, by decide, by decide, by decide,
    ((C23_pae_local_transitions env_idle connecting_retry (by decide)).2.2.1
      (by decide) (by decide) (by decide)).2.1,
    ((C23_pae_local_transitions env_idle connecting_retry (by decide)).2.2.1
      (by decide) (by decide) (by decide)).2.2.2.1,
    ((C23_pae_local_transitions env_idle connecting_retry (by decide)).2.2.1
      (by decide) (by decide) (by decide)).2.2.2.2.1⟩

/-! ## The variable `suppStart` and the Backend state -/

theorem SM_ENTER_SUPP_PAE_suppStart (t : SUPP_PAE) (sm : eapol_sm) (g : Bool) :
    (SM_ENTER_SUPP_PAE t sm g).SUPP_BE_state = sm.SUPP_BE_state ∧
    (t ≠ SUPP_PAE.AUTHENTICATING → (SM_ENTER_SUPP_PAE t sm g).suppStart = sm.suppStart) := by
  unfold SM_ENTER_SUPP_PAE
  cases t with
  | UNKNOWN => exact ⟨rfl, fun _ => rfl⟩
  | LOGOFF => dsimp only; rw [sm_SUPP_PAE_LOGOFF_Enter_eq]; exact ⟨rfl, fun _ => rfl⟩
  | DISCONNECTED =>
    dsimp only; rw [sm_SUPP_PAE_DISCONNECTED_Enter_eq]; exact ⟨rfl, fun _ => rfl⟩
  | CONNECTING => dsimp only; rw [sm_SUPP_PAE_CONNECTING_Enter_eq]; exact ⟨rfl, fun _ => rfl⟩
  | AUTHENTICATING =>
    dsimp only; rw [sm_SUPP_PAE_AUTHENTICATING_Enter_eq]; exact ⟨rfl, fun h => absurd rfl h⟩
  | HELD => dsimp only; rw [sm_SUPP_PAE_HELD_Enter_eq]; exact ⟨rfl, fun _ => rfl⟩
  | AUTHENTICATED =>
    dsimp only; rw [sm_SUPP_PAE_AUTHENTICATED_Enter_eq]; exact ⟨rfl, fun _ => rfl⟩
  | RESTART => dsimp only; rw [sm_SUPP_PAE_RESTART_Enter_eq]; exact ⟨rfl, fun _ => rfl⟩
  | S_FORCE_AUTH =>
    dsimp only; rw [sm_SUPP_PAE_S_FORCE_AUTH_Enter_eq]; exact ⟨rfl, fun _ => rfl⟩
  | S_FORCE_UNAUTH =>
    dsimp only; rw [sm_SUPP_PAE_S_FORCE_UNAUTH_Enter_eq]; exact ⟨rfl, fun _ => rfl⟩

theorem SUPP_PAE_pre_suppStart (env : Env) (sm : eapol_sm) :
    (SUPP_PAE_pre env sm).SUPP_BE_state = sm.SUPP_BE_state ∧
    (SUPP_PAE_pre env sm).suppStart = sm.suppStart := by
  unfold SUPP_PAE_pre SUPP_PAE_plaintext
  split_ifs <;> exact ⟨rfl, rfl⟩

theorem SUPP_PAE_global_ne_authenticating (sm : eapol_sm) (t : SUPP_PAE)
    (h : SUPP_PAE_global sm = some t) : t ≠ SUPP_PAE.AUTHENTICATING := by
  unfold SUPP_PAE_global at h
  split_ifs at h <;> cases h <;> decide

/-- The PAE step leaves the Backend state alone, and leaves `suppStart` alone
unless it enters AUTHENTICATING. -/
theorem sm_SUPP_PAE_Step_suppStart (env : Env) (sm : eapol_sm) :
    (sm_SUPP_PAE_Step env sm).SUPP_BE_state = sm.SUPP_BE_state ∧
    ((sm_SUPP_PAE_Step env sm).suppStart = sm.suppStart ∨
      (SUPP_PAE_global sm = none ∧
        SUPP_PAE_local env sm = some SUPP_PAE.AUTHENTICATING)) := by
  rw [sm_SUPP_PAE_Step_eq_enter]
  cases hg : SUPP_PAE_global sm with
  | some t =>
    dsimp only
    exact ⟨(SM_ENTER_SUPP_PAE_suppStart t sm true).1,
      Or.inl ((SM_ENTER_SUPP_PAE_suppStart t sm true).2
        (SUPP_PAE_global_ne_authenticating sm t hg))⟩
  | none =>
    dsimp only
    rw [sm_SUPP_PAE_Step_local_eq_enter]
    cases hl : SUPP_PAE_local env sm with
    | none => exact ⟨(SUPP_PAE_pre_suppStart env sm).1, Or.inl (SUPP_PAE_pre_suppStart env sm).2⟩
    | some t =>
      dsimp only
      refine ⟨((SM_ENTER_SUPP_PAE_suppStart t _ false).1).trans
        (SUPP_PAE_pre_suppStart env sm).1, ?_⟩
      by_cases c : t = SUPP_PAE.AUTHENTICATING
      · rw [c]; exact Or.inr ⟨rfl, rfl⟩
      · exact Or.inl (((SM_ENTER_SUPP_PAE_suppStart t _ false).2 c).trans
          (SUPP_PAE_pre_suppStart env sm).2)

theorem sm_KEY_RX_Step_suppStart (env : Env) (sm : eapol_sm) :
    (sm_KEY_RX_Step env sm).SUPP_BE_state = sm.SUPP_BE_state ∧
    (sm_KEY_RX_Step env sm).suppStart = sm.suppStart := by
  refine sm_KEY_RX_Step_cases env sm
    (fun r => r.SUPP_BE_state = sm.SUPP_BE_state ∧ r.suppStart = sm.suppStart) ?_ ?_ ?_ ?_
  · intro _ _
    rw [(sm_KEY_RX_KEY_RECEIVE_Enter_eq env _ false).1, sm_KEY_RX_NO_KEY_RECEIVE_Enter_eq]
    exact ⟨rfl, rfl⟩
  · intro _ _
    rw [sm_KEY_RX_NO_KEY_RECEIVE_Enter_eq]
    exact ⟨rfl, rfl⟩
  · intro _ _ _
    rw [(sm_KEY_RX_KEY_RECEIVE_Enter_eq env _ false).1]
    exact ⟨rfl, rfl⟩
  · intro _ _
    exact ⟨rfl, rfl⟩

/-- In IDLE with `suppStart` clear the Backend step stays, unless the global
override takes it to INITIALIZE. -/
theorem sm_SUPP_BE_Step_idle (env : Env) (sm : eapol_sm)
    (hs : sm.SUPP_BE_state = SUPP_BE.IDLE) (hst : sm.suppStart = false) :
    (¬ (sm.initialize_ = true ∨ sm.suppAbort = true) → sm_SUPP_BE_Step env sm = sm) ∧
    ((sm.initialize_ = true ∨ sm.suppAbort = true) →
      (sm_SUPP_BE_Step env sm).SUPP_BE_state = SUPP_BE.INITIALIZE) := by
  unfold sm_SUPP_BE_Step
  constructor
  · intro g
    rw [if_neg g]
    unfold sm_SUPP_BE_Step_local
    rw [hs]
    dsimp only
    have hn : ¬ sm.suppStart = true := by rw [hst]; exact Bool.false_ne_true
    rw [if_neg (fun c => hn c.2), if_neg (fun c => hn c.2), if_neg (fun c => hn c.2)]
  · intro g
    rw [if_pos g, sm_SUPP_BE_INITIALIZE_Enter_eq]

theorem eap_sm_step_run_suppStart (env : Env) (sm : eapol_sm) :
    (eap_sm_step_run env sm).SUPP_BE_state = sm.SUPP_BE_state ∧
    (eap_sm_step_run env sm).suppStart = sm.suppStart := by
  unfold eap_sm_step_run
  dsimp only
  split_ifs <;> exact ⟨rfl, rfl⟩

theorem SUPP_PAE_global_changed (sm : eapol_sm) (b : Bool) :
    SUPP_PAE_global { sm with changed := b } = SUPP_PAE_global sm := rfl

theorem SUPP_PAE_local_changed (env : Env) (sm : eapol_sm) (b : Bool) :
    SUPP_PAE_local env { sm with changed := b } = SUPP_PAE_local env sm := by
  unfold SUPP_PAE_local
  cases hs : sm.SUPP_PAE_state with
  | AUTHENTICATING =>
    dsimp only
    unfold SUPP_PAE_plaintext
    dsimp only
    by_cases c : sm.eapSuccess = true ∧ sm.portValid = false ∧
        sm.conf.accept_802_1x_keys = true ∧ sm.conf.required_keys = 0
    · rw [if_pos c, if_pos c]
      cases env.eapol_done_cb <;> rfl
    · rw [if_neg c, if_neg c]
  | _ => rfl

/-- One `eapol_sm_step` from a Backend in IDLE with `suppStart` clear: the
Backend is still in IDLE with `suppStart` clear, or its global override took
it to INITIALIZE, or the PAE entered AUTHENTICATING in this step. -/
theorem eapol_sm_step_idle (env : Env) (sm : eapol_sm)
    (hs : sm.SUPP_BE_state = SUPP_BE.IDLE) (hst : sm.suppStart = false) :
    ((eapol_sm_step env sm).SUPP_BE_state = SUPP_BE.IDLE ∧
      (eapol_sm_step env sm).suppStart = false) ∨
    (eapol_sm_step env sm).SUPP_BE_state = SUPP_BE.INITIALIZE ∨
    (SUPP_PAE_global sm = none ∧ SUPP_PAE_local env sm = some SUPP_PAE.AUTHENTICATING) := by
  have e1 : (eapol_sm_step env sm).SUPP_BE_state =
      (eapol_sm_step_machines env sm).SUPP_BE_state := by rw [eapol_sm_step_tail]
  have e2 : (eapol_sm_step env sm).suppStart =
      (eapol_sm_step_machines env sm).suppStart := by rw [eapol_sm_step_tail]
  rw [e1, e2]
  unfold eapol_sm_step_machines
  dsimp only
  rw [(eap_sm_step_run_suppStart env _).1, (eap_sm_step_run_suppStart env _).2]
  have hp := sm_SUPP_PAE_Step_suppStart env { sm with changed := false }
  have hk := sm_KEY_RX_Step_suppStart env (sm_SUPP_PAE_Step env { sm with changed := false })
  generalize sm_SUPP_PAE_Step env { sm with changed := false } = s1 at hp hk ⊢
  generalize sm_KEY_RX_Step env s1 = s2 at hk ⊢
  rcases hp.2 with h1 | h1
  · have hs2 : s2.SUPP_BE_state = SUPP_BE.IDLE := by rw [hk.1, hp.1]; exact hs
    have hst2 : s2.suppStart = false := by rw [hk.2, h1]; exact hst
    have hb := sm_SUPP_BE_Step_idle env s2 hs2 hst2
    by_cases g : s2.initialize_ = true ∨ s2.suppAbort = true
    · exact Or.inr (Or.inl (hb.2 g))
    · rw [hb.1 g]
      exact Or.inl ⟨hs2, hst2⟩
  · rw [SUPP_PAE_global_changed, SUPP_PAE_local_changed] at h1
    exact Or.inr (Or.inr h1)

theorem eapol_sm_rx_eapol_backend_cases (env : Env) (sm : eapol_sm) (src buf : List Nat)
    (alloc : Bool) :
    ∃ s, (eapol_sm_rx_eapol env sm src buf alloc = s ∨
        eapol_sm_rx_eapol env sm src buf alloc = eapol_sm_step env s) ∧
      s.SUPP_BE_state = sm.SUPP_BE_state ∧ s.suppStart = sm.suppStart := by
  unfold eapol_sm_rx_eapol
  dsimp only
  by_cases c1 : buf.length < sizeof_hdr
  · rw [if_pos c1]; exact ⟨_, Or.inl rfl, rfl, rfl⟩
  rw [if_neg c1]
  by_cases c2 : hdr_length buf > buf.length - sizeof_hdr
  · rw [if_pos c2]; exact ⟨_, Or.inl rfl, rfl, rfl⟩
  rw [if_neg c2]
  by_cases c3 : hdr_type buf = IEEE802_1X_TYPE_EAP_PACKET
  · rw [if_pos c3]
    by_cases c4 : alloc = true
    · rw [if_pos c4]
      by_cases c5 : sm.cached_pmk = true
      · rw [if_pos c5]; exact ⟨_, Or.inr rfl, rfl, rfl⟩
      · rw [if_neg c5]; exact ⟨_, Or.inr rfl, rfl, rfl⟩
    · rw [if_neg c4]
      by_cases c5 : sm.cached_pmk = true
      · rw [if_pos c5]; exact ⟨_, Or.inl rfl, rfl, rfl⟩
      · rw [if_neg c5]; exact ⟨_, Or.inl rfl, rfl, rfl⟩
  rw [if_neg c3]
  by_cases c6 : hdr_type buf = IEEE802_1X_TYPE_EAPOL_KEY
  · rw [if_pos c6]
    by_cases c7 : hdr_length buf < sizeof_key
    · rw [if_pos c7]; exact ⟨_, Or.inl rfl, rfl, rfl⟩
    rw [if_neg c7]
    by_cases c8 : key_type buf = EAPOL_KEY_TYPE_WPA ∨ key_type buf = EAPOL_KEY_TYPE_RSN
    · rw [if_pos c8]; exact ⟨_, Or.inl rfl, rfl, rfl⟩
    rw [if_neg c8]
    by_cases c9 : key_type buf ≠ EAPOL_KEY_TYPE_RC4
    · rw [if_pos c9]; exact ⟨_, Or.inl rfl, rfl, rfl⟩
    rw [if_neg c9]
    by_cases c4 : alloc = true
    · rw [if_pos c4]; exact ⟨_, Or.inr rfl, rfl, rfl⟩
    · rw [if_neg c4]; exact ⟨_, Or.inl rfl, rfl, rfl⟩
  · rw [if_neg c6]; exact ⟨_, Or.inl rfl, rfl, rfl⟩

/-- Every input is the instance with other variables written, or one
`eapol_sm_step` of it: no entry point writes the Backend state or `suppStart`
outside the step. -/
theorem deliver_backend_cases (env : Env) (sm : eapol_sm) (ev : Event) :
    ∃ s, (deliver env sm ev = s ∨ deliver env sm ev = eapol_sm_step env s) ∧
      s.SUPP_BE_state = sm.SUPP_BE_state ∧ s.suppStart = sm.suppStart := by
  cases ev with
  | tick =>
    refine ⟨port_timers_decrement sm, Or.inr rfl, ?_, ?_⟩ <;> rw [port_timers_decrement_eq]
  | step => exact ⟨sm, Or.inr rfl, rfl, rfl⟩
  | step_timeout =>
    show ∃ s, ((if sm.step_timeout = true then eapol_sm_step_timeout env sm else sm) = s ∨
      (if sm.step_timeout = true then eapol_sm_step_timeout env sm else sm) =
        eapol_sm_step env s) ∧ _
    split_ifs
    · exact ⟨{ sm with step_timeout := false }, Or.inr rfl, rfl, rfl⟩
    · exact ⟨sm, Or.inl rfl, rfl, rfl⟩
  | rx_eapol src buf alloc => exact eapol_sm_rx_eapol_backend_cases env sm src buf alloc
  | configure a b c d =>
    refine ⟨eapol_sm_configure sm a b c d, Or.inl rfl, ?_, ?_⟩ <;>
      unfold eapol_sm_configure <;> dsimp only <;> split_ifs <;> rfl
  | notify_portEnabled b => exact ⟨_, Or.inr rfl, rfl, rfl⟩
  | notify_portValid b => exact ⟨_, Or.inr rfl, rfl, rfl⟩
  | notify_eap_success b =>
    show ∃ s, (eapol_sm_notify_eap_success env sm b = s ∨
      eapol_sm_notify_eap_success env sm b = eapol_sm_step env s) ∧ _
    unfold eapol_sm_notify_eap_success
    dsimp only
    refine ⟨_, Or.inr rfl, ?_, ?_⟩ <;> split_ifs <;> rfl
  | notify_eap_fail b => exact ⟨_, Or.inr rfl, rfl, rfl⟩
  | notify_config c =>
    cases c with
    | none => exact ⟨sm, Or.inl rfl, rfl, rfl⟩
    | some c => exact ⟨_, Or.inl rfl, rfl, rfl⟩
  | notify_logoff b => exact ⟨_, Or.inr rfl, rfl, rfl⟩
  | notify_cached => exact ⟨_, Or.inl rfl, rfl, rfl⟩
  | notify_pmkid_attempt => exact ⟨_, Or.inl rfl, rfl, rfl⟩
  | notify_portControl pc => exact ⟨_, Or.inr rfl, rfl, rfl⟩
  | notify_ctrl_attached => exact ⟨_, Or.inl rfl, rfl, rfl⟩
  | notify_ctrl_response =>
    show ∃ s, (eapol_sm_notify_ctrl_response env sm = s ∨
      eapol_sm_notify_ctrl_response env sm = eapol_sm_step env s) ∧ _
    unfold eapol_sm_notify_ctrl_response
    split_ifs
    · exact ⟨_, Or.inr rfl, rfl, rfl⟩
    · exact ⟨sm, Or.inl rfl, rfl, rfl⟩

/-! ## C24: the Backend step -/

/-- C24: `SM_STEP(SUPP_BE)` is the step of the specification: with
`initialize` or `suppAbort` it enters INITIALIZE, which clears `suppAbort`;
otherwise it enters the target of the first matching row of the table of the
state it is in, and otherwise stays.  Entering IDLE clears `suppStart`, and a
Backend in IDLE with `suppStart` clear takes no state-local transition; after
any input it is still in IDLE with `suppStart` clear, unless the global
override took it to INITIALIZE or the PAE entered AUTHENTICATING in the step
that the input ran. -/
theorem C24_backend_table (env : Env) (sm : eapol_sm) :
    sm_SUPP_BE_Step env sm = spec_SUPP_BE_step env sm ∧
    ((sm.initialize_ = true ∨ sm.suppAbort = true) →
      (sm_SUPP_BE_Step env sm).SUPP_BE_state = SUPP_BE.INITIALIZE ∧
      (sm_SUPP_BE_Step env sm).suppAbort = false) ∧
    (∀ g, (sm_SUPP_BE_IDLE_Enter sm g).SUPP_BE_state = SUPP_BE.IDLE ∧
      (sm_SUPP_BE_IDLE_Enter sm g).suppStart = false) ∧
    (sm.SUPP_BE_state = SUPP_BE.IDLE → sm.suppStart = false →
      (¬ (sm.initialize_ = true ∨ sm.suppAbort = true) → sm_SUPP_BE_Step env sm = sm) ∧
      ∀ ev : Event,
        ((deliver env sm ev).SUPP_BE_state = SUPP_BE.IDLE ∧
          (deliver env sm ev).suppStart = false) ∨
        (deliver env sm ev).SUPP_BE_state = SUPP_BE.INITIALIZE ∨
        ∃ s, deliver env sm ev = eapol_sm_step env s ∧ SUPP_PAE_global s = none ∧
          SUPP_PAE_local env s = some SUPP_PAE.AUTHENTICATING) := by
  refine ⟨?_, ?_, ?_, ?_⟩
  · unfold sm_SUPP_BE_Step spec_SUPP_BE_step
    by_cases g : sm.initialize_ = true ∨ sm.suppAbort = true
    · rw [if_pos g, if_pos g]
      rfl
    · rw [if_neg g, if_neg g, sm_SUPP_BE_Step_local_eq_enter env, SUPP_BE_local_eq_spec]
  · intro g
    unfold sm_SUPP_BE_Step
    rw [if_pos g, sm_SUPP_BE_INITIALIZE_Enter_eq]
    exact ⟨rfl, rfl⟩
  · intro g
    rw [sm_SUPP_BE_IDLE_Enter_eq]
    exact ⟨rfl, rfl⟩
  · intro hs hst
    refine ⟨(sm_SUPP_BE_Step_idle env sm hs hst).1, ?_⟩
    intro ev
    obtain ⟨s, e, h1, h2⟩ := deliver_backend_cases env sm ev
    rcases e with e | e
    · rw [e]
      exact Or.inl ⟨h1.trans hs, h2.trans hst⟩
    · rw [e]
      rcases eapol_sm_step_idle env s (h1.trans hs) (h2.trans hst) with h | h | h
      · exact Or.inl h
      · exact Or.inr (Or.inl h)
      · exact Or.inr (Or.inr ⟨s, rfl, h.1, h.2⟩)

set_option maxRecDepth 100000 in
/-- C24 on `connecting_idle`, whose Backend is in IDLE with `suppStart` clear:
the Backend step is that of the specification and changes nothing. -/
theorem C24_backend_table_witness :
    connecting_idle.SUPP_BE_state = SUPP_BE.IDLE ∧ connecting_idle.suppStart = false ∧
    sm_SUPP_BE_Step env_idle connecting_idle = spec_SUPP_BE_step env_idle connecting_idle ∧
    sm_SUPP_BE_Step env_idle connecting_idle = connecting_idle :=
  ⟨by decide, by decide, (C24_backend_table env_idle connecting_idle).1,
    ((C24_backend_table env_idle connecting_idle).2.2.2 (by decide) (by decide)).1
      (by decide)⟩

/-! ## The stored key frame along a step -/

theorem key_frame_ok_of_kept {s r : eapol_sm} (h : key_frame_ok s)
    (h1 : r.last_rx_key = s.last_rx_key ∨ r.last_rx_key = none)
    (h2 : r.last_rx_key_len = s.last_rx_key_len) : key_frame_ok r := by
  intro buf hb
  rcases h1 with h1 | h1
  · rw [h2]
    exact h buf (h1 ▸ hb)
  · rw [h1] at hb
    exact Option.noConfusion hb

theorem SM_ENTER_SUPP_PAE_key (t : SUPP_PAE) (sm : eapol_sm) (g : Bool) :
    (SM_ENTER_SUPP_PAE t sm g).last_rx_key = sm.last_rx_key ∧
    (SM_ENTER_SUPP_PAE t sm g).last_rx_key_len = sm.last_rx_key_len := by
  unfold SM_ENTER_SUPP_PAE
  cases t with
  | UNKNOWN => exact ⟨rfl, rfl⟩
  | LOGOFF => dsimp only; rw [sm_SUPP_PAE_LOGOFF_Enter_eq]; exact ⟨rfl, rfl⟩
  | DISCONNECTED => dsimp only; rw [sm_SUPP_PAE_DISCONNECTED_Enter_eq]; exact ⟨rfl, rfl⟩
  | CONNECTING => dsimp only; rw [sm_SUPP_PAE_CONNECTING_Enter_eq]; exact ⟨rfl, rfl⟩
  | AUTHENTICATING => dsimp only; rw [sm_SUPP_PAE_AUTHENTICATING_Enter_eq]; exact ⟨rfl, rfl⟩
  | HELD => dsimp only; rw [sm_SUPP_PAE_HELD_Enter_eq]; exact ⟨rfl, rfl⟩
  | AUTHENTICATED => dsimp only; rw [sm_SUPP_PAE_AUTHENTICATED_Enter_eq]; exact ⟨rfl, rfl⟩
  | RESTART => dsimp only; rw [sm_SUPP_PAE_RESTART_Enter_eq]; exact ⟨rfl, rfl⟩
  | S_FORCE_AUTH => dsimp only; rw [sm_SUPP_PAE_S_FORCE_AUTH_Enter_eq]; exact ⟨rfl, rfl⟩
  | S_FORCE_UNAUTH => dsimp only; rw [sm_SUPP_PAE_S_FORCE_UNAUTH_Enter_eq]; exact ⟨rfl, rfl⟩

theorem SUPP_PAE_pre_key (env : Env) (sm : eapol_sm) :
    (SUPP_PAE_pre env sm).last_rx_key = sm.last_rx_key ∧
    (SUPP_PAE_pre env sm).last_rx_key_len = sm.last_rx_key_len := by
  unfold SUPP_PAE_pre SUPP_PAE_plaintext
  split_ifs <;> exact ⟨rfl, rfl⟩

theorem sm_SUPP_PAE_Step_key (env : Env) (sm : eapol_sm) :
    (sm_SUPP_PAE_Step env sm).last_rx_key = sm.last_rx_key ∧
    (sm_SUPP_PAE_Step env sm).last_rx_key_len = sm.last_rx_key_len := by
  rw [sm_SUPP_PAE_Step_eq_enter]
  cases SUPP_PAE_global sm with
  | some t => exact SM_ENTER_SUPP_PAE_key t sm true
  | none =>
    dsimp only
    rw [sm_SUPP_PAE_Step_local_eq_enter]
    cases SUPP_PAE_local env sm with
    | none => exact SUPP_PAE_pre_key env sm
    | some t =>
      dsimp only
      exact ⟨(SM_ENTER_SUPP_PAE_key t _ false).1.trans (SUPP_PAE_pre_key env sm).1,
        (SM_ENTER_SUPP_PAE_key t _ false).2.trans (SUPP_PAE_pre_key env sm).2⟩

theorem SM_ENTRY_KEY_RX_key (sm : eapol_sm) (g : Bool) (st : KEY_RX) :
    (SM_ENTRY_KEY_RX sm g st).last_rx_key = sm.last_rx_key ∧
    (SM_ENTRY_KEY_RX sm g st).last_rx_key_len = sm.last_rx_key_len := by
  rw [SM_ENTRY_KEY_RX_eq]
  exact ⟨rfl, rfl⟩

/-- The key processor leaves a stored frame with a complete key body as it
is. -/
theorem processKey_key (env : Env) (sm : eapol_sm) (h : key_frame_ok sm) :
    (eapol_sm_processKey env sm).last_rx_key = sm.last_rx_key ∧
    (eapol_sm_processKey env sm).last_rx_key_len = sm.last_rx_key_len := by
  constructor
  · cases hb : sm.last_rx_key with
    | none =>
      unfold eapol_sm_processKey eapol_sm_processKey_aux
      rw [hb]
      exact hb
    | some buf =>
      obtain ⟨h1, h2, h3⟩ := h buf hb
      have hlen : 48 ≤ buf.length := by
        rw [h3, h1]
        unfold sizeof_hdr
        unfold sizeof_key at h2
        omega
      by_cases hv : (eapol_sm_processKey_aux env sm).1 = key_verdict.installed
      · obtain ⟨kd, skl, ekl, dk, _, _, _, _, he⟩ :=
          processKey_aux_installed env sm buf hb hlen hv
        rw [he, (processKey_install_frame env sm buf dk).1]
        exact hb
      · rcases processKey_aux_cases env sm buf hb hlen with ⟨_, he⟩ | ⟨hi, _⟩
        · unfold eapol_sm_processKey
          rw [he]
          exact hb
        · exact absurd hi hv
  · rw [(processKey_frame env sm).1]

/-- The Key Receive step through the instance it hands to the key
processor. -/
theorem sm_KEY_RX_Step_eq_arg (env : Env) (sm : eapol_sm) :
    sm_KEY_RX_Step env sm =
      match KEY_RX_arg sm with
      | some a => { eapol_sm_processKey env a with rxKey := false }
      | none =>
        if sm.initialize_ = true ∨ sm.portEnabled = false then
          sm_KEY_RX_NO_KEY_RECEIVE_Enter sm true
        else sm := by
  unfold sm_KEY_RX_Step KEY_RX_arg sm_KEY_RX_Step_local sm_KEY_RX_KEY_RECEIVE_Enter
  dsimp only
  generalize (if sm.initialize_ = true ∨ sm.portEnabled = false then
    sm_KEY_RX_NO_KEY_RECEIVE_Enter sm true else sm) = s
  cases hs : s.KEY_RX_state <;> dsimp only <;> first | rfl | (split_ifs <;> rfl)

theorem KEY_RX_arg_key (sm a : eapol_sm) (h : KEY_RX_arg sm = some a) :
    a.last_rx_key = sm.last_rx_key ∧ a.last_rx_key_len = sm.last_rx_key_len := by
  have hs : ∀ s : eapol_sm, s = (if sm.initialize_ = true ∨ sm.portEnabled = false then
      sm_KEY_RX_NO_KEY_RECEIVE_Enter sm true else sm) →
      s.last_rx_key = sm.last_rx_key ∧ s.last_rx_key_len = sm.last_rx_key_len := by
    intro s e
    rw [e]
    split_ifs
    · rw [sm_KEY_RX_NO_KEY_RECEIVE_Enter_eq]
      exact ⟨rfl, rfl⟩
    · exact ⟨rfl, rfl⟩
  unfold KEY_RX_arg at h
  dsimp only at h
  generalize (if sm.initialize_ = true ∨ sm.portEnabled = false then
    sm_KEY_RX_NO_KEY_RECEIVE_Enter sm true else sm) = s at h hs
  have hs' := hs s rfl
  cases hst : s.KEY_RX_state <;> rw [hst] at h <;> dsimp only at h
  · exact Option.noConfusion h
  · split_ifs at h
    injection h with h
    rw [← h]
    exact ⟨(SM_ENTRY_KEY_RX_key s false _).1.trans hs'.1,
      (SM_ENTRY_KEY_RX_key s false _).2.trans hs'.2⟩
  · split_ifs at h
    injection h with h
    rw [← h]
    exact ⟨(SM_ENTRY_KEY_RX_key s false _).1.trans hs'.1,
      (SM_ENTRY_KEY_RX_key s false _).2.trans hs'.2⟩

theorem sm_KEY_RX_Step_key (env : Env) (sm : eapol_sm) (h : key_frame_ok sm) :
    (sm_KEY_RX_Step env sm).last_rx_key = sm.last_rx_key ∧
    (sm_KEY_RX_Step env sm).last_rx_key_len = sm.last_rx_key_len := by
  rw [sm_KEY_RX_Step_eq_arg]
  cases ha : KEY_RX_arg sm with
  | some a =>
    dsimp only
    have hk := KEY_RX_arg_key sm a ha
    have hok : key_frame_ok a := key_frame_ok_of_kept h (Or.inl hk.1) hk.2
    exact ⟨(processKey_key env a hok).1.trans hk.1, (processKey_key env a hok).2.trans hk.2⟩
  | none =>
    dsimp only
    split_ifs
    · rw [sm_KEY_RX_NO_KEY_RECEIVE_Enter_eq]
      exact ⟨rfl, rfl⟩
    · exact ⟨rfl, rfl⟩

theorem SM_ENTER_SUPP_BE_key (env : Env) (t : SUPP_BE) (sm : eapol_sm) (g : Bool) :
    ((SM_ENTER_SUPP_BE env t sm g).last_rx_key = sm.last_rx_key ∨
      (SM_ENTER_SUPP_BE env t sm g).last_rx_key = none) ∧
    (SM_ENTER_SUPP_BE env t sm g).last_rx_key_len = sm.last_rx_key_len := by
  unfold SM_ENTER_SUPP_BE
  cases t with
  | UNKNOWN => exact ⟨Or.inl rfl, rfl⟩
  | REQUEST => dsimp only; rw [sm_SUPP_BE_REQUEST_Enter_eq]; exact ⟨Or.inl rfl, rfl⟩
  | RESPONSE => dsimp only; rw [sm_SUPP_BE_RESPONSE_Enter_eq]; exact ⟨Or.inl rfl, rfl⟩
  | SUCCESS => dsimp only; rw [sm_SUPP_BE_SUCCESS_Enter_eq]; exact ⟨Or.inl rfl, rfl⟩
  | FAIL => dsimp only; rw [sm_SUPP_BE_FAIL_Enter_eq]; exact ⟨Or.inl rfl, rfl⟩
  | TIMEOUT => dsimp only; rw [sm_SUPP_BE_TIMEOUT_Enter_eq]; exact ⟨Or.inl rfl, rfl⟩
  | IDLE => dsimp only; rw [sm_SUPP_BE_IDLE_Enter_eq]; exact ⟨Or.inl rfl, rfl⟩
  | INITIALIZE => dsimp only; rw [sm_SUPP_BE_INITIALIZE_Enter_eq]; exact ⟨Or.inr rfl, rfl⟩
  | RECEIVE => dsimp only; rw [sm_SUPP_BE_RECEIVE_Enter_eq]; exact ⟨Or.inl rfl, rfl⟩

theorem sm_SUPP_BE_Step_key (env : Env) (sm : eapol_sm) :
    ((sm_SUPP_BE_Step env sm).last_rx_key = sm.last_rx_key ∨
      (sm_SUPP_BE_Step env sm).last_rx_key = none) ∧
    (sm_SUPP_BE_Step env sm).last_rx_key_len = sm.last_rx_key_len := by
  unfold sm_SUPP_BE_Step
  split_ifs
  · exact SM_ENTER_SUPP_BE_key env SUPP_BE.INITIALIZE sm true
  · rw [sm_SUPP_BE_Step_local_eq_enter env]
    cases SUPP_BE_local sm with
    | none => exact ⟨Or.inl rfl, rfl⟩
    | some t => exact SM_ENTER_SUPP_BE_key env t sm false

theorem eap_sm_step_run_key (env : Env) (sm : eapol_sm) :
    (eap_sm_step_run env sm).last_rx_key = sm.last_rx_key ∧
    (eap_sm_step_run env sm).last_rx_key_len = sm.last_rx_key_len := by
  unfold eap_sm_step_run
  dsimp only
  split_ifs <;> exact ⟨rfl, rfl⟩

/-- One `eapol_sm_step` keeps the stored frame or frees it. -/
theorem eapol_sm_step_key_ok (env : Env) (sm : eapol_sm) (h : key_frame_ok sm) :
    key_frame_ok (eapol_sm_step env sm) := by
  have e1 : (eapol_sm_step env sm).last_rx_key =
      (eapol_sm_step_machines env sm).last_rx_key := by rw [eapol_sm_step_tail]
  have e2 : (eapol_sm_step env sm).last_rx_key_len =
      (eapol_sm_step_machines env sm).last_rx_key_len := by rw [eapol_sm_step_tail]
  have hp := sm_SUPP_PAE_Step_key env { sm with changed := false }
  have hok1 : key_frame_ok (sm_SUPP_PAE_Step env { sm with changed := false }) :=
    key_frame_ok_of_kept h (Or.inl hp.1) hp.2
  have hk := sm_KEY_RX_Step_key env _ hok1
  have hb := sm_SUPP_BE_Step_key env
    (sm_KEY_RX_Step env (sm_SUPP_PAE_Step env { sm with changed := false }))
  have he := eap_sm_step_run_key env (sm_SUPP_BE_Step env
    (sm_KEY_RX_Step env (sm_SUPP_PAE_Step env { sm with changed := false })))
  have hm1 : (eapol_sm_step_machines env sm).last_rx_key = sm.last_rx_key ∨
      (eapol_sm_step_machines env sm).last_rx_key = none := by
    unfold eapol_sm_step_machines
    dsimp only
    rw [he.1]
    rcases hb.1 with hb1 | hb1
    · exact Or.inl (hb1.trans (hk.1.trans hp.1))
    · exact Or.inr hb1
  have hm2 : (eapol_sm_step_machines env sm).last_rx_key_len = sm.last_rx_key_len := by
    unfold eapol_sm_step_machines
    dsimp only
    rw [he.2, hb.2, hk.2, hp.2]
  exact key_frame_ok_of_kept h (e1 ▸ hm1) (e2.trans hm2)

/-- The instance that a step hands to the key processor holds the stored
frame of the instance the step started from. -/
theorem step_key_arg_ok (env : Env) (sm a : eapol_sm) (h : key_frame_ok sm)
    (ha : step_key_arg env sm = some a) : key_frame_ok a := by
  unfold step_key_arg at ha
  have hk := KEY_RX_arg_key _ a ha
  have hp := sm_SUPP_PAE_Step_key env { sm with changed := false }
  exact key_frame_ok_of_kept h (Or.inl (hk.1.trans hp.1)) (hk.2.trans hp.2)

/-! ## The stored key frame along an execution -/

theorem hdr_length_take (buf : List Nat) (n : Nat) (h : 4 ≤ n) :
    hdr_length (buf.take n) = hdr_length buf := by
  unfold hdr_length
  rw [List.getD_eq_getElem?_getD, List.getD_eq_getElem?_getD, List.getD_eq_getElem?_getD,
    List.getD_eq_getElem?_getD, List.getElem?_take_of_lt (show 2 < n by omega),
    List.getElem?_take_of_lt (show 3 < n by omega)]

/-- What `eapol_sm_rx_eapol` does to the stored frame: it keeps it, frees it
(the `malloc` failed), or stores the first `4 + plen` bytes of a buffer whose
header declares `plen` bytes, with `4 + plen` within the buffer and `plen` at
least the fixed part of the key body; the step, if any, runs afterwards. -/
theorem eapol_sm_rx_eapol_key_cases (env : Env) (sm : eapol_sm) (src buf : List Nat)
    (alloc : Bool) :
    ∃ s, (eapol_sm_rx_eapol env sm src buf alloc = s ∨
        eapol_sm_rx_eapol env sm src buf alloc = eapol_sm_step env s) ∧
      ((s.last_rx_key = sm.last_rx_key ∧ s.last_rx_key_len = sm.last_rx_key_len) ∨
        s.last_rx_key = none ∨
        (s.last_rx_key = some (buf.take (hdr_length buf + sizeof_hdr)) ∧
          s.last_rx_key_len = hdr_length buf + sizeof_hdr ∧
          hdr_length buf + sizeof_hdr ≤ buf.length ∧ sizeof_key ≤ hdr_length buf)) := by
  unfold eapol_sm_rx_eapol
  dsimp only
  by_cases c1 : buf.length < sizeof_hdr
  · rw [if_pos c1]; exact ⟨_, Or.inl rfl, Or.inl ⟨rfl, rfl⟩⟩
  rw [if_neg c1]
  by_cases c2 : hdr_length buf > buf.length - sizeof_hdr
  · rw [if_pos c2]; exact ⟨_, Or.inl rfl, Or.inl ⟨rfl, rfl⟩⟩
  rw [if_neg c2]
  by_cases c3 : hdr_type buf = IEEE802_1X_TYPE_EAP_PACKET
  · rw [if_pos c3]
    by_cases c4 : alloc = true
    · rw [if_pos c4]
      by_cases c5 : sm.cached_pmk = true
      · rw [if_pos c5]; exact ⟨_, Or.inr rfl, Or.inl ⟨rfl, rfl⟩⟩
      · rw [if_neg c5]; exact ⟨_, Or.inr rfl, Or.inl ⟨rfl, rfl⟩⟩
    · rw [if_neg c4]
      by_cases c5 : sm.cached_pmk = true
      · rw [if_pos c5]; exact ⟨_, Or.inl rfl, Or.inl ⟨rfl, rfl⟩⟩
      · rw [if_neg c5]; exact ⟨_, Or.inl rfl, Or.inl ⟨rfl, rfl⟩⟩
  rw [if_neg c3]
  by_cases c6 : hdr_type buf = IEEE802_1X_TYPE_EAPOL_KEY
  · rw [if_pos c6]
    by_cases c7 : hdr_length buf < sizeof_key
    · rw [if_pos c7]; exact ⟨_, Or.inl rfl, Or.inl ⟨rfl, rfl⟩⟩
    rw [if_neg c7]
    by_cases c8 : key_type buf = EAPOL_KEY_TYPE_WPA ∨ key_type buf = EAPOL_KEY_TYPE_RSN
    · rw [if_pos c8]; exact ⟨_, Or.inl rfl, Or.inl ⟨rfl, rfl⟩⟩
    rw [if_neg c8]
    by_cases c9 : key_type buf ≠ EAPOL_KEY_TYPE_RC4
    · rw [if_pos c9]; exact ⟨_, Or.inl rfl, Or.inl ⟨rfl, rfl⟩⟩
    rw [if_neg c9]
    by_cases c4 : alloc = true
    · rw [if_pos c4]
      refine ⟨_, Or.inr rfl, Or.inr (Or.inr ⟨rfl, rfl, ?_, not_lt.mp c7⟩)⟩
      have h1 := not_lt.mp c1
      have h2 := not_lt.mp c2
      omega
    · rw [if_neg c4]; exact ⟨_, Or.inl rfl, Or.inr (Or.inl rfl)⟩
  · rw [if_neg c6]; exact ⟨_, Or.inl rfl, Or.inl ⟨rfl, rfl⟩⟩

theorem key_frame_ok_stored (s : eapol_sm) (buf : List Nat)
    (h1 : s.last_rx_key = some (buf.take (hdr_length buf + sizeof_hdr)))
    (h2 : s.last_rx_key_len = hdr_length buf + sizeof_hdr)
    (h3 : hdr_length buf + sizeof_hdr ≤ buf.length) (h4 : sizeof_key ≤ hdr_length buf) :
    key_frame_ok s := by
  intro b hb
  rw [h1] at hb
  injection hb with hb
  have hl : hdr_length b = hdr_length buf := by
    rw [← hb]
    exact hdr_length_take buf _ (by unfold sizeof_hdr; omega)
  rw [hl, h2]
  refine ⟨Nat.add_comm _ _, h4, ?_⟩
  rw [← hb, List.length_take]
  omega

/-- Every input is the instance with other variables written, or one
`eapol_sm_step` of it, and the stored frame of that instance is one that was
stored before or one that `eapol_sm_rx_eapol` has just stored. -/
theorem deliver_key_cases (env : Env) (sm : eapol_sm) (ev : Event) (h : key_frame_ok sm) :
    ∃ s, (deliver env sm ev = s ∨ deliver env sm ev = eapol_sm_step env s) ∧
      key_frame_ok s := by
  have keep : ∀ s : eapol_sm, s.last_rx_key = sm.last_rx_key →
      s.last_rx_key_len = sm.last_rx_key_len → key_frame_ok s :=
    fun s h1 h2 => key_frame_ok_of_kept h (Or.inl h1) h2
  cases ev with
  | tick =>
    refine ⟨port_timers_decrement sm, Or.inr rfl, keep _ ?_ ?_⟩ <;>
      rw [port_timers_decrement_eq]
  | step => exact ⟨sm, Or.inr rfl, h⟩
  | step_timeout =>
    show ∃ s, ((if sm.step_timeout = true then eapol_sm_step_timeout env sm else sm) = s ∨
      (if sm.step_timeout = true then eapol_sm_step_timeout env sm else sm) =
        eapol_sm_step env s) ∧ key_frame_ok s
    split_ifs
    · exact ⟨{ sm with step_timeout := false }, Or.inr rfl, keep _ rfl rfl⟩
    · exact ⟨sm, Or.inl rfl, h⟩
  | rx_eapol src buf alloc =>
    obtain ⟨s, e, hs⟩ := eapol_sm_rx_eapol_key_cases env sm src buf alloc
    refine ⟨s, e, ?_⟩
    rcases hs with ⟨h1, h2⟩ | h1 | ⟨h1, h2, h3, h4⟩
    · exact keep s h1 h2
    · intro b hb
      rw [h1] at hb
      exact Option.noConfusion hb
    · exact key_frame_ok_stored s buf h1 h2 h3 h4
  | configure a b c d =>
    refine ⟨eapol_sm_configure sm a b c d, Or.inl rfl, keep _ ?_ ?_⟩ <;>
      unfold eapol_sm_configure <;> dsimp only <;> split_ifs <;> rfl
  | notify_portEnabled b => exact ⟨_, Or.inr rfl, keep _ rfl rfl⟩
  | notify_portValid b => exact ⟨_, Or.inr rfl, keep _ rfl rfl⟩
  | notify_eap_success b =>
    show ∃ s, (eapol_sm_notify_eap_success env sm b = s ∨
      eapol_sm_notify_eap_success env sm b = eapol_sm_step env s) ∧ key_frame_ok s
    unfold eapol_sm_notify_eap_success
    dsimp only
    refine ⟨_, Or.inr rfl, keep _ ?_ ?_⟩ <;> split_ifs <;> rfl
  | notify_eap_fail b => exact ⟨_, Or.inr rfl, keep _ rfl rfl⟩
  | notify_config c =>
    cases c with
    | none => exact ⟨sm, Or.inl rfl, h⟩
    | some c => exact ⟨_, Or.inl rfl, keep _ rfl rfl⟩
  | notify_logoff b => exact ⟨_, Or.inr rfl, keep _ rfl rfl⟩
  | notify_cached => exact ⟨_, Or.inl rfl, keep _ rfl rfl⟩
  | notify_pmkid_attempt => exact ⟨_, Or.inl rfl, keep _ rfl rfl⟩
  | notify_portControl pc => exact ⟨_, Or.inr rfl, keep _ rfl rfl⟩
  | notify_ctrl_attached => exact ⟨_, Or.inl rfl, keep _ rfl rfl⟩
  | notify_ctrl_response =>
    show ∃ s, (eapol_sm_notify_ctrl_response env sm = s ∨
      eapol_sm_notify_ctrl_response env sm = eapol_sm_step env s) ∧ key_frame_ok s
    unfold eapol_sm_notify_ctrl_response
    split_ifs
    · exact ⟨_, Or.inr rfl, keep _ rfl rfl⟩
    · exact ⟨sm, Or.inl rfl, h⟩

theorem deliver_key_ok (env : Env) (sm : eapol_sm) (ev : Event) (h : key_frame_ok sm) :
    key_frame_ok (deliver env sm ev) := by
  obtain ⟨s, e, hs⟩ := deliver_key_cases env sm ev h
  rcases e with e | e
  · rw [e]; exact hs
  · rw [e]; exact eapol_sm_step_key_ok env s hs

theorem run_key_ok (env : Env) (evs : List Event) :
    ∀ sm : eapol_sm, key_frame_ok sm → key_frame_ok (run env sm evs) := by
  induction evs with
  | nil => intro sm h; exact h
  | cons ev evs ih =>
    intro sm h
    exact ih (deliver env sm ev) (deliver_key_ok env sm ev h)

theorem eapol_sm_init_key_ok (env : Env) (sm0 : eapol_sm)
    (h : eapol_sm_init env = some sm0) : key_frame_ok sm0 := by
  unfold eapol_sm_init at h
  cases he : env.eap_sm_init with
  | none => rw [he] at h; exact Option.noConfusion h
  | some eap =>
    rw [he] at h
    dsimp only at h
    injection h with h
    rw [← h]
    apply eapol_sm_step_key_ok
    refine key_frame_ok_of_kept (eapol_sm_step_key_ok env _ ?_) (Or.inl rfl) rfl
    intro b hb
    exact Option.noConfusion hb

/-- Every instance that executions reach holds no frame or a frame that
`eapol_sm_rx_eapol` stored. -/
theorem reachable_key_ok (env : Env) (sm : eapol_sm) (h : Reachable env sm) :
    key_frame_ok sm := by
  obtain ⟨sm0, evs, h0, hr⟩ := h
  rw [← hr]
  exact run_key_ok env evs sm0 (eapol_sm_init_key_ok env sm0 h0)

theorem processKey_keydata_too_short (env : Env) (sm : eapol_sm) (v : key_verdict)
    (h : processKey_keydata env sm = Except.error v) : v ≠ key_verdict.too_short := by
  unfold processKey_keydata at h
  dsimp only at h
  split_ifs at h
  all_goals (injection h with h; rw [← h]; intro c; exact key_verdict.noConfusion c)

/-- On a stored frame that `eapol_sm_rx_eapol` stored, the key processor does
not leave through its `Too short EAPOL-Key frame` branch. -/
theorem processKey_not_too_short (env : Env) (sm : eapol_sm) (h : key_frame_ok sm) :
    (eapol_sm_processKey_aux env sm).1 ≠ key_verdict.too_short := by
  unfold eapol_sm_processKey_aux
  cases hb : sm.last_rx_key with
  | none => exact fun c => key_verdict.noConfusion c
  | some buf =>
    obtain ⟨h1, _, _⟩ := h buf hb
    dsimp only
    by_cases c1 : sm.conf.accept_802_1x_keys = false
    · rw [if_pos c1]; exact fun c => key_verdict.noConfusion c
    rw [if_neg c1, if_neg (by rw [h1]; exact Nat.lt_irrefl _)]
    cases hk : processKey_keydata env sm with
    | error v => exact processKey_keydata_too_short env sm v hk
    | ok r =>
      obtain ⟨kd, skl, ekl⟩ := r
      dsimp only
      split_ifs
      · exact fun c => key_verdict.noConfusion c
      · exact fun c => key_verdict.noConfusion c
      · exact fun c => key_verdict.noConfusion c
      · split <;> exact fun c => key_verdict.noConfusion c

/-! ## C25: the stored key frame -/

/-- C25: in every instance that executions reach, the stored key frame, if
there is one, has `last_rx_key_len` bytes, `last_rx_key_len` is 4 plus the
length its header declares, and that length covers the fixed part of the key
body.  `eapol_sm_rx_eapol` keeps the stored frame, frees it, or stores the
first `4 + plen` bytes of a buffer that holds at least as many, with `plen` at
least the size of the key body.  Every input runs its step, if any, on an
instance with that property, and the property still holds for the instance
that the step hands to `eapol_sm_processKey`.  On such an instance the key
processor does not take its `Too short EAPOL-Key frame` branch, `key_len` is
not negative, and the `key_len` bytes after the key body end where the stored
buffer ends, so the RC4 path reads inside it. -/
theorem C25_stored_key_frame (env : Env) (sm : eapol_sm) (h : Reachable env sm) :
    key_frame_ok sm ∧
    (∀ (src rbuf : List Nat) (alloc : Bool), ∃ s,
      (eapol_sm_rx_eapol env sm src rbuf alloc = s ∨
        eapol_sm_rx_eapol env sm src rbuf alloc = eapol_sm_step env s) ∧
      ((s.last_rx_key = sm.last_rx_key ∧ s.last_rx_key_len = sm.last_rx_key_len) ∨
        s.last_rx_key = none ∨
        (s.last_rx_key = some (rbuf.take (hdr_length rbuf + sizeof_hdr)) ∧
          s.last_rx_key_len = hdr_length rbuf + sizeof_hdr ∧
          hdr_length rbuf + sizeof_hdr ≤ rbuf.length ∧ sizeof_key ≤ hdr_length rbuf))) ∧
    (∀ ev : Event, ∃ s,
      (deliver env sm ev = s ∨ deliver env sm ev = eapol_sm_step env s) ∧ key_frame_ok s) ∧
    (∀ s : eapol_sm, key_frame_ok s →
      (sm_KEY_RX_Step env (sm_SUPP_PAE_Step env { s with changed := false }) =
        match step_key_arg env s with
        | some a => { eapol_sm_processKey env a with rxKey := false }
        | none =>
          if (sm_SUPP_PAE_Step env { s with changed := false }).initialize_ = true ∨
              (sm_SUPP_PAE_Step env { s with changed := false }).portEnabled = false then
            sm_KEY_RX_NO_KEY_RECEIVE_Enter (sm_SUPP_PAE_Step env { s with changed := false }) true
          else sm_SUPP_PAE_Step env { s with changed := false }) ∧
      ∀ a, step_key_arg env s = some a → key_frame_ok a) ∧
    (∀ (a : eapol_sm) (buf : List Nat), key_frame_ok a → a.last_rx_key = some buf →
      (eapol_sm_processKey_aux env a).1 ≠ key_verdict.too_short ∧
      0 ≤ processKey_key_len buf ∧
      sizeof_hdr + sizeof_key + (processKey_key_len buf).toNat = buf.length ∧
      ((key_data buf).take (processKey_key_len buf).toNat).length =
        (processKey_key_len buf).toNat) := by
  have hok := reachable_key_ok env sm h
  refine ⟨hok, ?_, ?_, ?_, ?_⟩
  · intro src rbuf alloc
    exact eapol_sm_rx_eapol_key_cases env sm src rbuf alloc
  · intro ev
    exact deliver_key_cases env sm ev hok
  · intro s hs
    exact ⟨sm_KEY_RX_Step_eq_arg env _, fun a ha => step_key_arg_ok env s a hs ha⟩
  · intro a buf ha hb
    obtain ⟨h1, h2, h3⟩ := ha buf hb
    have hk : 0 ≤ processKey_key_len buf := by
      unfold processKey_key_len
      omega
    have hl : sizeof_hdr + sizeof_key + (processKey_key_len buf).toNat = buf.length := by
      rw [h3, h1]
      unfold processKey_key_len
      omega
    refine ⟨processKey_not_too_short env a ha, hk, hl, ?_⟩
    unfold key_data
    rw [List.length_take, List.length_drop]
    unfold sizeof_hdr sizeof_key at hl
    omega

set_option maxRecDepth 100000 in
/-- C25 on the instance after `key_rx_trace`: the buffer held 56 bytes, its
header declares 49, and the stored frame is its first 53 bytes. -/
theorem C25_stored_key_frame_witness :
    (run env_idle fresh_idle key_rx_trace).last_rx_key = some (key_frame 5 sig_rc5) ∧
    (run env_idle fresh_idle key_rx_trace).last_rx_key_len = 53 ∧
    key_frame_ok (run env_idle fresh_idle key_rx_trace) ∧
    (eapol_sm_processKey_aux env_idle (run env_idle fresh_idle key_rx_trace)).1 ≠
      key_verdict.too_short ∧
    processKey_key_len (key_frame 5 sig_rc5) = 5 :=
  ⟨by decide, by decide,
    (C25_stored_key_frame env_idle (run env_idle fresh_idle key_rx_trace)
      ⟨fresh_idle, key_rx_trace, rfl, rfl⟩).1,
    by decide, by decide⟩
end EapolSm
